import Mathlib

/-!
# Sound-card peripherals of atari800-soundbox: a shallow embedding

The development follows `src/atari800/src/*.c`.  C globals of one translation
unit become the fields of one structure; every C function becomes a Lean
function that takes the structure and returns the updated one.

Conventions
* `int` values are `Int`, `unsigned int`/`UBYTE`/`UWORD` values are `Nat`,
  wrapped with `u32` where the C code stores into an `unsigned int`;
* `double` values are exact rationals (`ℚ`); `modf` truncates toward zero;
  a division by zero, which C evaluates to an infinity, is outside the model;
* a call that dereferences a closed (NULL) chip yields `none`;
* a `while` loop takes a fuel argument and yields `none` when it runs out;
* code that lives outside the repository (the reSID, libayemu and adlib
  engines, `Util_mix`, the `atari.h`/`antic.h` constants) is a parameter;
* every call that crosses the boundary to an engine or to the mixer is
  appended to the `trace` of the card.
-/

namespace Soundbox

/-! ## C arithmetic -/

/-- Store into an `unsigned int`: reduction modulo 2^32. -/
def u32 (n : Nat) : Nat := n % 2 ^ 32

/-- Conversion of an `int` to `unsigned int`. -/
def u32OfInt (i : Int) : Nat := (i % 2 ^ 32).toNat

/-- Integral part computed by `modf`: truncation toward zero. -/
def truncQ (x : ℚ) : ℤ := if 0 ≤ x then ⌊x⌋ else ⌈x⌉

/-- C `modf(x, &int_part)`: the fractional part and the integral part. -/
def modf (x : ℚ) : ℚ × ℤ := (x - truncQ x, truncQ x)

/-- Conversion `(unsigned int)ceil(x)` of a non-negative double. -/
def ceilU32 (x : ℚ) : Nat := u32 ⌈x⌉.toNat

/-! ## Constants of `atari.h` and `antic.h` (not part of the repository) -/

/-- Video-timing constants and the current TV mode, taken as parameters. -/
structure Atari800 where
  Atari800_tv_mode : Int
  Atari800_TV_PAL : Int
  Atari800_FPS_PAL : ℚ
  Atari800_FPS_NTSC : ℚ
  ANTIC_LINE_C : Int

/-- The values of the upstream emulator for a PAL machine. -/
def Atari800.pal : Atari800 :=
  { Atari800_tv_mode := 312
    Atari800_TV_PAL := 312
    Atari800_FPS_PAL := 498607597 / 10000000
    Atari800_FPS_NTSC := 599227434 / 10000000
    ANTIC_LINE_C := 114 }

/-! ## Trace of boundary calls -/

/-- The scratch sample buffers of the cards. -/
inductive ScratchBuf
  | sidari_buffer | sidari_buffer2
  | slightsid_buffer | slightsid_buffer2
  | evie_sid_buffer | evie_psg_buffer
  | sonari_psg_buffer | sonari_psg_buffer2
  | melody_psg_buffer | melody_psg_buffer2
  | opl3_buffer
  deriving DecidableEq, Repr

/-- The six cards. -/
inductive Card
  | Evie | SIDari | SlightSID | SONari | Melody | YAMari
  deriving DecidableEq, Repr

/-- One call that leaves the card: an engine clocking call
(`X_calculate_sample(index, delta, buf + offset, nr)`), a mixer call
(`Util_mix(out, src, count, vol, bit16, pokeys, a7, a8, a9)`), the flush of
pending synthesis (`POKEYSND_UpdateX()`), or a register write to an engine. -/
inductive Event
  | RESID_calculate_sample (sid_index : Nat) (delta : Int) (buf : ScratchBuf) (offset nr : Nat)
  | AYEMU_calculate_sample (psg_index : Nat) (delta : Int) (buf : ScratchBuf) (offset nr : Nat)
  | YMF262_calculate_sample (opl3_index : Nat) (delta : Int) (buf : ScratchBuf) (offset nr : Nat)
  | Util_mix (src : ScratchBuf) (count vol : Nat) (bit16 : Int) (pokeys : Nat) (a7 a8 a9 : Nat)
  | POKEYSND_Update (card : Card)
  | RESID_write (sid_index addr byte : Nat)
  | AYEMU_write (psg_index addr byte : Nat)
  | YMF262_write (opl3_index addr byte : Nat)
  deriving DecidableEq, Repr

/-! ## The overclock-compensation loop

The six synchronized generators contain the same loop, up to the names of the
phase variable and of the engine:
```
while (count < samples_count) {
    X_ticks += X_ticks_per_tick;
    X_ticks = modf(X_ticks, &int_part);
    ticks = int_part;
    if (ticks > 0) { amount = <engine calls at offset count, nr = 1>; count += amount; }
    overclock++;
}
```
`body w ticks count` stands for the engine calls of one iteration. -/

/-- The loop above; the result is the final world, phase, count and overclock. -/
def overclockLoop {W : Type} (body : W → Int → Nat → Option (W × Nat))
    (ticks_per_tick : ℚ) (samples_count : Nat) :
    Nat → W → ℚ → Nat → Nat → Option (W × ℚ × Nat × Nat)
  | fuel, w, phase, count, overclock =>
    if count < samples_count then
      match fuel with
      | 0 => none
      | fuel + 1 =>
        let m := modf (phase + ticks_per_tick)
        let ticks := m.2
        if ticks > 0 then
          match body w ticks count with
          | none => none
          | some (w1, amount) =>
            overclockLoop body ticks_per_tick samples_count fuel w1 m.1
              (u32 (count + amount)) (u32 (overclock + 1))
        else
          overclockLoop body ticks_per_tick samples_count fuel w m.1 count (u32 (overclock + 1))
    else some (w, phase, count, overclock)

/-! ## The locals shared by the synchronized generators

Every synchronized generator starts with
```
unsigned int pokeys_count = num_pokeys == 2 ? 2 : 1;
unsigned int sample_size = (bit16 ? 2 : 1) * pokeys_count;
unsigned int max_samples_count = (buffer_end - buffer_begin) / sample_size;
unsigned int requested_samples_count = sndn / sample_size;
unsigned int samples_count = requested_samples_count > max_samples_count
                               ? max_samples_count : requested_samples_count;
```
-/

/-- Local `pokeys_count`. -/
def pokeysCount (num_pokeys : Int) : Nat := if num_pokeys = 2 then 2 else 1

/-- Local `sample_size`. -/
def sampleSize (bit16 num_pokeys : Int) : Nat :=
  (if bit16 ≠ 0 then 2 else 1) * pokeysCount num_pokeys

/-- Local `samples_count`; `buffer_size` is `buffer_end - buffer_begin`. -/
def samplesCount (bit16 num_pokeys : Int) (buffer_size sndn : Nat) : Nat :=
  let sample_size := sampleSize bit16 num_pokeys
  let max_samples_count : Nat := u32 (buffer_size / sample_size)
  let requested_samples_count : Nat := sndn / sample_size
  if requested_samples_count > max_samples_count then max_samples_count
  else requested_samples_count

/-- The values of the locals of a synchronized generator when it returns,
next to the new card state and the returned byte count. -/
structure SyncResult (W : Type) where
  st : W
  samples_count : Nat
  count : Nat
  overclock : Nat
  ret : Nat

/-! ## reSID adapter (`resid.cc`, `resid.h`) -/

/-- The snapshot `RESID_State` of `resid.h`. -/
structure RESID_State where
  sid_register : Fin 0x20 → Nat
  bus_value : Nat
  bus_value_ttl : Nat
  accumulator : Fin 3 → Nat
  shift_register : Fin 3 → Nat
  rate_counter : Fin 3 → Nat
  rate_counter_period : Fin 3 → Nat
  exponential_counter : Fin 3 → Nat
  exponential_counter_period : Fin 3 → Nat
  envelope_counter : Fin 3 → Nat
  envelope_state : Fin 3 → Nat
  hold_zero : Fin 3 → Nat

/-- The class `SID` of the external reSID library, with the members that
`resid.cc` calls.  `clock s delta nr` returns the number of samples written. -/
structure SIDClass (S : Type) where
  new : S
  set_chip_model : S → Int → S
  enable_filter : S → Bool → S
  enable_external_filter : S → Bool → S
  set_sampling_parameters : S → ℚ → Int → ℚ → S × Int
  read : S → Nat → Nat
  write : S → Nat → Nat → S
  reset : S → S
  input : S → Int → S
  clock : S → Int → Nat → S × Nat
  read_state : S → RESID_State
  write_state : S → RESID_State → S

/-- The globals of `resid.cc`: the chip table `sid[]` and the resample method. -/
structure RESID (S : Type) where
  sid : Nat → Option S
  RESID_resample_method : Int

def RESID_SID_MODEL_8580 : Int := 0
def RESID_SID_MODEL_6581 : Int := 1
def RESID_SID_FILTER_LINEAR : Int := 2
def RESID_SID_FILTER_NONE : Int := 3
def RESID_CHIP_SLIGHTSID_LEFT_INDEX : Nat := 0
def RESID_CHIP_SLIGHTSID_RIGHT_INDEX : Nat := 1
def RESID_CHIP_EVIE_INDEX : Nat := 2
def RESID_CHIP_SIDARI_LEFT_INDEX : Nat := 3
def RESID_CHIP_SIDARI_RIGHT_INDEX : Nat := 4

/-- Source: `RESID_open`. -/
def RESID_open {S : Type} (lib : SIDClass S) (r : RESID S) (sid_index : Nat) : RESID S :=
  { r with sid := Function.update r.sid sid_index (some lib.new) }

/-- Source: `RESID_close`. -/
def RESID_close {S : Type} (r : RESID S) (sid_index : Nat) : RESID S :=
  if (r.sid sid_index).isSome then
    { r with sid := Function.update r.sid sid_index none }
  else r

/-- Source: `RESID_is_opened`. -/
def RESID_is_opened {S : Type} (r : RESID S) (sid_index : Nat) : Bool :=
  (r.sid sid_index).isSome

/-- Source: `RESID_init`; the two `switch` statements select the chip model
(reSID numbers MOS6581 as 0, MOS8580 as 1) and the sampling method (reSID numbers
FAST, INTERPOLATE, RESAMPLE_INTERPOLATE, RESAMPLE_FAST as 0, 1, 2, 3). -/
def RESID_init {S : Type} (lib : SIDClass S) (r : RESID S) (sid_index : Nat)
    (cycles_per_sec : ℚ) (sid_model : Int) (sample_rate : ℚ) : Option (RESID S × Int) :=
  let model : Int :=
    if sid_model = RESID_SID_MODEL_8580 ∨ sid_model = RESID_SID_FILTER_LINEAR then 1 else 0
  let method : Int :=
    if r.RESID_resample_method = 3 then 0
    else if r.RESID_resample_method = 2 then 1
    else if r.RESID_resample_method = 1 then 3
    else 2
  match r.sid sid_index with
  | none => none
  | some s =>
    let s1 := lib.set_chip_model s model
    let s2 := lib.enable_filter s1 (decide (sid_model ≠ RESID_SID_FILTER_NONE))
    let s3 := lib.enable_external_filter s2 true
    let res := lib.set_sampling_parameters s3 cycles_per_sec method sample_rate
    some ({ r with sid := Function.update r.sid sid_index (some res.1) }, res.2)

/-- Source: `RESID_calculate_sample`. -/
def RESID_calculate_sample {S : Type} (lib : SIDClass S) (r : RESID S) (sid_index : Nat)
    (delta : Int) (nr : Nat) : Option (RESID S × Nat) :=
  match r.sid sid_index with
  | none => none
  | some s =>
    let res := lib.clock s delta nr
    some ({ r with sid := Function.update r.sid sid_index (some res.1) }, res.2)

/-- Source: `RESID_read`. -/
def RESID_read {S : Type} (lib : SIDClass S) (r : RESID S) (sid_index : Nat) (addr : Nat) :
    Option Nat :=
  (r.sid sid_index).map fun s => lib.read s addr

/-- Source: `RESID_write`. -/
def RESID_write {S : Type} (lib : SIDClass S) (r : RESID S) (sid_index : Nat)
    (addr byte : Nat) : Option (RESID S) :=
  (r.sid sid_index).map fun s =>
    { r with sid := Function.update r.sid sid_index (some (lib.write s addr byte)) }

/-- Source: `RESID_read_state`; the loops copy every array element. -/
def RESID_read_state {S : Type} (lib : SIDClass S) (r : RESID S) (sid_index : Nat) :
    Option RESID_State :=
  match r.sid sid_index with
  | none => none
  | some s =>
    let sid_state := lib.read_state s
    some
      { sid_register := fun i => sid_state.sid_register i
        bus_value := sid_state.bus_value
        bus_value_ttl := sid_state.bus_value_ttl
        accumulator := fun i => sid_state.accumulator i
        shift_register := fun i => sid_state.shift_register i
        rate_counter := fun i => sid_state.rate_counter i
        rate_counter_period := fun i => sid_state.rate_counter_period i
        exponential_counter := fun i => sid_state.exponential_counter i
        exponential_counter_period := fun i => sid_state.exponential_counter_period i
        envelope_counter := fun i => sid_state.envelope_counter i
        envelope_state := fun i => sid_state.envelope_state i
        hold_zero := fun i => sid_state.hold_zero i }

/-- Source: `RESID_write_state`. -/
def RESID_write_state {S : Type} (lib : SIDClass S) (r : RESID S) (sid_index : Nat)
    (state : RESID_State) : Option (RESID S) :=
  match r.sid sid_index with
  | none => none
  | some s =>
    let sid_state : RESID_State :=
      { sid_register := fun i => state.sid_register i
        bus_value := state.bus_value
        bus_value_ttl := state.bus_value_ttl
        accumulator := fun i => state.accumulator i
        shift_register := fun i => state.shift_register i
        rate_counter := fun i => state.rate_counter i
        rate_counter_period := fun i => state.rate_counter_period i
        exponential_counter := fun i => state.exponential_counter i
        exponential_counter_period := fun i => state.exponential_counter_period i
        envelope_counter := fun i => state.envelope_counter i
        envelope_state := fun i => state.envelope_state i
        hold_zero := fun i => state.hold_zero i }
    some { r with sid := Function.update r.sid sid_index (some (lib.write_state s sid_state)) }

/-! ## SIDari (`sidari.c`) -/

def SIDARI_NO : Int := 0
def SIDARI_MONO : Int := 1
def SIDARI_STEREO : Int := 2

/-- The globals of `sidari.c` together with the reSID tables and the trace. -/
structure SIDari (S : Type) where
  SIDARI_version : Int
  SIDARI_slot : Int
  SIDARI_clock_freq : ℚ
  sid_model : Int
  main_freq : Nat
  bit16 : Int
  num_pokeys : Int
  dsprate : Int
  ticks_per_sample : ℚ
  sid_ticks_per_sample : ℚ
  sidari_buffer : Option Nat
  sidari_buffer2 : Option Nat
  sidari_buffer_length : Nat
  sid_ticks_per_tick : ℚ
  sid_ticks : ℚ
  resid : RESID S
  trace : List Event

/-- The values of the globals at program start (`sidari.c`, lines 38-58);
globals without an initializer are zero. -/
def SIDari.start {S : Type} : SIDari S :=
  { SIDARI_version := SIDARI_NO
    SIDARI_slot := 4
    SIDARI_clock_freq := 0
    sid_model := RESID_SID_MODEL_8580
    main_freq := 0
    bit16 := 0
    num_pokeys := 0
    dsprate := 0
    ticks_per_sample := 0
    sid_ticks_per_sample := 0
    sidari_buffer := none
    sidari_buffer2 := none
    sidari_buffer_length := 0
    sid_ticks_per_tick := 0
    sid_ticks := 0
    resid := { sid := fun _ => none, RESID_resample_method := 0 }
    trace := [] }

/-- Source: `sidari_initialize`.  A scratch buffer is recorded by its capacity
in samples. -/
def sidari_initialize {S : Type} (lib : SIDClass S) (env : Atari800) (st : SIDari S)
    (freq17 : Nat) (playback_freq n_pokeys b16 : Int)
    (state state2 : Option RESID_State) : Option (SIDari S) :=
  let r0 := RESID_close (RESID_close st.resid RESID_CHIP_SIDARI_LEFT_INDEX)
    RESID_CHIP_SIDARI_RIGHT_INDEX
  let st0 := { st with resid := r0, sidari_buffer := none, sidari_buffer2 := none }
  if st0.SIDARI_version ≠ SIDARI_NO then
    let SIDARI_clock_freq : ℚ := 17734472 / 18
    let surplus_ticks : Nat := ceilU32 (SIDARI_clock_freq / playback_freq)
    let samples_per_frame : ℚ := (playback_freq : ℚ) /
      (if env.Atari800_tv_mode = env.Atari800_TV_PAL then env.Atari800_FPS_PAL
       else env.Atari800_FPS_NTSC)
    let ticks_per_frame : Nat := u32OfInt (env.Atari800_tv_mode * env.ANTIC_LINE_C)
    let max_ticks_per_frame : Nat := u32 (ticks_per_frame + surplus_ticks)
    let ticks_per_sample : ℚ := (ticks_per_frame : ℚ) / samples_per_frame
    let sid_ticks_per_sample : ℚ := SIDARI_clock_freq / (playback_freq : ℚ)
    let sidari_buffer_length : Nat := ceilU32 ((max_ticks_per_frame : ℚ) / ticks_per_sample)
    let st1 := { st0 with
      main_freq := freq17, dsprate := playback_freq, num_pokeys := n_pokeys, bit16 := b16,
      SIDARI_clock_freq := SIDARI_clock_freq, ticks_per_sample := ticks_per_sample,
      sid_ticks_per_sample := sid_ticks_per_sample,
      sidari_buffer_length := sidari_buffer_length,
      sid_ticks_per_tick := SIDARI_clock_freq / (freq17 : ℚ), sid_ticks := 0 }
    let r1 := RESID_open lib st1.resid RESID_CHIP_SIDARI_LEFT_INDEX
    (match state with
      | some s => RESID_write_state lib r1 RESID_CHIP_SIDARI_LEFT_INDEX s
      | none => some r1).bind fun r2 =>
    (RESID_init lib r2 RESID_CHIP_SIDARI_LEFT_INDEX SIDARI_clock_freq st1.sid_model
      playback_freq).bind fun r3 =>
    let st2 := { st1 with resid := r3.1, sidari_buffer := some sidari_buffer_length }
    if st2.SIDARI_version = SIDARI_STEREO then
      let r4 := RESID_open lib st2.resid RESID_CHIP_SIDARI_RIGHT_INDEX
      (match state2 with
        | some s => RESID_write_state lib r4 RESID_CHIP_SIDARI_RIGHT_INDEX s
        | none => some r4).bind fun r5 =>
      (RESID_init lib r5 RESID_CHIP_SIDARI_RIGHT_INDEX SIDARI_clock_freq st2.sid_model
        playback_freq).bind fun r6 =>
      some { st2 with resid := r6.1, sidari_buffer2 := some sidari_buffer_length }
    else some st2
  else some st0

/-- Source: `SIDARI_Init`. -/
def SIDARI_Init {S : Type} (lib : SIDClass S) (env : Atari800) (st : SIDari S)
    (freq17 : Nat) (playback_freq n_pokeys b16 : Int) : Option (SIDari S) :=
  let restore_state := RESID_is_opened st.resid RESID_CHIP_SIDARI_LEFT_INDEX
  let restore_state2 := RESID_is_opened st.resid RESID_CHIP_SIDARI_RIGHT_INDEX
  let state := if restore_state then RESID_read_state lib st.resid RESID_CHIP_SIDARI_LEFT_INDEX
    else none
  let state2 := if restore_state2 then
    RESID_read_state lib st.resid RESID_CHIP_SIDARI_RIGHT_INDEX else none
  sidari_initialize lib env st freq17 playback_freq n_pokeys b16 state state2

/-- Source: `SIDARI_InSlot`; the C result 1/0 is rendered as a `Bool`. -/
def SIDARI_InSlot {S : Type} (st : SIDari S) (addr : Nat) : Bool :=
  let base_address : Int := 0xd500 + 0x20 * st.SIDARI_slot
  decide (st.SIDARI_version ≠ SIDARI_NO)
    && decide ((addr : Int) ≥ base_address)
    && decide ((addr : Int) ≤ base_address + (if st.SIDARI_version = SIDARI_MONO then 0x1f else 0x3f))

/-- Source: `SIDARI_D5GetByte`. -/
def SIDARI_D5GetByte {S : Type} (st : SIDari S) (addr : Nat) (_no_side_effects : Int) : Int :=
  let base_address : Int := 0xd500 + 0x20 * st.SIDARI_slot
  if st.SIDARI_version = SIDARI_MONO then
    if (addr : Int) ≥ base_address ∧ (addr : Int) ≤ base_address + 0x1f then 0x33 else 0xff
  else if st.SIDARI_version = SIDARI_STEREO then
    if (addr : Int) ≥ base_address ∧ (addr : Int) ≤ base_address + 0x3f then 0x33 else 0xff
  else 0xff

/-- Source: `Util_mix` call sites of `sidari.c`; the mixer itself is external. -/
def SIDari.mix {S : Type} (st : SIDari S) (src : ScratchBuf) (count : Nat) (pokeys : Nat)
    (a7 a8 a9 : Nat) : SIDari S :=
  { st with trace := st.trace ++ [Event.Util_mix src count 128 st.bit16 pokeys a7 a8 a9] }

/-- The engine calls of `SIDARI_GenerateSync` for one request:
`RESID_calculate_sample` on the left chip, whose result is kept, and in stereo
on the right chip, whose result is dropped. -/
def SIDari.calc {S : Type} (lib : SIDClass S) (st : SIDari S) (ticks : Int)
    (offset nr : Nat) : Option (SIDari S × Nat) :=
  (RESID_calculate_sample lib st.resid RESID_CHIP_SIDARI_LEFT_INDEX ticks nr).bind fun r1 =>
  let st1 := { st with resid := r1.1, trace := st.trace ++
    [Event.RESID_calculate_sample RESID_CHIP_SIDARI_LEFT_INDEX ticks .sidari_buffer offset nr] }
  if st1.SIDARI_version = SIDARI_STEREO then
    (RESID_calculate_sample lib st1.resid RESID_CHIP_SIDARI_RIGHT_INDEX ticks nr).bind fun r2 =>
    some ({ st1 with resid := r2.1, trace := st1.trace ++
      [Event.RESID_calculate_sample RESID_CHIP_SIDARI_RIGHT_INDEX ticks .sidari_buffer2 offset nr] },
      r1.2)
  else some (st1, r1.2)

/-- The `Util_mix` calls at the end of `SIDARI_GenerateSync`. -/
def SIDari.mixAll {S : Type} (st : SIDari S) (count pokeys_count : Nat) : SIDari S :=
  let st3 := st.mix .sidari_buffer count pokeys_count 0 1 0
  if pokeys_count = 2 then
    if st3.SIDARI_version = SIDARI_STEREO then
      st3.mix .sidari_buffer2 count pokeys_count 1 1 0
    else st3.mix .sidari_buffer count pokeys_count 1 1 0
  else
    if st3.SIDARI_version = SIDARI_STEREO then
      st3.mix .sidari_buffer2 count pokeys_count 0 1 0
    else st3

/-- Source: `SIDARI_GenerateSync` (the `COUNT_CYCLES` variant, which is the one
compiled); `buffer_size` is `buffer_end - buffer_begin`.  The result carries
the final locals next to the returned byte count.  `ticks` holds the integral
part `int_part`, which is the value of the C variable `int ticks` whenever an
`int` holds it (`intOfDouble`, `SIDari.firstTicks`). -/
def SIDARI_GenerateSync_locals {S : Type} (lib : SIDClass S) (fuel : Nat) (st : SIDari S)
    (buffer_size num_ticks sndn : Nat) : Option (SyncResult (SIDari S)) :=
  if st.SIDARI_version ≠ SIDARI_NO then
    let pokeys_count := pokeysCount st.num_pokeys
    let sample_size := sampleSize st.bit16 st.num_pokeys
    let samples_count := samplesCount st.bit16 st.num_pokeys buffer_size sndn
    let m := modf (st.sid_ticks + (num_ticks : ℚ) * st.sid_ticks_per_tick)
    let ticks : Int := m.2
    (if ticks > 0 then SIDari.calc lib st ticks 0 samples_count else some (st, 0)).bind fun c1 =>
    (overclockLoop (fun w t c => SIDari.calc lib w t c 1) st.sid_ticks_per_tick samples_count
      fuel c1.1 m.1 c1.2 0).bind fun l =>
    let st2 := { l.1 with sid_ticks := l.2.1 - (l.2.2.2 : ℚ) * l.1.sid_ticks_per_tick }
    let count := l.2.2.1
    if count > 0 then
      some ⟨st2.mixAll count pokeys_count, samples_count, count, l.2.2.2,
        u32 (count * sample_size)⟩
    else some ⟨st2, samples_count, count, l.2.2.2, 0⟩
  else some ⟨st, 0, 0, 0, 0⟩

/-- Source: `SIDARI_GenerateSync`: the new card state and the returned value. -/
def SIDARI_GenerateSync {S : Type} (lib : SIDClass S) (fuel : Nat) (st : SIDari S)
    (buffer_size num_ticks sndn : Nat) : Option (SIDari S × Nat) :=
  (SIDARI_GenerateSync_locals lib fuel st buffer_size num_ticks sndn).map fun r => (r.st, r.ret)

/-! ## YMF262 adapter (`ymf262.c`, `ymf262.h`) -/

/-- The snapshot `YMF262_State` of `ymf262.h`. -/
structure YMF262_State where
  regs : Fin 0x200 → Nat

/-- The globals of the external adlib emulator (`opl.h`): the register array
`adlibreg`, the index latch `opl_index` and the rest of the engine. -/
structure Opl (A : Type) where
  adlibreg : Fin 0x200 → Nat
  opl_index : Nat
  core : A

/-- The functions of the external adlib emulator that `ymf262.c` calls. -/
structure AdlibLib (A : Type) where
  adlib_init : Opl A → ℚ → Opl A
  adlib_reg_read : Opl A → Nat → ℚ → Opl A × Nat
  adlib_write : Opl A → Nat → Nat → ℚ → Opl A
  adlib_write_index : Opl A → Nat → Nat → Opl A
  adlib_getsample : Opl A → Nat → Opl A

/-- The globals of `ymf262.c` together with the adlib globals. -/
structure YMF262 (A : Type) where
  opl3 : Bool
  last_sample_rate : ℚ
  opl : Opl A

def YMF262_CHIP_YAMARI_INDEX : Nat := 0

/-- Source: `YMF262_open`. -/
def YMF262_open {A : Type} (y : YMF262 A) (_opl3_index : Nat) : YMF262 A :=
  { y with opl3 := true }

/-- Source: `YMF262_close`. -/
def YMF262_close {A : Type} (y : YMF262 A) (_opl3_index : Nat) : YMF262 A :=
  if y.opl3 then { y with opl3 := false } else y

/-- Source: `YMF262_is_opened`. -/
def YMF262_is_opened {A : Type} (y : YMF262 A) (_opl3_index : Nat) : Bool := y.opl3

/-- Source: `YMF262_init`. -/
def YMF262_init {A : Type} (lib : AdlibLib A) (y : YMF262 A) (_opl3_index : Nat)
    (_cycles_per_sec sample_rate : ℚ) : YMF262 A :=
  { y with opl := lib.adlib_init y.opl sample_rate, last_sample_rate := sample_rate }

/-- Source: `YMF262_calculate_sample`: the engine is asked for `nr` samples and
`nr` is returned. -/
def YMF262_calculate_sample {A : Type} (lib : AdlibLib A) (y : YMF262 A) (_opl3_index : Nat)
    (_delta : Int) (nr : Nat) : YMF262 A × Nat :=
  ({ y with opl := lib.adlib_getsample y.opl nr }, nr)

/-- Source: `YMF262_read_state`. -/
def YMF262_read_state {A : Type} (y : YMF262 A) (_opl3_index : Nat) : YMF262_State :=
  { regs := fun i => y.opl.adlibreg i }

/-- Source: `YMF262_write_state`. -/
def YMF262_write_state {A : Type} (y : YMF262 A) (_opl3_index : Nat) (state : YMF262_State) :
    YMF262 A :=
  { y with opl := { y.opl with adlibreg := fun i => state.regs i } }

/-! ## YAMari (`yamari.c`) -/

/-- The globals of `yamari.c` together with the FM adapter and the trace. -/
structure YAMari (A : Type) where
  YAMARI_enable : Int
  YAMARI_slot : Int
  main_freq : Nat
  bit16 : Int
  num_pokeys : Int
  dsprate : Int
  ticks_per_sample : ℚ
  opl3_clock_freq : ℚ
  opl3_ticks_per_sample : ℚ
  opl3_buffer : Option Nat
  opl3_buffer_length : Nat
  opl3_ticks_per_tick : ℚ
  opl3_ticks : ℚ
  ymf : YMF262 A
  trace : List Event

/-- The values of the globals at program start (`yamari.c`, lines 40-57). -/
def YAMari.start {A : Type} (opl : Opl A) : YAMari A :=
  { YAMARI_enable := 0
    YAMARI_slot := 0
    main_freq := 0
    bit16 := 0
    num_pokeys := 0
    dsprate := 0
    ticks_per_sample := 0
    opl3_clock_freq := 0
    opl3_ticks_per_sample := 0
    opl3_buffer := none
    opl3_buffer_length := 0
    opl3_ticks_per_tick := 0
    opl3_ticks := 0
    ymf := { opl3 := false, last_sample_rate := 0, opl := opl }
    trace := [] }

/-- Source: `yamari_initialize`. -/
def yamari_initialize {A : Type} (lib : AdlibLib A) (env : Atari800) (st : YAMari A)
    (freq17 : Nat) (playback_freq n_pokeys b16 : Int) (opl3_state : Option YMF262_State) :
    YAMari A :=
  let st0 := { st with ymf := YMF262_close st.ymf YMF262_CHIP_YAMARI_INDEX, opl3_buffer := none }
  if st0.YAMARI_enable ≠ 0 then
    let samples_per_frame : ℚ := (playback_freq : ℚ) /
      (if env.Atari800_tv_mode = env.Atari800_TV_PAL then env.Atari800_FPS_PAL
       else env.Atari800_FPS_NTSC)
    let ticks_per_frame : Nat := u32OfInt (env.Atari800_tv_mode * env.ANTIC_LINE_C)
    let ticks_per_sample : ℚ := (ticks_per_frame : ℚ) / samples_per_frame
    let opl3_clock_freq : ℚ := 14318180
    let opl3_surplus_ticks : Nat := ceilU32 (opl3_clock_freq / playback_freq)
    let opl3_max_ticks_per_frame : Nat := u32 (ticks_per_frame + opl3_surplus_ticks)
    let opl3_ticks_per_sample : ℚ := opl3_clock_freq / (playback_freq : ℚ)
    let opl3_buffer_length : Nat :=
      ceilU32 ((opl3_max_ticks_per_frame : ℚ) / ticks_per_sample)
    let st1 := { st0 with
      main_freq := freq17, dsprate := playback_freq, num_pokeys := n_pokeys, bit16 := b16,
      ticks_per_sample := ticks_per_sample, opl3_clock_freq := opl3_clock_freq,
      opl3_ticks_per_sample := opl3_ticks_per_sample,
      opl3_buffer_length := opl3_buffer_length,
      opl3_ticks_per_tick := opl3_clock_freq / (freq17 : ℚ), opl3_ticks := 0 }
    let y1 := YMF262_open st1.ymf YMF262_CHIP_YAMARI_INDEX
    let y2 := match opl3_state with
      | some s => YMF262_write_state y1 YMF262_CHIP_YAMARI_INDEX s
      | none => y1
    let y3 := YMF262_init lib y2 YMF262_CHIP_YAMARI_INDEX opl3_clock_freq playback_freq
    { st1 with ymf := y3,
               opl3_buffer := some (opl3_buffer_length * (if n_pokeys = 2 then 2 else 1)) }
  else st0

/-- Source: `Util_mix` call sites of `yamari.c`. -/
def YAMari.mix {A : Type} (st : YAMari A) (src : ScratchBuf) (count : Nat) (pokeys : Nat)
    (a7 a8 a9 : Nat) : YAMari A :=
  { st with trace := st.trace ++ [Event.Util_mix src count 128 st.bit16 pokeys a7 a8 a9] }

/-- The engine call of `opl3_generate_sync` for one request. -/
def YAMari.calc {A : Type} (lib : AdlibLib A) (st : YAMari A) (ticks : Int)
    (offset nr : Nat) : Option (YAMari A × Nat) :=
  let r := YMF262_calculate_sample lib st.ymf YMF262_CHIP_YAMARI_INDEX ticks nr
  some ({ st with ymf := r.1, trace := st.trace ++
    [Event.YMF262_calculate_sample YMF262_CHIP_YAMARI_INDEX ticks .opl3_buffer offset nr] }, r.2)

/-- The `Util_mix` calls at the end of `opl3_generate_sync`. -/
def YAMari.mixAll {A : Type} (st : YAMari A) (count pokeys_count : Nat) : YAMari A :=
  if pokeys_count = 2 then
    (st.mix .opl3_buffer count pokeys_count 0 2 0).mix .opl3_buffer count pokeys_count 1 2 1
  else st.mix .opl3_buffer count pokeys_count 0 1 0

/-- Source: `opl3_generate_sync`, with the final locals. -/
def opl3_generate_sync {A : Type} (lib : AdlibLib A) (fuel : Nat) (st : YAMari A)
    (buffer_size num_ticks sndn : Nat) : Option (SyncResult (YAMari A)) :=
  if st.YAMARI_enable ≠ 0 then
    let pokeys_count := pokeysCount st.num_pokeys
    let sample_size := sampleSize st.bit16 st.num_pokeys
    let samples_count := samplesCount st.bit16 st.num_pokeys buffer_size sndn
    let m := modf (st.opl3_ticks + (num_ticks : ℚ) * st.opl3_ticks_per_tick)
    let ticks : Int := m.2
    (if ticks > 0 then YAMari.calc lib st ticks 0 samples_count else some (st, 0)).bind fun c1 =>
    (overclockLoop (fun w t c => YAMari.calc lib w t c 1) st.opl3_ticks_per_tick samples_count
      fuel c1.1 m.1 c1.2 0).bind fun l =>
    let st2 := { l.1 with opl3_ticks := l.2.1 - (l.2.2.2 : ℚ) * l.1.opl3_ticks_per_tick }
    let count := l.2.2.1
    if count > 0 then
      some ⟨st2.mixAll count pokeys_count, samples_count, count, l.2.2.2,
        u32 (count * sample_size)⟩
    else some ⟨st2, samples_count, count, l.2.2.2, 0⟩
  else some ⟨st, 0, 0, 0, 0⟩

/-- Source: `YAMARI_GenerateSync`: the result of `opl3_generate_sync` is
dropped and `sndn` is returned. -/
def YAMARI_GenerateSync {A : Type} (lib : AdlibLib A) (fuel : Nat) (st : YAMari A)
    (buffer_size num_ticks sndn : Nat) : Option (YAMari A × Nat) :=
  (opl3_generate_sync lib fuel st buffer_size num_ticks sndn).map fun r => (r.st, sndn)

/-! ## Sequences of synchronized-generation calls -/

/-- The arguments of one call of a synchronized generator, with the fuel
granted to its loop. -/
structure SyncCall where
  fuel : Nat
  buffer_size : Nat
  num_ticks : Nat
  sndn : Nat

/-- A sequence of `SIDARI_GenerateSync` calls. -/
def SIDari.run {S : Type} (lib : SIDClass S) : SIDari S → List SyncCall → Option (SIDari S)
  | st, [] => some st
  | st, c :: cs =>
    (SIDARI_GenerateSync lib c.fuel st c.buffer_size c.num_ticks c.sndn).bind fun r =>
      SIDari.run lib r.1 cs

/-- A sequence of `YAMARI_GenerateSync` calls. -/
def YAMari.run {A : Type} (lib : AdlibLib A) : YAMari A → List SyncCall → Option (YAMari A)
  | st, [] => some st
  | st, c :: cs =>
    (YAMARI_GenerateSync lib c.fuel st c.buffer_size c.num_ticks c.sndn).bind fun r =>
      YAMari.run lib r.1 cs

/-! ## Concrete engines used to instantiate the theorems -/

/-- A SID engine that writes every sample it is asked for; its state counts
the samples written. -/
def eagerSID : SIDClass Nat :=
  { new := 0
    set_chip_model := fun s _ => s
    enable_filter := fun s _ => s
    enable_external_filter := fun s _ => s
    set_sampling_parameters := fun s _ _ _ => (s, 1)
    read := fun _ _ => 0
    write := fun s _ _ => s
    reset := fun s => s
    input := fun s _ => s
    clock := fun s _ nr => (s + nr, nr)
    read_state := fun _ =>
      { sid_register := fun _ => 0, bus_value := 0, bus_value_ttl := 0,
        accumulator := fun _ => 0, shift_register := fun _ => 0, rate_counter := fun _ => 0,
        rate_counter_period := fun _ => 0, exponential_counter := fun _ => 0,
        exponential_counter_period := fun _ => 0, envelope_counter := fun _ => 0,
        envelope_state := fun _ => 0, hold_zero := fun _ => 0 }
    write_state := fun s _ => s }

/-- An adlib engine whose state counts the samples written. -/
def countingAdlib : AdlibLib Nat :=
  { adlib_init := fun o _ => { o with adlibreg := fun _ => 0 }
    adlib_reg_read := fun o _ _ => (o, 0)
    adlib_write := fun o _ _ _ => o
    adlib_write_index := fun o a _ => { o with opl_index := a }
    adlib_getsample := fun o nr => { o with core := o.core + nr } }

/-- SIDari after `sidari_initialize` on a PAL machine (main clock 1773447 Hz,
44100 Hz playback, one output channel, 8-bit samples). -/
def sidariPal (version : Int) : Option (SIDari Nat) :=
  sidari_initialize eagerSID Atari800.pal
    { (SIDari.start : SIDari Nat) with SIDARI_version := version } 1773447 44100 1 0 none none

/-- YAMari after `yamari_initialize` on the same machine. -/
def yamariPal (enable : Int) : YAMari Nat :=
  yamari_initialize countingAdlib Atari800.pal
    { (YAMari.start ⟨fun _ => 0, 0, 0⟩ : YAMari Nat) with YAMARI_enable := enable }
    1773447 44100 1 0 none

/-! ## Reading the trace -/

/-- The sample count of a mixer call; `none` for an engine call. -/
def Event.mixCount : Event → Option Nat
  | .Util_mix _ count _ _ _ _ _ _ => some count
  | _ => none

/-! ## libayemu adapter (`psgemu.c`, `psgemu.h`) -/

/-- The engine record `ayemu_ay_t` of the external libayemu (`ayemu.h`); the
members of its sub-records `regs` and `sndfmt` carry the prefix of the
sub-record. -/
structure ayemu_ay_t where
  table : Fin 32 → Int
  type : Int
  ChipFreq : Int
  eq : Fin 6 → Int
  regs_tone_a : Int
  regs_tone_b : Int
  regs_tone_c : Int
  regs_noise : Int
  regs_R7_tone_a : Int
  regs_R7_tone_b : Int
  regs_R7_tone_c : Int
  regs_R7_noise_a : Int
  regs_R7_noise_b : Int
  regs_R7_noise_c : Int
  regs_vol_a : Int
  regs_vol_b : Int
  regs_vol_c : Int
  regs_env_a : Int
  regs_env_b : Int
  regs_env_c : Int
  regs_env_freq : Int
  regs_env_style : Int
  sndfmt_freq : Int
  sndfmt_channels : Int
  sndfmt_bpc : Int
  magic : Int
  default_chip_flag : Int
  default_stereo_flag : Int
  default_sound_format_flag : Int
  dirty : Int
  bit_a : Int
  bit_b : Int
  bit_c : Int
  bit_n : Int
  cnt_a : Int
  cnt_b : Int
  cnt_c : Int
  cnt_n : Int
  cnt_e : Int
  ChipTacts_per_outcount : Int
  Amp_Global : Int
  vols : Fin 6 → Fin 32 → Int
  EnvNum : Int
  env_pos : Int
  Cur_Seed : Int

/-- The snapshot `AYEMU_State` of `psgemu.h`. -/
structure AYEMU_State where
  table : Fin 32 → Int
  type : Int
  chip_freq : Int
  eq : Fin 6 → Int
  tone_a : Int
  tone_b : Int
  tone_c : Int
  noise : Int
  R7_tone_a : Int
  R7_tone_b : Int
  R7_tone_c : Int
  R7_noise_a : Int
  R7_noise_b : Int
  R7_noise_c : Int
  vol_a : Int
  vol_b : Int
  vol_c : Int
  env_a : Int
  env_b : Int
  env_c : Int
  env_freq : Int
  env_style : Int
  freq : Int
  channels : Int
  bpc : Int
  magic : Int
  default_chip_flag : Int
  default_stereo_flag : Int
  default_sound_format_flag : Int
  dirty : Int
  bit_a : Int
  bit_b : Int
  bit_c : Int
  bit_n : Int
  cnt_a : Int
  cnt_b : Int
  cnt_c : Int
  cnt_n : Int
  cnt_e : Int
  chip_tacts_per_outcount : Int
  amp_global : Int
  vols : Fin 6 → Fin 32 → Int
  env_num : Int
  env_pos : Int
  cur_seed : Int
  regs : Fin 14 → Nat

/-- The functions of the external libayemu that `psgemu.c` calls, and the
contents of freshly allocated memory.  `ayemu_gen_sound chip bytes` returns the
number of 16-bit words by which the output pointer has advanced. -/
structure AyemuLib where
  malloc_chip : ayemu_ay_t
  malloc_regs : Fin 14 → Nat
  ayemu_init : ayemu_ay_t → ayemu_ay_t
  ayemu_set_chip_type : ayemu_ay_t → Int → ayemu_ay_t
  ayemu_set_chip_freq : ayemu_ay_t → Int → ayemu_ay_t
  ayemu_set_stereo : ayemu_ay_t → Int → ayemu_ay_t
  ayemu_set_sound_format : ayemu_ay_t → Int → Int → Int → ayemu_ay_t
  ayemu_set_regs : ayemu_ay_t → (Fin 14 → Nat) → ayemu_ay_t
  ayemu_reset : ayemu_ay_t → ayemu_ay_t
  ayemu_gen_sound : ayemu_ay_t → Int → ayemu_ay_t × Int

/-- The globals of `psgemu.c`: the tables `psg[]` and `reg[]`. -/
structure AYEMU where
  psg : Nat → Option ayemu_ay_t
  reg : Nat → Option (Fin 14 → Nat)

def AYEMU_PSG_MODEL_AY : Int := 0
def AYEMU_PSG_MODEL_YM : Int := 1
def AYEMU_PSG_PAN_MONO : Int := 0
def AYEMU_PSG_PAN_ABC : Int := 1
def AYEMU_PSG_PAN_ACB : Int := 2
def AYEMU_CHIP_EVIE_INDEX : Nat := 0
def AYEMU_CHIP_SONARI_LEFT_INDEX : Nat := 1
def AYEMU_CHIP_SONARI_RIGHT_INDEX : Nat := 2
def AYEMU_CHIP_MELODY_PSG_LEFT_INDEX : Nat := 3
def AYEMU_CHIP_MELODY_PSG_RIGHT_INDEX : Nat := 4

/-- Source: `AYEMU_open`. -/
def AYEMU_open (lib : AyemuLib) (a : AYEMU) (psg_index : Nat) : AYEMU :=
  { psg := Function.update a.psg psg_index (some lib.malloc_chip)
    reg := Function.update a.reg psg_index (some lib.malloc_regs) }

/-- Source: `AYEMU_close`. -/
def AYEMU_close (a : AYEMU) (psg_index : Nat) : AYEMU :=
  if (a.psg psg_index).isSome then
    { psg := Function.update a.psg psg_index none
      reg := Function.update a.reg psg_index none }
  else a

/-- Source: `AYEMU_is_opened`. -/
def AYEMU_is_opened (a : AYEMU) (psg_index : Nat) : Bool := (a.psg psg_index).isSome

/-- Source: `AYEMU_init`.  libayemu numbers the chip types AY, YM as 0, 1 and
the stereo layouts MONO, ABC, ACB as 0, 1, 2; `memset(regs, 0, 14)` clears the
register file before it is handed to the engine. -/
def AYEMU_init (lib : AyemuLib) (a : AYEMU) (psg_index : Nat) (cycles_per_sec : ℚ)
    (psg_model psg_pan : Int) (sample_rate : ℚ) : Option AYEMU :=
  match a.psg psg_index, a.reg psg_index with
  | some chip, some _ =>
    let model : Int := if psg_model = AYEMU_PSG_MODEL_AY then 0 else 1
    let stereo : Int :=
      if psg_pan = AYEMU_PSG_PAN_ACB then 2
      else if psg_pan = AYEMU_PSG_PAN_ABC then 1
      else 0
    let c1 := lib.ayemu_init chip
    let c2 := lib.ayemu_set_chip_type c1 model
    let c3 := lib.ayemu_set_chip_freq c2 (truncQ cycles_per_sec)
    let c4 := lib.ayemu_set_stereo c3 stereo
    let c5 := lib.ayemu_set_sound_format c4 (truncQ sample_rate) (if stereo ≠ 0 then 2 else 1) 16
    let regs : Fin 14 → Nat := fun _ => 0
    let c6 := lib.ayemu_set_regs c5 regs
    some { psg := Function.update a.psg psg_index (some c6)
           reg := Function.update a.reg psg_index (some regs) }
  | _, _ => none

/-- Source: `AYEMU_read`. -/
def AYEMU_read (a : AYEMU) (psg_index : Nat) (addr : Nat) : Option Nat :=
  if h : addr < 14 then
    match a.reg psg_index with
    | some regs => some (regs ⟨addr, h⟩)
    | none => none
  else some 0xff

/-- Source: the table `ay_reg_mask`. -/
def ay_reg_mask : Fin 14 → Nat :=
  ![0xff, 0x0f, 0xff, 0x0f, 0xff, 0x0f, 0x1f, 0xff, 0x1f, 0x1f, 0x1f, 0xff, 0xff, 0x0f]

/-- Source: `AYEMU_write`. -/
def AYEMU_write (lib : AyemuLib) (a : AYEMU) (psg_index : Nat) (addr byte : Nat) :
    Option AYEMU :=
  if h : addr < 14 then
    match a.psg psg_index, a.reg psg_index with
    | some chip, some regs =>
      let regs1 := Function.update regs ⟨addr, h⟩ (byte &&& ay_reg_mask ⟨addr, h⟩)
      if addr = 13 then
        some { psg := Function.update a.psg psg_index (some (lib.ayemu_set_regs chip regs1))
               reg := Function.update a.reg psg_index (some regs1) }
      else
        let val := regs1 13
        let regs2 := Function.update regs1 13 0xff
        let chip1 := lib.ayemu_set_regs chip regs2
        let regs3 := Function.update regs2 13 val
        some { psg := Function.update a.psg psg_index (some chip1)
               reg := Function.update a.reg psg_index (some regs3) }
    | _, _ => none
  else some a

/-- Source: `AYEMU_calculate_sample`; the division is C integer division. -/
def AYEMU_calculate_sample (lib : AyemuLib) (a : AYEMU) (psg_index : Nat) (_delta : Int)
    (nr : Nat) : Option (AYEMU × Nat) :=
  match a.psg psg_index with
  | some chip =>
    let res := lib.ayemu_gen_sound chip ((nr : Int) * chip.sndfmt_channels * 2)
    some ({ a with psg := Function.update a.psg psg_index (some res.1) },
      u32OfInt (Int.tdiv res.2 chip.sndfmt_channels))
  | none => none

/-- Source: `AYEMU_read_state`; each loop runs over the whole array. -/
def AYEMU_read_state (a : AYEMU) (psg_index : Nat) : Option AYEMU_State :=
  match a.psg psg_index, a.reg psg_index with
  | some psg_state, some psg_regs =>
    some
      { table := fun i => psg_state.table i
        type := psg_state.type
        chip_freq := psg_state.ChipFreq
        eq := fun i => psg_state.eq i
        tone_a := psg_state.regs_tone_a
        tone_b := psg_state.regs_tone_b
        tone_c := psg_state.regs_tone_c
        noise := psg_state.regs_noise
        R7_tone_a := psg_state.regs_R7_tone_a
        R7_tone_b := psg_state.regs_R7_tone_b
        R7_tone_c := psg_state.regs_R7_tone_c
        R7_noise_a := psg_state.regs_R7_noise_a
        R7_noise_b := psg_state.regs_R7_noise_b
        R7_noise_c := psg_state.regs_R7_noise_c
        vol_a := psg_state.regs_vol_a
        vol_b := psg_state.regs_vol_b
        vol_c := psg_state.regs_vol_c
        env_a := psg_state.regs_env_a
        env_b := psg_state.regs_env_b
        env_c := psg_state.regs_env_c
        env_freq := psg_state.regs_env_freq
        env_style := psg_state.regs_env_style
        freq := psg_state.sndfmt_freq
        channels := psg_state.sndfmt_channels
        bpc := psg_state.sndfmt_bpc
        magic := psg_state.magic
        default_chip_flag := psg_state.default_chip_flag
        default_stereo_flag := psg_state.default_stereo_flag
        default_sound_format_flag := psg_state.default_sound_format_flag
        dirty := psg_state.dirty
        bit_a := psg_state.bit_a
        bit_b := psg_state.bit_b
        bit_c := psg_state.bit_c
        bit_n := psg_state.bit_n
        cnt_a := psg_state.cnt_a
        cnt_b := psg_state.cnt_b
        cnt_c := psg_state.cnt_c
        cnt_n := psg_state.cnt_n
        cnt_e := psg_state.cnt_e
        chip_tacts_per_outcount := psg_state.ChipTacts_per_outcount
        amp_global := psg_state.Amp_Global
        vols := fun i j => psg_state.vols i j
        env_num := psg_state.EnvNum
        env_pos := psg_state.env_pos
        cur_seed := psg_state.Cur_Seed
        regs := fun i => psg_regs i }
  | _, _ => none

/-- Source: `AYEMU_write_state`; each loop runs over the whole array. -/
def AYEMU_write_state (a : AYEMU) (psg_index : Nat) (state : AYEMU_State) : Option AYEMU :=
  match a.psg psg_index, a.reg psg_index with
  | some _, some _ =>
    let psg_state : ayemu_ay_t :=
      { table := fun i => state.table i
        type := state.type
        ChipFreq := state.chip_freq
        eq := fun i => state.eq i
        regs_tone_a := state.tone_a
        regs_tone_b := state.tone_b
        regs_tone_c := state.tone_c
        regs_noise := state.noise
        regs_R7_tone_a := state.R7_tone_a
        regs_R7_tone_b := state.R7_tone_b
        regs_R7_tone_c := state.R7_tone_c
        regs_R7_noise_a := state.R7_noise_a
        regs_R7_noise_b := state.R7_noise_b
        regs_R7_noise_c := state.R7_noise_c
        regs_vol_a := state.vol_a
        regs_vol_b := state.vol_b
        regs_vol_c := state.vol_c
        regs_env_a := state.env_a
        regs_env_b := state.env_b
        regs_env_c := state.env_c
        regs_env_freq := state.env_freq
        regs_env_style := state.env_style
        sndfmt_freq := state.freq
        sndfmt_channels := state.channels
        sndfmt_bpc := state.bpc
        magic := state.magic
        default_chip_flag := state.default_chip_flag
        default_stereo_flag := state.default_stereo_flag
        default_sound_format_flag := state.default_sound_format_flag
        dirty := state.dirty
        bit_a := state.bit_a
        bit_b := state.bit_b
        bit_c := state.bit_c
        bit_n := state.bit_n
        cnt_a := state.cnt_a
        cnt_b := state.cnt_b
        cnt_c := state.cnt_c
        cnt_n := state.cnt_n
        cnt_e := state.cnt_e
        ChipTacts_per_outcount := state.chip_tacts_per_outcount
        Amp_Global := state.amp_global
        vols := fun i j => state.vols i j
        EnvNum := state.env_num
        env_pos := state.env_pos
        Cur_Seed := state.cur_seed }
    some { psg := Function.update a.psg psg_index (some psg_state)
           reg := Function.update a.reg psg_index (some (fun i => state.regs i)) }
  | _, _ => none

/-! ## Evie (`evie.c`) -/

def EVIE_NO : Int := 0
def EVIE_1_0 : Int := 1
def EVIE_2_0 : Int := 2
def EVIE_COVOX_D6 : Int := 0xd6
def EVIE_COVOX_D7 : Int := 0xd7

/-- The globals of `evie.c` together with both adapters and the trace.  The
C flags that hold 0 or 1 are `Bool`s. -/
structure Evie (S : Type) where
  EVIE_version : Int
  EVIE_covox_page : Int
  EVIE_sid_clock_freq : ℚ
  EVIE_psg_clock_freq : ℚ
  main_freq : Nat
  bit16 : Int
  num_pokeys : Int
  dsprate : Int
  ticks_per_sample : ℚ
  sid_ticks_per_sample : ℚ
  sid_buffer : Option Nat
  sid_buffer_length : Nat
  psg_pan : Int
  psg_ticks_per_sample : ℚ
  psg_buffer : Option Nat
  psg_buffer_length : Nat
  sid_ticks_per_tick : ℚ
  sid_ticks : ℚ
  psg_ticks_per_tick : ℚ
  psg_ticks : ℚ
  config : Nat
  sid_filter : Int
  psg_div2 : Bool
  psg_2mhz : Bool
  scrolllock_led : Bool
  numlock_led : Bool
  capslock_led : Bool
  sid_d5 : Bool
  psg_register : Nat
  resid : RESID S
  ayemu : AYEMU
  trace : List Event

/-- The values of the globals at program start (`evie.c`, lines 45-93). -/
def Evie.start {S : Type} : Evie S :=
  { EVIE_version := EVIE_2_0
    EVIE_covox_page := EVIE_COVOX_D7
    EVIE_sid_clock_freq := 0
    EVIE_psg_clock_freq := 0
    main_freq := 0
    bit16 := 0
    num_pokeys := 0
    dsprate := 0
    ticks_per_sample := 0
    sid_ticks_per_sample := 0
    sid_buffer := none
    sid_buffer_length := 0
    psg_pan := 0
    psg_ticks_per_sample := 0
    psg_buffer := none
    psg_buffer_length := 0
    sid_ticks_per_tick := 0
    sid_ticks := 0
    psg_ticks_per_tick := 0
    psg_ticks := 0
    config := 0x00
    sid_filter := 0
    psg_div2 := false
    psg_2mhz := false
    scrolllock_led := false
    numlock_led := false
    capslock_led := false
    sid_d5 := false
    psg_register := 0x00
    resid := { sid := fun _ => none, RESID_resample_method := 0 }
    ayemu := { psg := fun _ => none, reg := fun _ => none }
    trace := [] }

/-- Source: the table `sid_model` of `evie.c`. -/
def Evie.sid_model : Int → Int
  | 0 => RESID_SID_FILTER_NONE
  | 1 => RESID_SID_FILTER_LINEAR
  | 2 => RESID_SID_MODEL_6581
  | _ => RESID_SID_MODEL_8580

/-- Source: the constant `psg_model` of `evie.c`. -/
def Evie.psg_model : Int := AYEMU_PSG_MODEL_YM

/-- Source: `evie_initialize`. -/
def evie_initialize {S : Type} (lib : SIDClass S) (alib : AyemuLib) (env : Atari800)
    (st : Evie S) (freq17 : Nat) (playback_freq n_pokeys b16 : Int)
    (sid_state : Option RESID_State) (psg_state : Option AYEMU_State) : Option (Evie S) :=
  let st0 := { st with
    resid := RESID_close st.resid RESID_CHIP_EVIE_INDEX, sid_buffer := none,
    ayemu := AYEMU_close st.ayemu AYEMU_CHIP_EVIE_INDEX, psg_buffer := none }
  if st0.EVIE_version ≠ EVIE_NO then
    let base_clock : ℚ := if env.Atari800_tv_mode = env.Atari800_TV_PAL then 1773447 else 1789790
    let samples_per_frame : ℚ := (playback_freq : ℚ) /
      (if env.Atari800_tv_mode = env.Atari800_TV_PAL then env.Atari800_FPS_PAL
       else env.Atari800_FPS_NTSC)
    let ticks_per_frame : Nat := u32OfInt (env.Atari800_tv_mode * env.ANTIC_LINE_C)
    let ticks_per_sample : ℚ := (ticks_per_frame : ℚ) / samples_per_frame
    let EVIE_sid_clock_freq : ℚ :=
      if st0.EVIE_version = EVIE_1_0 then 24576000 * 5 / 128 else base_clock * 10 / 18
    let psg_clock0 : ℚ :=
      if st0.EVIE_version = EVIE_1_0 then
        (if st0.psg_2mhz then 24576000 * 5 / 64 else base_clock)
      else (if st0.psg_2mhz then base_clock * 22 / ((3 / 2) * 13) else base_clock)
    let EVIE_psg_clock_freq : ℚ := if st0.psg_div2 then psg_clock0 / 2 else psg_clock0
    let sid_surplus_ticks : Nat := ceilU32 (EVIE_sid_clock_freq / playback_freq)
    let sid_max_ticks_per_frame : Nat := u32 (ticks_per_frame + sid_surplus_ticks)
    let sid_ticks_per_sample : ℚ := EVIE_sid_clock_freq / (playback_freq : ℚ)
    let sid_buffer_length : Nat := ceilU32 ((sid_max_ticks_per_frame : ℚ) / ticks_per_sample)
    let psg_pan : Int :=
      if n_pokeys = 2 ∧ st0.EVIE_version = EVIE_2_0 then AYEMU_PSG_PAN_ABC
      else AYEMU_PSG_PAN_MONO
    let psg_surplus_ticks : Nat := ceilU32 (EVIE_psg_clock_freq / playback_freq)
    let psg_max_ticks_per_frame : Nat := u32 (ticks_per_frame + psg_surplus_ticks)
    let psg_ticks_per_sample : ℚ := EVIE_psg_clock_freq / (playback_freq : ℚ)
    let psg_buffer_length : Nat := ceilU32 ((psg_max_ticks_per_frame : ℚ) / ticks_per_sample)
    let st1 := { st0 with
      main_freq := freq17, dsprate := playback_freq, num_pokeys := n_pokeys, bit16 := b16,
      ticks_per_sample := ticks_per_sample, EVIE_sid_clock_freq := EVIE_sid_clock_freq,
      EVIE_psg_clock_freq := EVIE_psg_clock_freq,
      sid_ticks_per_sample := sid_ticks_per_sample, sid_buffer_length := sid_buffer_length,
      psg_pan := psg_pan, psg_ticks_per_sample := psg_ticks_per_sample,
      psg_buffer_length := psg_buffer_length,
      sid_ticks_per_tick := EVIE_sid_clock_freq / (freq17 : ℚ), sid_ticks := 0,
      psg_ticks_per_tick := EVIE_psg_clock_freq / (freq17 : ℚ), psg_ticks := 0 }
    let r1 := RESID_open lib st1.resid RESID_CHIP_EVIE_INDEX
    (match sid_state with
      | some s => RESID_write_state lib r1 RESID_CHIP_EVIE_INDEX s
      | none => some r1).bind fun r2 =>
    (RESID_init lib r2 RESID_CHIP_EVIE_INDEX EVIE_sid_clock_freq (Evie.sid_model st1.sid_filter)
      playback_freq).bind fun r3 =>
    let a1 := AYEMU_open alib st1.ayemu AYEMU_CHIP_EVIE_INDEX
    (match psg_state with
      | some s => AYEMU_write_state a1 AYEMU_CHIP_EVIE_INDEX s
      | none => some a1).bind fun a2 =>
    (AYEMU_init alib a2 AYEMU_CHIP_EVIE_INDEX EVIE_psg_clock_freq Evie.psg_model psg_pan
      playback_freq).bind fun a3 =>
    some { st1 with
      resid := r3.1, sid_buffer := some sid_buffer_length, ayemu := a3,
      psg_buffer := some (psg_buffer_length * (if n_pokeys = 2 then 2 else 1)) }
  else some st0

/-- Source: `EVIE_Init`. -/
def EVIE_Init {S : Type} (lib : SIDClass S) (alib : AyemuLib) (env : Atari800) (st : Evie S)
    (freq17 : Nat) (playback_freq n_pokeys b16 : Int) : Option (Evie S) :=
  let restore_sid_state := RESID_is_opened st.resid RESID_CHIP_EVIE_INDEX
  let restore_psg_state := AYEMU_is_opened st.ayemu AYEMU_CHIP_EVIE_INDEX
  let sid_state := if restore_sid_state then RESID_read_state lib st.resid RESID_CHIP_EVIE_INDEX
    else none
  let psg_state := if restore_psg_state then AYEMU_read_state st.ayemu AYEMU_CHIP_EVIE_INDEX
    else none
  evie_initialize lib alib env st freq17 playback_freq n_pokeys b16 sid_state psg_state

/-- Source: `update_config` of `evie.c`. -/
def Evie.update_config {S : Type} (st : Evie S) (byte : Nat) : Evie S :=
  { st with
    config := byte
    sid_filter := ((byte &&& 0x03 : Nat) : Int)
    psg_div2 := decide (byte &&& 0x04 ≠ 0)
    psg_2mhz := decide (byte &&& 0x08 ≠ 0)
    scrolllock_led := decide (byte &&& 0x10 ≠ 0)
    numlock_led := decide (byte &&& 0x20 ≠ 0)
    capslock_led := decide (byte &&& 0x40 ≠ 0)
    sid_d5 := decide (byte &&& 0x80 ≠ 0) }

/-- The flush `POKEYSND_UpdateEvie()`: the call is recorded and the effect of
the external function on the card, `flush`, is applied. -/
def Evie.update {S : Type} (flush : Evie S → Evie S) (st : Evie S) : Evie S :=
  flush { st with trace := st.trace ++ [Event.POKEYSND_Update Card.Evie] }

/-- The call `RESID_write(RESID_CHIP_EVIE_INDEX, addr, byte)` from `evie.c`. -/
def Evie.sid_write {S : Type} (lib : SIDClass S) (st : Evie S) (addr byte : Nat) :
    Option (Evie S) :=
  (RESID_write lib st.resid RESID_CHIP_EVIE_INDEX addr byte).map fun r =>
    { st with resid := r,
              trace := st.trace ++ [Event.RESID_write RESID_CHIP_EVIE_INDEX addr byte] }

/-- The call `AYEMU_write(AYEMU_CHIP_EVIE_INDEX, addr, byte)` from `evie.c`. -/
def Evie.psg_write {S : Type} (alib : AyemuLib) (st : Evie S) (addr byte : Nat) :
    Option (Evie S) :=
  (AYEMU_write alib st.ayemu AYEMU_CHIP_EVIE_INDEX addr byte).map fun a =>
    { st with ayemu := a,
              trace := st.trace ++ [Event.AYEMU_write AYEMU_CHIP_EVIE_INDEX addr byte] }

/-- Source: `EVIE_D2PutByte`; `addr` is a `UWORD`, `byte` a `UBYTE`. -/
def EVIE_D2PutByte {S : Type} (lib : SIDClass S) (alib : AyemuLib) (env : Atari800)
    (flush : Evie S → Evie S) (st : Evie S) (addr byte : Nat) : Option (Evie S) :=
  if st.EVIE_version ≠ EVIE_NO then
    if addr ≥ 0xd280 then
      let offset := addr &&& 0x3f
      if offset ≤ 0x1f then
        Evie.sid_write lib (Evie.update flush st) (offset - 0x00) byte
      else if offset ≤ 0x2f then
        Evie.psg_write alib (Evie.update flush st) (offset - 0x20) byte
      else if offset = 0x30 then
        some { st with psg_register := byte }
      else if offset = 0x31 then
        let st1 := Evie.update flush st
        Evie.psg_write alib st1 (st1.psg_register &&& 0x0f) byte
      else if offset = 0x3f then
        let st1 := Evie.update flush st
        (RESID_read_state lib st1.resid RESID_CHIP_EVIE_INDEX).bind fun sid_state =>
        (AYEMU_read_state st1.ayemu AYEMU_CHIP_EVIE_INDEX).bind fun psg_state =>
        let st2 := st1.update_config byte
        evie_initialize lib alib env st2 st2.main_freq st2.dsprate st2.num_pokeys st2.bit16
          (some sid_state) (some psg_state)
      else some st
    else some st
  else some st

/-- The `Util_mix` call sites of `evie.c`. -/
def Evie.mix {S : Type} (st : Evie S) (src : ScratchBuf) (count : Nat) (pokeys : Nat)
    (a7 a8 a9 : Nat) : Evie S :=
  { st with trace := st.trace ++ [Event.Util_mix src count 128 st.bit16 pokeys a7 a8 a9] }

/-- The engine call of `sid_generate_sync` for one request. -/
def Evie.sid_calc {S : Type} (lib : SIDClass S) (st : Evie S) (ticks : Int)
    (offset nr : Nat) : Option (Evie S × Nat) :=
  (RESID_calculate_sample lib st.resid RESID_CHIP_EVIE_INDEX ticks nr).map fun r =>
    ({ st with resid := r.1, trace := st.trace ++
        [Event.RESID_calculate_sample RESID_CHIP_EVIE_INDEX ticks .evie_sid_buffer offset nr] },
      r.2)

/-- The `Util_mix` calls at the end of `sid_generate_sync`; the second call
passes the literal 2 as the number of channels. -/
def Evie.sid_mixAll {S : Type} (st : Evie S) (count pokeys_count : Nat) : Evie S :=
  let st3 := st.mix .evie_sid_buffer count pokeys_count 0 1 0
  if pokeys_count = 2 then st3.mix .evie_sid_buffer count 2 1 1 0 else st3

/-- Source: `sid_generate_sync` of `evie.c`, with the final locals. -/
def Evie.sid_generate_sync {S : Type} (lib : SIDClass S) (fuel : Nat) (st : Evie S)
    (buffer_size num_ticks sndn : Nat) : Option (SyncResult (Evie S)) :=
  if st.EVIE_version ≠ EVIE_NO then
    let pokeys_count := pokeysCount st.num_pokeys
    let sample_size := sampleSize st.bit16 st.num_pokeys
    let samples_count := samplesCount st.bit16 st.num_pokeys buffer_size sndn
    let m := modf (st.sid_ticks + (num_ticks : ℚ) * st.sid_ticks_per_tick)
    let ticks : Int := m.2
    (if ticks > 0 then Evie.sid_calc lib st ticks 0 samples_count else some (st, 0)).bind
      fun c1 =>
    (overclockLoop (fun w t c => Evie.sid_calc lib w t c 1) st.sid_ticks_per_tick samples_count
      fuel c1.1 m.1 c1.2 0).bind fun l =>
    let st2 := { l.1 with sid_ticks := l.2.1 - (l.2.2.2 : ℚ) * l.1.sid_ticks_per_tick }
    let count := l.2.2.1
    if count > 0 then
      some ⟨st2.sid_mixAll count pokeys_count, samples_count, count, l.2.2.2,
        u32 (count * sample_size)⟩
    else some ⟨st2, samples_count, count, l.2.2.2, 0⟩
  else some ⟨st, 0, 0, 0, 0⟩

/-- The engine call of `psg_generate_sync` of `evie.c` for one request. -/
def Evie.psg_calc {S : Type} (alib : AyemuLib) (st : Evie S) (ticks : Int)
    (offset nr : Nat) : Option (Evie S × Nat) :=
  (AYEMU_calculate_sample alib st.ayemu AYEMU_CHIP_EVIE_INDEX ticks nr).map fun r =>
    ({ st with ayemu := r.1, trace := st.trace ++
        [Event.AYEMU_calculate_sample AYEMU_CHIP_EVIE_INDEX ticks .evie_psg_buffer offset nr] },
      r.2)

/-- The `Util_mix` calls at the end of `psg_generate_sync` of `evie.c`. -/
def Evie.psg_mixAll {S : Type} (st : Evie S) (count pokeys_count : Nat) : Evie S :=
  if pokeys_count = 2 then
    if st.psg_pan = AYEMU_PSG_PAN_ABC then
      (st.mix .evie_psg_buffer count pokeys_count 0 2 0).mix .evie_psg_buffer count
        pokeys_count 1 2 1
    else
      (st.mix .evie_psg_buffer count pokeys_count 0 1 0).mix .evie_psg_buffer count
        pokeys_count 1 1 0
  else st.mix .evie_psg_buffer count pokeys_count 0 1 0

/-- Source: `psg_generate_sync` of `evie.c`, with the final locals. -/
def Evie.psg_generate_sync {S : Type} (alib : AyemuLib) (fuel : Nat) (st : Evie S)
    (buffer_size num_ticks sndn : Nat) : Option (SyncResult (Evie S)) :=
  if st.EVIE_version ≠ EVIE_NO then
    let pokeys_count := pokeysCount st.num_pokeys
    let sample_size := sampleSize st.bit16 st.num_pokeys
    let samples_count := samplesCount st.bit16 st.num_pokeys buffer_size sndn
    let m := modf (st.psg_ticks + (num_ticks : ℚ) * st.psg_ticks_per_tick)
    let ticks : Int := m.2
    (if ticks > 0 then Evie.psg_calc alib st ticks 0 samples_count else some (st, 0)).bind
      fun c1 =>
    (overclockLoop (fun w t c => Evie.psg_calc alib w t c 1) st.psg_ticks_per_tick
      samples_count fuel c1.1 m.1 c1.2 0).bind fun l =>
    let st2 := { l.1 with psg_ticks := l.2.1 - (l.2.2.2 : ℚ) * l.1.psg_ticks_per_tick }
    let count := l.2.2.1
    if count > 0 then
      some ⟨st2.psg_mixAll count pokeys_count, samples_count, count, l.2.2.2,
        u32 (count * sample_size)⟩
    else some ⟨st2, samples_count, count, l.2.2.2, 0⟩
  else some ⟨st, 0, 0, 0, 0⟩

/-- Source: `EVIE_GenerateSync`: both generators run on the same output range,
each with its own fuel, and `sndn` is returned. -/
def EVIE_GenerateSync {S : Type} (lib : SIDClass S) (alib : AyemuLib) (fuel : Nat)
    (st : Evie S) (buffer_size num_ticks sndn : Nat) : Option (Evie S × Nat) :=
  (Evie.sid_generate_sync lib fuel st buffer_size num_ticks sndn).bind fun r1 =>
  (Evie.psg_generate_sync alib fuel r1.st buffer_size num_ticks sndn).map fun r2 =>
    (r2.st, sndn)

/-! ## SlightSID (`slightsid.c`) -/

def SLIGHTSID_NO : Int := 0
def SLIGHTSID_MONO : Int := 1
def SLIGHTSID_STEREO : Int := 2

/-- The globals of `slightsid.c` together with the reSID tables and the trace. -/
structure SlightSID (S : Type) where
  SLIGHTSID_version : Int
  SLIGHTSID_clock_freq : ℚ
  sid_model : Int
  main_freq : Nat
  bit16 : Int
  num_pokeys : Int
  dsprate : Int
  ticks_per_sample : ℚ
  sid_ticks_per_sample : ℚ
  slightsid_buffer : Option Nat
  slightsid_buffer2 : Option Nat
  slightsid_buffer_length : Nat
  sid_ticks_per_tick : ℚ
  sid_ticks : ℚ
  config : Nat
  ntsc : Bool
  parallel : Bool
  reset : Bool
  resid : RESID S
  trace : List Event

/-- The `Util_mix` call sites of `slightsid.c`. -/
def SlightSID.mix {S : Type} (st : SlightSID S) (src : ScratchBuf) (count : Nat)
    (pokeys : Nat) (a7 a8 a9 : Nat) : SlightSID S :=
  { st with trace := st.trace ++ [Event.Util_mix src count 128 st.bit16 pokeys a7 a8 a9] }

/-- The engine calls of `SLIGHTSID_GenerateSync` for one request. -/
def SlightSID.calc {S : Type} (lib : SIDClass S) (st : SlightSID S) (ticks : Int)
    (offset nr : Nat) : Option (SlightSID S × Nat) :=
  (RESID_calculate_sample lib st.resid RESID_CHIP_SLIGHTSID_LEFT_INDEX ticks nr).bind fun r1 =>
  let st1 := { st with resid := r1.1, trace := st.trace ++
    [Event.RESID_calculate_sample RESID_CHIP_SLIGHTSID_LEFT_INDEX ticks .slightsid_buffer
      offset nr] }
  if st1.SLIGHTSID_version = SLIGHTSID_STEREO then
    (RESID_calculate_sample lib st1.resid RESID_CHIP_SLIGHTSID_RIGHT_INDEX ticks nr).bind
      fun r2 =>
    some ({ st1 with resid := r2.1, trace := st1.trace ++
      [Event.RESID_calculate_sample RESID_CHIP_SLIGHTSID_RIGHT_INDEX ticks .slightsid_buffer2
        offset nr] }, r1.2)
  else some (st1, r1.2)

/-- The `Util_mix` calls at the end of `SLIGHTSID_GenerateSync`. -/
def SlightSID.mixAll {S : Type} (st : SlightSID S) (count pokeys_count : Nat) : SlightSID S :=
  let st3 := st.mix .slightsid_buffer count pokeys_count 0 1 0
  if pokeys_count = 2 then
    if st3.SLIGHTSID_version = SLIGHTSID_STEREO then
      st3.mix .slightsid_buffer2 count pokeys_count 1 1 0
    else st3.mix .slightsid_buffer count pokeys_count 1 1 0
  else
    if st3.SLIGHTSID_version = SLIGHTSID_STEREO then
      st3.mix .slightsid_buffer2 count pokeys_count 0 1 0
    else st3

/-- Source: `SLIGHTSID_GenerateSync` (the `COUNT_CYCLES` variant), with the
final locals. -/
def SLIGHTSID_GenerateSync_locals {S : Type} (lib : SIDClass S) (fuel : Nat)
    (st : SlightSID S) (buffer_size num_ticks sndn : Nat) :
    Option (SyncResult (SlightSID S)) :=
  if st.SLIGHTSID_version = SLIGHTSID_MONO
      ∨ (st.SLIGHTSID_version = SLIGHTSID_STEREO ∧ st.reset = false) then
    let pokeys_count := pokeysCount st.num_pokeys
    let sample_size := sampleSize st.bit16 st.num_pokeys
    let samples_count := samplesCount st.bit16 st.num_pokeys buffer_size sndn
    let m := modf (st.sid_ticks + (num_ticks : ℚ) * st.sid_ticks_per_tick)
    let ticks : Int := m.2
    (if ticks > 0 then SlightSID.calc lib st ticks 0 samples_count else some (st, 0)).bind
      fun c1 =>
    (overclockLoop (fun w t c => SlightSID.calc lib w t c 1) st.sid_ticks_per_tick
      samples_count fuel c1.1 m.1 c1.2 0).bind fun l =>
    let st2 := { l.1 with sid_ticks := l.2.1 - (l.2.2.2 : ℚ) * l.1.sid_ticks_per_tick }
    let count := l.2.2.1
    if count > 0 then
      some ⟨st2.mixAll count pokeys_count, samples_count, count, l.2.2.2,
        u32 (count * sample_size)⟩
    else some ⟨st2, samples_count, count, l.2.2.2, 0⟩
  else some ⟨st, 0, 0, 0, 0⟩

/-- Source: `SLIGHTSID_GenerateSync`: the new card state and the returned
value. -/
def SLIGHTSID_GenerateSync {S : Type} (lib : SIDClass S) (fuel : Nat) (st : SlightSID S)
    (buffer_size num_ticks sndn : Nat) : Option (SlightSID S × Nat) :=
  (SLIGHTSID_GenerateSync_locals lib fuel st buffer_size num_ticks sndn).map
    fun r => (r.st, r.ret)

/-! ## SONari (`sonari.c`) -/

def SONARI_NO : Int := 0
def SONARI_MONO : Int := 1
def SONARI_STEREO : Int := 2
def SONARI_CHIP_NO : Int := 0
def SONARI_CHIP_AY : Int := 1
def SONARI_CHIP_YM : Int := 2

/-- The globals of `sonari.c` together with the PSG tables and the trace. -/
structure SONari where
  SONARI_version : Int
  SONARI_model : Int
  SONARI_model2 : Int
  SONARI_slot : Int
  SONARI_clock_freq : ℚ
  main_freq : Nat
  bit16 : Int
  num_pokeys : Int
  dsprate : Int
  ticks_per_sample : ℚ
  psg_pan : Int
  psg_ticks_per_sample : ℚ
  psg_buffer : Option Nat
  psg_buffer2 : Option Nat
  psg_buffer_length : Nat
  psg_ticks_per_tick : ℚ
  psg_ticks : ℚ
  psg_register : Nat
  psg_register2 : Nat
  ayemu : AYEMU
  trace : List Event

/-- The values of the globals at program start (`sonari.c`, lines 40-64). -/
def SONari.start : SONari :=
  { SONARI_version := SONARI_NO
    SONARI_model := SONARI_CHIP_AY
    SONARI_model2 := SONARI_CHIP_AY
    SONARI_slot := 3
    SONARI_clock_freq := 0
    main_freq := 0
    bit16 := 0
    num_pokeys := 0
    dsprate := 0
    ticks_per_sample := 0
    psg_pan := 0
    psg_ticks_per_sample := 0
    psg_buffer := none
    psg_buffer2 := none
    psg_buffer_length := 0
    psg_ticks_per_tick := 0
    psg_ticks := 0
    psg_register := 0x00
    psg_register2 := 0x00
    ayemu := { psg := fun _ => none, reg := fun _ => none }
    trace := [] }

/-- Source: `SONARI_InSlot`; the C result 1/0 is rendered as a `Bool`. -/
def SONARI_InSlot (st : SONari) (addr : Nat) : Bool :=
  let base_address : Int := 0xD500 + 0x20 * st.SONARI_slot
  decide (st.SONARI_version ≠ SONARI_NO)
    && decide ((addr : Int) ≥ base_address)
    && decide ((addr : Int) ≤ base_address + (if st.SONARI_version = SONARI_MONO then 1 else 3))

/-- The `Util_mix` call sites of `sonari.c`. -/
def SONari.mix (st : SONari) (src : ScratchBuf) (count : Nat) (pokeys : Nat)
    (a7 a8 a9 : Nat) : SONari :=
  { st with trace := st.trace ++ [Event.Util_mix src count 128 st.bit16 pokeys a7 a8 a9] }

/-- The call `AYEMU_calculate_sample(psg_index, ticks, buf + offset, nr)` from
one of the PSG cards, with its trace entry. -/
def psgCalc (alib : AyemuLib) (a : AYEMU) (trace : List Event) (psg_index : Nat) (ticks : Int)
    (buf : ScratchBuf) (offset nr : Nat) : Option (AYEMU × List Event × Nat) :=
  (AYEMU_calculate_sample alib a psg_index ticks nr).map fun r =>
    (r.1, trace ++ [Event.AYEMU_calculate_sample psg_index ticks buf offset nr], r.2)

/-- The engine calls of `psg_generate_sync` of `sonari.c` for one request:
```
if (SONARI_model != SONARI_CHIP_NO) count = AYEMU_calculate_sample(LEFT, ...);
if ((SONARI_version == SONARI_STEREO) && (SONARI_model2 != SONARI_CHIP_NO))
    count = AYEMU_calculate_sample(RIGHT, ...);
```
The assigned variable (`count`, or `amount` in the loop) holds 0 before. -/
def SONari.calc (alib : AyemuLib) (st : SONari) (ticks : Int) (offset nr : Nat) :
    Option (SONari × Nat) :=
  (if st.SONARI_model ≠ SONARI_CHIP_NO then
      (psgCalc alib st.ayemu st.trace AYEMU_CHIP_SONARI_LEFT_INDEX ticks .sonari_psg_buffer
        offset nr).map fun r => ({ st with ayemu := r.1, trace := r.2.1 }, r.2.2)
    else some (st, 0)).bind fun c1 =>
  if c1.1.SONARI_version = SONARI_STEREO ∧ c1.1.SONARI_model2 ≠ SONARI_CHIP_NO then
    (psgCalc alib c1.1.ayemu c1.1.trace AYEMU_CHIP_SONARI_RIGHT_INDEX ticks .sonari_psg_buffer2
      offset nr).map fun r => ({ c1.1 with ayemu := r.1, trace := r.2.1 }, r.2.2)
  else some c1

/-- The `Util_mix` calls at the end of `psg_generate_sync` of `sonari.c`. -/
def SONari.mixAll (st : SONari) (count pokeys_count : Nat) : SONari :=
  if pokeys_count = 2 then
    if st.psg_pan = AYEMU_PSG_PAN_ABC then
      let st1 := if st.SONARI_model ≠ SONARI_CHIP_NO then
          (st.mix .sonari_psg_buffer count pokeys_count 0 2 0).mix .sonari_psg_buffer count
            pokeys_count 1 2 1
        else st
      if st1.SONARI_version = SONARI_STEREO ∧ st1.SONARI_model2 ≠ SONARI_CHIP_NO then
        (st1.mix .sonari_psg_buffer2 count pokeys_count 0 2 0).mix .sonari_psg_buffer2 count
          pokeys_count 1 2 1
      else st1
    else
      let st1 := if st.SONARI_model ≠ SONARI_CHIP_NO then
          (st.mix .sonari_psg_buffer count pokeys_count 0 1 0).mix .sonari_psg_buffer count
            pokeys_count 1 1 0
        else st
      if st1.SONARI_version = SONARI_STEREO ∧ st1.SONARI_model2 ≠ SONARI_CHIP_NO then
        (st1.mix .sonari_psg_buffer2 count pokeys_count 0 1 0).mix .sonari_psg_buffer2 count
          pokeys_count 1 1 0
      else st1
  else
    let st1 := if st.SONARI_model ≠ SONARI_CHIP_NO then
        st.mix .sonari_psg_buffer count pokeys_count 0 1 0
      else st
    if st1.SONARI_version = SONARI_STEREO ∧ st1.SONARI_model2 ≠ SONARI_CHIP_NO then
      st1.mix .sonari_psg_buffer2 count pokeys_count 0 1 0
    else st1

/-- Source: `psg_generate_sync` of `sonari.c`, with the final locals. -/
def SONari.psg_generate_sync (alib : AyemuLib) (fuel : Nat) (st : SONari)
    (buffer_size num_ticks sndn : Nat) : Option (SyncResult SONari) :=
  if st.SONARI_version ≠ SONARI_NO
      ∧ (st.SONARI_model ≠ SONARI_CHIP_NO
        ∨ (st.SONARI_version = SONARI_STEREO ∧ st.SONARI_model2 ≠ SONARI_CHIP_NO)) then
    let pokeys_count := pokeysCount st.num_pokeys
    let sample_size := sampleSize st.bit16 st.num_pokeys
    let samples_count := samplesCount st.bit16 st.num_pokeys buffer_size sndn
    let m := modf (st.psg_ticks + (num_ticks : ℚ) * st.psg_ticks_per_tick)
    let ticks : Int := m.2
    (if ticks > 0 then SONari.calc alib st ticks 0 samples_count else some (st, 0)).bind
      fun c1 =>
    (overclockLoop (fun w t c => SONari.calc alib w t c 1) st.psg_ticks_per_tick samples_count
      fuel c1.1 m.1 c1.2 0).bind fun l =>
    let st2 := { l.1 with psg_ticks := l.2.1 - (l.2.2.2 : ℚ) * l.1.psg_ticks_per_tick }
    let count := l.2.2.1
    if count > 0 then
      some ⟨st2.mixAll count pokeys_count, samples_count, count, l.2.2.2,
        u32 (count * sample_size)⟩
    else some ⟨st2, samples_count, count, l.2.2.2, 0⟩
  else some ⟨st, 0, 0, 0, 0⟩

/-- Source: `SONARI_GenerateSync`: `sndn` is returned. -/
def SONARI_GenerateSync (alib : AyemuLib) (fuel : Nat) (st : SONari)
    (buffer_size num_ticks sndn : Nat) : Option (SONari × Nat) :=
  (SONari.psg_generate_sync alib fuel st buffer_size num_ticks sndn).map fun r => (r.st, sndn)

/-! ## Melody PSG (`melody_psg.c`) -/

def MELODY_PSG_DEVICE : Nat := 0x50
def MELODY_PSG_CHIP_NO : Int := 0
def MELODY_PSG_CHIP_AY : Int := 1
def MELODY_PSG_CHIP_YM : Int := 2

/-- The globals of `melody_psg.c` together with the PSG tables and the trace. -/
structure Melody where
  MELODY_PSG_enable : Int
  MELODY_PSG_model : Int
  MELODY_PSG_model2 : Int
  MELODY_PSG_clock_freq : ℚ
  chip_base_addr : Nat
  device_index : Nat
  main_freq : Nat
  bit16 : Int
  num_pokeys : Int
  dsprate : Int
  ticks_per_sample : ℚ
  psg_pan : Int
  psg_ticks_per_sample : ℚ
  psg_buffer : Option Nat
  psg_buffer2 : Option Nat
  psg_buffer_length : Nat
  psg_ticks_per_tick : ℚ
  psg_ticks : ℚ
  psg_register : Nat
  psg_register2 : Nat
  config : Nat
  reset : Bool
  mhz2 : Bool
  div2 : Bool
  gnd : Bool
  scl : Bool
  sda : Bool
  ayemu : AYEMU
  trace : List Event

/-- The `Util_mix` call sites of `melody_psg.c`. -/
def Melody.mix (st : Melody) (src : ScratchBuf) (count : Nat) (pokeys : Nat)
    (a7 a8 a9 : Nat) : Melody :=
  { st with trace := st.trace ++ [Event.Util_mix src count 128 st.bit16 pokeys a7 a8 a9] }

/-- The engine calls of `psg_generate_sync` of `melody_psg.c` for one request:
```
if (MELODY_PSG_model != MELODY_PSG_CHIP_NO) count = AYEMU_calculate_sample(LEFT, ...);
if (MELODY_PSG_model2 != MELODY_PSG_CHIP_NO) count = AYEMU_calculate_sample(RIGHT, ...);
```
The assigned variable (`count`, or `amount` in the loop) holds 0 before. -/
def Melody.calc (alib : AyemuLib) (st : Melody) (ticks : Int) (offset nr : Nat) :
    Option (Melody × Nat) :=
  (if st.MELODY_PSG_model ≠ MELODY_PSG_CHIP_NO then
      (psgCalc alib st.ayemu st.trace AYEMU_CHIP_MELODY_PSG_LEFT_INDEX ticks .melody_psg_buffer
        offset nr).map fun r => ({ st with ayemu := r.1, trace := r.2.1 }, r.2.2)
    else some (st, 0)).bind fun c1 =>
  if c1.1.MELODY_PSG_model2 ≠ MELODY_PSG_CHIP_NO then
    (psgCalc alib c1.1.ayemu c1.1.trace AYEMU_CHIP_MELODY_PSG_RIGHT_INDEX ticks
      .melody_psg_buffer2 offset nr).map fun r =>
        ({ c1.1 with ayemu := r.1, trace := r.2.1 }, r.2.2)
  else some c1

/-- The `Util_mix` calls at the end of `psg_generate_sync` of `melody_psg.c`. -/
def Melody.mixAll (st : Melody) (count pokeys_count : Nat) : Melody :=
  if pokeys_count = 2 then
    if st.psg_pan = AYEMU_PSG_PAN_ABC then
      let st1 := if st.MELODY_PSG_model ≠ MELODY_PSG_CHIP_NO then
          (st.mix .melody_psg_buffer count pokeys_count 0 2 0).mix .melody_psg_buffer count
            pokeys_count 1 2 1
        else st
      if st1.MELODY_PSG_model2 ≠ MELODY_PSG_CHIP_NO then
        (st1.mix .melody_psg_buffer2 count pokeys_count 0 2 0).mix .melody_psg_buffer2 count
          pokeys_count 1 2 1
      else st1
    else
      let st1 := if st.MELODY_PSG_model ≠ MELODY_PSG_CHIP_NO then
          (st.mix .melody_psg_buffer count pokeys_count 0 1 0).mix .melody_psg_buffer count
            pokeys_count 1 1 0
        else st
      if st1.MELODY_PSG_model2 ≠ MELODY_PSG_CHIP_NO then
        (st1.mix .melody_psg_buffer2 count pokeys_count 0 1 0).mix .melody_psg_buffer2 count
          pokeys_count 1 1 0
      else st1
  else
    let st1 := if st.MELODY_PSG_model ≠ MELODY_PSG_CHIP_NO then
        st.mix .melody_psg_buffer count pokeys_count 0 1 0
      else st
    if st1.MELODY_PSG_model2 ≠ MELODY_PSG_CHIP_NO then
      st1.mix .melody_psg_buffer2 count pokeys_count 0 1 0
    else st1

/-- Source: `psg_generate_sync` of `melody_psg.c`, with the final locals. -/
def Melody.psg_generate_sync (alib : AyemuLib) (fuel : Nat) (st : Melody)
    (buffer_size num_ticks sndn : Nat) : Option (SyncResult Melody) :=
  if st.MELODY_PSG_enable ≠ 0
      ∧ (st.MELODY_PSG_model ≠ MELODY_PSG_CHIP_NO
        ∨ st.MELODY_PSG_model2 ≠ MELODY_PSG_CHIP_NO) then
    let pokeys_count := pokeysCount st.num_pokeys
    let sample_size := sampleSize st.bit16 st.num_pokeys
    let samples_count := samplesCount st.bit16 st.num_pokeys buffer_size sndn
    let m := modf (st.psg_ticks + (num_ticks : ℚ) * st.psg_ticks_per_tick)
    let ticks : Int := m.2
    (if ticks > 0 then Melody.calc alib st ticks 0 samples_count else some (st, 0)).bind
      fun c1 =>
    (overclockLoop (fun w t c => Melody.calc alib w t c 1) st.psg_ticks_per_tick samples_count
      fuel c1.1 m.1 c1.2 0).bind fun l =>
    let st2 := { l.1 with psg_ticks := l.2.1 - (l.2.2.2 : ℚ) * l.1.psg_ticks_per_tick }
    let count := l.2.2.1
    if count > 0 then
      some ⟨st2.mixAll count pokeys_count, samples_count, count, l.2.2.2,
        u32 (count * sample_size)⟩
    else some ⟨st2, samples_count, count, l.2.2.2, 0⟩
  else some ⟨st, 0, 0, 0, 0⟩

/-- Source: `MELODY_PSG_GenerateSync`: `sndn` is returned. -/
def MELODY_PSG_GenerateSync (alib : AyemuLib) (fuel : Nat) (st : Melody)
    (buffer_size num_ticks sndn : Nat) : Option (Melody × Nat) :=
  (Melody.psg_generate_sync alib fuel st buffer_size num_ticks sndn).map fun r => (r.st, sndn)

/-- The values of the globals of `slightsid.c` at program start (lines 39-68). -/
def SlightSID.start {S : Type} : SlightSID S :=
  { SLIGHTSID_version := SLIGHTSID_NO
    SLIGHTSID_clock_freq := 0
    sid_model := RESID_SID_MODEL_8580
    main_freq := 0
    bit16 := 0
    num_pokeys := 0
    dsprate := 0
    ticks_per_sample := 0
    sid_ticks_per_sample := 0
    slightsid_buffer := none
    slightsid_buffer2 := none
    slightsid_buffer_length := 0
    sid_ticks_per_tick := 0
    sid_ticks := 0
    config := 0x84
    ntsc := false
    parallel := false
    reset := false
    resid := { sid := fun _ => none, RESID_resample_method := 0 }
    trace := [] }

/-- The values of the globals of `melody_psg.c` at program start (lines 42-77). -/
def Melody.start : Melody :=
  { MELODY_PSG_enable := 0
    MELODY_PSG_model := MELODY_PSG_CHIP_AY
    MELODY_PSG_model2 := MELODY_PSG_CHIP_AY
    MELODY_PSG_clock_freq := 0
    chip_base_addr := 0x00
    device_index := 0x00
    main_freq := 0
    bit16 := 0
    num_pokeys := 0
    dsprate := 0
    ticks_per_sample := 0
    psg_pan := 0
    psg_ticks_per_sample := 0
    psg_buffer := none
    psg_buffer2 := none
    psg_buffer_length := 0
    psg_ticks_per_tick := 0
    psg_ticks := 0
    psg_register := 0x00
    psg_register2 := 0x00
    config := 0x00
    reset := false
    mhz2 := false
    div2 := false
    gnd := false
    scl := false
    sda := false
    ayemu := { psg := fun _ => none, reg := fun _ => none }
    trace := [] }

/-- A libayemu stand-in: allocation yields zeroed memory, configuration calls
record nothing, `ayemu_gen_sound` fills the whole request. -/
def plainAyemu : AyemuLib :=
  { malloc_chip :=
      { table := fun _ => 0, type := 0, ChipFreq := 0, eq := fun _ => 0, regs_tone_a := 0,
        regs_tone_b := 0, regs_tone_c := 0, regs_noise := 0, regs_R7_tone_a := 0,
        regs_R7_tone_b := 0, regs_R7_tone_c := 0, regs_R7_noise_a := 0, regs_R7_noise_b := 0,
        regs_R7_noise_c := 0, regs_vol_a := 0, regs_vol_b := 0, regs_vol_c := 0,
        regs_env_a := 0, regs_env_b := 0, regs_env_c := 0, regs_env_freq := 0,
        regs_env_style := 0, sndfmt_freq := 0, sndfmt_channels := 0, sndfmt_bpc := 0,
        magic := 0, default_chip_flag := 0, default_stereo_flag := 0,
        default_sound_format_flag := 0, dirty := 0, bit_a := 0, bit_b := 0, bit_c := 0,
        bit_n := 0, cnt_a := 0, cnt_b := 0, cnt_c := 0, cnt_n := 0, cnt_e := 0,
        ChipTacts_per_outcount := 0, Amp_Global := 0, vols := fun _ _ => 0, EnvNum := 0,
        env_pos := 0, Cur_Seed := 0 }
    malloc_regs := fun _ => 0
    ayemu_init := fun c => c
    ayemu_set_chip_type := fun c t => { c with type := t }
    ayemu_set_chip_freq := fun c f => { c with ChipFreq := f }
    ayemu_set_stereo := fun c _ => c
    ayemu_set_sound_format := fun c f ch b =>
      { c with sndfmt_freq := f, sndfmt_channels := ch, sndfmt_bpc := b }
    ayemu_set_regs := fun c _ => c
    ayemu_reset := fun c => c
    ayemu_gen_sound := fun c bytes => (c, bytes / 2) }

/-! ## Save-state streams

`StateSav_SaveINT/UWORD/UBYTE(ptr, n)` appends, and `StateSav_ReadINT/UWORD/UBYTE(ptr, n)`
consumes, one field of `n` elements of the given kind (`statesav.h`, outside
the repository).  A field is recorded with its kind, the variable or structure
member it is stored in, and its element count.  `X_StateSave_fields v` lists
the fields that `X_StateSave` emits when the discriminant of the card is `v`;
`X_StateRead_fields v` lists the fields that `X_StateRead` consumes when the
discriminant it has read from the stream is `v`. -/

/-- The element kind of a save-state field. -/
inductive FieldKind
  | INT | UWORD | UBYTE
  deriving DecidableEq, Repr

/-- One save-state field. -/
structure Field where
  kind : FieldKind
  name : String
  count : Nat
  deriving DecidableEq, Repr

/-- Source: `SIDARI_StateSave`, the fields it emits. -/
def SIDARI_StateSave_fields (v : Int) : List Field :=
  [⟨.INT, "SIDARI_version", 1⟩] ++
  (if v ≠ SIDARI_NO then
      [⟨.INT, "SIDARI_slot", 1⟩,
       ⟨.UBYTE, "sid_register", 0x20⟩,
       ⟨.UBYTE, "bus_value", 1⟩,
       ⟨.INT, "bus_value_ttl", 1⟩,
       ⟨.INT, "accumulator", 3⟩,
       ⟨.INT, "shift_register", 3⟩,
       ⟨.UWORD, "rate_counter", 3⟩,
       ⟨.UWORD, "rate_counter_period", 3⟩,
       ⟨.UWORD, "exponential_counter", 3⟩,
       ⟨.UWORD, "exponential_counter_period", 3⟩,
       ⟨.UBYTE, "envelope_counter", 3⟩,
       ⟨.UBYTE, "envelope_state", 3⟩,
       ⟨.UBYTE, "hold_zero", 3⟩] ++
      (if v = SIDARI_STEREO then
          [⟨.UBYTE, "sid_register", 0x20⟩,
           ⟨.UBYTE, "bus_value", 1⟩,
           ⟨.INT, "bus_value_ttl", 1⟩,
           ⟨.INT, "accumulator", 3⟩,
           ⟨.INT, "shift_register", 3⟩,
           ⟨.UWORD, "rate_counter", 3⟩,
           ⟨.UWORD, "rate_counter_period", 3⟩,
           ⟨.UWORD, "exponential_counter", 3⟩,
           ⟨.UWORD, "exponential_counter_period", 3⟩,
           ⟨.UBYTE, "envelope_counter", 3⟩,
           ⟨.UBYTE, "envelope_state", 3⟩,
           ⟨.UBYTE, "hold_zero", 3⟩]
        else
          [])
    else
      [])

/-- Source: `SIDARI_StateRead`, the fields it consumes. -/
def SIDARI_StateRead_fields (v : Int) : List Field :=
  [⟨.INT, "SIDARI_version", 1⟩] ++
  (if v ≠ SIDARI_NO then
      [⟨.INT, "SIDARI_slot", 1⟩,
       ⟨.UBYTE, "sid_register", 0x20⟩,
       ⟨.UBYTE, "bus_value", 1⟩,
       ⟨.INT, "bus_value_ttl", 1⟩,
       ⟨.INT, "accumulator", 3⟩,
       ⟨.INT, "shift_register", 3⟩,
       ⟨.UWORD, "rate_counter", 3⟩,
       ⟨.UWORD, "rate_counter_period", 3⟩,
       ⟨.UWORD, "exponential_counter", 3⟩,
       ⟨.UWORD, "exponential_counter_period", 3⟩,
       ⟨.UBYTE, "envelope_counter", 3⟩,
       ⟨.UBYTE, "envelope_state", 3⟩,
       ⟨.UBYTE, "hold_zero", 3⟩] ++
      (if v = SIDARI_STEREO then
          [⟨.UBYTE, "sid_register", 0x20⟩,
           ⟨.UBYTE, "bus_value", 1⟩,
           ⟨.INT, "bus_value_ttl", 1⟩,
           ⟨.INT, "accumulator", 3⟩,
           ⟨.INT, "shift_register", 3⟩,
           ⟨.UWORD, "rate_counter", 3⟩,
           ⟨.UWORD, "rate_counter_period", 3⟩,
           ⟨.UWORD, "exponential_counter", 3⟩,
           ⟨.UWORD, "exponential_counter_period", 3⟩,
           ⟨.UBYTE, "envelope_counter", 3⟩,
           ⟨.UBYTE, "envelope_state", 3⟩,
           ⟨.UBYTE, "hold_zero", 3⟩]
        else
          [])
    else
      [])

/-- Source: `SLIGHTSID_StateSave`, the fields it emits. -/
def SLIGHTSID_StateSave_fields (v : Int) : List Field :=
  [⟨.INT, "SLIGHTSID_version", 1⟩] ++
  (if v ≠ SLIGHTSID_NO then
      [⟨.UBYTE, "sid_register", 0x20⟩,
       ⟨.UBYTE, "bus_value", 1⟩,
       ⟨.INT, "bus_value_ttl", 1⟩,
       ⟨.INT, "accumulator", 3⟩,
       ⟨.INT, "shift_register", 3⟩,
       ⟨.UWORD, "rate_counter", 3⟩,
       ⟨.UWORD, "rate_counter_period", 3⟩,
       ⟨.UWORD, "exponential_counter", 3⟩,
       ⟨.UWORD, "exponential_counter_period", 3⟩,
       ⟨.UBYTE, "envelope_counter", 3⟩,
       ⟨.UBYTE, "envelope_state", 3⟩,
       ⟨.UBYTE, "hold_zero", 3⟩] ++
      (if v = SLIGHTSID_STEREO then
          [⟨.UBYTE, "config", 1⟩,
           ⟨.UBYTE, "sid_register", 0x20⟩,
           ⟨.UBYTE, "bus_value", 1⟩,
           ⟨.INT, "bus_value_ttl", 1⟩,
           ⟨.INT, "accumulator", 3⟩,
           ⟨.INT, "shift_register", 3⟩,
           ⟨.UWORD, "rate_counter", 3⟩,
           ⟨.UWORD, "rate_counter_period", 3⟩,
           ⟨.UWORD, "exponential_counter", 3⟩,
           ⟨.UWORD, "exponential_counter_period", 3⟩,
           ⟨.UBYTE, "envelope_counter", 3⟩,
           ⟨.UBYTE, "envelope_state", 3⟩,
           ⟨.UBYTE, "hold_zero", 3⟩]
        else
          [])
    else
      [])

/-- Source: `SLIGHTSID_StateRead`, the fields it consumes. -/
def SLIGHTSID_StateRead_fields (v : Int) : List Field :=
  [⟨.INT, "SLIGHTSID_version", 1⟩] ++
  (if v ≠ SLIGHTSID_NO then
      [⟨.UBYTE, "sid_register", 0x20⟩,
       ⟨.UBYTE, "bus_value", 1⟩,
       ⟨.INT, "bus_value_ttl", 1⟩,
       ⟨.INT, "accumulator", 3⟩,
       ⟨.INT, "shift_register", 3⟩,
       ⟨.UWORD, "rate_counter", 3⟩,
       ⟨.UWORD, "rate_counter_period", 3⟩,
       ⟨.UWORD, "exponential_counter", 3⟩,
       ⟨.UWORD, "exponential_counter_period", 3⟩,
       ⟨.UBYTE, "envelope_counter", 3⟩,
       ⟨.UBYTE, "envelope_state", 3⟩,
       ⟨.UBYTE, "hold_zero", 3⟩] ++
      (if v = SLIGHTSID_STEREO then
          [⟨.UBYTE, "config", 1⟩,
           ⟨.UBYTE, "sid_register", 0x20⟩,
           ⟨.UBYTE, "bus_value", 1⟩,
           ⟨.INT, "bus_value_ttl", 1⟩,
           ⟨.INT, "accumulator", 3⟩,
           ⟨.INT, "shift_register", 3⟩,
           ⟨.UWORD, "rate_counter", 3⟩,
           ⟨.UWORD, "rate_counter_period", 3⟩,
           ⟨.UWORD, "exponential_counter", 3⟩,
           ⟨.UWORD, "exponential_counter_period", 3⟩,
           ⟨.UBYTE, "envelope_counter", 3⟩,
           ⟨.UBYTE, "envelope_state", 3⟩,
           ⟨.UBYTE, "hold_zero", 3⟩]
        else
          [])
    else
      [])

/-- Source: `SONARI_StateSave`, the fields it emits. -/
def SONARI_StateSave_fields (v : Int) : List Field :=
  [⟨.INT, "SONARI_version", 1⟩] ++
  (if v ≠ SONARI_NO then
      [⟨.INT, "SONARI_slot", 1⟩,
       ⟨.INT, "SONARI_model", 1⟩,
       ⟨.INT, "table", 32⟩,
       ⟨.INT, "type", 1⟩,
       ⟨.INT, "chip_freq", 1⟩,
       ⟨.INT, "eq", 6⟩,
       ⟨.INT, "tone_a", 1⟩,
       ⟨.INT, "tone_b", 1⟩,
       ⟨.INT, "tone_c", 1⟩,
       ⟨.INT, "noise", 1⟩,
       ⟨.INT, "R7_tone_a", 1⟩,
       ⟨.INT, "R7_tone_b", 1⟩,
       ⟨.INT, "R7_tone_c", 1⟩,
       ⟨.INT, "R7_noise_a", 1⟩,
       ⟨.INT, "R7_noise_b", 1⟩,
       ⟨.INT, "R7_noise_c", 1⟩,
       ⟨.INT, "vol_a", 1⟩,
       ⟨.INT, "vol_b", 1⟩,
       ⟨.INT, "vol_c", 1⟩,
       ⟨.INT, "env_a", 1⟩,
       ⟨.INT, "env_b", 1⟩,
       ⟨.INT, "env_c", 1⟩,
       ⟨.INT, "env_freq", 1⟩,
       ⟨.INT, "env_style", 1⟩,
       ⟨.INT, "freq", 1⟩,
       ⟨.INT, "channels", 1⟩,
       ⟨.INT, "bpc", 1⟩,
       ⟨.INT, "magic", 1⟩,
       ⟨.INT, "default_chip_flag", 1⟩,
       ⟨.INT, "default_stereo_flag", 1⟩,
       ⟨.INT, "default_sound_format_flag", 1⟩,
       ⟨.INT, "dirty", 1⟩,
       ⟨.INT, "bit_a", 1⟩,
       ⟨.INT, "bit_b", 1⟩,
       ⟨.INT, "bit_c", 1⟩,
       ⟨.INT, "bit_n", 1⟩,
       ⟨.INT, "cnt_a", 1⟩,
       ⟨.INT, "cnt_b", 1⟩,
       ⟨.INT, "cnt_c", 1⟩,
       ⟨.INT, "cnt_n", 1⟩,
       ⟨.INT, "cnt_e", 1⟩,
       ⟨.INT, "chip_tacts_per_outcount", 1⟩,
       ⟨.INT, "amp_global", 1⟩,
       ⟨.INT, "vols", 6*32⟩,
       ⟨.INT, "env_num", 1⟩,
       ⟨.INT, "env_pos", 1⟩,
       ⟨.INT, "cur_seed", 1⟩,
       ⟨.UBYTE, "regs", 14⟩,
       ⟨.UBYTE, "psg_register", 1⟩] ++
      (if v = SONARI_STEREO then
          [⟨.INT, "SONARI_model2", 1⟩,
           ⟨.INT, "table", 32⟩,
           ⟨.INT, "type", 1⟩,
           ⟨.INT, "chip_freq", 1⟩,
           ⟨.INT, "eq", 6⟩,
           ⟨.INT, "tone_a", 1⟩,
           ⟨.INT, "tone_b", 1⟩,
           ⟨.INT, "tone_c", 1⟩,
           ⟨.INT, "noise", 1⟩,
           ⟨.INT, "R7_tone_a", 1⟩,
           ⟨.INT, "R7_tone_b", 1⟩,
           ⟨.INT, "R7_tone_c", 1⟩,
           ⟨.INT, "R7_noise_a", 1⟩,
           ⟨.INT, "R7_noise_b", 1⟩,
           ⟨.INT, "R7_noise_c", 1⟩,
           ⟨.INT, "vol_a", 1⟩,
           ⟨.INT, "vol_b", 1⟩,
           ⟨.INT, "vol_c", 1⟩,
           ⟨.INT, "env_a", 1⟩,
           ⟨.INT, "env_b", 1⟩,
           ⟨.INT, "env_c", 1⟩,
           ⟨.INT, "env_freq", 1⟩,
           ⟨.INT, "env_style", 1⟩,
           ⟨.INT, "freq", 1⟩,
           ⟨.INT, "channels", 1⟩,
           ⟨.INT, "bpc", 1⟩,
           ⟨.INT, "magic", 1⟩,
           ⟨.INT, "default_chip_flag", 1⟩,
           ⟨.INT, "default_stereo_flag", 1⟩,
           ⟨.INT, "default_sound_format_flag", 1⟩,
           ⟨.INT, "dirty", 1⟩,
           ⟨.INT, "bit_a", 1⟩,
           ⟨.INT, "bit_b", 1⟩,
           ⟨.INT, "bit_c", 1⟩,
           ⟨.INT, "bit_n", 1⟩,
           ⟨.INT, "cnt_a", 1⟩,
           ⟨.INT, "cnt_b", 1⟩,
           ⟨.INT, "cnt_c", 1⟩,
           ⟨.INT, "cnt_n", 1⟩,
           ⟨.INT, "cnt_e", 1⟩,
           ⟨.INT, "chip_tacts_per_outcount", 1⟩,
           ⟨.INT, "amp_global", 1⟩,
           ⟨.INT, "vols", 6*32⟩,
           ⟨.INT, "env_num", 1⟩,
           ⟨.INT, "env_pos", 1⟩,
           ⟨.INT, "cur_seed", 1⟩,
           ⟨.UBYTE, "regs", 14⟩,
           ⟨.UBYTE, "psg_register2", 1⟩]
        else
          [])
    else
      [])

/-- Source: `SONARI_StateRead`, the fields it consumes. -/
def SONARI_StateRead_fields (v : Int) : List Field :=
  [⟨.INT, "SONARI_version", 1⟩] ++
  (if v ≠ SONARI_NO then
      [⟨.INT, "SONARI_slot", 1⟩,
       ⟨.INT, "SONARI_model", 1⟩,
       ⟨.INT, "table", 32⟩,
       ⟨.INT, "type", 1⟩,
       ⟨.INT, "chip_freq", 1⟩,
       ⟨.INT, "eq", 6⟩,
       ⟨.INT, "tone_a", 1⟩,
       ⟨.INT, "tone_b", 1⟩,
       ⟨.INT, "tone_c", 1⟩,
       ⟨.INT, "noise", 1⟩,
       ⟨.INT, "R7_tone_a", 1⟩,
       ⟨.INT, "R7_tone_b", 1⟩,
       ⟨.INT, "R7_tone_c", 1⟩,
       ⟨.INT, "R7_noise_a", 1⟩,
       ⟨.INT, "R7_noise_b", 1⟩,
       ⟨.INT, "R7_noise_c", 1⟩,
       ⟨.INT, "vol_a", 1⟩,
       ⟨.INT, "vol_b", 1⟩,
       ⟨.INT, "vol_c", 1⟩,
       ⟨.INT, "env_a", 1⟩,
       ⟨.INT, "env_b", 1⟩,
       ⟨.INT, "env_c", 1⟩,
       ⟨.INT, "env_freq", 1⟩,
       ⟨.INT, "env_style", 1⟩,
       ⟨.INT, "freq", 1⟩,
       ⟨.INT, "channels", 1⟩,
       ⟨.INT, "bpc", 1⟩,
       ⟨.INT, "magic", 1⟩,
       ⟨.INT, "default_chip_flag", 1⟩,
       ⟨.INT, "default_stereo_flag", 1⟩,
       ⟨.INT, "default_sound_format_flag", 1⟩,
       ⟨.INT, "dirty", 1⟩,
       ⟨.INT, "bit_a", 1⟩,
       ⟨.INT, "bit_b", 1⟩,
       ⟨.INT, "bit_c", 1⟩,
       ⟨.INT, "bit_n", 1⟩,
       ⟨.INT, "cnt_a", 1⟩,
       ⟨.INT, "cnt_b", 1⟩,
       ⟨.INT, "cnt_c", 1⟩,
       ⟨.INT, "cnt_n", 1⟩,
       ⟨.INT, "cnt_e", 1⟩,
       ⟨.INT, "chip_tacts_per_outcount", 1⟩,
       ⟨.INT, "amp_global", 1⟩,
       ⟨.INT, "vols", 6*32⟩,
       ⟨.INT, "env_num", 1⟩,
       ⟨.INT, "env_pos", 1⟩,
       ⟨.INT, "cur_seed", 1⟩,
       ⟨.UBYTE, "regs", 14⟩,
       ⟨.UBYTE, "psg_register", 1⟩] ++
      (if v = SONARI_STEREO then
          [⟨.INT, "SONARI_model2", 1⟩,
           ⟨.INT, "table", 32⟩,
           ⟨.INT, "type", 1⟩,
           ⟨.INT, "chip_freq", 1⟩,
           ⟨.INT, "eq", 6⟩,
           ⟨.INT, "tone_a", 1⟩,
           ⟨.INT, "tone_b", 1⟩,
           ⟨.INT, "tone_c", 1⟩,
           ⟨.INT, "noise", 1⟩,
           ⟨.INT, "R7_tone_a", 1⟩,
           ⟨.INT, "R7_tone_b", 1⟩,
           ⟨.INT, "R7_tone_c", 1⟩,
           ⟨.INT, "R7_noise_a", 1⟩,
           ⟨.INT, "R7_noise_b", 1⟩,
           ⟨.INT, "R7_noise_c", 1⟩,
           ⟨.INT, "vol_a", 1⟩,
           ⟨.INT, "vol_b", 1⟩,
           ⟨.INT, "vol_c", 1⟩,
           ⟨.INT, "env_a", 1⟩,
           ⟨.INT, "env_b", 1⟩,
           ⟨.INT, "env_c", 1⟩,
           ⟨.INT, "env_freq", 1⟩,
           ⟨.INT, "env_style", 1⟩,
           ⟨.INT, "freq", 1⟩,
           ⟨.INT, "channels", 1⟩,
           ⟨.INT, "bpc", 1⟩,
           ⟨.INT, "magic", 1⟩,
           ⟨.INT, "default_chip_flag", 1⟩,
           ⟨.INT, "default_stereo_flag", 1⟩,
           ⟨.INT, "default_sound_format_flag", 1⟩,
           ⟨.INT, "dirty", 1⟩,
           ⟨.INT, "bit_a", 1⟩,
           ⟨.INT, "bit_b", 1⟩,
           ⟨.INT, "bit_c", 1⟩,
           ⟨.INT, "bit_n", 1⟩,
           ⟨.INT, "cnt_a", 1⟩,
           ⟨.INT, "cnt_b", 1⟩,
           ⟨.INT, "cnt_c", 1⟩,
           ⟨.INT, "cnt_n", 1⟩,
           ⟨.INT, "cnt_e", 1⟩,
           ⟨.INT, "chip_tacts_per_outcount", 1⟩,
           ⟨.INT, "amp_global", 1⟩,
           ⟨.INT, "vols", 6*32⟩,
           ⟨.INT, "env_num", 1⟩,
           ⟨.INT, "env_pos", 1⟩,
           ⟨.INT, "cur_seed", 1⟩,
           ⟨.UBYTE, "regs", 14⟩,
           ⟨.UBYTE, "psg_register2", 1⟩]
        else
          [])
    else
      [])

/-- Source: `YAMARI_StateSave`, the fields it emits. -/
def YAMARI_StateSave_fields (v : Int) : List Field :=
  [⟨.INT, "YAMARI_enable", 1⟩] ++
  (if v ≠ 0 then
      [⟨.INT, "YAMARI_slot", 1⟩]
    else
      [])

/-- Source: `YAMARI_StateRead`, the fields it consumes. -/
def YAMARI_StateRead_fields (v : Int) : List Field :=
  [⟨.INT, "YAMARI_enable", 1⟩] ++
  (if v ≠ 0 then
      [⟨.INT, "YAMARI_slot", 1⟩]
    else
      [])

/-- Evie 2.0 after `EVIE_Init` on a PAL machine (main clock 1773447 Hz,
44100 Hz playback, one output channel, 8-bit samples). -/
def eviePal : Option (Evie Nat) :=
  EVIE_Init eagerSID plainAyemu Atari800.pal Evie.start 1773447 44100 1 0

/-- The PSG table after `AYEMU_open` of Evie's chip on an empty table. -/
def ayemuOpened : AYEMU :=
  AYEMU_open plainAyemu { psg := fun _ => none, reg := fun _ => none } AYEMU_CHIP_EVIE_INDEX

/-- Source: `YAMARI_StateRead`.  `enable` and `slot` are the values of the two
fields read from the stream; `opl3_state` is the content of the local variable
of that name, which the function passes on without having stored into it. -/
def YAMARI_StateRead {A : Type} (lib : AdlibLib A) (env : Atari800) (st : YAMari A)
    (enable slot : Int) (opl3_state : YMF262_State) : YAMari A :=
  let st1 := { st with YAMARI_enable := enable }
  if st1.YAMARI_enable ≠ 0 then
    let st2 := { st1 with YAMARI_slot := slot }
    yamari_initialize lib env st2 st2.main_freq st2.dsprate st2.num_pokeys st2.bit16
      (some opl3_state)
  else
    yamari_initialize lib env st1 st1.main_freq st1.dsprate st1.num_pokeys st1.bit16 none

/-- YAMari on a PAL machine with the value 0x21 in FM register 0x20. -/
def yamariPlaying : YAMari Nat :=
  { yamariPal 1 with
    ymf := { (yamariPal 1).ymf with
      opl := { (yamariPal 1).ymf.opl with adlibreg := fun i => if i = 0x20 then 0x21 else 0 } } }

/-- Source: `SIDARI_Reset`. -/
def SIDARI_Reset {S : Type} (lib : SIDClass S) (env : Atari800) (st : SIDari S) :
    Option (SIDari S) :=
  sidari_initialize lib env st st.main_freq st.dsprate st.num_pokeys st.bit16 none none

/-- Source: `SIDARI_StateRead`.  `version` and `slot` are the values of the two
`INT` fields read from the stream, `state` and `state2` the chip snapshots
assembled from the remaining fields. -/
def SIDARI_StateRead {S : Type} (lib : SIDClass S) (env : Atari800) (st : SIDari S)
    (version slot : Int) (state state2 : RESID_State) : Option (SIDari S) :=
  let st1 := { st with SIDARI_version := version }
  if st1.SIDARI_version ≠ SIDARI_NO then
    let st2 := { st1 with SIDARI_slot := slot }
    if st2.SIDARI_version = SIDARI_STEREO then
      sidari_initialize lib env st2 st2.main_freq st2.dsprate st2.num_pokeys st2.bit16
        (some state) (some state2)
    else
      sidari_initialize lib env st2 st2.main_freq st2.dsprate st2.num_pokeys st2.bit16
        (some state) none
  else
    sidari_initialize lib env st1 st1.main_freq st1.dsprate st1.num_pokeys st1.bit16 none none

/-- The open status of the two SIDari chips agrees with the version: the left
chip is open iff the card is enabled, the right chip iff it is stereo. -/
def SIDari.chips_match_version {S : Type} (st : SIDari S) : Prop :=
  (RESID_is_opened st.resid RESID_CHIP_SIDARI_LEFT_INDEX = true ↔ st.SIDARI_version ≠ SIDARI_NO)
  ∧ (RESID_is_opened st.resid RESID_CHIP_SIDARI_RIGHT_INDEX = true
      ↔ st.SIDARI_version = SIDARI_STEREO)

/-- The open status of Evie's SID chip and PSG chip agrees with the version:
each is open iff the card is enabled. -/
def Evie.chips_match_version {S : Type} (st : Evie S) : Prop :=
  (RESID_is_opened st.resid RESID_CHIP_EVIE_INDEX = true ↔ st.EVIE_version ≠ EVIE_NO)
  ∧ (AYEMU_is_opened st.ayemu AYEMU_CHIP_EVIE_INDEX = true ↔ st.EVIE_version ≠ EVIE_NO)

/-- SIDari after `sidari_initialize` on a PAL machine with two output channels
(main clock 1773447 Hz, 44100 Hz playback, 8-bit samples). -/
def sidariPalTwoChannels (version : Int) : Option (SIDari Nat) :=
  sidari_initialize eagerSID Atari800.pal
    { (SIDari.start : SIDari Nat) with SIDARI_version := version } 1773447 44100 2 0 none none

/-- The frame rate of the emulated machine:
`Atari800_tv_mode == Atari800_TV_PAL ? Atari800_FPS_PAL : Atari800_FPS_NTSC`. -/
def Atari800.fps (env : Atari800) : ℚ :=
  if env.Atari800_tv_mode = env.Atari800_TV_PAL then env.Atari800_FPS_PAL
  else env.Atari800_FPS_NTSC

/-- The `unsigned int ticks_per_frame = Atari800_tv_mode*ANTIC_LINE_C` of the
initialization functions. -/
def Atari800.ticks_per_frame (env : Atari800) : Nat :=
  u32OfInt (env.Atari800_tv_mode * env.ANTIC_LINE_C)

/-! ## Register access (`X_D2GetByte`, `X_D5GetByte`, `X_D2PutByte`, `X_D5PutByte`)

The handlers are compiled with `SYNCHRONIZED_SOUND` defined, so every
`POKEYSND_UpdateX()` in them is a call.  A handler that hands a read to an
engine adapter returns `none` when the adapter dereferences a `NULL` chip. -/

/-- The cast `(UBYTE)` of an `int`. -/
def ubyte (i : Int) : Nat := (i % 256).toNat

/-- Source: the table `signature` of `evie.c` (`'E', 'v', 'i', 'e'`, zero-filled
to five elements). -/
def Evie.signature : Nat → Int
  | 0 => 0x45
  | 1 => 0x76
  | 2 => 0x69
  | 3 => 0x65
  | _ => 0

/-- Source: `EVIE_D2GetByte`. -/
def EVIE_D2GetByte {S : Type} (lib : SIDClass S) (st : Evie S) (addr : Nat)
    (_no_side_effects : Int) : Option Int :=
  if st.EVIE_version ≠ EVIE_NO ∧ addr ≥ 0xd280 then
    let offset := addr &&& 0x3f
    if offset ≤ 0x1f then
      if offset ≥ 0x19 ∧ offset ≤ 0x1c then
        (RESID_read lib st.resid RESID_CHIP_EVIE_INDEX (offset - 0x00)).map Int.ofNat
      else some 0x33
    else if offset ≤ 0x2f then
      (AYEMU_read st.ayemu AYEMU_CHIP_EVIE_INDEX (offset - 0x20)).map Int.ofNat
    else if offset = 0x30 then
      (AYEMU_read st.ayemu AYEMU_CHIP_EVIE_INDEX (st.psg_register &&& 0x0f)).map Int.ofNat
    else if offset = 0x31 then some (st.psg_register : Int)
    else if offset ≥ 0x3a ∧ offset ≤ 0x3e then
      if offset < 0x3e then some (Evie.signature (offset - 0x3a))
      else some (if st.EVIE_version = EVIE_2_0 then 0x20 else 0x10)
    else if offset = 0x3f then some (st.config : Int)
    else some 0xff
  else some 0xff

/-- Source: `EVIE_D5GetByte` (the `#else` branch of `#if FALSE`). -/
def EVIE_D5GetByte {S : Type} (lib : SIDClass S) (st : Evie S) (addr : Nat)
    (_no_side_effects : Int) : Option Int :=
  if st.EVIE_version ≠ EVIE_NO ∧ st.sid_d5 = true then
    let offset := addr &&& 0xffbf
    if offset ≤ 0xd51f then
      if offset ≥ 0xd519 ∧ offset ≤ 0xd51c then
        (RESID_read lib st.resid RESID_CHIP_EVIE_INDEX (ubyte ((offset : Int) - 0xd500))).map
          Int.ofNat
      else some 0x33
    else some 0xff
  else some 0xff

/-- Source: `EVIE_D5PutByte`. -/
def EVIE_D5PutByte {S : Type} (lib : SIDClass S) (flush : Evie S → Evie S) (st : Evie S)
    (addr byte : Nat) : Option (Evie S) :=
  if st.EVIE_version ≠ EVIE_NO ∧ st.sid_d5 = true then
    let address := addr &&& 0xffbf
    if address ≤ 0xd51f then
      Evie.sid_write lib (Evie.update flush st) (ubyte ((address : Int) - 0xd500)) byte
    else some st
  else some st

/-- Source: `EVIE_D67PutByte`; the COVOX writes are commented out in the source,
only the flushes remain. -/
def EVIE_D67PutByte {S : Type} (flush : Evie S → Evie S) (st : Evie S) (addr _byte : Nat) :
    Evie S :=
  if st.EVIE_version ≠ EVIE_NO then
    let base_addr : Int := st.EVIE_covox_page * 0x100
    if (addr : Int) ≤ base_addr + 3 then Evie.update flush st
    else if (addr : Int) ≤ base_addr + 7 then Evie.update flush st
    else st
  else st

/-- The flush `POKEYSND_UpdateSIDari()`: the call is recorded and the effect of
the external function on the card, `flush`, is applied. -/
def SIDari.update {S : Type} (flush : SIDari S → SIDari S) (st : SIDari S) : SIDari S :=
  flush { st with trace := st.trace ++ [Event.POKEYSND_Update Card.SIDari] }

/-- The call `RESID_write(sid_index, addr, byte)` from `sidari.c`. -/
def SIDari.sid_write {S : Type} (lib : SIDClass S) (st : SIDari S) (sid_index addr byte : Nat) :
    Option (SIDari S) :=
  (RESID_write lib st.resid sid_index addr byte).map fun r =>
    { st with resid := r, trace := st.trace ++ [Event.RESID_write sid_index addr byte] }

/-- Source: `SIDARI_D5PutByte`. -/
def SIDARI_D5PutByte {S : Type} (lib : SIDClass S) (flush : SIDari S → SIDari S)
    (st : SIDari S) (addr byte : Nat) : Option (SIDari S) :=
  let base_address : Int := 0xd500 + 0x20 * st.SIDARI_slot
  if st.SIDARI_version = SIDARI_MONO then
    if (addr : Int) ≥ base_address ∧ (addr : Int) ≤ base_address + 0x18 then
      SIDari.sid_write lib (SIDari.update flush st) RESID_CHIP_SIDARI_LEFT_INDEX
        (ubyte ((addr : Int) - base_address)) byte
    else some st
  else if st.SIDARI_version = SIDARI_STEREO then
    if (addr : Int) ≥ base_address ∧ (addr : Int) ≤ base_address + 0x18 then
      SIDari.sid_write lib (SIDari.update flush st) RESID_CHIP_SIDARI_LEFT_INDEX
        (ubyte ((addr : Int) - base_address)) byte
    else if (addr : Int) ≥ base_address + 0x20 ∧ (addr : Int) ≤ base_address + 0x38 then
      SIDari.sid_write lib (SIDari.update flush st) RESID_CHIP_SIDARI_RIGHT_INDEX
        (ubyte ((addr : Int) - (base_address + 0x20))) byte
    else some st
  else some st

/-- Source: `update_config` of `slightsid.c`. -/
def SlightSID.update_config {S : Type} (st : SlightSID S) (byte : Nat) : SlightSID S :=
  { st with
    config := byte
    ntsc := decide (byte &&& 0x01 ≠ 0)
    parallel := decide (byte &&& 0x02 ≠ 0)
    reset := decide (byte &&& 0x04 = 0) }

/-- Source: `slightsid_initialize`.  A scratch buffer is recorded by its
capacity in samples. -/
def slightsid_initialize {S : Type} (lib : SIDClass S) (env : Atari800) (st : SlightSID S)
    (freq17 : Nat) (playback_freq n_pokeys b16 : Int)
    (state state2 : Option RESID_State) : Option (SlightSID S) :=
  let r0 := RESID_close (RESID_close st.resid RESID_CHIP_SLIGHTSID_LEFT_INDEX)
    RESID_CHIP_SLIGHTSID_RIGHT_INDEX
  let st0 := { st with resid := r0, slightsid_buffer := none, slightsid_buffer2 := none }
  if st0.SLIGHTSID_version ≠ SLIGHTSID_NO then
    let SLIGHTSID_clock_freq : ℚ :=
      if st0.SLIGHTSID_version = SLIGHTSID_STEREO ∧ st0.ntsc = true then 14318182 / 14
      else 17734475 / 18
    let surplus_ticks : Nat := ceilU32 (SLIGHTSID_clock_freq / playback_freq)
    let samples_per_frame : ℚ := (playback_freq : ℚ) /
      (if env.Atari800_tv_mode = env.Atari800_TV_PAL then env.Atari800_FPS_PAL
       else env.Atari800_FPS_NTSC)
    let ticks_per_frame : Nat := u32OfInt (env.Atari800_tv_mode * env.ANTIC_LINE_C)
    let max_ticks_per_frame : Nat := u32 (ticks_per_frame + surplus_ticks)
    let ticks_per_sample : ℚ := (ticks_per_frame : ℚ) / samples_per_frame
    let sid_ticks_per_sample : ℚ := SLIGHTSID_clock_freq / (playback_freq : ℚ)
    let slightsid_buffer_length : Nat :=
      ceilU32 ((max_ticks_per_frame : ℚ) / ticks_per_sample)
    let st1 := { st0 with
      main_freq := freq17, dsprate := playback_freq, num_pokeys := n_pokeys, bit16 := b16,
      SLIGHTSID_clock_freq := SLIGHTSID_clock_freq, ticks_per_sample := ticks_per_sample,
      sid_ticks_per_sample := sid_ticks_per_sample,
      slightsid_buffer_length := slightsid_buffer_length,
      sid_ticks_per_tick := SLIGHTSID_clock_freq / (freq17 : ℚ), sid_ticks := 0 }
    let r1 := RESID_open lib st1.resid RESID_CHIP_SLIGHTSID_LEFT_INDEX
    (match state with
      | some s => RESID_write_state lib r1 RESID_CHIP_SLIGHTSID_LEFT_INDEX s
      | none => some r1).bind fun r2 =>
    (RESID_init lib r2 RESID_CHIP_SLIGHTSID_LEFT_INDEX SLIGHTSID_clock_freq st1.sid_model
      playback_freq).bind fun r3 =>
    let st2 := { st1 with resid := r3.1, slightsid_buffer := some slightsid_buffer_length }
    if st2.SLIGHTSID_version = SLIGHTSID_STEREO then
      let r4 := RESID_open lib st2.resid RESID_CHIP_SLIGHTSID_RIGHT_INDEX
      (match state2 with
        | some s => RESID_write_state lib r4 RESID_CHIP_SLIGHTSID_RIGHT_INDEX s
        | none => some r4).bind fun r5 =>
      (RESID_init lib r5 RESID_CHIP_SLIGHTSID_RIGHT_INDEX SLIGHTSID_clock_freq st2.sid_model
        playback_freq).bind fun r6 =>
      some { st2 with resid := r6.1, slightsid_buffer2 := some slightsid_buffer_length }
    else some st2
  else some st0

/-- Source: `SLIGHTSID_D5GetByte`. -/
def SLIGHTSID_D5GetByte {S : Type} (st : SlightSID S) (addr : Nat) (_no_side_effects : Int) :
    Int :=
  if st.SLIGHTSID_version = SLIGHTSID_MONO then
    if addr ≤ 0xd57f then 0x33 else 0xff
  else if st.SLIGHTSID_version = SLIGHTSID_STEREO then
    if addr ≤ 0xd53f then 0x33
    else if addr = 0xd540 then 0xff
    else if addr = 0xd541 then (st.config : Int)
    else 0xff
  else 0xff

/-- Source: `is_parity_even`: starting from 1, the eight bits of `byte` are
folded in with exclusive or. -/
def is_parity_even (byte : Nat) : Bool :=
  decide ((List.range 8).foldl (fun p i => p ^^^ ((byte >>> i) &&& 1)) 1 ≠ 0)

/-- The flush `POKEYSND_UpdateSlightSID()`. -/
def SlightSID.update {S : Type} (flush : SlightSID S → SlightSID S) (st : SlightSID S) :
    SlightSID S :=
  flush { st with trace := st.trace ++ [Event.POKEYSND_Update Card.SlightSID] }

/-- The call `RESID_write(sid_index, addr, byte)` from `slightsid.c`. -/
def SlightSID.sid_write {S : Type} (lib : SIDClass S) (st : SlightSID S)
    (sid_index addr byte : Nat) : Option (SlightSID S) :=
  (RESID_write lib st.resid sid_index addr byte).map fun r =>
    { st with resid := r, trace := st.trace ++ [Event.RESID_write sid_index addr byte] }

/-- Source: `SLIGHTSID_D5PutByte`. -/
def SLIGHTSID_D5PutByte {S : Type} (lib : SIDClass S) (env : Atari800)
    (flush : SlightSID S → SlightSID S) (st : SlightSID S) (addr byte : Nat) :
    Option (SlightSID S) :=
  if st.SLIGHTSID_version = SLIGHTSID_MONO then
    let offset := addr &&& 0xff9f
    if offset ≤ 0xd518 then
      SlightSID.sid_write lib (SlightSID.update flush st) RESID_CHIP_SLIGHTSID_LEFT_INDEX
        (ubyte ((offset : Int) - 0xd500)) byte
    else some st
  else if st.SLIGHTSID_version = SLIGHTSID_STEREO then
    if addr ≤ 0xd518 ∧ st.reset = false then
      (SlightSID.sid_write lib (SlightSID.update flush st) RESID_CHIP_SLIGHTSID_LEFT_INDEX
        (ubyte ((addr : Int) - 0xd500)) byte).bind fun st1 =>
      if st1.parallel = true then
        SlightSID.sid_write lib st1 RESID_CHIP_SLIGHTSID_RIGHT_INDEX
          (ubyte ((addr : Int) - 0xd500)) byte
      else some st1
    else if addr ≥ 0xd520 ∧ addr ≤ 0xd538 ∧ st.reset = false then
      let st1 := SlightSID.update flush st
      (if st1.parallel = true then
          SlightSID.sid_write lib st1 RESID_CHIP_SLIGHTSID_LEFT_INDEX
            (ubyte ((addr : Int) - 0xd520)) byte
        else some st1).bind fun st2 =>
      SlightSID.sid_write lib st2 RESID_CHIP_SLIGHTSID_RIGHT_INDEX
        (ubyte ((addr : Int) - 0xd520)) byte
    else if addr = 0xd540 then some st
    else if addr = 0xd541 then
      if is_parity_even byte = true then
        let st1 := SlightSID.update flush st
        (RESID_read_state lib st1.resid RESID_CHIP_SLIGHTSID_LEFT_INDEX).bind fun state =>
        (RESID_read_state lib st1.resid RESID_CHIP_SLIGHTSID_RIGHT_INDEX).bind fun state2 =>
        let st2 := st1.update_config byte
        slightsid_initialize lib env st2 st2.main_freq st2.dsprate st2.num_pokeys st2.bit16
          (some state) (some state2)
      else some st
    else some st
  else some st

/-- Source: `SONARI_D5GetByte`; `'S'` is 0x53 and `'N'` is 0x4e. -/
def SONARI_D5GetByte (st : SONari) (addr : Nat) (_no_side_effects : Int) : Option Int :=
  if st.SONARI_version ≠ SONARI_NO then
    let base_address : Int := 0xd500 + 0x20 * st.SONARI_slot
    if (addr : Int) ≥ base_address ∧ (addr : Int) ≤ base_address + 1 then
      if st.SONARI_model ≠ SONARI_CHIP_NO then
        if (addr : Int) = base_address then
          if st.psg_register &&& 0x0f ≤ 0x0d then
            (AYEMU_read st.ayemu AYEMU_CHIP_SONARI_LEFT_INDEX (st.psg_register &&& 0x0f)).map
              Int.ofNat
          else if st.psg_register &&& 0x0f = 0x0e then
            some (((0x53 ||| (if st.SONARI_model = SONARI_CHIP_AY then 0x80 else 0x00) : Nat)
              : Int))
          else if st.psg_register &&& 0x0f = 0x0f then some 0x4e
          else some 0xff
        else if (addr : Int) = base_address + 1 then some (st.psg_register : Int)
        else some 0xff
      else some 0xff
    else if st.SONARI_version = SONARI_STEREO
        ∧ (addr : Int) ≥ base_address ∧ (addr : Int) ≤ base_address + 3 then
      if st.SONARI_model2 ≠ SONARI_CHIP_NO then
        if (addr : Int) = base_address + 2 then
          if st.psg_register2 &&& 0x0f ≤ 0x0d then
            (AYEMU_read st.ayemu AYEMU_CHIP_SONARI_RIGHT_INDEX (st.psg_register2 &&& 0x0f)).map
              Int.ofNat
          else if st.psg_register2 &&& 0x0f = 0x0e then
            some (((0x53 ||| (if st.SONARI_model2 = SONARI_CHIP_AY then 0x80 else 0x00) : Nat)
              : Int))
          else if st.psg_register2 &&& 0x0f = 0x0f then some 0x4e
          else some 0xff
        else if (addr : Int) = base_address + 3 then some (st.psg_register2 : Int)
        else some 0xff
      else some 0xff
    else some 0xff
  else some 0xff

/-- The flush `POKEYSND_UpdateSONari()`. -/
def SONari.update (flush : SONari → SONari) (st : SONari) : SONari :=
  flush { st with trace := st.trace ++ [Event.POKEYSND_Update Card.SONari] }

/-- The call `AYEMU_write(psg_index, addr, byte)` from `sonari.c`. -/
def SONari.psg_write (alib : AyemuLib) (st : SONari) (psg_index addr byte : Nat) :
    Option SONari :=
  (AYEMU_write alib st.ayemu psg_index addr byte).map fun a =>
    { st with ayemu := a, trace := st.trace ++ [Event.AYEMU_write psg_index addr byte] }

/-- Source: `SONARI_D5PutByte`. -/
def SONARI_D5PutByte (alib : AyemuLib) (flush : SONari → SONari) (st : SONari)
    (addr byte : Nat) : Option SONari :=
  if st.SONARI_version ≠ SONARI_NO then
    let base_address : Int := 0xd500 + 0x20 * st.SONARI_slot
    if (addr : Int) ≥ base_address ∧ (addr : Int) ≤ base_address + 1 then
      if st.SONARI_model ≠ SONARI_CHIP_NO then
        if (addr : Int) = base_address + 0 then some { st with psg_register := byte }
        else if (addr : Int) = base_address + 1 then
          let st1 := SONari.update flush st
          SONari.psg_write alib st1 AYEMU_CHIP_SONARI_LEFT_INDEX (st1.psg_register &&& 0x0f) byte
        else some st
      else some st
    else if st.SONARI_version = SONARI_STEREO
        ∧ (addr : Int) ≥ base_address ∧ (addr : Int) ≤ base_address + 3 then
      if st.SONARI_model2 ≠ SONARI_CHIP_NO then
        if (addr : Int) = base_address + 2 then some { st with psg_register2 := byte }
        else if (addr : Int) = base_address + 3 then
          let st1 := SONari.update flush st
          SONari.psg_write alib st1 AYEMU_CHIP_SONARI_RIGHT_INDEX (st1.psg_register2 &&& 0x0f)
            byte
        else some st
      else some st
    else some st
  else some st

/-- Source: `YMF262_read`. -/
def YMF262_read {A : Type} (lib : AdlibLib A) (y : YMF262 A) (_opl3_index : Nat) (tick : ℚ) :
    YMF262 A × Nat :=
  let r := lib.adlib_reg_read y.opl 0 tick
  ({ y with opl := r.1 }, r.2)

/-- Source: `YMF262_write`; `opl_index` is the index latch of the emulator. -/
def YMF262_write {A : Type} (lib : AdlibLib A) (y : YMF262 A) (_opl3_index : Nat)
    (addr byte : Nat) (tick : ℚ) : YMF262 A :=
  if addr &&& 1 ≠ 0 then { y with opl := lib.adlib_write y.opl y.opl.opl_index byte tick }
  else { y with opl := lib.adlib_write_index y.opl addr byte }

/-- Source: `YAMARI_InSlot`; the C result 1/0 is rendered as a `Bool`. -/
def YAMARI_InSlot {A : Type} (st : YAMari A) (addr : Nat) : Bool :=
  let base_address : Int := 0xD500 + 0x20 * st.YAMARI_slot
  decide (st.YAMARI_enable ≠ 0)
    && decide ((addr : Int) ≥ base_address)
    && decide ((addr : Int) ≤ base_address + 3)

/-- Source: `YAMARI_D5GetByte`; `ANTIC_CPU_CLOCK` is the cycle counter of
`antic.h`, taken as a parameter.  The read goes through the emulator, whose new
state is returned next to the byte. -/
def YAMARI_D5GetByte {A : Type} (lib : AdlibLib A) (ANTIC_CPU_CLOCK : Nat) (st : YAMari A)
    (addr : Nat) (_no_side_effects : Int) : YAMari A × Int :=
  if st.YAMARI_enable ≠ 0 then
    let base_address : Int := 0xd500 + 0x20 * st.YAMARI_slot
    if (addr : Int) = base_address then
      let tick : ℚ := st.opl3_ticks_per_tick * (ANTIC_CPU_CLOCK : ℚ)
      let r := YMF262_read lib st.ymf YMF262_CHIP_YAMARI_INDEX tick
      ({ st with ymf := r.1 }, (r.2 : Int))
    else (st, 0xff)
  else (st, 0xff)

/-- The flush `POKEYSND_UpdateYAMari()`. -/
def YAMari.update {A : Type} (flush : YAMari A → YAMari A) (st : YAMari A) : YAMari A :=
  flush { st with trace := st.trace ++ [Event.POKEYSND_Update Card.YAMari] }

/-- Source: `YAMARI_D5PutByte`; `chip_addr` is a `UWORD`. -/
def YAMARI_D5PutByte {A : Type} (lib : AdlibLib A) (ANTIC_CPU_CLOCK : Nat)
    (flush : YAMari A → YAMari A) (st : YAMari A) (addr byte : Nat) : YAMari A :=
  if st.YAMARI_enable ≠ 0 then
    let base_address : Int := 0xd500 + 0x20 * st.YAMARI_slot
    if (addr : Int) ≥ base_address ∧ (addr : Int) ≤ base_address + 3 then
      let chip_addr : Nat := (((addr : Int) - base_address) % 65536).toNat
      let tick : ℚ := st.opl3_ticks_per_tick * (ANTIC_CPU_CLOCK : ℚ)
      let st1 := YAMari.update flush st
      { st1 with
        ymf := YMF262_write lib st1.ymf YMF262_CHIP_YAMARI_INDEX chip_addr byte tick
        trace := st1.trace ++ [Event.YMF262_write YMF262_CHIP_YAMARI_INDEX chip_addr byte] }
    else st
  else st

/-- Source: `update_config` of `melody_psg.c`. -/
def Melody.update_config (st : Melody) (byte : Nat) : Melody :=
  { st with
    config := byte
    reset := decide (byte &&& 0x80 ≠ 0)
    mhz2 := decide (byte &&& 0x40 ≠ 0)
    div2 := decide (byte &&& 0x20 ≠ 0)
    gnd := decide (byte &&& 0x04 ≠ 0)
    scl := decide (byte &&& 0x02 ≠ 0)
    sda := decide (byte &&& 0x01 ≠ 0) }

/-- The PSG model handed to `AYEMU_init` by `melody_psg.c`. -/
def Melody.psg_model (model : Int) : Int :=
  if model = MELODY_PSG_CHIP_AY then AYEMU_PSG_MODEL_AY else AYEMU_PSG_MODEL_YM

/-- Source: `melody_initialize`.  A scratch buffer is recorded by its capacity
in 16-bit words. -/
def melody_initialize (alib : AyemuLib) (env : Atari800) (st : Melody)
    (freq17 : Nat) (playback_freq n_pokeys b16 : Int)
    (psg_state psg_state2 : Option AYEMU_State) : Option Melody :=
  let a0 := AYEMU_close (AYEMU_close st.ayemu AYEMU_CHIP_MELODY_PSG_LEFT_INDEX)
    AYEMU_CHIP_MELODY_PSG_RIGHT_INDEX
  let st0 := { st with ayemu := a0, psg_buffer := none, psg_buffer2 := none }
  if st0.MELODY_PSG_enable ≠ 0 then
    let base_clock : ℚ := if env.Atari800_tv_mode = env.Atari800_TV_PAL then 1773447 else 1789790
    let samples_per_frame : ℚ := (playback_freq : ℚ) /
      (if env.Atari800_tv_mode = env.Atari800_TV_PAL then env.Atari800_FPS_PAL
       else env.Atari800_FPS_NTSC)
    let ticks_per_frame : Nat := u32OfInt (env.Atari800_tv_mode * env.ANTIC_LINE_C)
    let ticks_per_sample : ℚ := (ticks_per_frame : ℚ) / samples_per_frame
    let MELODY_PSG_clock_freq : ℚ := base_clock
    let psg_pan : Int := if n_pokeys = 2 then AYEMU_PSG_PAN_ABC else AYEMU_PSG_PAN_MONO
    let psg_surplus_ticks : Nat := ceilU32 (MELODY_PSG_clock_freq / playback_freq)
    let psg_max_ticks_per_frame : Nat := u32 (ticks_per_frame + psg_surplus_ticks)
    let psg_ticks_per_sample : ℚ := MELODY_PSG_clock_freq / (playback_freq : ℚ)
    let psg_buffer_length : Nat := ceilU32 ((psg_max_ticks_per_frame : ℚ) / ticks_per_sample)
    let st1 := { st0 with
      main_freq := freq17, dsprate := playback_freq, num_pokeys := n_pokeys, bit16 := b16,
      ticks_per_sample := ticks_per_sample, MELODY_PSG_clock_freq := MELODY_PSG_clock_freq,
      psg_pan := psg_pan, psg_ticks_per_sample := psg_ticks_per_sample,
      psg_buffer_length := psg_buffer_length,
      psg_ticks_per_tick := MELODY_PSG_clock_freq / (freq17 : ℚ), psg_ticks := 0 }
    let a1 := AYEMU_open alib st1.ayemu AYEMU_CHIP_MELODY_PSG_LEFT_INDEX
    (match psg_state with
      | some s => AYEMU_write_state a1 AYEMU_CHIP_MELODY_PSG_LEFT_INDEX s
      | none => some a1).bind fun a2 =>
    (AYEMU_init alib a2 AYEMU_CHIP_MELODY_PSG_LEFT_INDEX MELODY_PSG_clock_freq
      (Melody.psg_model st1.MELODY_PSG_model) psg_pan playback_freq).bind fun a3 =>
    let a4 := AYEMU_open alib a3 AYEMU_CHIP_MELODY_PSG_RIGHT_INDEX
    (match psg_state2 with
      | some s => AYEMU_write_state a4 AYEMU_CHIP_MELODY_PSG_RIGHT_INDEX s
      | none => some a4).bind fun a5 =>
    (AYEMU_init alib a5 AYEMU_CHIP_MELODY_PSG_RIGHT_INDEX MELODY_PSG_clock_freq
      (Melody.psg_model st1.MELODY_PSG_model2) psg_pan playback_freq).bind fun a6 =>
    some { st1 with
      ayemu := a6
      psg_buffer := some (psg_buffer_length * (if n_pokeys = 2 then 2 else 1))
      psg_buffer2 := some (psg_buffer_length * (if n_pokeys = 2 then 2 else 1)) }
  else some st0

/-- Source: `MELODY_PSG_InSlot`; the C result 1/0 is rendered as a `Bool`. -/
def MELODY_PSG_InSlot (st : Melody) (addr : Nat) : Bool :=
  let base_address : Nat := 0xd500
  decide (st.MELODY_PSG_enable ≠ 0)
    && ((decide (addr ≥ base_address + st.chip_base_addr)
          && decide (addr ≤ base_address + st.chip_base_addr + 3))
        || (decide (addr ≥ base_address + 0xd8) && decide (addr ≤ base_address + 0xdf)))

/-- Source: the table `psg_signature` of `melody_psg.c` (`'P', 'S', 'G', 0x02`). -/
def Melody.psg_signature : Nat → Int
  | 0 => 0x50
  | 1 => 0x53
  | 2 => 0x47
  | _ => 0x02

/-- Source: `MELODY_PSG_D5GetByte`; `'M'` is 0x4d.  `result` is assigned in
source order. -/
def MELODY_PSG_D5GetByte (st : Melody) (addr : Nat) (_no_side_effects : Int) : Option Int :=
  if st.MELODY_PSG_enable ≠ 0 then
    let base_address : Nat := 0xd500
    (if st.device_index = MELODY_PSG_DEVICE then
        if addr ≥ base_address + st.chip_base_addr
            ∧ addr ≤ base_address + st.chip_base_addr + 3 then
          (if st.MELODY_PSG_model ≠ MELODY_PSG_CHIP_NO then
              if addr = base_address + st.chip_base_addr then
                (AYEMU_read st.ayemu AYEMU_CHIP_MELODY_PSG_LEFT_INDEX
                  (st.psg_register &&& 0x0f)).map Int.ofNat
              else if addr = base_address + st.chip_base_addr + 1 then
                some (st.psg_register : Int)
              else some 0xff
            else some 0xff).bind fun result =>
          if st.MELODY_PSG_model2 ≠ MELODY_PSG_CHIP_NO then
            if addr = base_address + st.chip_base_addr + 2 then
              (AYEMU_read st.ayemu AYEMU_CHIP_MELODY_PSG_RIGHT_INDEX
                (st.psg_register2 &&& 0x0f)).map Int.ofNat
            else if addr = base_address + st.chip_base_addr + 3 then
              some (st.psg_register2 : Int)
            else some result
          else some result
        else if addr ≥ base_address + 0xd8 ∧ addr ≤ base_address + 0xdb then
          some (Melody.psg_signature (addr - (base_address + 0xd8)))
        else some 0xff
      else some 0xff).bind fun result =>
    if addr = base_address + 0xdf then some 0x4d else some result
  else some 0xff

/-- The flush `POKEYSND_UpdateMelody()`. -/
def Melody.update (flush : Melody → Melody) (st : Melody) : Melody :=
  flush { st with trace := st.trace ++ [Event.POKEYSND_Update Card.Melody] }

/-- The call `AYEMU_write(psg_index, addr, byte)` from `melody_psg.c`. -/
def Melody.psg_write (alib : AyemuLib) (st : Melody) (psg_index addr byte : Nat) :
    Option Melody :=
  (AYEMU_write alib st.ayemu psg_index addr byte).map fun a =>
    { st with ayemu := a, trace := st.trace ++ [Event.AYEMU_write psg_index addr byte] }

/-- Source: `MELODY_PSG_D5PutByte`; the statements run in source order, each on
the globals as the previous one left them. -/
def MELODY_PSG_D5PutByte (alib : AyemuLib) (env : Atari800) (flush : Melody → Melody)
    (st : Melody) (addr byte : Nat) : Option Melody :=
  if st.MELODY_PSG_enable ≠ 0 then
    let base_address : Nat := 0xd500
    (if st.device_index = MELODY_PSG_DEVICE then
        if addr ≥ base_address + st.chip_base_addr
            ∧ addr ≤ base_address + st.chip_base_addr + 3 ∧ st.reset = false then
          (if st.MELODY_PSG_model ≠ MELODY_PSG_CHIP_NO then
              if addr = base_address + st.chip_base_addr then
                some { st with psg_register := byte }
              else if addr = base_address + st.chip_base_addr + 1 then
                let st1 := Melody.update flush st
                Melody.psg_write alib st1 AYEMU_CHIP_MELODY_PSG_LEFT_INDEX
                  (st1.psg_register &&& 0x0f) byte
              else some st
            else some st).bind fun st2 =>
          if st2.MELODY_PSG_model2 ≠ MELODY_PSG_CHIP_NO then
            if addr = base_address + st2.chip_base_addr + 2 then
              some { st2 with psg_register2 := byte }
            else if addr = base_address + st2.chip_base_addr + 3 then
              let st3 := Melody.update flush st2
              Melody.psg_write alib st3 AYEMU_CHIP_MELODY_PSG_RIGHT_INDEX
                (st3.psg_register2 &&& 0x0f) byte
            else some st2
          else some st2
        else if addr = base_address + 0xdc then
          some { st with chip_base_addr := byte &&& 0xe0 }
        else if addr = base_address + 0xdd then
          let st1 := Melody.update flush st
          (AYEMU_read_state st1.ayemu AYEMU_CHIP_MELODY_PSG_LEFT_INDEX).bind fun psg_state =>
          (AYEMU_read_state st1.ayemu AYEMU_CHIP_MELODY_PSG_RIGHT_INDEX).bind fun psg_state2 =>
          let st2 := st1.update_config byte
          melody_initialize alib env st2 st2.main_freq st2.dsprate st2.num_pokeys st2.bit16
            (some psg_state) (some psg_state2)
        else some st
      else some st).bind fun st4 =>
    if addr = base_address + 0xdf then some { st4 with device_index := byte } else some st4
  else some st

/-- The events a handler call appended to the trace `old` begin with the flush
of card `c`: `new_ = old ++ POKEYSND_Update c :: rest`. -/
def FlushFirst (c : Card) (old new_ : List Event) : Prop :=
  ∃ rest, new_ = old ++ Event.POKEYSND_Update c :: rest

/-- The external flush function only appends to the trace of boundary calls
(it runs the synchronized generator of the card). -/
def AppendsOnly {W : Type} (trace : W → List Event) (flush : W → W) : Prop :=
  ∀ s, ∃ extra, trace (flush s) = trace s ++ extra

/-- SlightSID after `slightsid_initialize` on a PAL machine (main clock
1773447 Hz, 44100 Hz playback, one output channel, 8-bit samples). -/
def slightsidPal (version : Int) : Option (SlightSID Nat) :=
  slightsid_initialize eagerSID Atari800.pal
    { (SlightSID.start : SlightSID Nat) with SLIGHTSID_version := version }
    1773447 44100 1 0 none none

/-- The PSG model handed to `AYEMU_init` by `sonari.c`. -/
def SONari.psg_model (model : Int) : Int :=
  if model = SONARI_CHIP_AY then AYEMU_PSG_MODEL_AY else AYEMU_PSG_MODEL_YM

/-- Source: `sonari_initialize`.  A scratch buffer is recorded by its capacity
in 16-bit words. -/
def sonari_initialize (alib : AyemuLib) (env : Atari800) (st : SONari)
    (freq17 : Nat) (playback_freq n_pokeys b16 : Int)
    (psg_state psg_state2 : Option AYEMU_State) : Option SONari :=
  let a0 := AYEMU_close (AYEMU_close st.ayemu AYEMU_CHIP_SONARI_LEFT_INDEX)
    AYEMU_CHIP_SONARI_RIGHT_INDEX
  let st0 := { st with ayemu := a0, psg_buffer := none, psg_buffer2 := none }
  if st0.SONARI_version ≠ SONARI_NO then
    let base_clock : ℚ := if env.Atari800_tv_mode = env.Atari800_TV_PAL then 1773447 else 1789790
    let samples_per_frame : ℚ := (playback_freq : ℚ) /
      (if env.Atari800_tv_mode = env.Atari800_TV_PAL then env.Atari800_FPS_PAL
       else env.Atari800_FPS_NTSC)
    let ticks_per_frame : Nat := u32OfInt (env.Atari800_tv_mode * env.ANTIC_LINE_C)
    let ticks_per_sample : ℚ := (ticks_per_frame : ℚ) / samples_per_frame
    let SONARI_clock_freq : ℚ := base_clock
    let psg_pan : Int := if n_pokeys = 2 then AYEMU_PSG_PAN_ABC else AYEMU_PSG_PAN_MONO
    let psg_surplus_ticks : Nat := ceilU32 (SONARI_clock_freq / playback_freq)
    let psg_max_ticks_per_frame : Nat := u32 (ticks_per_frame + psg_surplus_ticks)
    let psg_ticks_per_sample : ℚ := SONARI_clock_freq / (playback_freq : ℚ)
    let psg_buffer_length : Nat := ceilU32 ((psg_max_ticks_per_frame : ℚ) / ticks_per_sample)
    let st1 := { st0 with
      main_freq := freq17, dsprate := playback_freq, num_pokeys := n_pokeys, bit16 := b16,
      ticks_per_sample := ticks_per_sample, SONARI_clock_freq := SONARI_clock_freq,
      psg_pan := psg_pan, psg_ticks_per_sample := psg_ticks_per_sample,
      psg_buffer_length := psg_buffer_length,
      psg_ticks_per_tick := SONARI_clock_freq / (freq17 : ℚ), psg_ticks := 0 }
    let a1 := AYEMU_open alib st1.ayemu AYEMU_CHIP_SONARI_LEFT_INDEX
    (match psg_state with
      | some s => AYEMU_write_state a1 AYEMU_CHIP_SONARI_LEFT_INDEX s
      | none => some a1).bind fun a2 =>
    (AYEMU_init alib a2 AYEMU_CHIP_SONARI_LEFT_INDEX SONARI_clock_freq
      (SONari.psg_model st1.SONARI_model) psg_pan playback_freq).bind fun a3 =>
    let st2 := { st1 with
      ayemu := a3, psg_buffer := some (psg_buffer_length * (if n_pokeys = 2 then 2 else 1)) }
    if st2.SONARI_version = SONARI_STEREO then
      let a4 := AYEMU_open alib st2.ayemu AYEMU_CHIP_SONARI_RIGHT_INDEX
      (match psg_state2 with
        | some s => AYEMU_write_state a4 AYEMU_CHIP_SONARI_RIGHT_INDEX s
        | none => some a4).bind fun a5 =>
      (AYEMU_init alib a5 AYEMU_CHIP_SONARI_RIGHT_INDEX SONARI_clock_freq
        (SONari.psg_model st2.SONARI_model2) psg_pan playback_freq).bind fun a6 =>
      some { st2 with
        ayemu := a6
        psg_buffer2 := some (psg_buffer_length * (if n_pokeys = 2 then 2 else 1)) }
    else some st2
  else some st0

/-- SONari after `sonari_initialize` on a PAL machine (main clock 1773447 Hz,
44100 Hz playback, one output channel, 8-bit samples), both chips AY. -/
def sonariPal (version : Int) : Option SONari :=
  sonari_initialize plainAyemu Atari800.pal { SONari.start with SONARI_version := version }
    1773447 44100 1 0 none none

/-- What the register handlers of SONari need from the external flush: it
keeps the version, the model and the slot, the register-select latch of chip
1, the stored register files, and which chips are allocated. -/
def SONari.FlushKeepsRegisters (flush : SONari → SONari) : Prop :=
  ∀ s, (flush s).SONARI_version = s.SONARI_version
    ∧ (flush s).SONARI_model = s.SONARI_model
    ∧ (flush s).SONARI_slot = s.SONARI_slot
    ∧ (flush s).psg_register = s.psg_register
    ∧ (flush s).ayemu.reg = s.ayemu.reg
    ∧ ∀ i, ((flush s).ayemu.psg i).isSome = (s.ayemu.psg i).isSome

/-- Source: `MELODY_PSG_Reset`. -/
def MELODY_PSG_Reset (alib : AyemuLib) (env : Atari800) (st : Melody) : Option Melody :=
  let st1 :=
    if st.MELODY_PSG_enable ≠ 0 then
      { (Melody.update_config { st with chip_base_addr := 0x00 } 0x00) with
        psg_register := 0x00, psg_register2 := 0x00 }
    else st
  melody_initialize alib env st1 st1.main_freq st1.dsprate st1.num_pokeys st1.bit16 none none

/-- The two entry points of `melody_psg.c` that a running program reaches after
start-up: a store into the `$D5xx` page (`addr`, and the `UBYTE` argument
`byte`) and a machine reset. -/
inductive MelodyOp where
  | put (addr byte : Nat)
  | reset
  deriving DecidableEq, Repr

/-- One call of `MELODY_PSG_D5PutByte` or `MELODY_PSG_Reset`. -/
def Melody.step (alib : AyemuLib) (env : Atari800) (flush : Melody → Melody) (st : Melody) :
    MelodyOp → Option Melody
  | MelodyOp.put addr byte => MELODY_PSG_D5PutByte alib env flush st addr byte
  | MelodyOp.reset => MELODY_PSG_Reset alib env st

/-- A sequence of calls, run in order from `st`. -/
def Melody.run (alib : AyemuLib) (env : Atari800) (flush : Melody → Melody) (st : Melody) :
    List MelodyOp → Option Melody
  | [] => some st
  | op :: ops => (Melody.step alib env flush st op).bind fun st1 =>
      Melody.run alib env flush st1 ops

/-- The loop of `generate_samples` of `sidari.c`:
```
while (buflen > 0) {
    ticks = buflen * sid_ticks_per_sample;
    count = RESID_calculate_sample(LEFT, ticks, sidari_buffer + amount, buflen);
    if (SIDARI_version == SIDARI_STEREO)
        RESID_calculate_sample(RIGHT, ticks, sidari_buffer2 + amount, buflen);
    amount += count;
    buflen -= count;
}
```
The result is the final world and `amount`. -/
def SIDari.generate_loop {S : Type} (lib : SIDClass S) :
    Nat → SIDari S → Nat → Nat → Option (SIDari S × Nat)
  | fuel, st, buflen, amount =>
    if buflen > 0 then
      match fuel with
      | 0 => none
      | fuel + 1 =>
        let ticks : Int := truncQ ((buflen : ℚ) * st.sid_ticks_per_sample)
        match SIDari.calc lib st ticks amount buflen with
        | none => none
        | some (st1, count) =>
          SIDari.generate_loop lib fuel st1 (u32OfInt ((buflen : Int) - (count : Int)))
            (u32 (amount + count))
    else some (st, amount)

/-- Source: `generate_samples` of `sidari.c`.  The mixer gets the global
`num_pokeys` itself; the result is the final world and the number of bytes by
which the returned pointer lies beyond `sndbuffer`. -/
def SIDari.generate_samples {S : Type} (lib : SIDClass S) (fuel : Nat) (st : SIDari S)
    (samples : Int) : Option (SIDari S × Nat) :=
  let buflen : Nat :=
    if u32OfInt samples > st.sidari_buffer_length then st.sidari_buffer_length
    else u32OfInt samples
  (if st.SIDARI_version ≠ SIDARI_STEREO then SIDari.generate_loop lib fuel st buflen 0
    else some (st, 0)).map fun l =>
  let amount := l.2
  let pokeys := u32OfInt l.1.num_pokeys
  let st2 :=
    if amount > 0 then
      let st3 := l.1.mix .sidari_buffer amount pokeys 0 1 0
      if st3.num_pokeys = 2 then
        if st3.SIDARI_version = SIDARI_STEREO then
          st3.mix .sidari_buffer2 amount pokeys 1 1 0
        else st3.mix .sidari_buffer amount pokeys 1 1 0
      else
        if st3.SIDARI_version = SIDARI_STEREO then
          st3.mix .sidari_buffer2 amount pokeys 0 1 0
        else st3
    else l.1
  (st2, amount * (if st2.bit16 ≠ 0 then 2 else 1) * (if st2.num_pokeys = 2 then 2 else 1))

/-- Source: `SIDARI_Process`; `samples_count` is an `unsigned int` handed to
the `int` parameter of `generate_samples`. -/
def SIDARI_Process {S : Type} (lib : SIDClass S) (fuel : Nat) (st : SIDari S) (sndn : Int) :
    Option (SIDari S) :=
  if st.SIDARI_version ≠ SIDARI_NO then
    let sample_size : Nat := if st.num_pokeys = 2 then 2 else 1
    let samples_count : Nat := u32OfInt sndn / sample_size
    (SIDari.generate_samples lib fuel st (samples_count : Int)).map Prod.fst
  else some st

/-- Source: `EVIE_StateSave`, the fields it emits. -/
def EVIE_StateSave_fields (v : Int) : List Field :=
  [⟨.INT, "EVIE_version", 1⟩] ++
  (if v ≠ EVIE_NO then
      [⟨.UBYTE, "sid_register", 0x20⟩,
       ⟨.UBYTE, "bus_value", 1⟩,
       ⟨.INT, "bus_value_ttl", 1⟩,
       ⟨.INT, "accumulator", 3⟩,
       ⟨.INT, "shift_register", 3⟩,
       ⟨.UWORD, "rate_counter", 3⟩,
       ⟨.UWORD, "rate_counter_period", 3⟩,
       ⟨.UWORD, "exponential_counter", 3⟩,
       ⟨.UWORD, "exponential_counter_period", 3⟩,
       ⟨.UBYTE, "envelope_counter", 3⟩,
       ⟨.UBYTE, "envelope_state", 3⟩,
       ⟨.UBYTE, "hold_zero", 3⟩,
       ⟨.INT, "table", 32⟩,
       ⟨.INT, "type", 1⟩,
       ⟨.INT, "chip_freq", 1⟩,
       ⟨.INT, "eq", 6⟩,
       ⟨.INT, "tone_a", 1⟩,
       ⟨.INT, "tone_b", 1⟩,
       ⟨.INT, "tone_c", 1⟩,
       ⟨.INT, "noise", 1⟩,
       ⟨.INT, "R7_tone_a", 1⟩,
       ⟨.INT, "R7_tone_b", 1⟩,
       ⟨.INT, "R7_tone_c", 1⟩,
       ⟨.INT, "R7_noise_a", 1⟩,
       ⟨.INT, "R7_noise_b", 1⟩,
       ⟨.INT, "R7_noise_c", 1⟩,
       ⟨.INT, "vol_a", 1⟩,
       ⟨.INT, "vol_b", 1⟩,
       ⟨.INT, "vol_c", 1⟩,
       ⟨.INT, "env_a", 1⟩,
       ⟨.INT, "env_b", 1⟩,
       ⟨.INT, "env_c", 1⟩,
       ⟨.INT, "env_freq", 1⟩,
       ⟨.INT, "env_style", 1⟩,
       ⟨.INT, "freq", 1⟩,
       ⟨.INT, "channels", 1⟩,
       ⟨.INT, "bpc", 1⟩,
       ⟨.INT, "magic", 1⟩,
       ⟨.INT, "default_chip_flag", 1⟩,
       ⟨.INT, "default_stereo_flag", 1⟩,
       ⟨.INT, "default_sound_format_flag", 1⟩,
       ⟨.INT, "dirty", 1⟩,
       ⟨.INT, "bit_a", 1⟩,
       ⟨.INT, "bit_b", 1⟩,
       ⟨.INT, "bit_c", 1⟩,
       ⟨.INT, "bit_n", 1⟩,
       ⟨.INT, "cnt_a", 1⟩,
       ⟨.INT, "cnt_b", 1⟩,
       ⟨.INT, "cnt_c", 1⟩,
       ⟨.INT, "cnt_n", 1⟩,
       ⟨.INT, "cnt_e", 1⟩,
       ⟨.INT, "chip_tacts_per_outcount", 1⟩,
       ⟨.INT, "amp_global", 1⟩,
       ⟨.INT, "vols", 6*32⟩,
       ⟨.INT, "env_num", 1⟩,
       ⟨.INT, "env_pos", 1⟩,
       ⟨.INT, "cur_seed", 1⟩,
       ⟨.UBYTE, "regs", 14⟩,
       ⟨.INT, "EVIE_covox_page", 1⟩,
       ⟨.UBYTE, "config", 1⟩]
    else
      [])

/-- Source: `EVIE_StateRead`, the fields it consumes. -/
def EVIE_StateRead_fields (v : Int) : List Field :=
  [⟨.INT, "EVIE_version", 1⟩] ++
  (if v ≠ EVIE_NO then
      [⟨.UBYTE, "sid_register", 0x20⟩,
       ⟨.UBYTE, "bus_value", 1⟩,
       ⟨.INT, "bus_value_ttl", 1⟩,
       ⟨.INT, "accumulator", 3⟩,
       ⟨.INT, "shift_register", 3⟩,
       ⟨.UWORD, "rate_counter", 3⟩,
       ⟨.UWORD, "rate_counter_period", 3⟩,
       ⟨.UWORD, "exponential_counter", 3⟩,
       ⟨.UWORD, "exponential_counter_period", 3⟩,
       ⟨.UBYTE, "envelope_counter", 3⟩,
       ⟨.UBYTE, "envelope_state", 3⟩,
       ⟨.UBYTE, "hold_zero", 3⟩,
       ⟨.INT, "table", 32⟩,
       ⟨.INT, "type", 1⟩,
       ⟨.INT, "chip_freq", 1⟩,
       ⟨.INT, "eq", 6⟩,
       ⟨.INT, "tone_a", 1⟩,
       ⟨.INT, "tone_b", 1⟩,
       ⟨.INT, "tone_c", 1⟩,
       ⟨.INT, "noise", 1⟩,
       ⟨.INT, "R7_tone_a", 1⟩,
       ⟨.INT, "R7_tone_b", 1⟩,
       ⟨.INT, "R7_tone_c", 1⟩,
       ⟨.INT, "R7_noise_a", 1⟩,
       ⟨.INT, "R7_noise_b", 1⟩,
       ⟨.INT, "R7_noise_c", 1⟩,
       ⟨.INT, "vol_a", 1⟩,
       ⟨.INT, "vol_b", 1⟩,
       ⟨.INT, "vol_c", 1⟩,
       ⟨.INT, "env_a", 1⟩,
       ⟨.INT, "env_b", 1⟩,
       ⟨.INT, "env_c", 1⟩,
       ⟨.INT, "env_freq", 1⟩,
       ⟨.INT, "env_style", 1⟩,
       ⟨.INT, "freq", 1⟩,
       ⟨.INT, "channels", 1⟩,
       ⟨.INT, "bpc", 1⟩,
       ⟨.INT, "magic", 1⟩,
       ⟨.INT, "default_chip_flag", 1⟩,
       ⟨.INT, "default_stereo_flag", 1⟩,
       ⟨.INT, "default_sound_format_flag", 1⟩,
       ⟨.INT, "dirty", 1⟩,
       ⟨.INT, "bit_a", 1⟩,
       ⟨.INT, "bit_b", 1⟩,
       ⟨.INT, "bit_c", 1⟩,
       ⟨.INT, "bit_n", 1⟩,
       ⟨.INT, "cnt_a", 1⟩,
       ⟨.INT, "cnt_b", 1⟩,
       ⟨.INT, "cnt_c", 1⟩,
       ⟨.INT, "cnt_n", 1⟩,
       ⟨.INT, "cnt_e", 1⟩,
       ⟨.INT, "chip_tacts_per_outcount", 1⟩,
       ⟨.INT, "amp_global", 1⟩,
       ⟨.INT, "vols", 6*32⟩,
       ⟨.INT, "env_num", 1⟩,
       ⟨.INT, "env_pos", 1⟩,
       ⟨.INT, "cur_seed", 1⟩,
       ⟨.UBYTE, "regs", 14⟩,
       ⟨.INT, "EVIE_covox_page", 1⟩,
       ⟨.UBYTE, "config", 1⟩]
    else
      [])

/-- The values `EVIE_StateSave` writes after `EVIE_version` when the card is
enabled, in stream order: the SID snapshot, the PSG snapshot,
`EVIE_covox_page` and `config`. -/
structure EvieSavedBody where
  sid_state : RESID_State
  psg_state : AYEMU_State
  EVIE_covox_page : Int
  config : Nat

/-- The values of a stream written by `EVIE_StateSave`. -/
structure EvieSaved where
  EVIE_version : Int
  body : Option EvieSavedBody

/-- Source: `EVIE_StateSave`, the values it writes. -/
def EVIE_StateSave {S : Type} (lib : SIDClass S) (st : Evie S) : Option EvieSaved :=
  if st.EVIE_version ≠ EVIE_NO then
    (RESID_read_state lib st.resid RESID_CHIP_EVIE_INDEX).bind fun sid_state =>
    (AYEMU_read_state st.ayemu AYEMU_CHIP_EVIE_INDEX).bind fun psg_state =>
    some
      { EVIE_version := st.EVIE_version
        body := some
          { sid_state := sid_state, psg_state := psg_state,
            EVIE_covox_page := st.EVIE_covox_page, config := st.config } }
  else some { EVIE_version := st.EVIE_version, body := none }

/-- Source: `EVIE_StateRead` on the values of a stream; a stream that ends
after `EVIE_version` although the version is not `EVIE_NO` gives no result. -/
def EVIE_StateRead {S : Type} (lib : SIDClass S) (alib : AyemuLib) (env : Atari800)
    (st : Evie S) (stream : EvieSaved) : Option (Evie S) :=
  let st1 := { st with EVIE_version := stream.EVIE_version }
  if st1.EVIE_version ≠ EVIE_NO then
    match stream.body with
    | none => none
    | some b =>
      let st2 := { st1 with EVIE_covox_page := b.EVIE_covox_page, config := b.config }
      let st3 := st2.update_config st2.config
      evie_initialize lib alib env st3 st3.main_freq st3.dsprate st3.num_pokeys st3.bit16
        (some b.sid_state) (some b.psg_state)
  else
    evie_initialize lib alib env st1 st1.main_freq st1.dsprate st1.num_pokeys st1.bit16
      none none

/-- Evie on the PAL machine after the store of `byte` to offset 0x30 of the
`0xD280` window, which sets the register-select latch. -/
def eviePalSelected (byte : Nat) : Option (Evie Nat) :=
  eviePal.bind fun e => EVIE_D2PutByte eagerSID plainAyemu Atari800.pal id e 0xd2b0 byte

theorem truncQ_nonneg {x : ℚ} (h : 0 ≤ x) : truncQ x = ⌊x⌋ := by
  simp [truncQ, h]

theorem modf_fst_lt_one (x : ℚ) : (modf x).1 < 1 := by
  unfold modf truncQ
  split_ifs with h
  · have := Int.lt_floor_add_one x
    simp only
    linarith
  · have := Int.le_ceil x
    simp only
    linarith

theorem modf_fst_nonneg {x : ℚ} (h : 0 ≤ x) : 0 ≤ (modf x).1 := by
  unfold modf
  rw [truncQ_nonneg h]
  have := Int.floor_le x
  simp only
  linarith

theorem modf_snd_nonneg {x : ℚ} (h : 0 ≤ x) : (modf x).2 = ⌊x⌋ := by
  unfold modf
  rw [truncQ_nonneg h]

/-- Whatever the engine does, a loop that returns leaves a phase below one,
has produced at least `samples_count` samples, keeps every property of the
world that the engine calls keep, and keeps the phase non-negative when the
ratio is. -/
theorem overclockLoop_spec {W : Type} (body : W → Int → Nat → Option (W × Nat))
    (r : ℚ) (sc : Nat) (P : W → Prop)
    (hP : ∀ w t c w1 a, body w t c = some (w1, a) → P w → P w1) :
    ∀ (fuel : Nat) (w : W) (p : ℚ) (c o : Nat) (res : W × ℚ × Nat × Nat),
      overclockLoop body r sc fuel w p c o = some res → P w → p < 1 →
        P res.1 ∧ res.2.1 < 1 ∧ sc ≤ res.2.2.1 ∧ (0 ≤ r → 0 ≤ p → 0 ≤ res.2.1) := by
  intro fuel
  induction fuel with
  | zero =>
    intro w p c o res h hw hp
    unfold overclockLoop at h
    split_ifs at h with hc
    simp only [Option.some.injEq] at h
    subst h
    exact ⟨hw, hp, by simpa using hc, fun _ h0 => h0⟩
  | succ n ih =>
    intro w p c o res h hw hp
    unfold overclockLoop at h
    split_ifs at h with hc
    · simp only at h
      split_ifs at h with ht
      · cases hb : body w (modf (p + r)).2 c with
        | none => simp [hb] at h
        | some wa =>
          obtain ⟨w1, a⟩ := wa
          simp only [hb] at h
          obtain ⟨h1, h2, h3, h4⟩ := ih w1 _ _ _ res h (hP _ _ _ _ _ hb hw) (modf_fst_lt_one _)
          exact ⟨h1, h2, h3, fun hr h0 => h4 hr (modf_fst_nonneg (by linarith))⟩
      · obtain ⟨h1, h2, h3, h4⟩ := ih w _ _ _ res h hw (modf_fst_lt_one _)
        exact ⟨h1, h2, h3, fun hr h0 => h4 hr (modf_fst_nonneg (by linarith))⟩
    · simp only [Option.some.injEq] at h
      subst h
      exact ⟨hw, hp, by simpa using hc, fun _ h0 => h0⟩

/-- With an engine that yields at most one sample per one-sample request the
loop never overshoots: it ends with exactly `samples_count` samples. -/
theorem overclockLoop_count {W : Type} (body : W → Int → Nat → Option (W × Nat))
    (r : ℚ) (sc : Nat) (hsc : sc < 2 ^ 32)
    (hb : ∀ w t c w1 a, body w t c = some (w1, a) → a ≤ 1) :
    ∀ (fuel : Nat) (w : W) (p : ℚ) (c o : Nat) (res : W × ℚ × Nat × Nat),
      overclockLoop body r sc fuel w p c o = some res → c ≤ sc → res.2.2.1 = sc := by
  intro fuel
  induction fuel with
  | zero =>
    intro w p c o res h hc0
    unfold overclockLoop at h
    split_ifs at h with hc
    simp only [Option.some.injEq] at h
    subst h
    simp only
    omega
  | succ n ih =>
    intro w p c o res h hc0
    unfold overclockLoop at h
    split_ifs at h with hc
    · simp only at h
      split_ifs at h with ht
      · cases hbd : body w (modf (p + r)).2 c with
        | none => simp [hbd] at h
        | some wa =>
          obtain ⟨w1, a⟩ := wa
          simp only [hbd] at h
          have ha := hb _ _ _ _ _ hbd
          refine ih w1 _ _ _ res h ?_
          unfold u32
          rw [Nat.mod_eq_of_lt (by omega)]
          omega
      · exact ih w _ _ _ res h hc0
    · simp only [Option.some.injEq] at h
      subst h
      simp only
      omega

/-! ## SIDari: synchronized generation -/

/-- The engine calls of SIDari touch the reSID table and the trace only. -/
theorem sidari_calc_frame {S : Type} (lib : SIDClass S) (w w1 : SIDari S) (t : Int)
    (c n a : Nat) (h : SIDari.calc lib w t c n = some (w1, a)) :
    w1 = { w with resid := w1.resid, trace := w1.trace } := by
  unfold SIDari.calc at h
  obtain ⟨r1, -, h⟩ := Option.bind_eq_some.mp h
  simp only at h
  split_ifs at h with hv
  · obtain ⟨r2, -, h⟩ := Option.bind_eq_some.mp h
    simp only [Option.some.injEq, Prod.mk.injEq] at h
    rw [← h.1]
  · simp only [Option.some.injEq, Prod.mk.injEq] at h
    rw [← h.1]

/-- The mixer calls of SIDari touch the trace only. -/
theorem sidari_mixAll_frame {S : Type} (st : SIDari S) (count pk : Nat) :
    st.mixAll count pk = { st with trace := (st.mixAll count pk).trace } := by
  unfold SIDari.mixAll SIDari.mix
  simp only
  split_ifs <;> rfl

/-- One call of `SIDARI_GenerateSync` on an enabled card with a non-negative
clock ratio: the phase ends below one, the ratio and the version are kept,
and a phase that was non-negative ends at `f - overclock * ratio` for some
`f` in `[0, 1)`. -/
theorem SIDARI_GenerateSync_phase {S : Type} (lib : SIDClass S) (fuel : Nat) (st : SIDari S)
    (bs nt sn : Nat) (r : SyncResult (SIDari S))
    (h : SIDARI_GenerateSync_locals lib fuel st bs nt sn = some r)
    (hen : st.SIDARI_version ≠ SIDARI_NO) (hr : 0 ≤ st.sid_ticks_per_tick) :
    r.st.sid_ticks < 1 ∧ r.st.sid_ticks_per_tick = st.sid_ticks_per_tick
      ∧ r.st.SIDARI_version = st.SIDARI_version
      ∧ (0 ≤ st.sid_ticks →
          0 ≤ r.st.sid_ticks + (r.overclock : ℚ) * st.sid_ticks_per_tick
          ∧ r.st.sid_ticks + (r.overclock : ℚ) * st.sid_ticks_per_tick < 1) := by
  unfold SIDARI_GenerateSync_locals at h
  rw [if_pos hen] at h
  simp only at h
  obtain ⟨c1, hc1, h⟩ := Option.bind_eq_some.mp h
  obtain ⟨l, hl, h⟩ := Option.bind_eq_some.mp h
  have hc1P : c1.1.sid_ticks_per_tick = st.sid_ticks_per_tick
      ∧ c1.1.SIDARI_version = st.SIDARI_version := by
    split_ifs at hc1 with ht
    · have := sidari_calc_frame lib st c1.1 _ _ _ c1.2 hc1
      rw [this]
      exact ⟨rfl, rfl⟩
    · simp only [Option.some.injEq] at hc1
      rw [← hc1]
      exact ⟨rfl, rfl⟩
  obtain ⟨hP, hlt, -, hnn⟩ := overclockLoop_spec _ _ _
    (fun w => w.sid_ticks_per_tick = st.sid_ticks_per_tick
      ∧ w.SIDARI_version = st.SIDARI_version)
    (fun w t c w1 a hb hw => by
      have := sidari_calc_frame lib w w1 t c 1 a hb
      rw [this]
      exact hw)
    fuel c1.1 _ c1.2 0 l hl hc1P (modf_fst_lt_one _)
  have hov : (0 : ℚ) ≤ (l.2.2.2 : ℚ) * st.sid_ticks_per_tick :=
    mul_nonneg (Nat.cast_nonneg _) hr
  have key : r.st.sid_ticks = l.2.1 - (l.2.2.2 : ℚ) * st.sid_ticks_per_tick
      ∧ r.st.sid_ticks_per_tick = st.sid_ticks_per_tick
      ∧ r.st.SIDARI_version = st.SIDARI_version ∧ r.overclock = l.2.2.2 := by
    split_ifs at h <;> simp only [Option.some.injEq] at h <;> subst h
    · rw [sidari_mixAll_frame]
      simp [hP.1, hP.2]
    · simp [hP.1, hP.2]
  obtain ⟨k1, k2, k3, k4⟩ := key
  refine ⟨by rw [k1]; linarith, k2, k3, fun h0 => ?_⟩
  have hm0 := modf_fst_nonneg (add_nonneg h0 (mul_nonneg (Nat.cast_nonneg nt) hr))
  have := hnn hr hm0
  rw [k1, k4]
  constructor <;> linarith

/-- After `sidari_initialize` on an enabled card the version is kept, the
clock ratio is the quotient of two non-negative numbers and the phase is 0. -/
theorem sidari_initialize_phase {S : Type} (lib : SIDClass S) (env : Atari800)
    (st0 st : SIDari S) (freq17 : Nat) (pf np b16 : Int) (s1 s2 : Option RESID_State)
    (hen : st0.SIDARI_version ≠ SIDARI_NO)
    (h : sidari_initialize lib env st0 freq17 pf np b16 s1 s2 = some st) :
    st.SIDARI_version = st0.SIDARI_version ∧ 0 ≤ st.sid_ticks_per_tick ∧ st.sid_ticks = 0 := by
  unfold sidari_initialize at h
  simp only [ne_eq, hen, not_false_eq_true, if_true] at h
  obtain ⟨r2, -, h⟩ := Option.bind_eq_some.mp h
  obtain ⟨r3, -, h⟩ := Option.bind_eq_some.mp h
  have hq : (0 : ℚ) ≤ 17734472 / 18 / (freq17 : ℚ) :=
    div_nonneg (by norm_num) (Nat.cast_nonneg _)
  by_cases hv : st0.SIDARI_version = SIDARI_STEREO
  · rw [if_pos hv] at h
    obtain ⟨r5, -, h⟩ := Option.bind_eq_some.mp h
    obtain ⟨r6, -, h⟩ := Option.bind_eq_some.mp h
    simp only [Option.some.injEq] at h
    subst h
    exact ⟨rfl, hq, rfl⟩
  · rw [if_neg hv] at h
    simp only [Option.some.injEq] at h
    subst h
    exact ⟨rfl, hq, rfl⟩

/-- The phase stays below one along every sequence of calls on an enabled
SIDari with a non-negative clock ratio. -/
theorem sidari_run_phase {S : Type} (lib : SIDClass S) (calls : List SyncCall) :
    ∀ (st st1 : SIDari S), st.SIDARI_version ≠ SIDARI_NO → 0 ≤ st.sid_ticks_per_tick →
      st.sid_ticks < 1 → SIDari.run lib st calls = some st1 → st1.sid_ticks < 1 := by
  induction calls with
  | nil =>
    intro st st1 _ _ hp h
    simp only [SIDari.run, Option.some.injEq] at h
    rw [← h]
    exact hp
  | cons c cs ih =>
    intro st st1 hen hr _ h
    simp only [SIDari.run, SIDARI_GenerateSync] at h
    obtain ⟨a, ha, h⟩ := Option.bind_eq_some.mp h
    obtain ⟨r, hr1, ha⟩ := Option.map_eq_some'.mp ha
    obtain ⟨k1, k2, k3, -⟩ := SIDARI_GenerateSync_phase lib _ st _ _ _ r hr1 hen hr
    subst ha
    exact ih r.st st1 (by rw [k3]; exact hen) (by rw [k2]; exact hr) k1 h

/-! ## YAMari: synchronized generation -/

/-- The engine call of YAMari touches the FM adapter and the trace only, and
yields as many samples as were asked for. -/
theorem yamari_calc_frame {A : Type} (lib : AdlibLib A) (w w1 : YAMari A) (t : Int)
    (c n a : Nat) (h : YAMari.calc lib w t c n = some (w1, a)) :
    w1 = { w with ymf := w1.ymf, trace := w1.trace } ∧ a = n := by
  unfold YAMari.calc YMF262_calculate_sample at h
  simp only [Option.some.injEq, Prod.mk.injEq] at h
  exact ⟨by rw [← h.1], h.2.symm⟩

/-- The mixer calls of YAMari touch the trace only. -/
theorem yamari_mixAll_frame {A : Type} (st : YAMari A) (count pk : Nat) :
    st.mixAll count pk = { st with trace := (st.mixAll count pk).trace } := by
  unfold YAMari.mixAll YAMari.mix
  split_ifs <;> rfl

/-- One call of `opl3_generate_sync` on an enabled card with a non-negative
clock ratio; the statement is that of `SIDARI_GenerateSync_phase`. -/
theorem opl3_generate_sync_phase {A : Type} (lib : AdlibLib A) (fuel : Nat) (st : YAMari A)
    (bs nt sn : Nat) (r : SyncResult (YAMari A))
    (h : opl3_generate_sync lib fuel st bs nt sn = some r)
    (hen : st.YAMARI_enable ≠ 0) (hr : 0 ≤ st.opl3_ticks_per_tick) :
    r.st.opl3_ticks < 1 ∧ r.st.opl3_ticks_per_tick = st.opl3_ticks_per_tick
      ∧ r.st.YAMARI_enable = st.YAMARI_enable
      ∧ (0 ≤ st.opl3_ticks →
          0 ≤ r.st.opl3_ticks + (r.overclock : ℚ) * st.opl3_ticks_per_tick
          ∧ r.st.opl3_ticks + (r.overclock : ℚ) * st.opl3_ticks_per_tick < 1) := by
  unfold opl3_generate_sync at h
  rw [if_pos hen] at h
  simp only at h
  obtain ⟨c1, hc1, h⟩ := Option.bind_eq_some.mp h
  obtain ⟨l, hl, h⟩ := Option.bind_eq_some.mp h
  have hc1P : c1.1.opl3_ticks_per_tick = st.opl3_ticks_per_tick
      ∧ c1.1.YAMARI_enable = st.YAMARI_enable := by
    split_ifs at hc1 with ht
    · have := (yamari_calc_frame lib st c1.1 _ _ _ c1.2 hc1).1
      rw [this]
      exact ⟨rfl, rfl⟩
    · simp only [Option.some.injEq] at hc1
      rw [← hc1]
      exact ⟨rfl, rfl⟩
  obtain ⟨hP, hlt, -, hnn⟩ := overclockLoop_spec _ _ _
    (fun w => w.opl3_ticks_per_tick = st.opl3_ticks_per_tick
      ∧ w.YAMARI_enable = st.YAMARI_enable)
    (fun w t c w1 a hb hw => by
      have := (yamari_calc_frame lib w w1 t c 1 a hb).1
      rw [this]
      exact hw)
    fuel c1.1 _ c1.2 0 l hl hc1P (modf_fst_lt_one _)
  have hov : (0 : ℚ) ≤ (l.2.2.2 : ℚ) * st.opl3_ticks_per_tick :=
    mul_nonneg (Nat.cast_nonneg _) hr
  have key : r.st.opl3_ticks = l.2.1 - (l.2.2.2 : ℚ) * st.opl3_ticks_per_tick
      ∧ r.st.opl3_ticks_per_tick = st.opl3_ticks_per_tick
      ∧ r.st.YAMARI_enable = st.YAMARI_enable ∧ r.overclock = l.2.2.2 := by
    split_ifs at h <;> simp only [Option.some.injEq] at h <;> subst h
    · rw [yamari_mixAll_frame]
      simp [hP.1, hP.2]
    · simp [hP.1, hP.2]
  obtain ⟨k1, k2, k3, k4⟩ := key
  refine ⟨by rw [k1]; linarith, k2, k3, fun h0 => ?_⟩
  have hm0 := modf_fst_nonneg (add_nonneg h0 (mul_nonneg (Nat.cast_nonneg nt) hr))
  have := hnn hr hm0
  rw [k1, k4]
  constructor <;> linarith

/-- After `yamari_initialize` on an enabled card the enable flag is kept, the
clock ratio is non-negative and the phase is 0. -/
theorem yamari_initialize_phase {A : Type} (lib : AdlibLib A) (env : Atari800)
    (st0 : YAMari A) (freq17 : Nat) (pf np b16 : Int) (s : Option YMF262_State)
    (hen : st0.YAMARI_enable ≠ 0) :
    ( yamari_initialize lib env st0 freq17 pf np b16 s).YAMARI_enable = st0.YAMARI_enable
      ∧ 0 ≤ ( yamari_initialize lib env st0 freq17 pf np b16 s).opl3_ticks_per_tick
      ∧ ( yamari_initialize lib env st0 freq17 pf np b16 s).opl3_ticks = 0 := by
  unfold yamari_initialize
  rw [if_pos hen]
  exact ⟨rfl, div_nonneg (by norm_num) (Nat.cast_nonneg _), rfl⟩

/-- The phase stays below one along every sequence of calls on an enabled
YAMari with a non-negative clock ratio. -/
theorem yamari_run_phase {A : Type} (lib : AdlibLib A) (calls : List SyncCall) :
    ∀ (st st1 : YAMari A), st.YAMARI_enable ≠ 0 → 0 ≤ st.opl3_ticks_per_tick →
      st.opl3_ticks < 1 → YAMari.run lib st calls = some st1 → st1.opl3_ticks < 1 := by
  induction calls with
  | nil =>
    intro st st1 _ _ hp h
    simp only [YAMari.run, Option.some.injEq] at h
    rw [← h]
    exact hp
  | cons c cs ih =>
    intro st st1 hen hr _ h
    simp only [YAMari.run, YAMARI_GenerateSync] at h
    obtain ⟨a, ha, h⟩ := Option.bind_eq_some.mp h
    obtain ⟨r, hr1, ha⟩ := Option.map_eq_some'.mp ha
    obtain ⟨k1, k2, k3, -⟩ := opl3_generate_sync_phase lib _ st _ _ _ r hr1 hen hr
    subst ha
    exact ih r.st st1 (by rw [k3]; exact hen) (by rw [k2]; exact hr) k1 h

/-! ## C1: the tick phase -/

/-- C1 (as amended).  For SIDari with any engine and for YAMari: after
initialization of an enabled card, the tick phase is below 1 after every call
of every sequence of synchronized-generation calls, whatever `num_ticks`,
`sndn` and the buffer size are.  The lower bound holds in this form: a call
that starts with a phase `>= 0` ends with
`0 <= phase + overclock * ticks_per_tick < 1`, where `overclock` is the number
of compensation steps of that call; so `0 <= phase < 1` after a call without
compensation steps, and the phase is negative after a call with compensation
steps that amount to one chip tick or more. -/
theorem C1_phase_below_one {S A : Type} (libS : SIDClass S) (libA : AdlibLib A)
    (env : Atari800) (freq17 : Nat) (pf np b16 : Int) :
    (∀ (st0 st st1 : SIDari S) (s1 s2 : Option RESID_State) (calls : List SyncCall),
        st0.SIDARI_version ≠ SIDARI_NO →
        sidari_initialize libS env st0 freq17 pf np b16 s1 s2 = some st →
        SIDari.run libS st calls = some st1 → st1.sid_ticks < 1)
    ∧ (∀ (y0 y1 : YAMari A) (s : Option YMF262_State) (calls : List SyncCall),
        y0.YAMARI_enable ≠ 0 →
        YAMari.run libA ( yamari_initialize libA env y0 freq17 pf np b16 s) calls = some y1 →
        y1.opl3_ticks < 1)
    ∧ (∀ (st : SIDari S) (fuel bs nt sn : Nat) (r : SyncResult (SIDari S)),
        st.SIDARI_version ≠ SIDARI_NO → 0 ≤ st.sid_ticks_per_tick → 0 ≤ st.sid_ticks →
        SIDARI_GenerateSync_locals libS fuel st bs nt sn = some r →
        0 ≤ r.st.sid_ticks + (r.overclock : ℚ) * st.sid_ticks_per_tick
          ∧ r.st.sid_ticks + (r.overclock : ℚ) * st.sid_ticks_per_tick < 1)
    ∧ (∀ (y : YAMari A) (fuel bs nt sn : Nat) (r : SyncResult (YAMari A)),
        y.YAMARI_enable ≠ 0 → 0 ≤ y.opl3_ticks_per_tick → 0 ≤ y.opl3_ticks →
        opl3_generate_sync libA fuel y bs nt sn = some r →
        0 ≤ r.st.opl3_ticks + (r.overclock : ℚ) * y.opl3_ticks_per_tick
          ∧ r.st.opl3_ticks + (r.overclock : ℚ) * y.opl3_ticks_per_tick < 1) := by
  refine ⟨?_, ?_, ?_, ?_⟩
  · intro st0 st st1 s1 s2 calls hen hi hrun
    obtain ⟨k1, k2, k3⟩ := sidari_initialize_phase libS env st0 st freq17 pf np b16 s1 s2 hen hi
    exact sidari_run_phase libS calls st st1 (by rw [k1]; exact hen) k2
      (by rw [k3]; norm_num) hrun
  · intro y0 y1 s calls hen hrun
    obtain ⟨k1, k2, k3⟩ := yamari_initialize_phase libA env y0 freq17 pf np b16 s hen
    exact yamari_run_phase libA calls _ y1 (by rw [k1]; exact hen) k2
      (by rw [k3]; norm_num) hrun
  · intro st fuel bs nt sn r hen hr h0 h
    exact (SIDARI_GenerateSync_phase libS fuel st bs nt sn r h hen hr).2.2.2 h0
  · intro y fuel bs nt sn r hen hr h0 h
    exact (opl3_generate_sync_phase libA fuel y bs nt sn r h hen hr).2.2.2 h0

/-- C1, witness: the amended statement applied to SIDari in mono mode on a PAL
machine, with an engine that writes every sample asked for, and two calls. -/
theorem C1_phase_below_one_witness :
    ∃ st st1 : SIDari Nat,
      ({ (SIDari.start : SIDari Nat) with SIDARI_version := 1 }).SIDARI_version ≠ SIDARI_NO
      ∧ sidari_initialize eagerSID Atari800.pal
          { (SIDari.start : SIDari Nat) with SIDARI_version := 1 } 1773447 44100 1 0 none none
          = some st
      ∧ SIDari.run eagerSID st [⟨10, 1, 1, 1⟩, ⟨10, 100, 4000, 100⟩] = some st1
      ∧ st1.sid_ticks < 1 := by
  have h1 : ((sidariPal 1).bind fun st =>
      SIDari.run eagerSID st [⟨10, 1, 1, 1⟩, ⟨10, 100, 4000, 100⟩]).isSome = true := by decide!
  obtain ⟨st1, h⟩ := Option.isSome_iff_exists.mp h1
  obtain ⟨st, hst, hrun⟩ := Option.bind_eq_some.mp h
  have hen : ({ (SIDari.start : SIDari Nat) with SIDARI_version := 1 }).SIDARI_version
      ≠ SIDARI_NO := by decide
  exact ⟨st, st1, hen, hst, hrun,
    (C1_phase_below_one eagerSID countingAdlib Atari800.pal 1773447 44100 1 0).1
      _ st st1 none none _ hen hst hrun⟩

/-- C1, counterexample to the claim as stated.  SIDari in mono mode on a PAL
machine, engine that writes every sample asked for: the first call after
initialization with `num_ticks = 1` and a request of one sample takes one
compensation step and leaves the phase at -7093787/15961023, which is
negative.  YAMari on the same machine: the first call with `num_ticks = 0` and
a request of one sample leaves the phase at -8, which is negative. -/
theorem C1_phase_negative_counterexample :
    (((sidariPal 1).bind fun st => SIDari.run eagerSID st [⟨10, 1, 1, 1⟩]).map
        fun st => (st.sid_ticks, decide (0 ≤ st.sid_ticks)))
      = some (-7093787 / 15961023, false)
    ∧ ((YAMari.run countingAdlib (yamariPal 1) [⟨10, 1, 0, 1⟩]).map
        fun y => (y.opl3_ticks, decide (0 ≤ y.opl3_ticks)))
      = some (-8, false) := by
  constructor <;> decide!

/-! ## C2: sample count of `SIDARI_GenerateSync` -/

/-- With a buffer whose size fits an `unsigned int`, `samples_count` is the
minimum of the two quotients. -/
theorem samplesCount_eq_min (bit16 np : Int) (bs sn : Nat) (hbs : bs < 2 ^ 32) :
    samplesCount bit16 np bs sn
      = min (sn / sampleSize bit16 np) (bs / sampleSize bit16 np) := by
  unfold samplesCount u32
  simp only
  rw [Nat.mod_eq_of_lt (lt_of_le_of_lt (Nat.div_le_self _ _) hbs)]
  split_ifs with h
  · exact (min_eq_right (le_of_lt h)).symm
  · exact (min_eq_left (not_lt.mp h)).symm

/-- The reSID adapter hands the engine's count through. -/
theorem sidari_calc_le {S : Type} (lib : SIDClass S)
    (hlib : ∀ s d n, (lib.clock s d n).2 ≤ n) (w w1 : SIDari S) (t : Int)
    (c n a : Nat) (h : SIDari.calc lib w t c n = some (w1, a)) : a ≤ n := by
  unfold SIDari.calc at h
  obtain ⟨r1, hr1, h⟩ := Option.bind_eq_some.mp h
  have ha : r1.2 ≤ n := by
    unfold RESID_calculate_sample at hr1
    cases hs : w.resid.sid RESID_CHIP_SIDARI_LEFT_INDEX with
    | none => simp [hs] at hr1
    | some s =>
      simp only [hs, Option.some.injEq] at hr1
      rw [← hr1]
      exact hlib s t n
  simp only at h
  split_ifs at h with hv
  · obtain ⟨r2, -, h⟩ := Option.bind_eq_some.mp h
    simp only [Option.some.injEq, Prod.mk.injEq] at h
    rw [← h.2]
    exact ha
  · simp only [Option.some.injEq, Prod.mk.injEq] at h
    rw [← h.2]
    exact ha

/-- The engine calls of SIDari append engine events only. -/
theorem sidari_calc_trace {S : Type} (lib : SIDClass S) (w w1 : SIDari S) (t : Int)
    (c n a : Nat) (h : SIDari.calc lib w t c n = some (w1, a)) :
    ∃ new, w1.trace = w.trace ++ new ∧ ∀ e ∈ new, Event.mixCount e = none := by
  unfold SIDari.calc at h
  obtain ⟨r1, -, h⟩ := Option.bind_eq_some.mp h
  simp only at h
  split_ifs at h with hv
  · obtain ⟨r2, -, h⟩ := Option.bind_eq_some.mp h
    simp only [Option.some.injEq, Prod.mk.injEq] at h
    rw [← h.1]
    refine ⟨_, List.append_assoc _ _ _, ?_⟩
    intro e he
    simp only [List.singleton_append, List.mem_cons, List.mem_singleton, List.not_mem_nil,
      or_false] at he
    rcases he with he | he <;> rw [he] <;> rfl
  · simp only [Option.some.injEq, Prod.mk.injEq] at h
    rw [← h.1]
    refine ⟨[_], rfl, ?_⟩
    intro e he
    simp only [List.mem_singleton] at he
    rw [he]
    rfl

/-- The mixer calls of SIDari append mixer events that all carry `count`, and
at least one of them. -/
theorem sidari_mixAll_trace {S : Type} (st : SIDari S) (count pk : Nat) :
    ∃ new, (st.mixAll count pk).trace = st.trace ++ new
      ∧ (∀ e ∈ new, Event.mixCount e = some count)
      ∧ ∃ e ∈ new, Event.mixCount e = some count := by
  unfold SIDari.mixAll SIDari.mix
  simp only
  split_ifs
  all_goals first
    | exact ⟨_, List.append_assoc _ _ _, by simp [Event.mixCount], _,
        List.mem_cons_self _ _, rfl⟩
    | exact ⟨_, rfl, by simp [Event.mixCount], _, List.mem_cons_self _ _, rfl⟩

/-- C2.  `SIDARI_GenerateSync` on an enabled card, with an engine whose clock
call returns at most the number of samples asked for, an output buffer and a
request that fit an `unsigned int`: whenever the call returns,
`samples_count = min (sndn / sample_size) (buffer_size / sample_size)`, the
number of samples produced (`count`) equals `samples_count`, the returned
value is `samples_count * sample_size`, every mixer call made by the call
mixes `samples_count` samples, and a mixer call is made iff
`samples_count > 0`. -/
theorem C2_sample_count {S : Type} (lib : SIDClass S)
    (hlib : ∀ s d n, (lib.clock s d n).2 ≤ n) (st : SIDari S) (fuel bs nt sn : Nat)
    (r : SyncResult (SIDari S)) (hen : st.SIDARI_version ≠ SIDARI_NO)
    (hbs : bs < 2 ^ 32) (hsn : sn < 2 ^ 32)
    (h : SIDARI_GenerateSync_locals lib fuel st bs nt sn = some r) :
    r.samples_count = min (sn / sampleSize st.bit16 st.num_pokeys)
        (bs / sampleSize st.bit16 st.num_pokeys)
      ∧ r.count = r.samples_count
      ∧ r.ret = r.samples_count * sampleSize st.bit16 st.num_pokeys
      ∧ SIDARI_GenerateSync lib fuel st bs nt sn = some (r.st, r.ret)
      ∧ ∃ new, r.st.trace = st.trace ++ new
          ∧ (∀ e ∈ new, ∀ c, Event.mixCount e = some c → c = r.samples_count)
          ∧ (0 < r.samples_count ↔ ∃ e ∈ new, (Event.mixCount e).isSome) := by
  have hret : SIDARI_GenerateSync lib fuel st bs nt sn = some (r.st, r.ret) := by
    simp [SIDARI_GenerateSync, h]
  unfold SIDARI_GenerateSync_locals at h
  rw [if_pos hen] at h
  simp only at h
  obtain ⟨c1, hc1, h⟩ := Option.bind_eq_some.mp h
  obtain ⟨l, hl, h⟩ := Option.bind_eq_some.mp h
  have hmin := samplesCount_eq_min st.bit16 st.num_pokeys bs sn hbs
  have hscle : samplesCount st.bit16 st.num_pokeys bs sn
      ≤ sn / sampleSize st.bit16 st.num_pokeys := by
    rw [hmin]
    exact min_le_left _ _
  have hsc32 : samplesCount st.bit16 st.num_pokeys bs sn < 2 ^ 32 :=
    lt_of_le_of_lt (le_trans hscle (Nat.div_le_self _ _)) hsn
  have hc1le : c1.2 ≤ samplesCount st.bit16 st.num_pokeys bs sn
      ∧ ∃ new, c1.1.trace = st.trace ++ new ∧ ∀ e ∈ new, Event.mixCount e = none := by
    split_ifs at hc1 with ht
    · exact ⟨sidari_calc_le lib hlib st c1.1 _ _ _ c1.2 hc1,
        sidari_calc_trace lib st c1.1 _ _ _ c1.2 hc1⟩
    · simp only [Option.some.injEq] at hc1
      rw [← hc1]
      exact ⟨Nat.zero_le _, [], by simp, by simp⟩
  have hcount := overclockLoop_count _ _ _ hsc32
    (fun w t c w1 a hb => sidari_calc_le lib hlib w w1 t c 1 a hb)
    fuel c1.1 _ c1.2 0 l hl hc1le.1
  obtain ⟨hP, -, -, -⟩ := overclockLoop_spec _ _ _
    (fun w => ∃ new, w.trace = st.trace ++ new ∧ ∀ e ∈ new, Event.mixCount e = none)
    (fun w t c w1 a hb hw => by
      obtain ⟨n1, h1, h2⟩ := hw
      obtain ⟨n2, h3, h4⟩ := sidari_calc_trace lib w w1 t c 1 a hb
      refine ⟨n1 ++ n2, by rw [h3, h1, List.append_assoc], ?_⟩
      intro e he
      rcases List.mem_append.mp he with he | he
      · exact h2 e he
      · exact h4 e he)
    fuel c1.1 _ c1.2 0 l hl hc1le.2 (modf_fst_lt_one _)
  obtain ⟨n1, hn1, hn2⟩ := hP
  have hmul : samplesCount st.bit16 st.num_pokeys bs sn * sampleSize st.bit16 st.num_pokeys
      < 2 ^ 32 :=
    lt_of_le_of_lt (le_trans (Nat.mul_le_mul_right _ hscle) (Nat.div_mul_le_self _ _)) hsn
  split_ifs at h with hpos
  · simp only [Option.some.injEq] at h
    subst h
    simp only at hret ⊢
    rw [hcount] at hpos hret ⊢
    refine ⟨hmin, rfl, ?_, hret, ?_⟩
    · unfold u32
      exact Nat.mod_eq_of_lt hmul
    · obtain ⟨n2, hn3, hn4, e0, he0, he1⟩ := sidari_mixAll_trace
        { l.1 with sid_ticks := l.2.1 - (l.2.2.2 : ℚ) * l.1.sid_ticks_per_tick }
        (samplesCount st.bit16 st.num_pokeys bs sn) (pokeysCount st.num_pokeys)
      refine ⟨n1 ++ n2, ?_, ?_, ?_⟩
      · rw [hn3]
        simp only
        rw [hn1, List.append_assoc]
      · intro e he c hc
        rcases List.mem_append.mp he with he | he
        · rw [hn2 e he] at hc
          simp at hc
        · rw [hn4 e he] at hc
          simp only [Option.some.injEq] at hc
          exact hc.symm
      · constructor
        · intro _
          exact ⟨e0, List.mem_append.mpr (Or.inr he0), by rw [he1]; rfl⟩
        · intro _
          exact hpos
  · simp only [Option.some.injEq] at h
    subst h
    simp only at hret ⊢
    rw [hcount] at hpos ⊢
    have hz : samplesCount st.bit16 st.num_pokeys bs sn = 0 := by omega
    refine ⟨hmin, rfl, by rw [hz]; simp, hret, n1, hn1, ?_, ?_⟩
    · intro e he c hc
      rw [hn2 e he] at hc
      simp at hc
    · constructor
      · intro h0
        omega
      · rintro ⟨e, he, hs⟩
        rw [hn2 e he] at hs
        simp at hs

/-- C2, witness: SIDari in mono mode on a PAL machine, engine that writes every
sample asked for, a request of 100 bytes into a buffer of 1000 bytes. -/
theorem C2_sample_count_witness :
    ∃ (st : SIDari Nat) (r : SyncResult (SIDari Nat)),
      sidariPal 1 = some st ∧ st.SIDARI_version ≠ SIDARI_NO
      ∧ SIDARI_GenerateSync_locals eagerSID 10 st 1000 4000 100 = some r
      ∧ r.samples_count = min (100 / sampleSize st.bit16 st.num_pokeys)
          (1000 / sampleSize st.bit16 st.num_pokeys)
      ∧ r.count = r.samples_count
      ∧ r.ret = r.samples_count * sampleSize st.bit16 st.num_pokeys := by
  have h1 : ((sidariPal 1).bind fun st =>
      SIDARI_GenerateSync_locals eagerSID 10 st 1000 4000 100).isSome = true := by decide!
  obtain ⟨r, h⟩ := Option.isSome_iff_exists.mp h1
  obtain ⟨st, hst, hr⟩ := Option.bind_eq_some.mp h
  have hen : st.SIDARI_version ≠ SIDARI_NO := by
    have := (sidari_initialize_phase eagerSID Atari800.pal _ st _ _ _ _ _ _
      (by decide) hst).1
    rw [this]
    decide
  obtain ⟨k1, k2, k3, -⟩ := C2_sample_count eagerSID (fun _ _ n => Nat.le_refl n) st 10 1000
    4000 100 r hen (by norm_num) (by norm_num) hr
  exact ⟨st, r, hst, hen, hr, k1, k2, k3⟩

/-! ## C3: disabled cards -/

/-- C3.  When a card is disabled its synchronized generator is a no-op: for
SIDari and SlightSID with version NO, and for Evie, SONari, Melody PSG and
YAMari when disabled, the generator returns with the card state unchanged,
whatever the fuel, the buffer size, `num_ticks` and `sndn` are: no engine call
and no mixer call is added to the trace and the tick phase is the same.
`SIDARI_GenerateSync` and `SLIGHTSID_GenerateSync` then return 0; the other
four return `sndn`. -/
theorem C3_disabled_generators_do_nothing {S A : Type} (lib : SIDClass S) (alib : AyemuLib)
    (flib : AdlibLib A) (fuel bs nt sn : Nat)
    (sidari : SIDari S) (slight : SlightSID S) (evie : Evie S) (sonari : SONari)
    (melody : Melody) (yamari : YAMari A)
    (h1 : sidari.SIDARI_version = SIDARI_NO) (h2 : slight.SLIGHTSID_version = SLIGHTSID_NO)
    (h3 : evie.EVIE_version = EVIE_NO) (h4 : sonari.SONARI_version = SONARI_NO)
    (h5 : melody.MELODY_PSG_enable = 0) (h6 : yamari.YAMARI_enable = 0) :
    SIDARI_GenerateSync lib fuel sidari bs nt sn = some (sidari, 0)
      ∧ SLIGHTSID_GenerateSync lib fuel slight bs nt sn = some (slight, 0)
      ∧ EVIE_GenerateSync lib alib fuel evie bs nt sn = some (evie, sn)
      ∧ SONARI_GenerateSync alib fuel sonari bs nt sn = some (sonari, sn)
      ∧ MELODY_PSG_GenerateSync alib fuel melody bs nt sn = some (melody, sn)
      ∧ YAMARI_GenerateSync flib fuel yamari bs nt sn = some (yamari, sn) := by
  refine ⟨?_, ?_, ?_, ?_, ?_, ?_⟩
  · simp [SIDARI_GenerateSync, SIDARI_GenerateSync_locals, h1]
  · simp [SLIGHTSID_GenerateSync, SLIGHTSID_GenerateSync_locals, h2, SLIGHTSID_NO,
      SLIGHTSID_MONO, SLIGHTSID_STEREO]
  · simp [EVIE_GenerateSync, Evie.sid_generate_sync, Evie.psg_generate_sync, h3]
  · simp [SONARI_GenerateSync, SONari.psg_generate_sync, h4]
  · simp [MELODY_PSG_GenerateSync, Melody.psg_generate_sync, h5]
  · simp [YAMARI_GenerateSync, opl3_generate_sync, h6]

/-- C3, witness: the six cards in their disabled start states. -/
theorem C3_disabled_generators_do_nothing_witness :
    SIDARI_GenerateSync eagerSID 0 (SIDari.start : SIDari Nat) 64 1000 64
        = some (SIDari.start, 0)
      ∧ SLIGHTSID_GenerateSync eagerSID 0 (SlightSID.start : SlightSID Nat) 64 1000 64
        = some (SlightSID.start, 0)
      ∧ EVIE_GenerateSync eagerSID plainAyemu 0
          { (Evie.start : Evie Nat) with EVIE_version := EVIE_NO } 64 1000 64
        = some ({ (Evie.start : Evie Nat) with EVIE_version := EVIE_NO }, 64)
      ∧ SONARI_GenerateSync plainAyemu 0 SONari.start 64 1000 64 = some (SONari.start, 64)
      ∧ MELODY_PSG_GenerateSync plainAyemu 0 Melody.start 64 1000 64 = some (Melody.start, 64)
      ∧ YAMARI_GenerateSync countingAdlib 0 (YAMari.start ⟨fun _ => 0, 0, 0⟩ : YAMari Nat)
          64 1000 64 = some (YAMari.start ⟨fun _ => 0, 0, 0⟩, 64) :=
  C3_disabled_generators_do_nothing eagerSID plainAyemu countingAdlib 0 64 1000 64
    SIDari.start SlightSID.start { (Evie.start : Evie Nat) with EVIE_version := EVIE_NO }
    SONari.start Melody.start (YAMari.start ⟨fun _ => 0, 0, 0⟩) rfl rfl rfl rfl rfl rfl

/-! ## C9, C10: address decoding -/

/-- C9.  For every address and every slot (so for every 16-bit address and
slot 0..7, where the C arithmetic does not overflow), `SONARI_InSlot(addr)` is
true iff `SONARI_version != SONARI_NO` and
`base <= addr <= base + (SONARI_version == SONARI_MONO ? 1 : 3)` with
`base = 0xD500 + 0x20 * SONARI_slot`; for the two-chip card in slot 3 it is
true exactly for 0xD560..0xD563, and false at 0xD55F, 0xD564 and 0xD565. -/
theorem C9_sonari_in_slot (st : SONari) (addr : Nat) :
    (SONARI_InSlot st addr = true ↔
        st.SONARI_version ≠ SONARI_NO
        ∧ 0xD500 + 0x20 * st.SONARI_slot ≤ (addr : Int)
        ∧ (addr : Int) ≤ 0xD500 + 0x20 * st.SONARI_slot
            + (if st.SONARI_version = SONARI_MONO then 1 else 3))
    ∧ (st.SONARI_version = SONARI_STEREO → st.SONARI_slot = 3 →
        (SONARI_InSlot st addr = true ↔ 0xD560 ≤ addr ∧ addr ≤ 0xD563)
        ∧ SONARI_InSlot st 0xD55F = false ∧ SONARI_InSlot st 0xD564 = false
        ∧ SONARI_InSlot st 0xD565 = false) := by
  constructor
  · simp only [SONARI_InSlot, Bool.and_eq_true, decide_eq_true_eq, ge_iff_le, and_assoc]
  · intro hv h3
    simp only [SONARI_InSlot, hv, h3, SONARI_STEREO, SONARI_NO, SONARI_MONO, Bool.and_eq_true,
      decide_eq_true_eq, ge_iff_le]
    refine ⟨?_, ?_, ?_, ?_⟩
    · constructor
      · rintro ⟨⟨-, h1⟩, h2⟩
        norm_num at h1 h2
        omega
      · rintro ⟨h1, h2⟩
        norm_num
        omega
    all_goals decide

/-- C9, witness: the two-chip card in slot 3 at address 0xD561. -/
theorem C9_sonari_in_slot_witness :
    ({ SONari.start with SONARI_version := SONARI_STEREO, SONARI_slot := 3 }.SONARI_version
        = SONARI_STEREO
      ∧ { SONari.start with SONARI_version := SONARI_STEREO, SONARI_slot := 3 }.SONARI_slot = 3)
      ∧ SONARI_InSlot { SONari.start with SONARI_version := SONARI_STEREO, SONARI_slot := 3 }
          0xD561 = true :=
  ⟨⟨rfl, rfl⟩,
    ((C9_sonari_in_slot
        { SONari.start with SONARI_version := SONARI_STEREO, SONARI_slot := 3 } 0xD561).2
      rfl rfl).1.mpr (by decide)⟩

/-- C10.  For every address and every slot (so for every 16-bit address and
slot 0..7, where the C arithmetic does not overflow) and every version in
NO, MONO, STEREO, `SIDARI_D5GetByte(addr)` returns the existence indicator
0x33 if `SIDARI_InSlot(addr)` is true and the floating-bus value 0xFF
otherwise. -/
theorem C10_sidari_existence_indicator {S : Type} (st : SIDari S) (addr : Nat)
    (no_side_effects : Int)
    (hv : st.SIDARI_version = SIDARI_NO ∨ st.SIDARI_version = SIDARI_MONO
      ∨ st.SIDARI_version = SIDARI_STEREO) :
    SIDARI_D5GetByte st addr no_side_effects
      = if SIDARI_InSlot st addr = true then 0x33 else 0xff := by
  rcases hv with hv | hv | hv
  · simp [SIDARI_D5GetByte, SIDARI_InSlot, hv, SIDARI_NO, SIDARI_MONO, SIDARI_STEREO]
  · simp [SIDARI_D5GetByte, SIDARI_InSlot, hv, SIDARI_NO, SIDARI_MONO, SIDARI_STEREO]
  · simp [SIDARI_D5GetByte, SIDARI_InSlot, hv, SIDARI_NO, SIDARI_MONO, SIDARI_STEREO]

/-- C10, witness: the stereo card in slot 4 read at 0xD5BF, its last address. -/
theorem C10_sidari_existence_indicator_witness :
    { (SIDari.start : SIDari Nat) with SIDARI_version := SIDARI_STEREO }.SIDARI_version
        = SIDARI_STEREO
      ∧ SIDARI_D5GetByte { (SIDari.start : SIDari Nat) with SIDARI_version := SIDARI_STEREO }
          0xD5BF 0 = 0x33 := by
  refine ⟨rfl, ?_⟩
  rw [C10_sidari_existence_indicator
    { (SIDari.start : SIDari Nat) with SIDARI_version := SIDARI_STEREO } 0xD5BF 0
    (Or.inr (Or.inr rfl))]
  decide

/-! ## C4: request size and scratch capacity -/

/-- C4, the code at the failing input.  SIDari in mono mode on a PAL machine at
44100 Hz: `sidari_initialize` computes `sidari_buffer_length = 886` and
allocates a scratch buffer of 886 samples; `SIDARI_GenerateSync` with an output
buffer of 2000 bytes, `sndn = 2000` and `num_ticks = 4000` computes
`samples_count = 2000` and asks the engine to write 2000 samples at offset 0 of
`sidari_buffer`, then mixes 2000 samples out of it. -/
theorem C4_request_exceeds_scratch_capacity :
    ((sidariPal 1).bind fun st =>
      (SIDARI_GenerateSync_locals eagerSID 10 st 2000 4000 2000).map fun r =>
        (st.sidari_buffer_length, st.sidari_buffer, r.samples_count, r.count, r.st.trace))
      = some (886, some 886, 2000, 2000,
          [Event.RESID_calculate_sample 3 2222 .sidari_buffer 0 2000,
           Event.Util_mix .sidari_buffer 2000 128 0 1 0 1 0]) := by
  decide!

/-! ## C5: the PSG register file across a configuration write -/

/-- After `AYEMU_init` the register file of the chip is all zero. -/
theorem AYEMU_init_regs (alib : AyemuLib) (a a1 : AYEMU) (i : Nat) (cps : ℚ) (m p : Int)
    (sr : ℚ) (h : AYEMU_init alib a i cps m p sr = some a1) :
    a1.reg i = some (fun _ => 0) := by
  unfold AYEMU_init at h
  cases hp : a.psg i with
  | none => simp [hp] at h
  | some chip =>
    cases hr : a.reg i with
    | none => simp [hp, hr] at h
    | some regs =>
      simp only [hp, hr, Option.some.injEq] at h
      rw [← h]
      simp only [Function.update_same]

/-- Whatever the engines and the flush do: a write to Evie's configuration
register that returns with the card still enabled leaves all 14 PSG registers
at zero. -/
theorem EVIE_config_write_zeroes_psg_registers {S : Type} (lib : SIDClass S)
    (alib : AyemuLib) (env : Atari800) (flush : Evie S → Evie S) (st st1 : Evie S)
    (addr byte : Nat) (hen : st.EVIE_version ≠ EVIE_NO) (haddr : addr ≥ 0xd280)
    (hoff : addr &&& 0x3f = 0x3f)
    (hflush : (Evie.update flush st).EVIE_version ≠ EVIE_NO)
    (h : EVIE_D2PutByte lib alib env flush st addr byte = some st1) :
    ∀ r, r < 14 → AYEMU_read st1.ayemu AYEMU_CHIP_EVIE_INDEX r = some 0 := by
  unfold EVIE_D2PutByte at h
  rw [if_pos hen, if_pos haddr] at h
  simp only [hoff] at h
  norm_num at h
  obtain ⟨sid_state, -, h⟩ := Option.bind_eq_some.mp h
  obtain ⟨psg_state, -, h⟩ := Option.bind_eq_some.mp h
  unfold evie_initialize at h
  have hv : ((Evie.update flush st).update_config byte).EVIE_version ≠ EVIE_NO := hflush
  simp only [ne_eq] at h
  rw [if_pos hv] at h
  obtain ⟨r2, -, h⟩ := Option.bind_eq_some.mp h
  obtain ⟨r3, -, h⟩ := Option.bind_eq_some.mp h
  obtain ⟨a2, -, h⟩ := Option.bind_eq_some.mp h
  obtain ⟨a3, ha3, h⟩ := Option.bind_eq_some.mp h
  simp only [Option.some.injEq] at h
  have hreg := AYEMU_init_regs alib a2 a3 _ _ _ _ _ ha3
  intro r hr
  rw [← h]
  simp only [AYEMU_read, hr, dite_true, hreg]

/-- C5, the code at the failing input.  Evie 2.0 on a PAL machine: after the
write of 0x0F to 0xD2A8 (PSG register 8) a read of PSG register 8 gives 0x0F;
after the following write of 0x00 to the configuration register 0xD2BF the
same read gives 0x00, and so does every register that the write to 0xD2A1 of
0x05 had set. -/
theorem C5_config_write_clears_psg_registers :
    ((eviePal.bind fun s => EVIE_D2PutByte eagerSID plainAyemu Atari800.pal id s 0xd2a8 0x0f).bind
        fun s => AYEMU_read s.ayemu AYEMU_CHIP_EVIE_INDEX 8) = some 0x0f
    ∧ (((eviePal.bind fun s =>
          EVIE_D2PutByte eagerSID plainAyemu Atari800.pal id s 0xd2a8 0x0f).bind fun s =>
          EVIE_D2PutByte eagerSID plainAyemu Atari800.pal id s 0xd2bf 0x00).bind
        fun s => AYEMU_read s.ayemu AYEMU_CHIP_EVIE_INDEX 8) = some 0x00
    ∧ ((eviePal.bind fun s => EVIE_D2PutByte eagerSID plainAyemu Atari800.pal id s 0xd2a1 0x05).bind
        fun s => AYEMU_read s.ayemu AYEMU_CHIP_EVIE_INDEX 1) = some 0x05
    ∧ (((eviePal.bind fun s =>
          EVIE_D2PutByte eagerSID plainAyemu Atari800.pal id s 0xd2a1 0x05).bind fun s =>
          EVIE_D2PutByte eagerSID plainAyemu Atari800.pal id s 0xd2bf 0x04).bind
        fun s => AYEMU_read s.ayemu AYEMU_CHIP_EVIE_INDEX 1) = some 0x00 := by
  refine ⟨?_, ?_, ?_, ?_⟩ <;> decide!

/-! ## C6: PSG snapshot round trip -/

/-- C6.  For an open chip index `i` (both `psg[i]` and `reg[i]` allocated):
`AYEMU_read_state(i, &s)` followed by `AYEMU_write_state(i, &s)` returns and
leaves both tables, hence every engine field and all 14 register bytes,
unchanged; and for every `AYEMU_State s`, `AYEMU_write_state(i, &s)` followed
by `AYEMU_read_state(i, &t)` returns with `t = s`. -/
theorem C6_psg_snapshot_round_trip (a : AYEMU) (i : Nat) (chip : ayemu_ay_t)
    (regs : Fin 14 → Nat) (hp : a.psg i = some chip) (hr : a.reg i = some regs) :
    (∃ s, AYEMU_read_state a i = some s ∧ AYEMU_write_state a i s = some a)
    ∧ (∀ s : AYEMU_State, ∃ a1, AYEMU_write_state a i s = some a1
        ∧ AYEMU_read_state a1 i = some s) := by
  constructor
  · simp only [AYEMU_read_state, hp, hr, Option.some.injEq, exists_eq_left']
    simp only [AYEMU_write_state, hp, hr, Option.some.injEq]
    have h1 : Function.update a.psg i (some chip) = a.psg := by
      rw [← hp]
      exact Function.update_eq_self i a.psg
    have h2 : Function.update a.reg i (some regs) = a.reg := by
      rw [← hr]
      exact Function.update_eq_self i a.reg
    exact (congrArg₂ AYEMU.mk h1 h2 : _)
  · intro s
    simp only [AYEMU_write_state, hp, hr, Option.some.injEq, exists_eq_left']
    simp only [AYEMU_read_state, Function.update_same]

/-- C6, witness: Evie's chip index right after `AYEMU_open`. -/
theorem C6_psg_snapshot_round_trip_witness :
    ayemuOpened.psg AYEMU_CHIP_EVIE_INDEX = some plainAyemu.malloc_chip
      ∧ ayemuOpened.reg AYEMU_CHIP_EVIE_INDEX = some plainAyemu.malloc_regs
      ∧ ∃ s, AYEMU_read_state ayemuOpened AYEMU_CHIP_EVIE_INDEX = some s
          ∧ AYEMU_write_state ayemuOpened AYEMU_CHIP_EVIE_INDEX s = some ayemuOpened :=
  ⟨rfl, rfl,
    (C6_psg_snapshot_round_trip ayemuOpened AYEMU_CHIP_EVIE_INDEX plainAyemu.malloc_chip
      plainAyemu.malloc_regs rfl rfl).1⟩

/-! ## C7, C8: save-state streams -/

/-- C7.  For SIDari, SlightSID and SONari and for every value `v` of the
version discriminant, the sequence of typed fields that `StateRead` consumes is
exactly the sequence that `StateSave` emits for `v`; when `v` is NO the
discriminant is the only field; the stream has one chip block unless `v` is
STEREO, when it has two (field counts 14 and 26 for SIDari, 13 and 26 for
SlightSID, 50 and 98 for SONari); and SlightSID's config byte, SONari's
`SONARI_model2` and SONari's second select latch are in the stream iff `v` is
STEREO. -/
theorem C7_state_read_mirrors_state_save (v : Int) :
    (SIDARI_StateRead_fields v = SIDARI_StateSave_fields v
      ∧ SLIGHTSID_StateRead_fields v = SLIGHTSID_StateSave_fields v
      ∧ SONARI_StateRead_fields v = SONARI_StateSave_fields v)
    ∧ (SIDARI_StateSave_fields SIDARI_NO = [⟨.INT, "SIDARI_version", 1⟩]
      ∧ SLIGHTSID_StateSave_fields SLIGHTSID_NO = [⟨.INT, "SLIGHTSID_version", 1⟩]
      ∧ SONARI_StateSave_fields SONARI_NO = [⟨.INT, "SONARI_version", 1⟩])
    ∧ ((SIDARI_StateSave_fields v).length
          = (if v = SIDARI_NO then 1 else if v = SIDARI_STEREO then 26 else 14)
      ∧ (SLIGHTSID_StateSave_fields v).length
          = (if v = SLIGHTSID_NO then 1 else if v = SLIGHTSID_STEREO then 26 else 13)
      ∧ (SONARI_StateSave_fields v).length
          = (if v = SONARI_NO then 1 else if v = SONARI_STEREO then 98 else 50))
    ∧ ((⟨.UBYTE, "config", 1⟩ ∈ SLIGHTSID_StateSave_fields v ↔ v = SLIGHTSID_STEREO)
      ∧ (⟨.INT, "SONARI_model2", 1⟩ ∈ SONARI_StateSave_fields v ↔ v = SONARI_STEREO)
      ∧ (⟨.UBYTE, "psg_register2", 1⟩ ∈ SONARI_StateSave_fields v ↔ v = SONARI_STEREO)) := by
  refine ⟨⟨rfl, rfl, rfl⟩, ⟨rfl, rfl, rfl⟩, ⟨?_, ?_, ?_⟩, ⟨?_, ?_, ?_⟩⟩
  · unfold SIDARI_StateSave_fields
    split_ifs <;> simp_all
  · unfold SLIGHTSID_StateSave_fields
    split_ifs <;> simp_all
  · unfold SONARI_StateSave_fields
    split_ifs <;> simp_all
  · unfold SLIGHTSID_StateSave_fields
    by_cases h0 : v = SLIGHTSID_NO
    · subst h0
      decide
    · by_cases h2 : v = SLIGHTSID_STEREO
      · subst h2
        decide
      · simp only [h0, h2, ne_eq, not_false_eq_true, if_true, if_false, iff_false]
        decide
  · unfold SONARI_StateSave_fields
    by_cases h0 : v = SONARI_NO
    · subst h0
      decide
    · by_cases h2 : v = SONARI_STEREO
      · subst h2
        decide
      · simp only [h0, h2, ne_eq, not_false_eq_true, if_true, if_false, iff_false]
        decide
  · unfold SONARI_StateSave_fields
    by_cases h0 : v = SONARI_NO
    · subst h0
      decide
    · by_cases h2 : v = SONARI_STEREO
      · subst h2
        decide
      · simp only [h0, h2, ne_eq, not_false_eq_true, if_true, if_false, iff_false]
        decide

/-- C8, the code at the failing input.  With YAMari enabled (discriminant 1),
`YAMARI_StateSave` emits the enable flag and the slot and nothing else: no
field of the stream has 512 elements or is a byte field, so the register file
is not in the stream; `YAMARI_StateRead` consumes the same two fields.  On a
card whose FM register 0x20 holds 0x21 at save time, the register file after
`YAMARI_StateRead` of that stream is what `adlib_init` leaves of the local
`opl3_state`: register 0x20 holds 0, whatever the local contained. -/
theorem C8_yamari_stream_has_no_register_file :
    YAMARI_StateSave_fields 1 = [⟨.INT, "YAMARI_enable", 1⟩, ⟨.INT, "YAMARI_slot", 1⟩]
    ∧ YAMARI_StateRead_fields 1 = [⟨.INT, "YAMARI_enable", 1⟩, ⟨.INT, "YAMARI_slot", 1⟩]
    ∧ (∀ f ∈ YAMARI_StateSave_fields 1, f.count ≠ 0x200 ∧ f.kind ≠ FieldKind.UBYTE)
    ∧ (YMF262_read_state yamariPlaying.ymf YMF262_CHIP_YAMARI_INDEX).regs 0x20 = 0x21
    ∧ (YAMARI_StateRead countingAdlib Atari800.pal yamariPlaying 1 0
        ⟨fun _ => 0xAA⟩).ymf.opl.adlibreg 0x20 = 0
    ∧ (YAMARI_StateRead countingAdlib Atari800.pal yamariPlaying 1 0
        ⟨fun _ => 0x55⟩).ymf.opl.adlibreg 0x20 = 0 := by
  refine ⟨rfl, rfl, ?_, ?_, ?_, ?_⟩ <;> decide!

/-! ## C16: closing a chip -/

theorem AYEMU_close_closed (a : AYEMU) (i : Nat) (h : AYEMU_is_opened a i = false) :
    AYEMU_close a i = a := by
  unfold AYEMU_is_opened at h
  unfold AYEMU_close
  rw [if_neg (by simp [h])]

theorem AYEMU_is_opened_close (a : AYEMU) (i j : Nat) :
    AYEMU_is_opened (AYEMU_close a i) j = (decide (j ≠ i) && AYEMU_is_opened a j) := by
  unfold AYEMU_close AYEMU_is_opened
  by_cases hc : (a.psg i).isSome = true
  · rw [if_pos hc]
    by_cases hj : j = i
    · subst hj; simp
    · simp [Function.update_noteq hj, hj]
  · rw [if_neg hc]
    by_cases hj : j = i
    · subst hj; simpa using hc
    · simp [hj]

theorem RESID_close_closed {S : Type} (r : RESID S) (i : Nat)
    (h : RESID_is_opened r i = false) : RESID_close r i = r := by
  unfold RESID_is_opened at h
  unfold RESID_close
  rw [if_neg (by simp [h])]

theorem RESID_is_opened_close {S : Type} (r : RESID S) (i j : Nat) :
    RESID_is_opened (RESID_close r i) j = (decide (j ≠ i) && RESID_is_opened r j) := by
  unfold RESID_close RESID_is_opened
  by_cases hc : (r.sid i).isSome = true
  · rw [if_pos hc]
    by_cases hj : j = i
    · subst hj; simp
    · simp [Function.update_noteq hj, hj]
  · rw [if_neg hc]
    by_cases hj : j = i
    · subst hj; simpa using hc
    · simp [hj]

theorem YMF262_close_closed {A : Type} (y : YMF262 A) (i : Nat)
    (h : YMF262_is_opened y i = false) : YMF262_close y i = y := by
  unfold YMF262_is_opened at h
  unfold YMF262_close
  rw [if_neg (by simp [h])]

theorem YMF262_is_opened_close {A : Type} (y : YMF262 A) (i j : Nat) :
    YMF262_is_opened (YMF262_close y i) j = false := by
  unfold YMF262_close YMF262_is_opened
  by_cases hc : y.opl3 = true
  · rw [if_pos hc]
  · rw [if_neg hc]; simpa using hc

/-- C16: `AYEMU_close`, `RESID_close` and `YMF262_close` are idempotent.  Closing
an index that is not open returns the tables unchanged, closing twice equals
closing once, after a close the matching `is_opened` is false for that index,
and in the PSG and SID tables the open status of every other index is the one
from before the close. -/
theorem C16_close_is_idempotent {S A : Type} (a : AYEMU) (r : RESID S) (y : YMF262 A)
    (i : Nat) :
    ((AYEMU_is_opened a i = false → AYEMU_close a i = a)
      ∧ AYEMU_close (AYEMU_close a i) i = AYEMU_close a i
      ∧ AYEMU_is_opened (AYEMU_close a i) i = false
      ∧ ∀ j, j ≠ i → AYEMU_is_opened (AYEMU_close a i) j = AYEMU_is_opened a j)
    ∧ ((RESID_is_opened r i = false → RESID_close r i = r)
      ∧ RESID_close (RESID_close r i) i = RESID_close r i
      ∧ RESID_is_opened (RESID_close r i) i = false
      ∧ ∀ j, j ≠ i → RESID_is_opened (RESID_close r i) j = RESID_is_opened r j)
    ∧ ((YMF262_is_opened y i = false → YMF262_close y i = y)
      ∧ YMF262_close (YMF262_close y i) i = YMF262_close y i
      ∧ YMF262_is_opened (YMF262_close y i) i = false) := by
  have ha : AYEMU_is_opened (AYEMU_close a i) i = false := by
    rw [AYEMU_is_opened_close]; simp
  have hr : RESID_is_opened (RESID_close r i) i = false := by
    rw [RESID_is_opened_close]; simp
  have hy : YMF262_is_opened (YMF262_close y i) i = false := YMF262_is_opened_close y i i
  refine ⟨⟨AYEMU_close_closed a i, AYEMU_close_closed _ i ha, ha, ?_⟩,
    ⟨RESID_close_closed r i, RESID_close_closed _ i hr, hr, ?_⟩,
    ⟨YMF262_close_closed y i, YMF262_close_closed _ i hy, hy⟩⟩
  · intro j hj; rw [AYEMU_is_opened_close]; simp [hj]
  · intro j hj; rw [RESID_is_opened_close]; simp [hj]

/-! ## C17: open chips after an initialization -/

/-- Sequencing of two fallible steps that both succeed. -/
theorem bind_some_of {α β : Type} {x : Option α} {f : α → Option β} (Q : α → Prop)
    {P : β → Prop} (hx : ∃ a, x = some a ∧ Q a) (hf : ∀ a, Q a → ∃ b, f a = some b ∧ P b) :
    ∃ b, x.bind f = some b ∧ P b := by
  obtain ⟨a, rfl, ha⟩ := hx
  exact hf a ha

theorem RESID_is_opened_open {S : Type} (lib : SIDClass S) (r : RESID S) (i j : Nat) :
    RESID_is_opened (RESID_open lib r i) j = (decide (j = i) || RESID_is_opened r j) := by
  unfold RESID_open RESID_is_opened
  by_cases hj : j = i
  · subst hj; simp
  · simp [Function.update_noteq hj, hj]

theorem RESID_write_state_opened {S : Type} (lib : SIDClass S) (r : RESID S) (i : Nat)
    (s : RESID_State) (h : RESID_is_opened r i = true) :
    ∃ r1, RESID_write_state lib r i s = some r1
      ∧ ∀ j, RESID_is_opened r1 j = RESID_is_opened r j := by
  unfold RESID_is_opened at h
  unfold RESID_write_state
  cases hs : r.sid i with
  | none => rw [hs] at h; simp at h
  | some c =>
    refine ⟨_, rfl, fun j => ?_⟩
    unfold RESID_is_opened
    by_cases hj : j = i
    · subst hj; simp [hs]
    · simp [Function.update_noteq hj]

theorem RESID_init_opened {S : Type} (lib : SIDClass S) (r : RESID S) (i : Nat)
    (cps : ℚ) (m : Int) (sr : ℚ) (h : RESID_is_opened r i = true) :
    ∃ r1, RESID_init lib r i cps m sr = some r1
      ∧ ∀ j, RESID_is_opened r1.1 j = RESID_is_opened r j := by
  unfold RESID_is_opened at h
  unfold RESID_init
  cases hs : r.sid i with
  | none => rw [hs] at h; simp at h
  | some c =>
    refine ⟨_, rfl, fun j => ?_⟩
    unfold RESID_is_opened
    by_cases hj : j = i
    · subst hj; simp [hs]
    · simp [Function.update_noteq hj]

theorem AYEMU_open_both (lib : AyemuLib) (a : AYEMU) (i : Nat) :
    ((AYEMU_open lib a i).psg i).isSome = true ∧ ((AYEMU_open lib a i).reg i).isSome = true := by
  unfold AYEMU_open; simp

theorem AYEMU_write_state_both (a : AYEMU) (i : Nat) (s : AYEMU_State)
    (h : (a.psg i).isSome = true ∧ (a.reg i).isSome = true) :
    ∃ a1, AYEMU_write_state a i s = some a1
      ∧ (a1.psg i).isSome = true ∧ (a1.reg i).isSome = true := by
  unfold AYEMU_write_state
  cases hp : a.psg i with
  | none => rw [hp] at h; simp at h
  | some c =>
    cases hr : a.reg i with
    | none => rw [hr] at h; simp at h
    | some g => exact ⟨_, rfl, by simp, by simp⟩

theorem AYEMU_init_both (lib : AyemuLib) (a : AYEMU) (i : Nat) (cps : ℚ) (m p : Int) (sr : ℚ)
    (h : (a.psg i).isSome = true ∧ (a.reg i).isSome = true) :
    ∃ a1, AYEMU_init lib a i cps m p sr = some a1
      ∧ (a1.psg i).isSome = true ∧ (a1.reg i).isSome = true := by
  unfold AYEMU_init
  cases hp : a.psg i with
  | none => rw [hp] at h; simp at h
  | some c =>
    cases hr : a.reg i with
    | none => rw [hr] at h; simp at h
    | some g => exact ⟨_, rfl, by simp, by simp⟩

/-- Every `sidari_initialize` returns, keeps the version, and leaves the left
chip open exactly on an enabled card and the right chip exactly in stereo. -/
theorem sidari_initialize_opened {S : Type} (lib : SIDClass S) (env : Atari800)
    (st : SIDari S) (freq17 : Nat) (pf np b16 : Int) (s1 s2 : Option RESID_State) :
    ∃ st1, sidari_initialize lib env st freq17 pf np b16 s1 s2 = some st1
      ∧ (st1.SIDARI_version = st.SIDARI_version
        ∧ (RESID_is_opened st1.resid RESID_CHIP_SIDARI_LEFT_INDEX = true
            ↔ st1.SIDARI_version ≠ SIDARI_NO)
        ∧ (RESID_is_opened st1.resid RESID_CHIP_SIDARI_RIGHT_INDEX = true
            ↔ st1.SIDARI_version = SIDARI_STEREO)) := by
  have hLR : RESID_CHIP_SIDARI_LEFT_INDEX ≠ RESID_CHIP_SIDARI_RIGHT_INDEX := by decide
  have hSN : SIDARI_STEREO ≠ SIDARI_NO := by decide
  unfold sidari_initialize
  simp only []
  by_cases hv : st.SIDARI_version ≠ SIDARI_NO
  · rw [if_pos hv]
    refine bind_some_of
      (fun r => RESID_is_opened r RESID_CHIP_SIDARI_LEFT_INDEX = true
        ∧ RESID_is_opened r RESID_CHIP_SIDARI_RIGHT_INDEX = false) ?_ ?_
    · have h1 : ∀ r : RESID S, RESID_is_opened (RESID_open lib (RESID_close (RESID_close r
            RESID_CHIP_SIDARI_LEFT_INDEX) RESID_CHIP_SIDARI_RIGHT_INDEX)
            RESID_CHIP_SIDARI_LEFT_INDEX) RESID_CHIP_SIDARI_LEFT_INDEX = true
          ∧ RESID_is_opened (RESID_open lib (RESID_close (RESID_close r
            RESID_CHIP_SIDARI_LEFT_INDEX) RESID_CHIP_SIDARI_RIGHT_INDEX)
            RESID_CHIP_SIDARI_LEFT_INDEX) RESID_CHIP_SIDARI_RIGHT_INDEX = false := by
        intro r
        simp only [RESID_is_opened_open, RESID_is_opened_close]
        simp [hLR.symm]
      cases s1 with
      | none => exact ⟨_, rfl, h1 _⟩
      | some s =>
        obtain ⟨r1, e1, o1⟩ := RESID_write_state_opened lib _ _ s (h1 st.resid).1
        exact ⟨r1, e1, by beta_reduce; rw [o1, o1]; exact h1 _⟩
    · intro r2 hr2
      refine bind_some_of
        (fun r => RESID_is_opened r.1 RESID_CHIP_SIDARI_LEFT_INDEX = true
          ∧ RESID_is_opened r.1 RESID_CHIP_SIDARI_RIGHT_INDEX = false) ?_ ?_
      · obtain ⟨r3, e3, o3⟩ := RESID_init_opened lib r2 RESID_CHIP_SIDARI_LEFT_INDEX
          (17734472 / 18) st.sid_model pf hr2.1
        exact ⟨r3, e3, by beta_reduce; rw [o3, o3]; exact hr2⟩
      · intro r3 hr3
        by_cases hs : st.SIDARI_version = SIDARI_STEREO
        · rw [if_pos hs]
          have h4 : RESID_is_opened (RESID_open lib r3.1 RESID_CHIP_SIDARI_RIGHT_INDEX)
                RESID_CHIP_SIDARI_LEFT_INDEX = true
              ∧ RESID_is_opened (RESID_open lib r3.1 RESID_CHIP_SIDARI_RIGHT_INDEX)
                RESID_CHIP_SIDARI_RIGHT_INDEX = true := by
            rw [RESID_is_opened_open, RESID_is_opened_open, hr3.1]; simp
          refine bind_some_of
            (fun r => RESID_is_opened r RESID_CHIP_SIDARI_LEFT_INDEX = true
              ∧ RESID_is_opened r RESID_CHIP_SIDARI_RIGHT_INDEX = true) ?_ ?_
          · cases s2 with
            | none => exact ⟨_, rfl, h4⟩
            | some s =>
              obtain ⟨r5, e5, o5⟩ := RESID_write_state_opened lib _ _ s h4.2
              exact ⟨r5, e5, by beta_reduce; rw [o5, o5]; exact h4⟩
          · intro r5 hr5
            refine bind_some_of
              (fun r => RESID_is_opened r.1 RESID_CHIP_SIDARI_LEFT_INDEX = true
                ∧ RESID_is_opened r.1 RESID_CHIP_SIDARI_RIGHT_INDEX = true) ?_ ?_
            · obtain ⟨r6, e6, o6⟩ := RESID_init_opened lib r5 RESID_CHIP_SIDARI_RIGHT_INDEX
                (17734472 / 18) st.sid_model pf hr5.2
              exact ⟨r6, e6, by beta_reduce; rw [o6, o6]; exact hr5⟩
            · intro r6 hr6
              exact ⟨_, rfl, rfl, by simp [hr6.1, hv], by simp [hr6.2, hs]⟩
        · rw [if_neg hs]
          exact ⟨_, rfl, rfl, by simp [hr3.1, hv], by simp [hr3.2, hs]⟩
  · rw [if_neg hv]
    have hv0 : st.SIDARI_version = SIDARI_NO := not_not.mp hv
    refine ⟨_, rfl, rfl, ?_, ?_⟩
    · simp only [RESID_is_opened_close, hv0]; simp [hLR]
    · simp only [RESID_is_opened_close, hv0]; simp [hSN.symm]

/-- Every `evie_initialize` returns, keeps the version, and leaves the SID chip
and the PSG chip of Evie open exactly on an enabled card. -/
theorem evie_initialize_opened {S : Type} (lib : SIDClass S) (alib : AyemuLib)
    (env : Atari800) (st : Evie S) (freq17 : Nat) (pf np b16 : Int)
    (s1 : Option RESID_State) (s2 : Option AYEMU_State) :
    ∃ st1, evie_initialize lib alib env st freq17 pf np b16 s1 s2 = some st1
      ∧ (st1.EVIE_version = st.EVIE_version
        ∧ (RESID_is_opened st1.resid RESID_CHIP_EVIE_INDEX = true ↔ st1.EVIE_version ≠ EVIE_NO)
        ∧ (AYEMU_is_opened st1.ayemu AYEMU_CHIP_EVIE_INDEX = true
            ↔ st1.EVIE_version ≠ EVIE_NO)) := by
  unfold evie_initialize
  simp only []
  by_cases hv : st.EVIE_version ≠ EVIE_NO
  · rw [if_pos hv]
    refine bind_some_of (fun r => RESID_is_opened r RESID_CHIP_EVIE_INDEX = true) ?_ ?_
    · have h1 : ∀ r : RESID S, RESID_is_opened (RESID_open lib r RESID_CHIP_EVIE_INDEX)
          RESID_CHIP_EVIE_INDEX = true := by
        intro r; rw [RESID_is_opened_open]; simp
      cases s1 with
      | none => exact ⟨_, rfl, h1 _⟩
      | some s =>
        obtain ⟨r1, e1, o1⟩ := RESID_write_state_opened lib _ _ s (h1 _)
        exact ⟨r1, e1, by beta_reduce; rw [o1]; exact h1 _⟩
    · intro r2 hr2
      refine bind_some_of (fun r => RESID_is_opened r.1 RESID_CHIP_EVIE_INDEX = true) ?_ ?_
      · obtain ⟨r3, e3, o3⟩ := RESID_init_opened lib r2 RESID_CHIP_EVIE_INDEX _ _ _ hr2
        exact ⟨r3, e3, by beta_reduce; rw [o3]; exact hr2⟩
      · intro r3 hr3
        refine bind_some_of
          (fun a => (a.psg AYEMU_CHIP_EVIE_INDEX).isSome = true
            ∧ (a.reg AYEMU_CHIP_EVIE_INDEX).isSome = true) ?_ ?_
        · cases s2 with
          | none => exact ⟨_, rfl, AYEMU_open_both _ _ _⟩
          | some s => exact AYEMU_write_state_both _ _ s (AYEMU_open_both _ _ _)
        · intro a2 ha2
          refine bind_some_of
            (fun a => (a.psg AYEMU_CHIP_EVIE_INDEX).isSome = true
              ∧ (a.reg AYEMU_CHIP_EVIE_INDEX).isSome = true) ?_ ?_
          · exact AYEMU_init_both _ _ _ _ _ _ _ ha2
          · intro a3 ha3
            refine ⟨_, rfl, rfl, by simp [hr3, hv], ?_⟩
            unfold AYEMU_is_opened
            simp [ha3.1, hv]
  · rw [if_neg hv]
    have hv0 : st.EVIE_version = EVIE_NO := not_not.mp hv
    refine ⟨_, rfl, rfl, ?_, ?_⟩
    · simp only [RESID_is_opened_close, hv0]; simp
    · simp only [AYEMU_is_opened_close, hv0]; simp

/-- C17: every `sidari_initialize` returns and leaves the left SID chip open
iff `SIDARI_version != SIDARI_NO` and the right SID chip open iff
`SIDARI_version == SIDARI_STEREO`; this holds in particular at the end of
`SIDARI_Init`, `SIDARI_Reset` and `SIDARI_StateRead`, which all end in that
call.  Every `evie_initialize` returns and leaves Evie's SID chip and its PSG
chip open iff `EVIE_version != EVIE_NO`. -/
theorem C17_chips_open_after_initialize {S : Type} (lib : SIDClass S) (alib : AyemuLib)
    (env : Atari800) (st : SIDari S) (ev : Evie S) (freq17 : Nat) (pf np b16 : Int)
    (s1 s2 : Option RESID_State) (p1 : Option AYEMU_State) (version slot : Int)
    (state state2 : RESID_State) :
    (∃ st1, sidari_initialize lib env st freq17 pf np b16 s1 s2 = some st1
        ∧ st1.chips_match_version)
    ∧ (∃ st1, SIDARI_Init lib env st freq17 pf np b16 = some st1 ∧ st1.chips_match_version)
    ∧ (∃ st1, SIDARI_Reset lib env st = some st1 ∧ st1.chips_match_version)
    ∧ (∃ st1, SIDARI_StateRead lib env st version slot state state2 = some st1
        ∧ st1.chips_match_version)
    ∧ ∃ ev1, evie_initialize lib alib env ev freq17 pf np b16 s1 p1 = some ev1
        ∧ ev1.chips_match_version := by
  have key : ∀ (st0 : SIDari S) (f : Nat) (a b c : Int) (x y : Option RESID_State),
      ∃ st1, sidari_initialize lib env st0 f a b c x y = some st1
        ∧ st1.chips_match_version := by
    intro st0 f a b c x y
    obtain ⟨st1, e, -, hl, hr⟩ := sidari_initialize_opened lib env st0 f a b c x y
    exact ⟨st1, e, hl, hr⟩
  refine ⟨key _ _ _ _ _ _ _, key _ _ _ _ _ _ _, key _ _ _ _ _ _ _, ?_, ?_⟩
  · unfold SIDARI_StateRead
    simp only []
    split_ifs
    · exact key _ _ _ _ _ _ _
    · exact key _ _ _ _ _ _ _
    · exact key _ _ _ _ _ _ _
  · obtain ⟨ev1, e, -, h1, h2⟩ := evie_initialize_opened lib alib env ev freq17 pf np b16 s1 p1
    exact ⟨ev1, e, h1, h2⟩

/-! ## C20: stereo mixing of SIDari -/

/-- Along the engine calls of one `SIDARI_GenerateSync` the version and the
sample format stay fixed and only engine events are appended to the trace. -/
theorem SIDARI_GenerateSync_calls {S : Type} (lib : SIDClass S) (fuel : Nat) (st : SIDari S)
    (bs nt sn : Nat) (r : SyncResult (SIDari S)) (hen : st.SIDARI_version ≠ SIDARI_NO)
    (h : SIDARI_GenerateSync_locals lib fuel st bs nt sn = some r) :
    ∃ w : SIDari S, w.SIDARI_version = st.SIDARI_version ∧ w.bit16 = st.bit16
      ∧ (∃ new, w.trace = st.trace ++ new ∧ ∀ e ∈ new, Event.mixCount e = none)
      ∧ r.st = if r.count > 0 then w.mixAll r.count (pokeysCount st.num_pokeys) else w := by
  unfold SIDARI_GenerateSync_locals at h
  rw [if_pos hen] at h
  simp only at h
  obtain ⟨c1, hc1, h⟩ := Option.bind_eq_some.mp h
  obtain ⟨l, hl, h⟩ := Option.bind_eq_some.mp h
  have hstep : ∀ (w w1 : SIDari S) (t : Int) (c n a : Nat),
      SIDari.calc lib w t c n = some (w1, a) →
      (w.SIDARI_version = st.SIDARI_version ∧ w.bit16 = st.bit16
        ∧ ∃ new, w.trace = st.trace ++ new ∧ ∀ e ∈ new, Event.mixCount e = none) →
      (w1.SIDARI_version = st.SIDARI_version ∧ w1.bit16 = st.bit16
        ∧ ∃ new, w1.trace = st.trace ++ new ∧ ∀ e ∈ new, Event.mixCount e = none) := by
    intro w w1 t c n a hb hw
    obtain ⟨hv, hb16, n1, h1, h2⟩ := hw
    obtain ⟨n2, h3, h4⟩ := sidari_calc_trace lib w w1 t c n a hb
    have hf := sidari_calc_frame lib w w1 t c n a hb
    refine ⟨by rw [hf]; exact hv, by rw [hf]; exact hb16, n1 ++ n2,
      by rw [h3, h1, List.append_assoc], ?_⟩
    intro e he
    rcases List.mem_append.mp he with he | he
    · exact h2 e he
    · exact h4 e he
  have h0 : st.SIDARI_version = st.SIDARI_version ∧ st.bit16 = st.bit16
      ∧ ∃ new, st.trace = st.trace ++ new ∧ ∀ e ∈ new, Event.mixCount e = none :=
    ⟨rfl, rfl, [], by simp, by simp⟩
  have hc1P : c1.1.SIDARI_version = st.SIDARI_version ∧ c1.1.bit16 = st.bit16
      ∧ ∃ new, c1.1.trace = st.trace ++ new ∧ ∀ e ∈ new, Event.mixCount e = none := by
    split_ifs at hc1 with ht
    · exact hstep st c1.1 _ _ _ c1.2 hc1 h0
    · simp only [Option.some.injEq] at hc1
      rw [← hc1]
      exact h0
  obtain ⟨hP, -, -, -⟩ := overclockLoop_spec _ _ _
    (fun w : SIDari S => w.SIDARI_version = st.SIDARI_version ∧ w.bit16 = st.bit16
      ∧ ∃ new, w.trace = st.trace ++ new ∧ ∀ e ∈ new, Event.mixCount e = none)
    (fun w t c w1 a hb hw => hstep w w1 t c 1 a hb hw)
    fuel c1.1 _ c1.2 0 l hl hc1P (modf_fst_lt_one _)
  refine ⟨{ l.1 with sid_ticks := l.2.1 - (l.2.2.2 : ℚ) * l.1.sid_ticks_per_tick },
    hP.1, hP.2.1, hP.2.2, ?_⟩
  split_ifs at h with hpos
  · simp only [Option.some.injEq] at h
    subst h
    simp only
    rw [if_pos hpos]
  · simp only [Option.some.injEq] at h
    subst h
    simp only
    rw [if_neg hpos]

/-- C20: `SIDARI_GenerateSync` with two output channels (`num_pokeys = 2`) that
produced `count > 0` samples.  The mixer calls of the call are its last two
trace entries, both with `count` samples (the seventh argument of `Util_mix`
is the output channel).  In stereo the left chip's scratch buffer goes to
channel 0 and the right chip's scratch buffer to channel 1, each once; in mono
the single chip's scratch buffer goes once to channel 0 and once to
channel 1.  Everything the call appended before these two entries is an
engine call. -/
theorem C20_stereo_mixing {S : Type} (lib : SIDClass S) (fuel : Nat) (st : SIDari S)
    (bs nt sn : Nat) (r : SyncResult (SIDari S)) (hp : st.num_pokeys = 2)
    (hv : st.SIDARI_version = SIDARI_STEREO ∨ st.SIDARI_version = SIDARI_MONO)
    (h : SIDARI_GenerateSync_locals lib fuel st bs nt sn = some r) (hc : 0 < r.count) :
    ∃ calls, (∀ e ∈ calls, Event.mixCount e = none)
      ∧ r.st.trace = st.trace ++ calls ++
          [Event.Util_mix .sidari_buffer r.count 128 st.bit16 2 0 1 0,
           Event.Util_mix
            (if st.SIDARI_version = SIDARI_STEREO then .sidari_buffer2 else .sidari_buffer)
            r.count 128 st.bit16 2 1 1 0] := by
  have hen : st.SIDARI_version ≠ SIDARI_NO := by
    rcases hv with hv | hv <;> rw [hv] <;> decide
  obtain ⟨w, hwv, hwb, ⟨calls, htr, hcalls⟩, hr⟩ :=
    SIDARI_GenerateSync_calls lib fuel st bs nt sn r hen h
  rw [if_pos hc] at hr
  refine ⟨calls, hcalls, ?_⟩
  have hpk : pokeysCount st.num_pokeys = 2 := by simp [pokeysCount, hp]
  rw [hr, hpk]
  unfold SIDari.mixAll SIDari.mix
  simp only [if_true, hwv, hwb, htr]
  by_cases hs : st.SIDARI_version = SIDARI_STEREO
  · simp [hs]
  · simp [hs]

/-- C20 at a concrete call: stereo SIDari on a PAL machine with two output
channels, 4000 main-clock ticks and a request of 100 bytes. -/
theorem C20_stereo_mixing_witness :
    ∃ (st : SIDari Nat) (r : SyncResult (SIDari Nat)) (calls : List Event),
      sidariPalTwoChannels 2 = some st
      ∧ SIDARI_GenerateSync_locals eagerSID 10 st 1000 4000 100 = some r
      ∧ 0 < r.count
      ∧ r.st.trace = st.trace ++ calls ++
          [Event.Util_mix .sidari_buffer r.count 128 st.bit16 2 0 1 0,
           Event.Util_mix
            (if st.SIDARI_version = SIDARI_STEREO then .sidari_buffer2 else .sidari_buffer)
            r.count 128 st.bit16 2 1 1 0] := by
  have h1 : ((sidariPalTwoChannels 2).bind fun st =>
      (SIDARI_GenerateSync_locals eagerSID 10 st 1000 4000 100).map fun r =>
        (decide (st.num_pokeys = 2) && decide (st.SIDARI_version = SIDARI_STEREO)
          && decide (0 < r.count))) = some true := by decide!
  obtain ⟨st, hst, h2⟩ := Option.bind_eq_some.mp h1
  obtain ⟨r, hr, h3⟩ := Option.map_eq_some'.mp h2
  simp only [Bool.and_eq_true, decide_eq_true_eq] at h3
  obtain ⟨calls, -, htr⟩ := C20_stereo_mixing eagerSID 10 st 1000 4000 100 r h3.1.1
    (Or.inl h3.1.2) hr h3.2
  exact ⟨st, r, calls, hst, hr, h3.2, htr⟩

/-- C16 at concrete tables: a PSG table with Evie's chip open, an empty SID
table and the FM adapter of an enabled YAMari. -/
theorem C16_close_is_idempotent_witness :
    AYEMU_close (AYEMU_close ayemuOpened 0) 0 = AYEMU_close ayemuOpened 0
      ∧ AYEMU_is_opened (AYEMU_close ayemuOpened 0) 1 = AYEMU_is_opened ayemuOpened 1
      ∧ RESID_close (SIDari.start : SIDari Nat).resid 3 = (SIDari.start : SIDari Nat).resid
      ∧ YMF262_is_opened (YMF262_close (yamariPal 1).ymf 0) 0 = false :=
  ⟨(C16_close_is_idempotent ayemuOpened (SIDari.start : SIDari Nat).resid
      (yamariPal 1).ymf 0).1.2.1,
   (C16_close_is_idempotent ayemuOpened (SIDari.start : SIDari Nat).resid
      (yamariPal 1).ymf 0).1.2.2.2 1 (by decide),
   (C16_close_is_idempotent ayemuOpened (SIDari.start : SIDari Nat).resid
      (yamariPal 1).ymf 3).2.1.1 rfl,
   (C16_close_is_idempotent ayemuOpened (SIDari.start : SIDari Nat).resid
      (yamariPal 1).ymf 0).2.2.2.2⟩

/-! ## C14: the first engine call of `SIDARI_GenerateSync` -/

/-- The loop keeps every property of the world that is kept by the engine
calls it can make: calls with a positive tick budget at an offset below
`samples_count`. -/
theorem overclockLoop_steps {W : Type} (body : W → Int → Nat → Option (W × Nat))
    (r : ℚ) (sc : Nat) (P : W → Prop)
    (hP : ∀ w t c w1 a, 0 < t → c < sc → body w t c = some (w1, a) → P w → P w1) :
    ∀ (fuel : Nat) (w : W) (p : ℚ) (c o : Nat) (res : W × ℚ × Nat × Nat),
      overclockLoop body r sc fuel w p c o = some res → P w → P res.1 := by
  intro fuel
  induction fuel with
  | zero =>
    intro w p c o res h hw
    unfold overclockLoop at h
    split_ifs at h with hc
    simp only [Option.some.injEq] at h
    subst h
    exact hw
  | succ n ih =>
    intro w p c o res h hw
    unfold overclockLoop at h
    split_ifs at h with hc
    · simp only at h
      split_ifs at h with ht
      · cases hb : body w (modf (p + r)).2 c with
        | none => simp [hb] at h
        | some wa =>
          obtain ⟨w1, a⟩ := wa
          simp only [hb] at h
          exact ih w1 _ _ _ res h (hP _ _ _ _ _ ht hc hb hw)
      · exact ih w _ _ _ res h hw
    · simp only [Option.some.injEq] at h
      subst h
      exact hw

/-- A non-negative value whose ceiling fits an `unsigned int` converts to it
without wrapping. -/
theorem ceilU32_cast (x : ℚ) (h0 : 0 ≤ x) (h1 : ⌈x⌉ < 2 ^ 32) : ((ceilU32 x : ℕ) : ℤ) = ⌈x⌉ := by
  have h2 : 0 ≤ ⌈x⌉ := Int.ceil_nonneg h0
  unfold ceilU32 u32
  have h3 : ⌈x⌉.toNat < 2 ^ 32 := by omega
  rw [Nat.mod_eq_of_lt h3]
  exact Int.toNat_of_nonneg h2

/-- The values that `sidari_initialize` stores on an enabled card for the
scratch length and the left scratch buffer. -/
theorem sidari_initialize_length {S : Type} (lib : SIDClass S) (env : Atari800)
    (st st1 : SIDari S) (freq17 : Nat) (pf np b16 : Int) (s1 s2 : Option RESID_State)
    (hen : st.SIDARI_version ≠ SIDARI_NO)
    (h : sidari_initialize lib env st freq17 pf np b16 s1 s2 = some st1) :
    st1.sidari_buffer_length
        = ceilU32 ((u32 (env.ticks_per_frame + ceilU32 (17734472 / 18 / (pf : ℚ))) : ℚ)
            / ((env.ticks_per_frame : ℚ) / ((pf : ℚ) / env.fps)))
      ∧ st1.sidari_buffer = some st1.sidari_buffer_length := by
  unfold sidari_initialize at h
  simp only [ne_eq, hen, not_false_eq_true, if_true] at h
  obtain ⟨r2, -, h⟩ := Option.bind_eq_some.mp h
  obtain ⟨r3, -, h⟩ := Option.bind_eq_some.mp h
  by_cases hv : st.SIDARI_version = SIDARI_STEREO
  · rw [if_pos hv] at h
    obtain ⟨r5, -, h⟩ := Option.bind_eq_some.mp h
    obtain ⟨r6, -, h⟩ := Option.bind_eq_some.mp h
    simp only [Option.some.injEq] at h
    subst h
    exact ⟨rfl, rfl⟩
  · rw [if_neg hv] at h
    simp only [Option.some.injEq] at h
    subst h
    exact ⟨rfl, rfl⟩

/-- C19: after `sidari_initialize` on an enabled card with a positive playback
rate, a positive frame rate and a positive number of ticks per frame, where
the two conversions to `unsigned int` do not wrap,
`sidari_buffer_length = ceil((ticks_per_frame + ceil(SIDARI_clock_freq / playback_freq))
/ ticks_per_sample)` with `ticks_per_sample = ticks_per_frame / (playback_freq / FPS)`
and `SIDARI_clock_freq = 17734472 / 18`, the left scratch buffer has that
capacity, and the capacity is at least `ceil(playback_freq / FPS)` (exact
rational arithmetic). -/
theorem C19_scratch_capacity {S : Type} (lib : SIDClass S) (env : Atari800)
    (st st1 : SIDari S) (freq17 : Nat) (pf np b16 : Int) (s1 s2 : Option RESID_State)
    (hen : st.SIDARI_version ≠ SIDARI_NO) (hpf : 0 < pf) (hfps : 0 < env.fps)
    (htpf : 0 < env.ticks_per_frame)
    (hfit1 : (env.ticks_per_frame : ℤ) + ⌈(17734472 / 18 / (pf : ℚ) : ℚ)⌉ < 2 ^ 32)
    (hfit2 : ⌈(((env.ticks_per_frame : ℤ) + ⌈(17734472 / 18 / (pf : ℚ) : ℚ)⌉ : ℤ) : ℚ)
        / ((env.ticks_per_frame : ℚ) / ((pf : ℚ) / env.fps))⌉ < 2 ^ 32)
    (h : sidari_initialize lib env st freq17 pf np b16 s1 s2 = some st1) :
    (st1.sidari_buffer_length : ℤ)
        = ⌈(((env.ticks_per_frame : ℤ) + ⌈(17734472 / 18 / (pf : ℚ) : ℚ)⌉ : ℤ) : ℚ)
            / ((env.ticks_per_frame : ℚ) / ((pf : ℚ) / env.fps))⌉
      ∧ st1.sidari_buffer = some st1.sidari_buffer_length
      ∧ ⌈(pf : ℚ) / env.fps⌉ ≤ (st1.sidari_buffer_length : ℤ) := by
  obtain ⟨hlen, hbuf⟩ := sidari_initialize_length lib env st st1 freq17 pf np b16 s1 s2 hen h
  have hpfq : (0 : ℚ) < (pf : ℚ) := by exact_mod_cast hpf
  have hT : (0 : ℚ) < (env.ticks_per_frame : ℚ) := by exact_mod_cast htpf
  have hs0 : (0 : ℚ) ≤ 17734472 / 18 / (pf : ℚ) := le_of_lt (div_pos (by norm_num) hpfq)
  have hsc : (0 : ℤ) ≤ ⌈(17734472 / 18 / (pf : ℚ) : ℚ)⌉ := Int.ceil_nonneg hs0
  have hs32 : ⌈(17734472 / 18 / (pf : ℚ) : ℚ)⌉ < 2 ^ 32 := by
    have : (0 : ℤ) ≤ (env.ticks_per_frame : ℤ) := Int.natCast_nonneg _
    omega
  have hsur := ceilU32_cast _ hs0 hs32
  have hmax : ((u32 (env.ticks_per_frame + ceilU32 (17734472 / 18 / (pf : ℚ))) : ℕ) : ℤ)
      = (env.ticks_per_frame : ℤ) + ⌈(17734472 / 18 / (pf : ℚ) : ℚ)⌉ := by
    unfold u32
    rw [Nat.mod_eq_of_lt (by
      have : ((env.ticks_per_frame + ceilU32 (17734472 / 18 / (pf : ℚ)) : ℕ) : ℤ) < 2 ^ 32 := by
        push_cast
        rw [hsur]
        exact hfit1
      exact_mod_cast this)]
    push_cast
    rw [hsur]
  have hmaxq : ((u32 (env.ticks_per_frame + ceilU32 (17734472 / 18 / (pf : ℚ))) : ℕ) : ℚ)
      = (((env.ticks_per_frame : ℤ) + ⌈(17734472 / 18 / (pf : ℚ) : ℚ)⌉ : ℤ) : ℚ) := by
    rw [← hmax]
    norm_cast
  rw [hmaxq] at hlen
  have hA : (0 : ℚ) < (pf : ℚ) / env.fps := div_pos hpfq hfps
  have hge : (pf : ℚ) / env.fps
      ≤ (((env.ticks_per_frame : ℤ) + ⌈(17734472 / 18 / (pf : ℚ) : ℚ)⌉ : ℤ) : ℚ)
          / ((env.ticks_per_frame : ℚ) / ((pf : ℚ) / env.fps)) := by
    rw [div_div_eq_mul_div, le_div_iff₀ hT]
    push_cast
    have hsq : (0 : ℚ) ≤ ((⌈(17734472 / 18 / (pf : ℚ) : ℚ)⌉ : ℤ) : ℚ) := by exact_mod_cast hsc
    nlinarith [mul_nonneg hsq (le_of_lt hA)]
  have hx0 : (0 : ℚ) ≤ (((env.ticks_per_frame : ℤ) + ⌈(17734472 / 18 / (pf : ℚ) : ℚ)⌉ : ℤ) : ℚ)
      / ((env.ticks_per_frame : ℚ) / ((pf : ℚ) / env.fps)) := le_trans (le_of_lt hA) hge
  have hcast := ceilU32_cast _ hx0 hfit2
  rw [← hlen] at hcast
  refine ⟨hcast, hbuf, ?_⟩
  rw [hcast]
  exact Int.ceil_le_ceil hge

/-- C19 on a PAL machine at 44100 Hz: the scratch capacity is at least the
885 samples of one video frame. -/
theorem C19_scratch_capacity_witness :
    ∃ st1 : SIDari Nat, sidariPal 1 = some st1
      ∧ st1.sidari_buffer = some st1.sidari_buffer_length
      ∧ ⌈((44100 : ℤ) : ℚ) / Atari800.pal.fps⌉ ≤ (st1.sidari_buffer_length : ℤ)
      ∧ ⌈((44100 : ℤ) : ℚ) / Atari800.pal.fps⌉ = 885 := by
  have h1 : (sidariPal 1).isSome = true := by decide!
  obtain ⟨st1, hst⟩ := Option.isSome_iff_exists.mp h1
  obtain ⟨-, k2, k3⟩ := C19_scratch_capacity eagerSID Atari800.pal
    { (SIDari.start : SIDari Nat) with SIDARI_version := 1 } st1 1773447 44100 1 0 none none
    (by decide) (by decide) (by decide!) (by decide!) (by decide!) (by decide!) hst
  exact ⟨st1, hst, k2, k3, by decide!⟩

/-! ## C15: termination of the compensation loop of YAMari -/

/-- Whenever they return, `EVIE_GenerateSync`, `SONARI_GenerateSync`,
`MELODY_PSG_GenerateSync` and `YAMARI_GenerateSync` return `sndn`. -/
theorem generate_sync_wrappers_return_sndn {S A : Type} (lib : SIDClass S) (alib : AyemuLib)
    (flib : AdlibLib A) (fuel bs nt sn : Nat) (ev ev1 : Evie S) (so so1 : SONari)
    (me me1 : Melody) (ya ya1 : YAMari A) (k1 k2 k3 k4 : Nat) :
    (EVIE_GenerateSync lib alib fuel ev bs nt sn = some (ev1, k1) → k1 = sn)
    ∧ (SONARI_GenerateSync alib fuel so bs nt sn = some (so1, k2) → k2 = sn)
    ∧ (MELODY_PSG_GenerateSync alib fuel me bs nt sn = some (me1, k3) → k3 = sn)
    ∧ (YAMARI_GenerateSync flib fuel ya bs nt sn = some (ya1, k4) → k4 = sn) := by
  refine ⟨?_, ?_, ?_, ?_⟩
  · intro h
    unfold EVIE_GenerateSync at h
    obtain ⟨r1, -, h⟩ := Option.bind_eq_some.mp h
    obtain ⟨r2, -, h⟩ := Option.map_eq_some'.mp h
    simp only [Prod.mk.injEq] at h
    exact h.2.symm
  · intro h
    unfold SONARI_GenerateSync at h
    obtain ⟨r2, -, h⟩ := Option.map_eq_some'.mp h
    simp only [Prod.mk.injEq] at h
    exact h.2.symm
  · intro h
    unfold MELODY_PSG_GenerateSync at h
    obtain ⟨r2, -, h⟩ := Option.map_eq_some'.mp h
    simp only [Prod.mk.injEq] at h
    exact h.2.symm
  · intro h
    unfold YAMARI_GenerateSync at h
    obtain ⟨r2, -, h⟩ := Option.map_eq_some'.mp h
    simp only [Prod.mk.injEq] at h
    exact h.2.symm

/-- C13, the code at the failing inputs.  With a 64-byte buffer, 1000 ticks
and `sndn = 64`, the wrappers of the disabled Evie, SONari, Melody PSG and
YAMari return 64 although nothing is mixed; the generator `opl3_generate_sync`
that `YAMARI_GenerateSync` calls computes the byte count 0, which the wrapper
drops, and `SIDARI_GenerateSync` returns 0 on its disabled card.  On an
enabled YAMari with an empty output range (`buffer_end = buffer_begin`), where
the request is clamped to zero samples and no mixer call is made,
`YAMARI_GenerateSync` still returns 64. -/
theorem C13_wrappers_return_sndn_not_bytes_mixed :
    (EVIE_GenerateSync eagerSID plainAyemu 0
        { (Evie.start : Evie Nat) with EVIE_version := EVIE_NO } 64 1000 64).map Prod.snd
      = some 64
    ∧ (SONARI_GenerateSync plainAyemu 0 SONari.start 64 1000 64).map Prod.snd = some 64
    ∧ (MELODY_PSG_GenerateSync plainAyemu 0 Melody.start 64 1000 64).map Prod.snd = some 64
    ∧ (YAMARI_GenerateSync countingAdlib 0 (YAMari.start ⟨fun _ => 0, 0, 0⟩ : YAMari Nat)
        64 1000 64).map Prod.snd = some 64
    ∧ (opl3_generate_sync countingAdlib 0 (YAMari.start ⟨fun _ => 0, 0, 0⟩ : YAMari Nat)
        64 1000 64).map (fun r => (r.count, r.ret)) = some (0, 0)
    ∧ (SIDARI_GenerateSync eagerSID 0 (SIDari.start : SIDari Nat) 64 1000 64).map Prod.snd
      = some 0
    ∧ (YAMARI_GenerateSync countingAdlib 10 (yamariPal 1) 0 1000 64).map
        (fun r => (r.1.trace.filterMap Event.mixCount, r.2)) = some ([], 64)
    ∧ (opl3_generate_sync countingAdlib 10 (yamariPal 1) 0 1000 64).map
        (fun r => (r.samples_count, r.count, r.ret)) = some (0, 0, 0) := by
  refine ⟨?_, ?_, ?_, ?_, ?_, ?_, ?_, ?_⟩ <;> decide!

/-! ## C11: register access to a disabled card -/

/-- C11: on a disabled card (`EVIE_version = EVIE_NO`, `SIDARI_version =
SIDARI_NO`, `SLIGHTSID_version = SLIGHTSID_NO`, `SONARI_version = SONARI_NO`,
`MELODY_PSG_enable = 0`, `YAMARI_enable = 0`) every `GetByte` handler returns
0xFF for every address, and every `PutByte` handler returns the card exactly
as it was: latches, configuration byte and decoded flags, `chip_base_addr`,
`device_index`, the engine tables and the trace of boundary calls are all
unchanged, so no flush and no engine call is made. -/
theorem C11_disabled_card_ignores_register_access {S A : Type} (lib : SIDClass S)
    (alib : AyemuLib) (flib : AdlibLib A) (env : Atari800) (clock : Nat)
    (fe : Evie S → Evie S) (fs : SIDari S → SIDari S) (fl : SlightSID S → SlightSID S)
    (fo : SONari → SONari) (fm : Melody → Melody) (fy : YAMari A → YAMari A)
    (ev : Evie S) (si : SIDari S) (sl : SlightSID S) (so : SONari) (me : Melody)
    (ya : YAMari A) (addr byte : Nat) (nse : Int)
    (hev : ev.EVIE_version = EVIE_NO) (hsi : si.SIDARI_version = SIDARI_NO)
    (hsl : sl.SLIGHTSID_version = SLIGHTSID_NO) (hso : so.SONARI_version = SONARI_NO)
    (hme : me.MELODY_PSG_enable = 0) (hya : ya.YAMARI_enable = 0) :
    (EVIE_D2GetByte lib ev addr nse = some 0xff
      ∧ EVIE_D5GetByte lib ev addr nse = some 0xff
      ∧ SIDARI_D5GetByte si addr nse = 0xff
      ∧ SLIGHTSID_D5GetByte sl addr nse = 0xff
      ∧ SONARI_D5GetByte so addr nse = some 0xff
      ∧ MELODY_PSG_D5GetByte me addr nse = some 0xff
      ∧ YAMARI_D5GetByte flib clock ya addr nse = (ya, 0xff))
    ∧ (EVIE_D2PutByte lib alib env fe ev addr byte = some ev
      ∧ EVIE_D5PutByte lib fe ev addr byte = some ev
      ∧ EVIE_D67PutByte fe ev addr byte = ev
      ∧ SIDARI_D5PutByte lib fs si addr byte = some si
      ∧ SLIGHTSID_D5PutByte lib env fl sl addr byte = some sl
      ∧ SONARI_D5PutByte alib fo so addr byte = some so
      ∧ MELODY_PSG_D5PutByte alib env fm me addr byte = some me
      ∧ YAMARI_D5PutByte flib clock fy ya addr byte = ya) := by
  have h1 : SIDARI_NO ≠ SIDARI_MONO ∧ SIDARI_NO ≠ SIDARI_STEREO := by decide
  have h2 : SLIGHTSID_NO ≠ SLIGHTSID_MONO ∧ SLIGHTSID_NO ≠ SLIGHTSID_STEREO := by decide
  refine ⟨⟨?_, ?_, ?_, ?_, ?_, ?_, ?_⟩, ?_, ?_, ?_, ?_, ?_, ?_, ?_, ?_⟩
  · unfold EVIE_D2GetByte; rw [if_neg (by simp [hev])]
  · unfold EVIE_D5GetByte; rw [if_neg (by simp [hev])]
  · unfold SIDARI_D5GetByte; simp only [hsi, if_neg h1.1, if_neg h1.2]
  · unfold SLIGHTSID_D5GetByte; simp only [hsl, if_neg h2.1, if_neg h2.2]
  · unfold SONARI_D5GetByte; rw [if_neg (by simp [hso])]
  · unfold MELODY_PSG_D5GetByte; rw [if_neg (by simp [hme])]
  · unfold YAMARI_D5GetByte; rw [if_neg (by simp [hya])]
  · unfold EVIE_D2PutByte; rw [if_neg (by simp [hev])]
  · unfold EVIE_D5PutByte; rw [if_neg (by simp [hev])]
  · unfold EVIE_D67PutByte; rw [if_neg (by simp [hev])]
  · unfold SIDARI_D5PutByte; simp only [hsi, if_neg h1.1, if_neg h1.2]
  · unfold SLIGHTSID_D5PutByte; simp only [hsl, if_neg h2.1, if_neg h2.2]
  · unfold SONARI_D5PutByte; rw [if_neg (by simp [hso])]
  · unfold MELODY_PSG_D5PutByte; rw [if_neg (by simp [hme])]
  · unfold YAMARI_D5PutByte; rw [if_neg (by simp [hya])]

/-- C11 at the program-start values of the cards, Evie switched off by its
configuration, for a write of 0x0f to 0xd500. -/
theorem C11_disabled_card_ignores_register_access_witness :
    EVIE_D2GetByte eagerSID { (Evie.start : Evie Nat) with EVIE_version := EVIE_NO } 0xd2bf 0
        = some 0xff
      ∧ MELODY_PSG_D5GetByte Melody.start 0xd5df 0 = some 0xff
      ∧ SONARI_D5PutByte plainAyemu id SONari.start 0xd560 0x0f = some SONari.start
      ∧ MELODY_PSG_D5PutByte plainAyemu Atari800.pal id Melody.start 0xd5df 0x50
        = some Melody.start :=
  ⟨(C11_disabled_card_ignores_register_access eagerSID plainAyemu countingAdlib Atari800.pal 0
      id id id id id id { (Evie.start : Evie Nat) with EVIE_version := EVIE_NO } SIDari.start
      SlightSID.start SONari.start Melody.start (YAMari.start ⟨fun _ => 0, 0, 0⟩) 0xd2bf 0x0f 0
      rfl rfl rfl rfl rfl rfl).1.1,
   (C11_disabled_card_ignores_register_access eagerSID plainAyemu countingAdlib Atari800.pal 0
      id id id id id id { (Evie.start : Evie Nat) with EVIE_version := EVIE_NO } SIDari.start
      SlightSID.start SONari.start Melody.start (YAMari.start ⟨fun _ => 0, 0, 0⟩) 0xd5df 0x0f 0
      rfl rfl rfl rfl rfl rfl).1.2.2.2.2.2.1,
   (C11_disabled_card_ignores_register_access eagerSID plainAyemu countingAdlib Atari800.pal 0
      id id id id id id { (Evie.start : Evie Nat) with EVIE_version := EVIE_NO } SIDari.start
      SlightSID.start SONari.start Melody.start (YAMari.start ⟨fun _ => 0, 0, 0⟩) 0xd560 0x0f 0
      rfl rfl rfl rfl rfl rfl).2.2.2.2.2.2.1,
   (C11_disabled_card_ignores_register_access eagerSID plainAyemu countingAdlib Atari800.pal 0
      id id id id id id { (Evie.start : Evie Nat) with EVIE_version := EVIE_NO } SIDari.start
      SlightSID.start SONari.start Melody.start (YAMari.start ⟨fun _ => 0, 0, 0⟩) 0xd5df 0x50 0
      rfl rfl rfl rfl rfl rfl).2.2.2.2.2.2.2.1⟩

/-! ## C12: register access outside the slot -/

/-- C12: for SONari, Melody PSG and YAMari in every configuration, an address
with `InSlot(addr)` false reads as 0xFF and a write to it returns the card
exactly as it was (latches, configuration, engine tables and trace unchanged:
no flush, no engine call). -/
theorem C12_access_outside_slot_is_ignored {A : Type} (alib : AyemuLib) (flib : AdlibLib A)
    (env : Atari800) (clock : Nat) (fo : SONari → SONari) (fm : Melody → Melody)
    (fy : YAMari A → YAMari A) (so : SONari) (me : Melody) (ya : YAMari A)
    (a1 a2 a3 byte : Nat) (nse : Int)
    (h1 : SONARI_InSlot so a1 = false) (h2 : MELODY_PSG_InSlot me a2 = false)
    (h3 : YAMARI_InSlot ya a3 = false) :
    (SONARI_D5GetByte so a1 nse = some 0xff
      ∧ SONARI_D5PutByte alib fo so a1 byte = some so)
    ∧ (MELODY_PSG_D5GetByte me a2 nse = some 0xff
      ∧ MELODY_PSG_D5PutByte alib env fm me a2 byte = some me)
    ∧ (YAMARI_D5GetByte flib clock ya a3 nse = (ya, 0xff)
      ∧ YAMARI_D5PutByte flib clock fy ya a3 byte = ya) := by
  refine ⟨?_, ?_, ?_⟩
  · unfold SONARI_InSlot at h1
    simp only [Bool.and_eq_false_iff, decide_eq_false_iff_not, not_not, ge_iff_le, not_le] at h1
    by_cases hv : so.SONARI_version ≠ SONARI_NO
    · have hb1 : ¬ ((a1 : Int) ≥ 0xd500 + 0x20 * so.SONARI_slot
          ∧ (a1 : Int) ≤ 0xd500 + 0x20 * so.SONARI_slot + 1) := by
        rintro ⟨hlo, hhi⟩
        rcases h1 with (h1 | h1) | h1
        · exact hv h1
        · omega
        · split_ifs at h1 <;> omega
      have hb3 : ¬ (so.SONARI_version = SONARI_STEREO
          ∧ (a1 : Int) ≥ 0xd500 + 0x20 * so.SONARI_slot
          ∧ (a1 : Int) ≤ 0xd500 + 0x20 * so.SONARI_slot + 3) := by
        rintro ⟨hst, hlo, hhi⟩
        have hnm : ¬ so.SONARI_version = SONARI_MONO := by rw [hst]; decide
        rcases h1 with (h1 | h1) | h1
        · exact hv h1
        · omega
        · rw [if_neg hnm] at h1
          omega
      constructor
      · unfold SONARI_D5GetByte
        rw [if_pos hv]
        simp only
        rw [if_neg hb1, if_neg hb3]
      · unfold SONARI_D5PutByte
        rw [if_pos hv]
        simp only
        rw [if_neg hb1, if_neg hb3]
    · constructor
      · unfold SONARI_D5GetByte; rw [if_neg hv]
      · unfold SONARI_D5PutByte; rw [if_neg hv]
  · unfold MELODY_PSG_InSlot at h2
    simp only [Bool.and_eq_false_iff, Bool.or_eq_false_iff, decide_eq_false_iff_not, not_not,
      ge_iff_le, not_le] at h2
    by_cases hv : me.MELODY_PSG_enable ≠ 0
    · have hw : ¬ (a2 ≥ 0xd500 + me.chip_base_addr ∧ a2 ≤ 0xd500 + me.chip_base_addr + 3) := by
        rintro ⟨hlo, hhi⟩
        rcases h2 with h2 | ⟨h2, -⟩
        · exact hv h2
        · omega
      have hw2 : ¬ (a2 ≥ 0xd500 + me.chip_base_addr ∧ a2 ≤ 0xd500 + me.chip_base_addr + 3
          ∧ me.reset = false) := by
        rintro ⟨hlo, hhi, -⟩
        exact hw ⟨hlo, hhi⟩
      have hs : ¬ (0xd500 + 0xd8 ≤ a2 ∧ a2 ≤ 0xd500 + 0xdf) := by
        rintro ⟨hlo, hhi⟩
        rcases h2 with h2 | ⟨-, h2⟩
        · exact hv h2
        · omega
      have hsig : ¬ (a2 ≥ 0xd500 + 0xd8 ∧ a2 ≤ 0xd500 + 0xdb) := by
        rintro ⟨hlo, hhi⟩
        exact hs ⟨hlo, by omega⟩
      have hdc : ¬ a2 = 0xd500 + 0xdc := by
        intro h; exact hs ⟨by omega, by omega⟩
      have hdd : ¬ a2 = 0xd500 + 0xdd := by
        intro h; exact hs ⟨by omega, by omega⟩
      have hdf : ¬ a2 = 0xd500 + 0xdf := by
        intro h; exact hs ⟨by omega, by omega⟩
      constructor
      · unfold MELODY_PSG_D5GetByte
        rw [if_pos hv]
        simp only
        rw [if_neg hw, if_neg hsig]
        simp only [if_neg hdf]
        split_ifs <;> rfl
      · unfold MELODY_PSG_D5PutByte
        rw [if_pos hv]
        simp only
        rw [if_neg hw2, if_neg hdc, if_neg hdd]
        simp only [if_neg hdf]
        split_ifs <;> rfl
    · constructor
      · unfold MELODY_PSG_D5GetByte; rw [if_neg hv]
      · unfold MELODY_PSG_D5PutByte; rw [if_neg hv]
  · unfold YAMARI_InSlot at h3
    simp only [Bool.and_eq_false_iff, decide_eq_false_iff_not, not_not, ge_iff_le, not_le] at h3
    by_cases hv : ya.YAMARI_enable ≠ 0
    · have hb : ¬ ((a3 : Int) ≥ 0xd500 + 0x20 * ya.YAMARI_slot
          ∧ (a3 : Int) ≤ 0xd500 + 0x20 * ya.YAMARI_slot + 3) := by
        rintro ⟨hlo, hhi⟩
        rcases h3 with (h3 | h3) | h3
        · exact hv h3
        · omega
        · omega
      have hb0 : ¬ ((a3 : Int) = 0xd500 + 0x20 * ya.YAMARI_slot) := by
        intro h; exact hb ⟨by omega, by omega⟩
      constructor
      · unfold YAMARI_D5GetByte
        rw [if_pos hv]
        simp only
        rw [if_neg hb0]
      · unfold YAMARI_D5PutByte
        rw [if_pos hv]
        simp only
        rw [if_neg hb]
    · constructor
      · unfold YAMARI_D5GetByte; rw [if_neg hv]
      · unfold YAMARI_D5PutByte; rw [if_neg hv]

/-- C12 at enabled cards: stereo SONari in slot 3 at 0xd564, Melody PSG with
its device selected at 0xd5d7, YAMari in slot 0 at 0xd504. -/
theorem C12_access_outside_slot_is_ignored_witness :
    SONARI_D5GetByte { SONari.start with SONARI_version := SONARI_STEREO } 0xd564 0 = some 0xff
      ∧ MELODY_PSG_D5PutByte plainAyemu Atari800.pal id
          { Melody.start with MELODY_PSG_enable := 1, device_index := MELODY_PSG_DEVICE }
          0xd5d7 0x0f
        = some { Melody.start with MELODY_PSG_enable := 1, device_index := MELODY_PSG_DEVICE }
      ∧ YAMARI_D5PutByte countingAdlib 0 id (yamariPal 1) 0xd504 0x0f = yamariPal 1 :=
  ⟨(C12_access_outside_slot_is_ignored plainAyemu countingAdlib Atari800.pal 0 id id id
      { SONari.start with SONARI_version := SONARI_STEREO }
      { Melody.start with MELODY_PSG_enable := 1, device_index := MELODY_PSG_DEVICE }
      (yamariPal 1) 0xd564 0xd5d7 0xd504 0x0f 0 (by decide) (by decide) (by decide!)).1.1,
   (C12_access_outside_slot_is_ignored plainAyemu countingAdlib Atari800.pal 0 id id id
      { SONari.start with SONARI_version := SONARI_STEREO }
      { Melody.start with MELODY_PSG_enable := 1, device_index := MELODY_PSG_DEVICE }
      (yamariPal 1) 0xd564 0xd5d7 0xd504 0x0f 0 (by decide) (by decide) (by decide!)).2.1.2,
   (C12_access_outside_slot_is_ignored plainAyemu countingAdlib Atari800.pal 0 id id id
      { SONari.start with SONARI_version := SONARI_STEREO }
      { Melody.start with MELODY_PSG_enable := 1, device_index := MELODY_PSG_DEVICE }
      (yamariPal 1) 0xd564 0xd5d7 0xd504 0x0f 0 (by decide) (by decide) (by decide!)).2.2.2⟩

/-! ## C18: the flush precedes every engine write -/

theorem FlushFirst.append {c : Card} {old mid new_ : List Event} (h : FlushFirst c old mid)
    (more : List Event) (h2 : new_ = mid ++ more) : FlushFirst c old new_ := by
  obtain ⟨rest, hr⟩ := h
  exact ⟨rest ++ more, by rw [h2, hr]; simp⟩

theorem evie_update_flush {S : Type} (fe : Evie S → Evie S)
    (hf : AppendsOnly (fun s : Evie S => s.trace) fe) (st : Evie S) :
    FlushFirst Card.Evie st.trace (Evie.update fe st).trace := by
  obtain ⟨extra, he⟩ := hf { st with trace := st.trace ++ [Event.POKEYSND_Update Card.Evie] }
  refine ⟨extra, ?_⟩
  unfold Evie.update
  simp only at he
  rw [he]
  simp

theorem evie_sid_write_flush {S : Type} (lib : SIDClass S) (fe : Evie S → Evie S)
    (hf : AppendsOnly (fun s : Evie S => s.trace) fe) (st st1 : Evie S) (a b : Nat)
    (h : Evie.sid_write lib (Evie.update fe st) a b = some st1) :
    FlushFirst Card.Evie st.trace st1.trace := by
  unfold Evie.sid_write at h
  obtain ⟨r, -, h⟩ := Option.map_eq_some'.mp h
  exact (evie_update_flush fe hf st).append _ (by rw [← h])

theorem evie_psg_write_flush {S : Type} (alib : AyemuLib) (fe : Evie S → Evie S)
    (hf : AppendsOnly (fun s : Evie S => s.trace) fe) (st st1 : Evie S) (a b : Nat)
    (h : Evie.psg_write alib (Evie.update fe st) a b = some st1) :
    FlushFirst Card.Evie st.trace st1.trace := by
  unfold Evie.psg_write at h
  obtain ⟨r, -, h⟩ := Option.map_eq_some'.mp h
  exact (evie_update_flush fe hf st).append _ (by rw [← h])

/-- `evie_initialize` makes no boundary call. -/
theorem evie_initialize_trace {S : Type} (lib : SIDClass S) (alib : AyemuLib)
    (env : Atari800) (st st1 : Evie S) (freq17 : Nat) (pf np b16 : Int)
    (s1 : Option RESID_State) (s2 : Option AYEMU_State)
    (h : evie_initialize lib alib env st freq17 pf np b16 s1 s2 = some st1) :
    st1.trace = st.trace := by
  unfold evie_initialize at h
  simp only [] at h
  by_cases hv : st.EVIE_version ≠ EVIE_NO
  · rw [if_pos hv] at h
    obtain ⟨r2, -, h⟩ := Option.bind_eq_some.mp h
    obtain ⟨r3, -, h⟩ := Option.bind_eq_some.mp h
    obtain ⟨a2, -, h⟩ := Option.bind_eq_some.mp h
    obtain ⟨a3, -, h⟩ := Option.bind_eq_some.mp h
    simp only [Option.some.injEq] at h
    rw [← h]
  · rw [if_neg hv] at h
    simp only [Option.some.injEq] at h
    rw [← h]

/-- `EVIE_D2PutByte`: either nothing is appended to the trace and both engine
tables are untouched, or the first event appended is the flush. -/
theorem EVIE_D2PutByte_flush {S : Type} (lib : SIDClass S) (alib : AyemuLib) (env : Atari800)
    (fe : Evie S → Evie S) (hf : AppendsOnly (fun s : Evie S => s.trace) fe)
    (st st1 : Evie S) (addr byte : Nat)
    (h : EVIE_D2PutByte lib alib env fe st addr byte = some st1) :
    (st1.trace = st.trace ∧ st1.resid = st.resid ∧ st1.ayemu = st.ayemu)
      ∨ FlushFirst Card.Evie st.trace st1.trace := by
  unfold EVIE_D2PutByte at h
  simp only [] at h
  split_ifs at h
  · exact Or.inr (evie_sid_write_flush lib fe hf st st1 _ _ h)
  · exact Or.inr (evie_psg_write_flush alib fe hf st st1 _ _ h)
  · simp only [Option.some.injEq] at h
    subst h
    exact Or.inl ⟨rfl, rfl, rfl⟩
  · exact Or.inr (evie_psg_write_flush alib fe hf st st1 _ _ h)
  · obtain ⟨s1, -, h⟩ := Option.bind_eq_some.mp h
    obtain ⟨s2, -, h⟩ := Option.bind_eq_some.mp h
    have ht := evie_initialize_trace lib alib env _ st1 _ _ _ _ _ _ h
    exact Or.inr ((evie_update_flush fe hf st).append [] (by rw [ht]; simp [Evie.update_config]))
  · simp only [Option.some.injEq] at h
    subst h
    exact Or.inl ⟨rfl, rfl, rfl⟩
  · simp only [Option.some.injEq] at h
    subst h
    exact Or.inl ⟨rfl, rfl, rfl⟩
  · simp only [Option.some.injEq] at h
    subst h
    exact Or.inl ⟨rfl, rfl, rfl⟩

/-- `EVIE_D5PutByte`: nothing happens, or the first event appended is the
flush. -/
theorem EVIE_D5PutByte_flush {S : Type} (lib : SIDClass S)
    (fe : Evie S → Evie S) (hf : AppendsOnly (fun s : Evie S => s.trace) fe)
    (st st1 : Evie S) (addr byte : Nat)
    (h : EVIE_D5PutByte lib fe st addr byte = some st1) :
    st1 = st ∨ FlushFirst Card.Evie st.trace st1.trace := by
  unfold EVIE_D5PutByte at h
  simp only [] at h
  split_ifs at h
  · exact Or.inr (evie_sid_write_flush lib fe hf st st1 _ _ h)
  · simp only [Option.some.injEq] at h
    exact Or.inl h.symm
  · simp only [Option.some.injEq] at h
    exact Or.inl h.symm

theorem sidari_sid_write_flush {S : Type} (lib : SIDClass S) (fs : SIDari S → SIDari S)
    (hf : AppendsOnly (fun s : SIDari S => s.trace) fs) (st st1 : SIDari S) (i a b : Nat)
    (h : SIDari.sid_write lib (SIDari.update fs st) i a b = some st1) :
    FlushFirst Card.SIDari st.trace st1.trace := by
  unfold SIDari.sid_write at h
  obtain ⟨r, -, h⟩ := Option.map_eq_some'.mp h
  obtain ⟨extra, he⟩ := hf { st with trace := st.trace ++ [Event.POKEYSND_Update Card.SIDari] }
  refine ⟨extra ++ [Event.RESID_write i a b], ?_⟩
  rw [← h]
  unfold SIDari.update
  simp only at he ⊢
  rw [he]
  simp

/-- `SIDARI_D5PutByte`: nothing happens, or the first event appended is the
flush. -/
theorem SIDARI_D5PutByte_flush {S : Type} (lib : SIDClass S)
    (fs : SIDari S → SIDari S) (hf : AppendsOnly (fun s : SIDari S => s.trace) fs)
    (st st1 : SIDari S) (addr byte : Nat)
    (h : SIDARI_D5PutByte lib fs st addr byte = some st1) :
    st1 = st ∨ FlushFirst Card.SIDari st.trace st1.trace := by
  unfold SIDARI_D5PutByte at h
  simp only [] at h
  split_ifs at h
  all_goals first
    | exact Or.inr (sidari_sid_write_flush lib fs hf st st1 _ _ _ h)
    | (simp only [Option.some.injEq] at h; exact Or.inl h.symm)

theorem slightsid_update_flush {S : Type} (fl : SlightSID S → SlightSID S)
    (hf : AppendsOnly (fun s : SlightSID S => s.trace) fl) (st : SlightSID S) :
    FlushFirst Card.SlightSID st.trace (SlightSID.update fl st).trace := by
  obtain ⟨extra, he⟩ :=
    hf { st with trace := st.trace ++ [Event.POKEYSND_Update Card.SlightSID] }
  refine ⟨extra, ?_⟩
  unfold SlightSID.update
  simp only at he
  rw [he]
  simp

theorem slightsid_sid_write_trace {S : Type} (lib : SIDClass S) (st st1 : SlightSID S)
    (i a b : Nat) (h : SlightSID.sid_write lib st i a b = some st1) :
    st1.trace = st.trace ++ [Event.RESID_write i a b] := by
  unfold SlightSID.sid_write at h
  obtain ⟨r, -, h⟩ := Option.map_eq_some'.mp h
  rw [← h]

/-- `slightsid_initialize` makes no boundary call. -/
theorem slightsid_initialize_trace {S : Type} (lib : SIDClass S) (env : Atari800)
    (st st1 : SlightSID S) (freq17 : Nat) (pf np b16 : Int) (s1 s2 : Option RESID_State)
    (h : slightsid_initialize lib env st freq17 pf np b16 s1 s2 = some st1) :
    st1.trace = st.trace := by
  unfold slightsid_initialize at h
  simp only [] at h
  by_cases hv : st.SLIGHTSID_version ≠ SLIGHTSID_NO
  · rw [if_pos hv] at h
    obtain ⟨r2, -, h⟩ := Option.bind_eq_some.mp h
    obtain ⟨r3, -, h⟩ := Option.bind_eq_some.mp h
    by_cases hs : st.SLIGHTSID_version = SLIGHTSID_STEREO
    · rw [if_pos hs] at h
      obtain ⟨r5, -, h⟩ := Option.bind_eq_some.mp h
      obtain ⟨r6, -, h⟩ := Option.bind_eq_some.mp h
      simp only [Option.some.injEq] at h
      rw [← h]
    · rw [if_neg hs] at h
      simp only [Option.some.injEq] at h
      rw [← h]
  · rw [if_neg hv] at h
    simp only [Option.some.injEq] at h
    rw [← h]

/-- `SLIGHTSID_D5PutByte`: nothing happens, or the first event appended is the
flush. -/
theorem SLIGHTSID_D5PutByte_flush {S : Type} (lib : SIDClass S) (env : Atari800)
    (fl : SlightSID S → SlightSID S) (hf : AppendsOnly (fun s : SlightSID S => s.trace) fl)
    (st st1 : SlightSID S) (addr byte : Nat)
    (h : SLIGHTSID_D5PutByte lib env fl st addr byte = some st1) :
    st1 = st ∨ FlushFirst Card.SlightSID st.trace st1.trace := by
  have hu := slightsid_update_flush fl hf st
  unfold SLIGHTSID_D5PutByte at h
  simp only [] at h
  by_cases hm : st.SLIGHTSID_version = SLIGHTSID_MONO
  · rw [if_pos hm] at h
    split_ifs at h
    · exact Or.inr (hu.append _ (slightsid_sid_write_trace lib _ st1 _ _ _ h))
    · simp only [Option.some.injEq] at h; exact Or.inl h.symm
  · rw [if_neg hm] at h
    by_cases hs : st.SLIGHTSID_version = SLIGHTSID_STEREO
    · rw [if_pos hs] at h
      by_cases hl : addr ≤ 0xd518 ∧ st.reset = false
      · rw [if_pos hl] at h
        obtain ⟨s1, h1, h⟩ := Option.bind_eq_some.mp h
        have k1 := hu.append _ (slightsid_sid_write_trace lib _ s1 _ _ _ h1)
        split_ifs at h
        · exact Or.inr (k1.append _ (slightsid_sid_write_trace lib _ st1 _ _ _ h))
        · simp only [Option.some.injEq] at h
          rw [← h]
          exact Or.inr k1
      · rw [if_neg hl] at h
        by_cases hr : addr ≥ 0xd520 ∧ addr ≤ 0xd538 ∧ st.reset = false
        · rw [if_pos hr] at h
          obtain ⟨s2, h2, h⟩ := Option.bind_eq_some.mp h
          have k2 : FlushFirst Card.SlightSID st.trace s2.trace := by
            split_ifs at h2
            · exact hu.append _ (slightsid_sid_write_trace lib _ s2 _ _ _ h2)
            · simp only [Option.some.injEq] at h2
              rw [← h2]
              exact hu
          exact Or.inr (k2.append _ (slightsid_sid_write_trace lib _ st1 _ _ _ h))
        · rw [if_neg hr] at h
          split_ifs at h
          · simp only [Option.some.injEq] at h; exact Or.inl h.symm
          · obtain ⟨x1, -, h⟩ := Option.bind_eq_some.mp h
            obtain ⟨x2, -, h⟩ := Option.bind_eq_some.mp h
            have ht := slightsid_initialize_trace lib env _ st1 _ _ _ _ _ _ h
            exact Or.inr (hu.append [] (by rw [ht]; simp [SlightSID.update_config]))
          · simp only [Option.some.injEq] at h; exact Or.inl h.symm
          · simp only [Option.some.injEq] at h; exact Or.inl h.symm
    · rw [if_neg hs] at h
      simp only [Option.some.injEq] at h
      exact Or.inl h.symm

theorem sonari_psg_write_flush (alib : AyemuLib) (fo : SONari → SONari)
    (hf : AppendsOnly (fun s : SONari => s.trace) fo) (st st1 : SONari) (i a b : Nat)
    (h : SONari.psg_write alib (SONari.update fo st) i a b = some st1) :
    FlushFirst Card.SONari st.trace st1.trace := by
  unfold SONari.psg_write at h
  obtain ⟨r, -, h⟩ := Option.map_eq_some'.mp h
  obtain ⟨extra, he⟩ := hf { st with trace := st.trace ++ [Event.POKEYSND_Update Card.SONari] }
  refine ⟨extra ++ [Event.AYEMU_write i a b], ?_⟩
  rw [← h]
  unfold SONari.update
  simp only at he ⊢
  rw [he]
  simp

/-- `SONARI_D5PutByte`: either nothing is appended to the trace and the engine
tables are untouched, or the first event appended is the flush. -/
theorem SONARI_D5PutByte_flush (alib : AyemuLib)
    (fo : SONari → SONari) (hf : AppendsOnly (fun s : SONari => s.trace) fo)
    (st st1 : SONari) (addr byte : Nat)
    (h : SONARI_D5PutByte alib fo st addr byte = some st1) :
    (st1.trace = st.trace ∧ st1.ayemu = st.ayemu)
      ∨ FlushFirst Card.SONari st.trace st1.trace := by
  unfold SONARI_D5PutByte at h
  simp only [] at h
  split_ifs at h
  all_goals first
    | exact Or.inr (sonari_psg_write_flush alib fo hf st st1 _ _ _ h)
    | (simp only [Option.some.injEq] at h; subst h; exact Or.inl ⟨rfl, rfl⟩)

/-- `YAMARI_D5PutByte`: nothing happens, or the first event appended is the
flush. -/
theorem YAMARI_D5PutByte_flush {A : Type} (flib : AdlibLib A) (clock : Nat)
    (fy : YAMari A → YAMari A) (hf : AppendsOnly (fun s : YAMari A => s.trace) fy)
    (st : YAMari A) (addr byte : Nat) :
    YAMARI_D5PutByte flib clock fy st addr byte = st
      ∨ FlushFirst Card.YAMari st.trace (YAMARI_D5PutByte flib clock fy st addr byte).trace := by
  unfold YAMARI_D5PutByte
  simp only []
  split_ifs
  · right
    obtain ⟨extra, he⟩ :=
      hf { st with trace := st.trace ++ [Event.POKEYSND_Update Card.YAMari] }
    refine ⟨extra ++ [Event.YMF262_write YMF262_CHIP_YAMARI_INDEX
      ((((addr : Int) - (0xd500 + 0x20 * st.YAMARI_slot)) % 65536).toNat) byte], ?_⟩
    unfold YAMari.update
    simp only at he ⊢
    rw [he]
    simp
  · exact Or.inl rfl
  · exact Or.inl rfl

theorem melody_update_flush (fm : Melody → Melody)
    (hf : AppendsOnly (fun s : Melody => s.trace) fm) (st : Melody) :
    FlushFirst Card.Melody st.trace (Melody.update fm st).trace := by
  obtain ⟨extra, he⟩ := hf { st with trace := st.trace ++ [Event.POKEYSND_Update Card.Melody] }
  refine ⟨extra, ?_⟩
  unfold Melody.update
  simp only at he
  rw [he]
  simp

theorem melody_psg_write_trace (alib : AyemuLib) (st st1 : Melody) (i a b : Nat)
    (h : Melody.psg_write alib st i a b = some st1) :
    st1.trace = st.trace ++ [Event.AYEMU_write i a b] := by
  unfold Melody.psg_write at h
  obtain ⟨r, -, h⟩ := Option.map_eq_some'.mp h
  rw [← h]

/-- `melody_initialize` makes no boundary call. -/
theorem melody_initialize_trace (alib : AyemuLib) (env : Atari800)
    (st st1 : Melody) (freq17 : Nat) (pf np b16 : Int) (s1 s2 : Option AYEMU_State)
    (h : melody_initialize alib env st freq17 pf np b16 s1 s2 = some st1) :
    st1.trace = st.trace := by
  unfold melody_initialize at h
  simp only [] at h
  by_cases hv : st.MELODY_PSG_enable ≠ 0
  · rw [if_pos hv] at h
    obtain ⟨r2, -, h⟩ := Option.bind_eq_some.mp h
    obtain ⟨r3, -, h⟩ := Option.bind_eq_some.mp h
    obtain ⟨r5, -, h⟩ := Option.bind_eq_some.mp h
    obtain ⟨r6, -, h⟩ := Option.bind_eq_some.mp h
    simp only [Option.some.injEq] at h
    rw [← h]
  · rw [if_neg hv] at h
    simp only [Option.some.injEq] at h
    rw [← h]

/-- Two steps that each either leave trace and engine tables alone or start
with the flush compose to a step of the same kind. -/
theorem melody_steps (st st2 st1 : Melody)
    (h1 : (st2.trace = st.trace ∧ st2.ayemu = st.ayemu)
      ∨ FlushFirst Card.Melody st.trace st2.trace)
    (h2 : (st1.trace = st2.trace ∧ st1.ayemu = st2.ayemu)
      ∨ FlushFirst Card.Melody st2.trace st1.trace) :
    (st1.trace = st.trace ∧ st1.ayemu = st.ayemu)
      ∨ FlushFirst Card.Melody st.trace st1.trace := by
  rcases h1 with ⟨a1, b1⟩ | f1
  · rcases h2 with ⟨a2, b2⟩ | f2
    · exact Or.inl ⟨a2.trans a1, b2.trans b1⟩
    · rw [a1] at f2
      exact Or.inr f2
  · rcases h2 with ⟨a2, -⟩ | ⟨rest, f2⟩
    · rw [← a2] at f1
      exact Or.inr f1
    · exact Or.inr (f1.append _ f2)

/-- `MELODY_PSG_D5PutByte`: either nothing is appended to the trace and the
engine tables are untouched, or the first event appended is the flush. -/
theorem MELODY_PSG_D5PutByte_flush (alib : AyemuLib) (env : Atari800)
    (fm : Melody → Melody) (hf : AppendsOnly (fun s : Melody => s.trace) fm)
    (st st1 : Melody) (addr byte : Nat)
    (h : MELODY_PSG_D5PutByte alib env fm st addr byte = some st1) :
    (st1.trace = st.trace ∧ st1.ayemu = st.ayemu)
      ∨ FlushFirst Card.Melody st.trace st1.trace := by
  unfold MELODY_PSG_D5PutByte at h
  simp only [] at h
  by_cases hen : st.MELODY_PSG_enable ≠ 0
  · rw [if_pos hen] at h
    obtain ⟨st4, h4, h⟩ := Option.bind_eq_some.mp h
    have k4 : (st4.trace = st.trace ∧ st4.ayemu = st.ayemu)
        ∨ FlushFirst Card.Melody st.trace st4.trace := by
      by_cases hd : st.device_index = MELODY_PSG_DEVICE
      · rw [if_pos hd] at h4
        by_cases hw : addr ≥ 0xd500 + st.chip_base_addr
            ∧ addr ≤ 0xd500 + st.chip_base_addr + 3 ∧ st.reset = false
        · rw [if_pos hw] at h4
          obtain ⟨st2, h2, h4⟩ := Option.bind_eq_some.mp h4
          have k2 : (st2.trace = st.trace ∧ st2.ayemu = st.ayemu)
              ∨ FlushFirst Card.Melody st.trace st2.trace := by
            split_ifs at h2
            · simp only [Option.some.injEq] at h2; subst h2; exact Or.inl ⟨rfl, rfl⟩
            · exact Or.inr ((melody_update_flush fm hf st).append _
                (melody_psg_write_trace alib _ st2 _ _ _ h2))
            · simp only [Option.some.injEq] at h2; subst h2; exact Or.inl ⟨rfl, rfl⟩
            · simp only [Option.some.injEq] at h2; subst h2; exact Or.inl ⟨rfl, rfl⟩
          have k3 : (st4.trace = st2.trace ∧ st4.ayemu = st2.ayemu)
              ∨ FlushFirst Card.Melody st2.trace st4.trace := by
            split_ifs at h4
            · simp only [Option.some.injEq] at h4; subst h4; exact Or.inl ⟨rfl, rfl⟩
            · exact Or.inr ((melody_update_flush fm hf st2).append _
                (melody_psg_write_trace alib _ st4 _ _ _ h4))
            · simp only [Option.some.injEq] at h4; subst h4; exact Or.inl ⟨rfl, rfl⟩
            · simp only [Option.some.injEq] at h4; subst h4; exact Or.inl ⟨rfl, rfl⟩
          exact melody_steps st st2 st4 k2 k3
        · rw [if_neg hw] at h4
          split_ifs at h4
          · simp only [Option.some.injEq] at h4; subst h4; exact Or.inl ⟨rfl, rfl⟩
          · obtain ⟨x1, -, h4⟩ := Option.bind_eq_some.mp h4
            obtain ⟨x2, -, h4⟩ := Option.bind_eq_some.mp h4
            have ht := melody_initialize_trace alib env _ st4 _ _ _ _ _ _ h4
            exact Or.inr ((melody_update_flush fm hf st).append []
              (by rw [ht]; simp [Melody.update_config]))
          · simp only [Option.some.injEq] at h4; subst h4; exact Or.inl ⟨rfl, rfl⟩
      · rw [if_neg hd] at h4
        simp only [Option.some.injEq] at h4
        subst h4
        exact Or.inl ⟨rfl, rfl⟩
    have k5 : (st1.trace = st4.trace ∧ st1.ayemu = st4.ayemu)
        ∨ FlushFirst Card.Melody st4.trace st1.trace := by
      split_ifs at h
      · simp only [Option.some.injEq] at h; subst h; exact Or.inl ⟨rfl, rfl⟩
      · simp only [Option.some.injEq] at h; subst h; exact Or.inl ⟨rfl, rfl⟩
    exact melody_steps st st4 st1 k4 k5
  · rw [if_neg hen] at h
    simp only [Option.some.injEq] at h
    subst h
    exact Or.inl ⟨rfl, rfl⟩

/-- A write to the register-select address of Evie only sets the latch. -/
theorem EVIE_D2PutByte_latch {S : Type} (lib : SIDClass S) (alib : AyemuLib) (env : Atari800)
    (fe : Evie S → Evie S) (st : Evie S) (addr byte : Nat)
    (hv : st.EVIE_version ≠ EVIE_NO) (ha : addr ≥ 0xd280) (ho : addr &&& 0x3f = 0x30) :
    EVIE_D2PutByte lib alib env fe st addr byte = some { st with psg_register := byte } := by
  unfold EVIE_D2PutByte
  rw [if_pos hv, if_pos ha]
  simp only [ho]
  rfl

/-- A write to a register-select address of SONari only sets the latch. -/
theorem SONARI_D5PutByte_latch (alib : AyemuLib) (fo : SONari → SONari) (st : SONari)
    (addr byte : Nat) :
    (st.SONARI_version ≠ SONARI_NO → st.SONARI_model ≠ SONARI_CHIP_NO →
        (addr : Int) = 0xd500 + 0x20 * st.SONARI_slot →
        SONARI_D5PutByte alib fo st addr byte = some { st with psg_register := byte })
    ∧ (st.SONARI_version = SONARI_STEREO → st.SONARI_model2 ≠ SONARI_CHIP_NO →
        (addr : Int) = 0xd500 + 0x20 * st.SONARI_slot + 2 →
        SONARI_D5PutByte alib fo st addr byte = some { st with psg_register2 := byte }) := by
  constructor
  · intro hv hm ha
    unfold SONARI_D5PutByte
    rw [if_pos hv]
    simp only []
    rw [if_pos ⟨by omega, by omega⟩, if_pos hm, if_pos (by omega)]
  · intro hs hm ha
    have hv : st.SONARI_version ≠ SONARI_NO := by rw [hs]; decide
    unfold SONARI_D5PutByte
    rw [if_pos hv]
    simp only []
    rw [if_neg (by omega), if_pos ⟨hs, by omega, by omega⟩, if_pos hm, if_pos ha]

/-- Writes to the register-select addresses of Melody PSG, to the base-address
register and to the device-index register only set the latch; the chip window
starts at a multiple of 0x20, as every value that the card stores into
`chip_base_addr` does. -/
theorem MELODY_PSG_D5PutByte_latch (alib : AyemuLib) (env : Atari800) (fm : Melody → Melody)
    (st : Melody) (addr byte : Nat) (hen : st.MELODY_PSG_enable ≠ 0)
    (hcba : st.chip_base_addr % 0x20 = 0) :
    (st.device_index = MELODY_PSG_DEVICE → st.reset = false →
        st.MELODY_PSG_model ≠ MELODY_PSG_CHIP_NO → addr = 0xd500 + st.chip_base_addr →
        MELODY_PSG_D5PutByte alib env fm st addr byte = some { st with psg_register := byte })
    ∧ (st.device_index = MELODY_PSG_DEVICE → st.reset = false →
        st.MELODY_PSG_model2 ≠ MELODY_PSG_CHIP_NO → addr = 0xd500 + st.chip_base_addr + 2 →
        MELODY_PSG_D5PutByte alib env fm st addr byte = some { st with psg_register2 := byte })
    ∧ (st.device_index = MELODY_PSG_DEVICE → addr = 0xd5dc →
        MELODY_PSG_D5PutByte alib env fm st addr byte
          = some { st with chip_base_addr := byte &&& 0xe0 })
    ∧ (addr = 0xd5df →
        MELODY_PSG_D5PutByte alib env fm st addr byte = some { st with device_index := byte }) := by
  refine ⟨?_, ?_, ?_, ?_⟩
  · intro hd hr hm ha
    unfold MELODY_PSG_D5PutByte
    rw [if_pos hen]
    simp only []
    rw [if_pos hd, if_pos ⟨by omega, by omega, hr⟩, if_pos hm, if_pos ha]
    simp only [Option.some_bind]
    have h2 : ¬ addr = 0xd500 + st.chip_base_addr + 2 := by omega
    have h3 : ¬ addr = 0xd500 + st.chip_base_addr + 3 := by omega
    have hdf : ¬ addr = 0xd500 + 0xdf := by omega
    simp only [if_neg h2, if_neg h3, if_neg hdf, ite_self, Option.some_bind]
  · intro hd hr hm ha
    unfold MELODY_PSG_D5PutByte
    rw [if_pos hen]
    simp only []
    have h0 : ¬ addr = 0xd500 + st.chip_base_addr := by omega
    have h1 : ¬ addr = 0xd500 + st.chip_base_addr + 1 := by omega
    have hdf : ¬ addr = 0xd500 + 0xdf := by omega
    rw [if_pos hd, if_pos ⟨by omega, by omega, hr⟩]
    simp only [if_neg h0, if_neg h1, ite_self, Option.some_bind, if_pos hm, if_pos ha,
      if_neg hdf]
  · intro hd ha
    unfold MELODY_PSG_D5PutByte
    rw [if_pos hen]
    simp only []
    have hw : ¬ (addr ≥ 0xd500 + st.chip_base_addr ∧ addr ≤ 0xd500 + st.chip_base_addr + 3
        ∧ st.reset = false) := by
      rintro ⟨h1, h2, -⟩
      omega
    have hdf : ¬ addr = 0xd500 + 0xdf := by omega
    rw [if_pos hd, if_neg hw, if_pos (by omega)]
    simp only [Option.some_bind, if_neg hdf]
  · intro ha
    unfold MELODY_PSG_D5PutByte
    rw [if_pos hen]
    simp only []
    have hw : ¬ (addr ≥ 0xd500 + st.chip_base_addr ∧ addr ≤ 0xd500 + st.chip_base_addr + 3
        ∧ st.reset = false) := by
      rintro ⟨h1, h2, -⟩
      omega
    have hdc : ¬ addr = 0xd500 + 0xdc := by omega
    have hdd : ¬ addr = 0xd500 + 0xdd := by omega
    have hdf : addr = 0xd500 + 0xdf := by omega
    rw [if_neg hw, if_neg hdc, if_neg hdd]
    simp only [ite_self, Option.some_bind, if_pos hdf]

/-- A write to the configuration register of Evie (offset 0x3F): the flush
runs first, the two snapshots are read from the flushed card, the flushed card
gets the new configuration, and `evie_initialize` runs on it with the
snapshots. -/
theorem EVIE_D2PutByte_config {S : Type} (lib : SIDClass S) (alib : AyemuLib) (env : Atari800)
    (fe : Evie S → Evie S) (st : Evie S) (addr byte : Nat)
    (hv : st.EVIE_version ≠ EVIE_NO) (ha : addr ≥ 0xd280) (ho : addr &&& 0x3f = 0x3f) :
    EVIE_D2PutByte lib alib env fe st addr byte
      = (RESID_read_state lib (Evie.update fe st).resid RESID_CHIP_EVIE_INDEX).bind
          fun sid_state =>
        (AYEMU_read_state (Evie.update fe st).ayemu AYEMU_CHIP_EVIE_INDEX).bind
          fun psg_state =>
        evie_initialize lib alib env ((Evie.update fe st).update_config byte)
          (Evie.update fe st).main_freq (Evie.update fe st).dsprate
          (Evie.update fe st).num_pokeys (Evie.update fe st).bit16
          (some sid_state) (some psg_state) := by
  unfold EVIE_D2PutByte
  rw [if_pos hv, if_pos ha]
  simp only [ho]
  rfl

/-- A write of a byte of even parity to the configuration register 0xD541 of
a stereo SlightSID: flush, snapshots of the flushed card, new configuration,
`slightsid_initialize`, in this order. -/
theorem SLIGHTSID_D5PutByte_config {S : Type} (lib : SIDClass S) (env : Atari800)
    (fl : SlightSID S → SlightSID S) (st : SlightSID S) (byte : Nat)
    (hs : st.SLIGHTSID_version = SLIGHTSID_STEREO) (hp : is_parity_even byte = true) :
    SLIGHTSID_D5PutByte lib env fl st 0xd541 byte
      = (RESID_read_state lib (SlightSID.update fl st).resid
            RESID_CHIP_SLIGHTSID_LEFT_INDEX).bind fun state =>
        (RESID_read_state lib (SlightSID.update fl st).resid
            RESID_CHIP_SLIGHTSID_RIGHT_INDEX).bind fun state2 =>
        slightsid_initialize lib env ((SlightSID.update fl st).update_config byte)
          (SlightSID.update fl st).main_freq (SlightSID.update fl st).dsprate
          (SlightSID.update fl st).num_pokeys (SlightSID.update fl st).bit16
          (some state) (some state2) := by
  have hm : ¬ st.SLIGHTSID_version = SLIGHTSID_MONO := by rw [hs]; decide
  unfold SLIGHTSID_D5PutByte
  rw [if_neg hm, if_pos hs, if_neg (by omega), if_neg (by omega), if_neg (by omega),
    if_pos rfl, if_pos hp]
  rfl

/-- A write to the configuration register 0xD5DD of Melody PSG: flush,
snapshots of the flushed card, new configuration, `melody_initialize`, in this
order. -/
theorem MELODY_PSG_D5PutByte_config (alib : AyemuLib) (env : Atari800)
    (fm : Melody → Melody) (st : Melody) (byte : Nat)
    (he : st.MELODY_PSG_enable ≠ 0) (hc : st.chip_base_addr % 0x20 = 0)
    (hd : st.device_index = MELODY_PSG_DEVICE) :
    MELODY_PSG_D5PutByte alib env fm st 0xd5dd byte
      = (AYEMU_read_state (Melody.update fm st).ayemu
            AYEMU_CHIP_MELODY_PSG_LEFT_INDEX).bind fun psg_state =>
        (AYEMU_read_state (Melody.update fm st).ayemu
            AYEMU_CHIP_MELODY_PSG_RIGHT_INDEX).bind fun psg_state2 =>
        melody_initialize alib env ((Melody.update fm st).update_config byte)
          (Melody.update fm st).main_freq (Melody.update fm st).dsprate
          (Melody.update fm st).num_pokeys (Melody.update fm st).bit16
          (some psg_state) (some psg_state2) := by
  unfold MELODY_PSG_D5PutByte
  rw [if_pos he]
  simp only []
  have hw : ¬ (0xd5dd ≥ 0xd500 + st.chip_base_addr ∧ 0xd5dd ≤ 0xd500 + st.chip_base_addr + 3
      ∧ st.reset = false) := by
    rintro ⟨h1, h2, -⟩
    omega
  rw [if_pos hd, if_neg hw, if_neg (by decide), if_pos (by decide)]
  simp only [show ¬ (0xd5dd = 0xd500 + 0xdf) by decide, if_false, Option.bind_some]
  rfl

/-- The reinitialization after a configuration write appends nothing to the
trace: the trace of the result is the trace the flush left. -/
theorem config_write_trace {S : Type} (lib : SIDClass S) (alib : AyemuLib) (env : Atari800)
    (fe : Evie S → Evie S) (fl : SlightSID S → SlightSID S) (fm : Melody → Melody)
    (ev ev1 : Evie S) (sl sl1 : SlightSID S) (me me1 : Melody) (addr byte : Nat) :
    (ev.EVIE_version ≠ EVIE_NO → addr ≥ 0xd280 → addr &&& 0x3f = 0x3f →
        EVIE_D2PutByte lib alib env fe ev addr byte = some ev1 →
        ev1.trace = (Evie.update fe ev).trace)
    ∧ (sl.SLIGHTSID_version = SLIGHTSID_STEREO → is_parity_even byte = true →
        SLIGHTSID_D5PutByte lib env fl sl 0xd541 byte = some sl1 →
        sl1.trace = (SlightSID.update fl sl).trace)
    ∧ (me.MELODY_PSG_enable ≠ 0 → me.chip_base_addr % 0x20 = 0 →
        me.device_index = MELODY_PSG_DEVICE →
        MELODY_PSG_D5PutByte alib env fm me 0xd5dd byte = some me1 →
        me1.trace = (Melody.update fm me).trace) := by
  refine ⟨?_, ?_, ?_⟩
  · intro hv ha ho h
    rw [EVIE_D2PutByte_config lib alib env fe ev addr byte hv ha ho] at h
    obtain ⟨s1, -, h⟩ := Option.bind_eq_some.mp h
    obtain ⟨s2, -, h⟩ := Option.bind_eq_some.mp h
    exact (evie_initialize_trace lib alib env _ ev1 _ _ _ _ _ _ h).trans rfl
  · intro hs hp h
    rw [SLIGHTSID_D5PutByte_config lib env fl sl byte hs hp] at h
    obtain ⟨s1, -, h⟩ := Option.bind_eq_some.mp h
    obtain ⟨s2, -, h⟩ := Option.bind_eq_some.mp h
    exact (slightsid_initialize_trace lib env _ sl1 _ _ _ _ _ _ h).trans rfl
  · intro he hc hd h
    rw [MELODY_PSG_D5PutByte_config alib env fm me byte he hc hd] at h
    obtain ⟨s1, -, h⟩ := Option.bind_eq_some.mp h
    obtain ⟨s2, -, h⟩ := Option.bind_eq_some.mp h
    exact (melody_initialize_trace alib env _ me1 _ _ _ _ _ _ h).trans rfl

/-- C18: with flush functions that only append to the trace of boundary
calls, every `PutByte` handler (`EVIE_D2PutByte`, `EVIE_D5PutByte`,
`SIDARI_D5PutByte`, `SLIGHTSID_D5PutByte`, `SONARI_D5PutByte`,
`MELODY_PSG_D5PutByte`, `YAMARI_D5PutByte`) does one of two things.  Either it
appends nothing to the trace and leaves the engine tables as they were (no
engine write, no reinitialization), or the first event it appends is the
card's `POKEYSND_Update...` flush, so that every engine write of the call
comes after the flush.  A write that only sets a register-select latch,
`chip_base_addr` or `device_index` returns the card with that one field
changed: no flush and no engine call.  A write to a configuration register
(offset 0x3F of Evie, 0xD541 of a stereo SlightSID with a byte of even parity,
0xD5DD of Melody PSG) is the flush followed by the reinitialization: the
engine snapshots are read from the card as the flush returned it, the new
configuration is stored in that card, `X_initialize` runs on it with the
snapshots, and the trace of the result is the trace the flush left. -/
theorem C18_flush_precedes_engine_writes {S A : Type} (lib : SIDClass S) (alib : AyemuLib)
    (flib : AdlibLib A) (env : Atari800) (clock : Nat)
    (fe : Evie S → Evie S) (fs : SIDari S → SIDari S) (fl : SlightSID S → SlightSID S)
    (fo : SONari → SONari) (fm : Melody → Melody) (fy : YAMari A → YAMari A)
    (hfe : AppendsOnly (fun s : Evie S => s.trace) fe)
    (hfs : AppendsOnly (fun s : SIDari S => s.trace) fs)
    (hfl : AppendsOnly (fun s : SlightSID S => s.trace) fl)
    (hfo : AppendsOnly (fun s : SONari => s.trace) fo)
    (hfm : AppendsOnly (fun s : Melody => s.trace) fm)
    (hfy : AppendsOnly (fun s : YAMari A => s.trace) fy)
    (ev ev1 : Evie S) (si si1 : SIDari S) (sl sl1 : SlightSID S) (so so1 : SONari)
    (me me1 : Melody) (ya : YAMari A) (addr byte : Nat) :
    ((EVIE_D2PutByte lib alib env fe ev addr byte = some ev1 →
        (ev1.trace = ev.trace ∧ ev1.resid = ev.resid ∧ ev1.ayemu = ev.ayemu)
          ∨ FlushFirst Card.Evie ev.trace ev1.trace)
      ∧ (EVIE_D5PutByte lib fe ev addr byte = some ev1 →
        ev1 = ev ∨ FlushFirst Card.Evie ev.trace ev1.trace)
      ∧ (SIDARI_D5PutByte lib fs si addr byte = some si1 →
        si1 = si ∨ FlushFirst Card.SIDari si.trace si1.trace)
      ∧ (SLIGHTSID_D5PutByte lib env fl sl addr byte = some sl1 →
        sl1 = sl ∨ FlushFirst Card.SlightSID sl.trace sl1.trace)
      ∧ (SONARI_D5PutByte alib fo so addr byte = some so1 →
        (so1.trace = so.trace ∧ so1.ayemu = so.ayemu)
          ∨ FlushFirst Card.SONari so.trace so1.trace)
      ∧ (MELODY_PSG_D5PutByte alib env fm me addr byte = some me1 →
        (me1.trace = me.trace ∧ me1.ayemu = me.ayemu)
          ∨ FlushFirst Card.Melody me.trace me1.trace)
      ∧ (YAMARI_D5PutByte flib clock fy ya addr byte = ya
          ∨ FlushFirst Card.YAMari ya.trace (YAMARI_D5PutByte flib clock fy ya addr byte).trace))
    ∧ ((ev.EVIE_version ≠ EVIE_NO → addr ≥ 0xd280 → addr &&& 0x3f = 0x30 →
        EVIE_D2PutByte lib alib env fe ev addr byte = some { ev with psg_register := byte })
      ∧ (so.SONARI_version ≠ SONARI_NO → so.SONARI_model ≠ SONARI_CHIP_NO →
        (addr : Int) = 0xd500 + 0x20 * so.SONARI_slot →
        SONARI_D5PutByte alib fo so addr byte = some { so with psg_register := byte })
      ∧ (so.SONARI_version = SONARI_STEREO → so.SONARI_model2 ≠ SONARI_CHIP_NO →
        (addr : Int) = 0xd500 + 0x20 * so.SONARI_slot + 2 →
        SONARI_D5PutByte alib fo so addr byte = some { so with psg_register2 := byte })
      ∧ (me.MELODY_PSG_enable ≠ 0 → me.chip_base_addr % 0x20 = 0 →
        (me.device_index = MELODY_PSG_DEVICE → me.reset = false →
            me.MELODY_PSG_model ≠ MELODY_PSG_CHIP_NO → addr = 0xd500 + me.chip_base_addr →
            MELODY_PSG_D5PutByte alib env fm me addr byte
              = some { me with psg_register := byte })
        ∧ (me.device_index = MELODY_PSG_DEVICE → me.reset = false →
            me.MELODY_PSG_model2 ≠ MELODY_PSG_CHIP_NO →
            addr = 0xd500 + me.chip_base_addr + 2 →
            MELODY_PSG_D5PutByte alib env fm me addr byte
              = some { me with psg_register2 := byte })
        ∧ (me.device_index = MELODY_PSG_DEVICE → addr = 0xd5dc →
            MELODY_PSG_D5PutByte alib env fm me addr byte
              = some { me with chip_base_addr := byte &&& 0xe0 })
        ∧ (addr = 0xd5df →
            MELODY_PSG_D5PutByte alib env fm me addr byte
              = some { me with device_index := byte })))
    ∧ ((ev.EVIE_version ≠ EVIE_NO → addr ≥ 0xd280 → addr &&& 0x3f = 0x3f →
        EVIE_D2PutByte lib alib env fe ev addr byte
            = ((RESID_read_state lib (Evie.update fe ev).resid RESID_CHIP_EVIE_INDEX).bind
                fun sid_state =>
              (AYEMU_read_state (Evie.update fe ev).ayemu AYEMU_CHIP_EVIE_INDEX).bind
                fun psg_state =>
              evie_initialize lib alib env ((Evie.update fe ev).update_config byte)
                (Evie.update fe ev).main_freq (Evie.update fe ev).dsprate
                (Evie.update fe ev).num_pokeys (Evie.update fe ev).bit16
                (some sid_state) (some psg_state))
          ∧ (EVIE_D2PutByte lib alib env fe ev addr byte = some ev1 →
              ev1.trace = (Evie.update fe ev).trace))
      ∧ (sl.SLIGHTSID_version = SLIGHTSID_STEREO → is_parity_even byte = true →
        SLIGHTSID_D5PutByte lib env fl sl 0xd541 byte
            = ((RESID_read_state lib (SlightSID.update fl sl).resid
                  RESID_CHIP_SLIGHTSID_LEFT_INDEX).bind fun state =>
              (RESID_read_state lib (SlightSID.update fl sl).resid
                  RESID_CHIP_SLIGHTSID_RIGHT_INDEX).bind fun state2 =>
              slightsid_initialize lib env ((SlightSID.update fl sl).update_config byte)
                (SlightSID.update fl sl).main_freq (SlightSID.update fl sl).dsprate
                (SlightSID.update fl sl).num_pokeys (SlightSID.update fl sl).bit16
                (some state) (some state2))
          ∧ (SLIGHTSID_D5PutByte lib env fl sl 0xd541 byte = some sl1 →
              sl1.trace = (SlightSID.update fl sl).trace))
      ∧ (me.MELODY_PSG_enable ≠ 0 → me.chip_base_addr % 0x20 = 0 →
        me.device_index = MELODY_PSG_DEVICE →
        MELODY_PSG_D5PutByte alib env fm me 0xd5dd byte
            = ((AYEMU_read_state (Melody.update fm me).ayemu
                  AYEMU_CHIP_MELODY_PSG_LEFT_INDEX).bind fun psg_state =>
              (AYEMU_read_state (Melody.update fm me).ayemu
                  AYEMU_CHIP_MELODY_PSG_RIGHT_INDEX).bind fun psg_state2 =>
              melody_initialize alib env ((Melody.update fm me).update_config byte)
                (Melody.update fm me).main_freq (Melody.update fm me).dsprate
                (Melody.update fm me).num_pokeys (Melody.update fm me).bit16
                (some psg_state) (some psg_state2))
          ∧ (MELODY_PSG_D5PutByte alib env fm me 0xd5dd byte = some me1 →
              me1.trace = (Melody.update fm me).trace))) := by
  refine ⟨⟨?_, ?_, ?_, ?_, ?_, ?_, ?_⟩, ⟨?_, ?_, ?_, ?_⟩, ?_, ?_, ?_⟩
  · exact EVIE_D2PutByte_flush lib alib env fe hfe ev ev1 addr byte
  · exact EVIE_D5PutByte_flush lib fe hfe ev ev1 addr byte
  · exact SIDARI_D5PutByte_flush lib fs hfs si si1 addr byte
  · exact SLIGHTSID_D5PutByte_flush lib env fl hfl sl sl1 addr byte
  · exact SONARI_D5PutByte_flush alib fo hfo so so1 addr byte
  · exact MELODY_PSG_D5PutByte_flush alib env fm hfm me me1 addr byte
  · exact YAMARI_D5PutByte_flush flib clock fy hfy ya addr byte
  · exact EVIE_D2PutByte_latch lib alib env fe ev addr byte
  · exact (SONARI_D5PutByte_latch alib fo so addr byte).1
  · exact (SONARI_D5PutByte_latch alib fo so addr byte).2
  · exact MELODY_PSG_D5PutByte_latch alib env fm me addr byte
  · intro hv ha ho
    exact ⟨EVIE_D2PutByte_config lib alib env fe ev addr byte hv ha ho,
      (config_write_trace lib alib env fe fl fm ev ev1 sl sl1 me me1 addr byte).1 hv ha ho⟩
  · intro hs hp
    exact ⟨SLIGHTSID_D5PutByte_config lib env fl sl byte hs hp,
      (config_write_trace lib alib env fe fl fm ev ev1 sl sl1 me me1 addr byte).2.1 hs hp⟩
  · intro he hc hd
    exact ⟨MELODY_PSG_D5PutByte_config alib env fm me byte he hc hd,
      (config_write_trace lib alib env fe fl fm ev ev1 sl sl1 me me1 addr byte).2.2 he hc hd⟩

/-- The flush used to exercise a configuration write of Evie: it advances the
SID phase by one half and records one mixer call. -/
theorem halfTickFlush_appends :
    AppendsOnly (fun s : Evie Nat => s.trace)
      (fun s => { s with sid_ticks := s.sid_ticks + 1 / 2,
                         trace := s.trace ++ [Event.Util_mix .evie_sid_buffer 1 128 0 1 0 1 0] }) :=
  fun _ => ⟨[Event.Util_mix .evie_sid_buffer 1 128 0 1 0 1 0], rfl⟩

/-- C18 at concrete calls.  With flush functions that do nothing beyond being
recorded, a data write to YAMari at 0xd501 is ordered after the flush, and a
write of 7 to the register-select address 0xd560 of a mono SONari in slot 3
only sets the latch.  With a flush of Evie that advances the SID phase by one
half and records a mixer call, the write of 0x0c to the configuration
register 0xd2bf of Evie on the PAL machine returns the card reinitialized from
the flushed card: its trace is the flush event followed by the mixer call of
the flush, and the phase that the flush had advanced is 0 again. -/
theorem C18_flush_precedes_engine_writes_witness :
    (YAMARI_D5PutByte countingAdlib 0 id (yamariPal 1) 0xd501 0x0f = yamariPal 1
        ∨ FlushFirst Card.YAMari (yamariPal 1).trace
            (YAMARI_D5PutByte countingAdlib 0 id (yamariPal 1) 0xd501 0x0f).trace)
      ∧ SONARI_D5PutByte plainAyemu id { SONari.start with SONARI_version := SONARI_MONO }
          0xd560 7
        = some { SONari.start with SONARI_version := SONARI_MONO, psg_register := 7 }
      ∧ ∃ ev ev1 : Evie Nat,
          eviePal = some ev ∧ ev.EVIE_version ≠ EVIE_NO
          ∧ EVIE_D2PutByte eagerSID plainAyemu Atari800.pal
              (fun s => { s with sid_ticks := s.sid_ticks + 1 / 2,
                                 trace := s.trace
                                   ++ [Event.Util_mix .evie_sid_buffer 1 128 0 1 0 1 0] })
              ev 0xd2bf 0x0c = some ev1
          ∧ ev1.trace
              = (Evie.update
                  (fun s => { s with sid_ticks := s.sid_ticks + 1 / 2,
                                     trace := s.trace
                                       ++ [Event.Util_mix .evie_sid_buffer 1 128 0 1 0 1 0] })
                  ev).trace
          ∧ ev1.trace = ev.trace ++ [Event.POKEYSND_Update Card.Evie,
              Event.Util_mix .evie_sid_buffer 1 128 0 1 0 1 0]
          ∧ ev1.config = 0x0c ∧ ev1.sid_ticks = 0 ∧ ev.sid_ticks + 1 / 2 ≠ 0 := by
  refine ⟨(C18_flush_precedes_engine_writes eagerSID plainAyemu countingAdlib Atari800.pal 0
      id id id id id id
      (fun s => ⟨[], (List.append_nil _).symm⟩) (fun s => ⟨[], (List.append_nil _).symm⟩)
      (fun s => ⟨[], (List.append_nil _).symm⟩) (fun s => ⟨[], (List.append_nil _).symm⟩)
      (fun s => ⟨[], (List.append_nil _).symm⟩) (fun s => ⟨[], (List.append_nil _).symm⟩)
      Evie.start Evie.start SIDari.start SIDari.start SlightSID.start SlightSID.start
      { SONari.start with SONARI_version := SONARI_MONO }
      { SONari.start with SONARI_version := SONARI_MONO }
      Melody.start Melody.start (yamariPal 1) 0xd501 0x0f).1.2.2.2.2.2.2,
    (C18_flush_precedes_engine_writes eagerSID plainAyemu countingAdlib Atari800.pal 0
      id id id id id id
      (fun s => ⟨[], (List.append_nil _).symm⟩) (fun s => ⟨[], (List.append_nil _).symm⟩)
      (fun s => ⟨[], (List.append_nil _).symm⟩) (fun s => ⟨[], (List.append_nil _).symm⟩)
      (fun s => ⟨[], (List.append_nil _).symm⟩) (fun s => ⟨[], (List.append_nil _).symm⟩)
      Evie.start Evie.start SIDari.start SIDari.start SlightSID.start SlightSID.start
      { SONari.start with SONARI_version := SONARI_MONO }
      { SONari.start with SONARI_version := SONARI_MONO }
      Melody.start Melody.start (yamariPal 1) 0xd560 7).2.1.2.1 (by decide) (by decide)
      (by decide), ?_⟩
  have h1 : (eviePal.bind fun ev =>
      (EVIE_D2PutByte eagerSID plainAyemu Atari800.pal
        (fun s => { s with sid_ticks := s.sid_ticks + 1 / 2,
                           trace := s.trace
                             ++ [Event.Util_mix .evie_sid_buffer 1 128 0 1 0 1 0] })
        ev 0xd2bf 0x0c).map fun ev1 =>
          (decide (ev.EVIE_version ≠ EVIE_NO)
            && decide (ev1.trace = ev.trace ++ [Event.POKEYSND_Update Card.Evie,
                Event.Util_mix .evie_sid_buffer 1 128 0 1 0 1 0])
            && decide (ev1.config = 0x0c) && decide (ev1.sid_ticks = 0)
            && decide (ev.sid_ticks + 1 / 2 ≠ 0))) = some true := by decide!
  obtain ⟨ev, hev, h2⟩ := Option.bind_eq_some.mp h1
  obtain ⟨ev1, hev1, h3⟩ := Option.map_eq_some'.mp h2
  simp only [Bool.and_eq_true, decide_eq_true_eq] at h3
  exact ⟨ev, ev1, hev, h3.1.1.1.1, hev1,
    ((C18_flush_precedes_engine_writes eagerSID plainAyemu countingAdlib Atari800.pal 0
      (fun s => { s with sid_ticks := s.sid_ticks + 1 / 2,
                         trace := s.trace
                           ++ [Event.Util_mix .evie_sid_buffer 1 128 0 1 0 1 0] })
      id id id id id
      halfTickFlush_appends (fun s => ⟨[], (List.append_nil _).symm⟩)
      (fun s => ⟨[], (List.append_nil _).symm⟩) (fun s => ⟨[], (List.append_nil _).symm⟩)
      (fun s => ⟨[], (List.append_nil _).symm⟩) (fun s => ⟨[], (List.append_nil _).symm⟩)
      ev ev1 SIDari.start SIDari.start SlightSID.start SlightSID.start
      SONari.start SONari.start Melody.start Melody.start (yamariPal 1) 0xd2bf 0x0c).2.2.1
        h3.1.1.1.1 (by decide) (by decide)).2 hev1,
    h3.1.1.1.2, h3.1.1.2, h3.1.2, h3.2⟩

/-! ## C30: one register write to the PSG adapter -/

/-- One `AYEMU_write` on an open chip, and the out-of-range case. -/
theorem AYEMU_write_register (lib : AyemuLib) (a : AYEMU) (i addr v : Nat)
    (chip : ayemu_ay_t) (regs : Fin 14 → Nat)
    (hp : a.psg i = some chip) (hr : a.reg i = some regs) :
    (∀ h : addr < 14,
        ∃ a1, AYEMU_write lib a i addr v = some a1
          ∧ a1.reg i = some (Function.update regs ⟨addr, h⟩ (v &&& ay_reg_mask ⟨addr, h⟩))
          ∧ AYEMU_read a1 i addr = some (v &&& ay_reg_mask ⟨addr, h⟩)
          ∧ (∀ k, k ≠ addr → AYEMU_read a1 i k = AYEMU_read a i k)
          ∧ (∀ j, j ≠ i → a1.psg j = a.psg j ∧ a1.reg j = a.reg j)
          ∧ a1.psg i = some (lib.ayemu_set_regs chip
              (if addr = 13 then Function.update regs ⟨addr, h⟩ (v &&& ay_reg_mask ⟨addr, h⟩)
               else Function.update
                (Function.update regs ⟨addr, h⟩ (v &&& ay_reg_mask ⟨addr, h⟩)) 13 0xff)))
    ∧ (14 ≤ addr → AYEMU_write lib a i addr v = some a ∧ AYEMU_read a i addr = some 0xff) := by
  constructor
  · intro h
    have hreg : ∀ a1 : AYEMU,
        a1.reg i = some (Function.update regs ⟨addr, h⟩ (v &&& ay_reg_mask ⟨addr, h⟩)) →
        AYEMU_read a1 i addr = some (v &&& ay_reg_mask ⟨addr, h⟩)
          ∧ ∀ k, k ≠ addr → AYEMU_read a1 i k = AYEMU_read a i k := by
      intro a1 h1
      constructor
      · unfold AYEMU_read
        rw [dif_pos h, h1]
        simp
      · intro k hk
        unfold AYEMU_read
        by_cases hk14 : k < 14
        · rw [dif_pos hk14, dif_pos hk14, h1, hr]
          have hne : (⟨k, hk14⟩ : Fin 14) ≠ ⟨addr, h⟩ := by
            intro he
            exact hk (Fin.mk.inj he)
          simp [Function.update_noteq hne]
        · rw [dif_neg hk14, dif_neg hk14]
    unfold AYEMU_write
    rw [dif_pos h, hp, hr]
    simp only
    by_cases h13 : addr = 13
    · rw [if_pos h13, if_pos h13]
      refine ⟨_, rfl, by simp, ?_, ?_, ?_, by simp⟩
      · exact (hreg _ (by simp)).1
      · exact (hreg _ (by simp)).2
      · intro j hj
        simp [Function.update_noteq hj]
    · rw [if_neg h13, if_neg h13]
      have hne : (13 : Fin 14) ≠ ⟨addr, h⟩ := by
        intro he
        apply h13
        have := congrArg Fin.val he
        simpa using this.symm
      have hfin : Function.update (Function.update
            (Function.update regs ⟨addr, h⟩ (v &&& ay_reg_mask ⟨addr, h⟩)) 13 0xff) 13
            (Function.update regs ⟨addr, h⟩ (v &&& ay_reg_mask ⟨addr, h⟩) 13)
          = Function.update regs ⟨addr, h⟩ (v &&& ay_reg_mask ⟨addr, h⟩) := by
        rw [Function.update_idem, Function.update_eq_self]
      refine ⟨_, rfl, by simp [hfin], ?_, ?_, ?_, by simp⟩
      · exact (hreg _ (by simp [hfin])).1
      · exact (hreg _ (by simp [hfin])).2
      · intro j hj
        simp [Function.update_noteq hj]
  · intro h
    have hn : ¬ addr < 14 := by omega
    constructor
    · unfold AYEMU_write
      rw [dif_neg hn]
    · unfold AYEMU_read
      rw [dif_neg hn]

/-- C30: on an open chip (`psg[i]` and `reg[i]` allocated) `AYEMU_write(i, a, v)`
with `a < 14` returns, leaves the stored register file equal to the old one
with register `a` replaced by `v AND ay_reg_mask[a]` (so the other 13 stored
registers, register 13 included when `a != 13`, are unchanged), and leaves
every other chip index alone; for `a != 13` the frame handed to the engine is
that register file with register 13 replaced by 0xFF, for `a = 13` it is the
register file itself.  With `a >= 14` the write changes nothing and
`AYEMU_read` returns 0xFF. -/
theorem C30_psg_write_masks_one_register (lib : AyemuLib) (a : AYEMU) (i addr v : Nat)
    (chip : ayemu_ay_t) (regs : Fin 14 → Nat)
    (hp : a.psg i = some chip) (hr : a.reg i = some regs) :
    (∀ h : addr < 14,
        ∃ a1, AYEMU_write lib a i addr v = some a1
          ∧ a1.reg i = some (Function.update regs ⟨addr, h⟩ (v &&& ay_reg_mask ⟨addr, h⟩))
          ∧ AYEMU_read a1 i addr = some (v &&& ay_reg_mask ⟨addr, h⟩)
          ∧ (∀ k, k ≠ addr → AYEMU_read a1 i k = AYEMU_read a i k)
          ∧ (∀ j, j ≠ i → a1.psg j = a.psg j ∧ a1.reg j = a.reg j)
          ∧ a1.psg i = some (lib.ayemu_set_regs chip
              (if addr = 13 then Function.update regs ⟨addr, h⟩ (v &&& ay_reg_mask ⟨addr, h⟩)
               else Function.update
                (Function.update regs ⟨addr, h⟩ (v &&& ay_reg_mask ⟨addr, h⟩)) 13 0xff)))
    ∧ (14 ≤ addr → AYEMU_write lib a i addr v = some a ∧ AYEMU_read a i addr = some 0xff) :=
  AYEMU_write_register lib a i addr v chip regs hp hr

/-- C30 on Evie's freshly opened chip: a write of 0xFF to register 1 stores
0x0F, and a read of register 14 gives 0xFF. -/
theorem C30_psg_write_masks_one_register_witness :
    (∃ a1, AYEMU_write plainAyemu ayemuOpened AYEMU_CHIP_EVIE_INDEX 1 0xff = some a1
        ∧ AYEMU_read a1 AYEMU_CHIP_EVIE_INDEX 1 = some 0x0f)
      ∧ AYEMU_read ayemuOpened AYEMU_CHIP_EVIE_INDEX 14 = some 0xff := by
  have h := C30_psg_write_masks_one_register plainAyemu ayemuOpened AYEMU_CHIP_EVIE_INDEX
    1 0xff plainAyemu.malloc_chip plainAyemu.malloc_regs (by simp [ayemuOpened, AYEMU_open])
    (by simp [ayemuOpened, AYEMU_open])
  obtain ⟨a1, h1, -, h3, -⟩ := h.1 (by decide)
  have h14 := (C30_psg_write_masks_one_register plainAyemu ayemuOpened AYEMU_CHIP_EVIE_INDEX
    14 0xff plainAyemu.malloc_chip plainAyemu.malloc_regs (by simp [ayemuOpened, AYEMU_open])
    (by simp [ayemuOpened, AYEMU_open])).2 (by decide)
  exact ⟨⟨a1, h1, by rw [h3]; rfl⟩, h14.2⟩

/-! ## C27: decoding of Evie's configuration byte -/

set_option maxRecDepth 100000 in
/-- Bit tests and the positional sum for every byte. -/
theorem byte_bits_decode : ∀ b < 256,
    decide (b &&& 0x04 ≠ 0) = b.testBit 2 ∧ decide (b &&& 0x08 ≠ 0) = b.testBit 3
      ∧ decide (b &&& 0x10 ≠ 0) = b.testBit 4 ∧ decide (b &&& 0x20 ≠ 0) = b.testBit 5
      ∧ decide (b &&& 0x40 ≠ 0) = b.testBit 6 ∧ decide (b &&& 0x80 ≠ 0) = b.testBit 7
      ∧ b &&& 0x03 ≤ 3
      ∧ b = (b &&& 0x03) + 4 * (b.testBit 2).toNat + 8 * (b.testBit 3).toNat
          + 16 * (b.testBit 4).toNat + 32 * (b.testBit 5).toNat + 64 * (b.testBit 6).toNat
          + 128 * (b.testBit 7).toNat := by
  decide

/-- C27: for every byte `b`, `update_config(b)` of `evie.c` stores `b` in
`config` and decodes it by the layout documented above `config`:
`sid_filter = b AND 3`, `psg_div2` = bit 2, `psg_2mhz` = bit 3, the ScrollLock,
NumLock and CapsLock LED flags = bits 4, 5, 6, `sid_d5` = bit 7.  The decoding
is lossless (`b` is the positional sum of the decoded fields) and `sid_filter`
lies in 0..3, the index range of the four-entry table `sid_model`. -/
theorem C27_config_byte_decoding {S : Type} (st : Evie S) (b : Nat) (hb : b < 256) :
    (st.update_config b).config = b
      ∧ (st.update_config b).sid_filter = ((b &&& 0x03 : Nat) : Int)
      ∧ (st.update_config b).psg_div2 = b.testBit 2
      ∧ (st.update_config b).psg_2mhz = b.testBit 3
      ∧ (st.update_config b).scrolllock_led = b.testBit 4
      ∧ (st.update_config b).numlock_led = b.testBit 5
      ∧ (st.update_config b).capslock_led = b.testBit 6
      ∧ (st.update_config b).sid_d5 = b.testBit 7
      ∧ (b : Int) = (st.update_config b).sid_filter
          + 4 * ((st.update_config b).psg_div2.toNat : Int)
          + 8 * ((st.update_config b).psg_2mhz.toNat : Int)
          + 16 * ((st.update_config b).scrolllock_led.toNat : Int)
          + 32 * ((st.update_config b).numlock_led.toNat : Int)
          + 64 * ((st.update_config b).capslock_led.toNat : Int)
          + 128 * ((st.update_config b).sid_d5.toNat : Int)
      ∧ 0 ≤ (st.update_config b).sid_filter ∧ (st.update_config b).sid_filter ≤ 3
      ∧ Evie.sid_model (st.update_config b).sid_filter
          = [RESID_SID_FILTER_NONE, RESID_SID_FILTER_LINEAR, RESID_SID_MODEL_6581,
              RESID_SID_MODEL_8580].getD (b &&& 0x03) 0 := by
  obtain ⟨h2, h3, h4, h5, h6, h7, hle, hsum⟩ := byte_bits_decode b hb
  have hf : (st.update_config b).sid_filter = ((b &&& 0x03 : Nat) : Int) := rfl
  refine ⟨rfl, hf, h2, h3, h4, h5, h6, h7, ?_, ?_, ?_, ?_⟩
  · have e2 : (st.update_config b).psg_div2 = b.testBit 2 := h2
    have e3 : (st.update_config b).psg_2mhz = b.testBit 3 := h3
    have e4 : (st.update_config b).scrolllock_led = b.testBit 4 := h4
    have e5 : (st.update_config b).numlock_led = b.testBit 5 := h5
    have e6 : (st.update_config b).capslock_led = b.testBit 6 := h6
    have e7 : (st.update_config b).sid_d5 = b.testBit 7 := h7
    rw [hf, e2, e3, e4, e5, e6, e7]
    exact_mod_cast hsum
  · rw [hf]
    positivity
  · rw [hf]
    exact_mod_cast hle
  · rw [hf]
    have : b &&& 0x03 = 0 ∨ b &&& 0x03 = 1 ∨ b &&& 0x03 = 2 ∨ b &&& 0x03 = 3 := by omega
    rcases this with h | h | h | h <;> rw [h] <;> rfl

/-- C27 at the byte 0x8d: filter 1, master clock divided, 2 MHz clock, SID
mapped to 0xD5xx. -/
theorem C27_config_byte_decoding_witness :
    ((Evie.start : Evie Nat).update_config 0x8d).sid_filter = 1
      ∧ ((Evie.start : Evie Nat).update_config 0x8d).psg_div2 = true
      ∧ ((Evie.start : Evie Nat).update_config 0x8d).sid_d5 = true :=
  ⟨(C27_config_byte_decoding (Evie.start : Evie Nat) 0x8d (by decide)).2.1,
   (C27_config_byte_decoding (Evie.start : Evie Nat) 0x8d (by decide)).2.2.1,
   (C27_config_byte_decoding (Evie.start : Evie Nat) 0x8d (by decide)).2.2.2.2.2.2.2.1⟩

/-! ## C22: signature, version and configuration readback of Evie -/

/-- `evie_initialize` keeps the version, the configuration byte with its decoded
flags and the register-select latch. -/
theorem evie_initialize_config {S : Type} (lib : SIDClass S) (alib : AyemuLib)
    (env : Atari800) (st st1 : Evie S) (freq17 : Nat) (pf np b16 : Int)
    (s1 : Option RESID_State) (s2 : Option AYEMU_State)
    (h : evie_initialize lib alib env st freq17 pf np b16 s1 s2 = some st1) :
    st1.EVIE_version = st.EVIE_version ∧ st1.config = st.config
      ∧ st1.psg_register = st.psg_register ∧ st1.sid_d5 = st.sid_d5 := by
  unfold evie_initialize at h
  simp only [] at h
  by_cases hv : st.EVIE_version ≠ EVIE_NO
  · rw [if_pos hv] at h
    obtain ⟨r2, -, h⟩ := Option.bind_eq_some.mp h
    obtain ⟨r3, -, h⟩ := Option.bind_eq_some.mp h
    obtain ⟨a2, -, h⟩ := Option.bind_eq_some.mp h
    obtain ⟨a3, -, h⟩ := Option.bind_eq_some.mp h
    simp only [Option.some.injEq] at h
    rw [← h]
    exact ⟨rfl, rfl, rfl, rfl⟩
  · rw [if_neg hv] at h
    simp only [Option.some.injEq] at h
    rw [← h]
    exact ⟨rfl, rfl, rfl, rfl⟩

theorem RESID_read_state_opened {S : Type} (lib : SIDClass S) (r : RESID S) (i : Nat)
    (h : RESID_is_opened r i = true) : ∃ s, RESID_read_state lib r i = some s := by
  unfold RESID_is_opened at h
  unfold RESID_read_state
  cases hs : r.sid i with
  | none => rw [hs] at h; simp at h
  | some c => exact ⟨_, rfl⟩

theorem AYEMU_read_state_both (a : AYEMU) (i : Nat)
    (h : (a.psg i).isSome = true ∧ (a.reg i).isSome = true) :
    ∃ s, AYEMU_read_state a i = some s := by
  unfold AYEMU_read_state
  cases hp : a.psg i with
  | none => rw [hp] at h; simp at h
  | some c =>
    cases hr : a.reg i with
    | none => rw [hr] at h; simp at h
    | some g => exact ⟨_, rfl⟩

/-- A read of Evie at one of the offsets 0x32..0x3F of the 0xD280 window. -/
theorem EVIE_D2GetByte_high {S : Type} (lib : SIDClass S) (st : Evie S) (addr : Nat)
    (nse : Int) (hv : st.EVIE_version ≠ EVIE_NO) (ha : addr ≥ 0xd280)
    (ho : 0x32 ≤ addr &&& 0x3f) :
    EVIE_D2GetByte lib st addr nse =
      if addr &&& 0x3f ≥ 0x3a ∧ addr &&& 0x3f ≤ 0x3e then
        if addr &&& 0x3f < 0x3e then some (Evie.signature ((addr &&& 0x3f) - 0x3a))
        else some (if st.EVIE_version = EVIE_2_0 then 0x20 else 0x10)
      else if addr &&& 0x3f = 0x3f then some (st.config : Int)
      else some 0xff := by
  unfold EVIE_D2GetByte
  rw [if_pos ⟨hv, ha⟩]
  simp only
  rw [if_neg (by omega), if_neg (by omega), if_neg (by omega), if_neg (by omega)]

/-- C22: for every `addr >= 0xD280` an enabled Evie reads `'E'`, `'v'`, `'i'`,
`'e'` (0x45, 0x76, 0x69, 0x65) at the offsets `addr AND 0x3F` = 0x3A..0x3D, the
version byte at 0x3E (0x20 for `EVIE_2_0`, 0x10 for `EVIE_1_0`), the current
`config` at 0x3F, and 0xFF at 0x32..0x39.  A write of `b` to offset 0x3F,
made with both chips open after a flush that keeps the version, returns and
`b` is what offset 0x3F reads afterwards.  A disabled Evie reads 0xFF. -/
theorem C22_signature_and_config_readback {S : Type} (lib : SIDClass S) (alib : AyemuLib)
    (env : Atari800) (fe : Evie S → Evie S) (st : Evie S) (addr b : Nat) (nse : Int)
    (ha : addr ≥ 0xd280) :
    (st.EVIE_version ≠ EVIE_NO →
        (addr &&& 0x3f = 0x3a → EVIE_D2GetByte lib st addr nse = some 0x45)
        ∧ (addr &&& 0x3f = 0x3b → EVIE_D2GetByte lib st addr nse = some 0x76)
        ∧ (addr &&& 0x3f = 0x3c → EVIE_D2GetByte lib st addr nse = some 0x69)
        ∧ (addr &&& 0x3f = 0x3d → EVIE_D2GetByte lib st addr nse = some 0x65)
        ∧ (addr &&& 0x3f = 0x3e → st.EVIE_version = EVIE_2_0 →
            EVIE_D2GetByte lib st addr nse = some 0x20)
        ∧ (addr &&& 0x3f = 0x3e → st.EVIE_version = EVIE_1_0 →
            EVIE_D2GetByte lib st addr nse = some 0x10)
        ∧ (addr &&& 0x3f = 0x3f → EVIE_D2GetByte lib st addr nse = some (st.config : Int))
        ∧ (0x32 ≤ addr &&& 0x3f → addr &&& 0x3f ≤ 0x39 →
            EVIE_D2GetByte lib st addr nse = some 0xff)
        ∧ (addr &&& 0x3f = 0x3f →
            (Evie.update fe st).EVIE_version = st.EVIE_version →
            RESID_is_opened (Evie.update fe st).resid RESID_CHIP_EVIE_INDEX = true →
            (((Evie.update fe st).ayemu.psg AYEMU_CHIP_EVIE_INDEX).isSome = true
              ∧ ((Evie.update fe st).ayemu.reg AYEMU_CHIP_EVIE_INDEX).isSome = true) →
            ∃ st1, EVIE_D2PutByte lib alib env fe st addr b = some st1
              ∧ st1.config = b
              ∧ EVIE_D2GetByte lib st1 addr nse = some (b : Int)))
    ∧ (st.EVIE_version = EVIE_NO → EVIE_D2GetByte lib st addr nse = some 0xff) := by
  constructor
  · intro hv
    refine ⟨?_, ?_, ?_, ?_, ?_, ?_, ?_, ?_, ?_⟩
    · intro ho
      rw [EVIE_D2GetByte_high lib st addr nse hv ha (by omega), ho]
      rfl
    · intro ho
      rw [EVIE_D2GetByte_high lib st addr nse hv ha (by omega), ho]
      rfl
    · intro ho
      rw [EVIE_D2GetByte_high lib st addr nse hv ha (by omega), ho]
      rfl
    · intro ho
      rw [EVIE_D2GetByte_high lib st addr nse hv ha (by omega), ho]
      rfl
    · intro ho h2
      rw [EVIE_D2GetByte_high lib st addr nse hv ha (by omega), ho, if_pos (by decide),
        if_neg (by decide), if_pos h2]
    · intro ho h1
      have h2 : ¬ st.EVIE_version = EVIE_2_0 := by rw [h1]; decide
      rw [EVIE_D2GetByte_high lib st addr nse hv ha (by omega), ho, if_pos (by decide),
        if_neg (by decide), if_neg h2]
    · intro ho
      rw [EVIE_D2GetByte_high lib st addr nse hv ha (by omega), ho, if_neg (by decide),
        if_pos rfl]
    · intro h1 h2
      rw [EVIE_D2GetByte_high lib st addr nse hv ha h1, if_neg (by omega), if_neg (by omega)]
    · intro ho hfv hr hp
      obtain ⟨s1, hs1⟩ := RESID_read_state_opened lib _ _ hr
      obtain ⟨s2, hs2⟩ := AYEMU_read_state_both _ _ hp
      obtain ⟨st1, hst1, -⟩ := evie_initialize_opened lib alib env
        ((Evie.update fe st).update_config b) ((Evie.update fe st).update_config b).main_freq
        ((Evie.update fe st).update_config b).dsprate
        ((Evie.update fe st).update_config b).num_pokeys
        ((Evie.update fe st).update_config b).bit16 (some s1) (some s2)
      obtain ⟨k1, k2, -, -⟩ := evie_initialize_config lib alib env _ st1 _ _ _ _ _ _ hst1
      have hput : EVIE_D2PutByte lib alib env fe st addr b = some st1 := by
        unfold EVIE_D2PutByte
        rw [if_pos hv, if_pos ha]
        simp only
        rw [if_neg (by omega), if_neg (by omega), if_neg (by omega), if_neg (by omega),
          if_pos ho, hs1, Option.some_bind, hs2, Option.some_bind]
        exact hst1
      have hc : st1.config = b := by rw [k2]; rfl
      have hv1 : st1.EVIE_version ≠ EVIE_NO := by
        rw [k1]
        show (Evie.update fe st).EVIE_version ≠ EVIE_NO
        rw [hfv]
        exact hv
      refine ⟨st1, hput, hc, ?_⟩
      rw [EVIE_D2GetByte_high lib st1 addr nse hv1 ha (by omega), ho, if_neg (by decide),
        if_pos rfl, hc]
  · intro hv
    unfold EVIE_D2GetByte
    rw [if_neg (by simp [hv])]

/-- C22 on Evie 2.0 after `EVIE_Init` on a PAL machine: offset 0x3A reads
`'E'`, offset 0x3E reads 0x20, and after a write of 0x8d to 0xD2BF that
address reads 0x8d. -/
theorem C22_signature_and_config_readback_witness :
    ∃ (st st1 : Evie Nat), eviePal = some st
      ∧ EVIE_D2GetByte eagerSID st 0xd2ba 0 = some 0x45
      ∧ EVIE_D2GetByte eagerSID st 0xd2be 0 = some 0x20
      ∧ EVIE_D2PutByte eagerSID plainAyemu Atari800.pal id st 0xd2bf 0x8d = some st1
      ∧ EVIE_D2GetByte eagerSID st1 0xd2bf 0 = some 0x8d := by
  have h1 : (eviePal.map fun st =>
      (decide (st.EVIE_version = EVIE_2_0)
        && RESID_is_opened st.resid RESID_CHIP_EVIE_INDEX
        && (st.ayemu.psg AYEMU_CHIP_EVIE_INDEX).isSome
        && (st.ayemu.reg AYEMU_CHIP_EVIE_INDEX).isSome)) = some true := by decide!
  obtain ⟨st, hst, h2⟩ := Option.map_eq_some'.mp h1
  simp only [Bool.and_eq_true, decide_eq_true_eq] at h2
  obtain ⟨⟨⟨hv2, hr⟩, hp⟩, hg⟩ := h2
  have hv : st.EVIE_version ≠ EVIE_NO := by rw [hv2]; decide
  have ka := (C22_signature_and_config_readback eagerSID plainAyemu Atari800.pal id st
    0xd2ba 0x8d 0 (by decide)).1 hv
  have ke := (C22_signature_and_config_readback eagerSID plainAyemu Atari800.pal id st
    0xd2be 0x8d 0 (by decide)).1 hv
  have kf := (C22_signature_and_config_readback eagerSID plainAyemu Atari800.pal id st
    0xd2bf 0x8d 0 (by decide)).1 hv
  obtain ⟨st1, hput, -, hget⟩ := kf.2.2.2.2.2.2.2.2 (by decide) rfl hr ⟨hp, hg⟩
  exact ⟨st, st1, hst, ka.1 (by decide), ke.2.2.2.2.1 (by decide) hv2, hput, hget⟩

/-! ## C28: the 0xD5xx alias of Evie's SID window -/

theorem evie_window_bits : ∀ r < 32,
    (0xd500 + r) &&& 0xffbf = 0xd500 + r ∧ (0xd540 + r) &&& 0xffbf = 0xd500 + r
      ∧ (0xd280 + r) &&& 0x3f = r := by
  decide

theorem ubyte_sub (r : Nat) (hr : r ≤ 0x1f) : ubyte (((0xd500 + r : Nat) : Int) - 0xd500) = r := by
  unfold ubyte
  push_cast
  omega

/-- With the alias switched on, a read of the normalized address `0xD500 + r`. -/
theorem EVIE_D5GetByte_alias {S : Type} (lib : SIDClass S) (st : Evie S) (addr r : Nat)
    (nse : Int) (hv : st.EVIE_version ≠ EVIE_NO) (hd : st.sid_d5 = true) (hr : r ≤ 0x1f)
    (ho : addr &&& 0xffbf = 0xd500 + r) :
    EVIE_D5GetByte lib st addr nse =
      if r ≥ 0x19 ∧ r ≤ 0x1c then
        (RESID_read lib st.resid RESID_CHIP_EVIE_INDEX r).map Int.ofNat
      else some 0x33 := by
  unfold EVIE_D5GetByte
  rw [if_pos ⟨hv, hd⟩]
  simp only [ho]
  rw [if_pos (by omega), ubyte_sub r hr]
  by_cases h : r ≥ 0x19 ∧ r ≤ 0x1c
  · rw [if_pos h, if_pos (by omega)]
  · rw [if_neg h, if_neg (by omega)]

/-- With the alias switched on, a write to the normalized address `0xD500 + r`. -/
theorem EVIE_D5PutByte_alias {S : Type} (lib : SIDClass S) (fe : Evie S → Evie S)
    (st : Evie S) (addr r v : Nat)
    (hv : st.EVIE_version ≠ EVIE_NO) (hd : st.sid_d5 = true) (hr : r ≤ 0x1f)
    (ho : addr &&& 0xffbf = 0xd500 + r) :
    EVIE_D5PutByte lib fe st addr v = Evie.sid_write lib (Evie.update fe st) r v := by
  unfold EVIE_D5PutByte
  rw [if_pos ⟨hv, hd⟩]
  simp only [ho]
  rw [if_pos (by omega), ubyte_sub r hr]

/-- C28: on an enabled Evie whose `sid_d5` flag (configuration bit 7) is set,
for every `r` in 0..0x1F a read of `0xD500 + r` and of the mirror `0xD540 + r`
through `EVIE_D5GetByte` equals the read of `0xD280 + r` through
`EVIE_D2GetByte`, and a write through `EVIE_D5PutByte` to either address
returns exactly what `EVIE_D2PutByte` to `0xD280 + r` returns (flush, then the
same `RESID_write`).  With the flag clear every `EVIE_D5GetByte` returns 0xFF
and `EVIE_D5PutByte` returns the card unchanged.  The flag is set by
`update_config(b)` iff bit 7 of `b` is set. -/
theorem C28_d5_window_aliases_sid_window {S : Type} (lib : SIDClass S) (alib : AyemuLib)
    (env : Atari800) (fe : Evie S → Evie S) (st : Evie S) (r v b : Nat) (nse : Int)
    (hv : st.EVIE_version ≠ EVIE_NO) (hr : r ≤ 0x1f) :
    (st.sid_d5 = true →
        EVIE_D5GetByte lib st (0xd500 + r) nse = EVIE_D2GetByte lib st (0xd280 + r) nse
        ∧ EVIE_D5GetByte lib st (0xd540 + r) nse = EVIE_D2GetByte lib st (0xd280 + r) nse
        ∧ EVIE_D5PutByte lib fe st (0xd500 + r) v
            = EVIE_D2PutByte lib alib env fe st (0xd280 + r) v
        ∧ EVIE_D5PutByte lib fe st (0xd540 + r) v
            = EVIE_D2PutByte lib alib env fe st (0xd280 + r) v)
    ∧ (st.sid_d5 = false → ∀ addr,
        EVIE_D5GetByte lib st addr nse = some 0xff ∧ EVIE_D5PutByte lib fe st addr v = some st)
    ∧ ((st.update_config b).sid_d5 = true ↔ b &&& 0x80 ≠ 0) := by
  obtain ⟨b1, b2, b3⟩ := evie_window_bits r (by omega)
  refine ⟨?_, ?_, ?_⟩
  · intro hd
    have hget : EVIE_D2GetByte lib st (0xd280 + r) nse =
        if r ≥ 0x19 ∧ r ≤ 0x1c then
          (RESID_read lib st.resid RESID_CHIP_EVIE_INDEX r).map Int.ofNat
        else some 0x33 := by
      unfold EVIE_D2GetByte
      rw [if_pos ⟨hv, by omega⟩]
      simp only [b3]
      rw [if_pos hr]
      rfl
    have hput : EVIE_D2PutByte lib alib env fe st (0xd280 + r) v
        = Evie.sid_write lib (Evie.update fe st) r v := by
      unfold EVIE_D2PutByte
      rw [if_pos hv, if_pos (by omega)]
      simp only [b3]
      rw [if_pos hr]
      rfl
    refine ⟨?_, ?_, ?_, ?_⟩
    · rw [hget, EVIE_D5GetByte_alias lib st _ r nse hv hd hr b1]
    · rw [hget, EVIE_D5GetByte_alias lib st _ r nse hv hd hr b2]
    · rw [hput, EVIE_D5PutByte_alias lib fe st _ r v hv hd hr b1]
    · rw [hput, EVIE_D5PutByte_alias lib fe st _ r v hv hd hr b2]
  · intro hd addr
    constructor
    · unfold EVIE_D5GetByte
      rw [if_neg (by simp [hd])]
    · unfold EVIE_D5PutByte
      rw [if_neg (by simp [hd])]
  · unfold Evie.update_config
    simp

/-- C28 on Evie 2.0 after `EVIE_Init` on a PAL machine with the alias flag set:
register 0x18 at 0xD518, at 0xD558 and at 0xD298. -/
theorem C28_d5_window_aliases_sid_window_witness :
    ∃ st : Evie Nat, eviePal = some st
      ∧ EVIE_D5GetByte eagerSID { st with sid_d5 := true } (0xd500 + 0x18) 0
          = EVIE_D2GetByte eagerSID { st with sid_d5 := true } (0xd280 + 0x18) 0
      ∧ EVIE_D5PutByte eagerSID id { st with sid_d5 := true } (0xd540 + 0x18) 0x0f
          = EVIE_D2PutByte eagerSID plainAyemu Atari800.pal id { st with sid_d5 := true }
              (0xd280 + 0x18) 0x0f := by
  have h1 : (eviePal.map fun st => decide (st.EVIE_version = EVIE_2_0)) = some true := by
    decide!
  obtain ⟨st, hst, h2⟩ := Option.map_eq_some'.mp h1
  simp only [decide_eq_true_eq] at h2
  have hv : ({ st with sid_d5 := true } : Evie Nat).EVIE_version ≠ EVIE_NO := by
    show st.EVIE_version ≠ EVIE_NO
    rw [h2]; decide
  have k := (C28_d5_window_aliases_sid_window eagerSID plainAyemu Atari800.pal id
    { st with sid_d5 := true } 0x18 0x0f 0x80 0 hv (by decide)).1 rfl
  exact ⟨st, hst, k.1, k.2.2.2⟩

/-! ## C25, C26: the configuration register and parallel addressing of SlightSID -/

set_option maxRecDepth 100000 in
/-- `is_parity_even` on every byte: true iff the number of set bits is even. -/
theorem is_parity_even_iff : ∀ b < 256,
    (is_parity_even b = true ↔ ((List.range 8).countP fun i => b.testBit i) % 2 = 0) := by
  decide

/-- Every `slightsid_initialize` returns, keeps the version and the
configuration with its decoded flags, and leaves the left chip open exactly on
an enabled card and the right chip exactly in stereo; on an enabled card the
phase is 0 afterwards. -/
theorem slightsid_initialize_opened {S : Type} (lib : SIDClass S) (env : Atari800)
    (st : SlightSID S) (freq17 : Nat) (pf np b16 : Int) (s1 s2 : Option RESID_State) :
    ∃ st1, slightsid_initialize lib env st freq17 pf np b16 s1 s2 = some st1
      ∧ (st1.SLIGHTSID_version = st.SLIGHTSID_version
        ∧ st1.config = st.config ∧ st1.ntsc = st.ntsc ∧ st1.parallel = st.parallel
        ∧ st1.reset = st.reset ∧ st1.trace = st.trace
        ∧ (st.SLIGHTSID_version ≠ SLIGHTSID_NO → st1.sid_ticks = 0)
        ∧ (RESID_is_opened st1.resid RESID_CHIP_SLIGHTSID_LEFT_INDEX = true
            ↔ st1.SLIGHTSID_version ≠ SLIGHTSID_NO)
        ∧ (RESID_is_opened st1.resid RESID_CHIP_SLIGHTSID_RIGHT_INDEX = true
            ↔ st1.SLIGHTSID_version = SLIGHTSID_STEREO)) := by
  have hLR : RESID_CHIP_SLIGHTSID_LEFT_INDEX ≠ RESID_CHIP_SLIGHTSID_RIGHT_INDEX := by decide
  have hSN : SLIGHTSID_STEREO ≠ SLIGHTSID_NO := by decide
  unfold slightsid_initialize
  simp only []
  by_cases hv : st.SLIGHTSID_version ≠ SLIGHTSID_NO
  · rw [if_pos hv]
    refine bind_some_of
      (fun r => RESID_is_opened r RESID_CHIP_SLIGHTSID_LEFT_INDEX = true
        ∧ RESID_is_opened r RESID_CHIP_SLIGHTSID_RIGHT_INDEX = false) ?_ ?_
    · have h1 : ∀ r : RESID S, RESID_is_opened (RESID_open lib (RESID_close (RESID_close r
            RESID_CHIP_SLIGHTSID_LEFT_INDEX) RESID_CHIP_SLIGHTSID_RIGHT_INDEX)
            RESID_CHIP_SLIGHTSID_LEFT_INDEX) RESID_CHIP_SLIGHTSID_LEFT_INDEX = true
          ∧ RESID_is_opened (RESID_open lib (RESID_close (RESID_close r
            RESID_CHIP_SLIGHTSID_LEFT_INDEX) RESID_CHIP_SLIGHTSID_RIGHT_INDEX)
            RESID_CHIP_SLIGHTSID_LEFT_INDEX) RESID_CHIP_SLIGHTSID_RIGHT_INDEX = false := by
        intro r
        simp only [RESID_is_opened_open, RESID_is_opened_close]
        simp [hLR.symm]
      cases s1 with
      | none => exact ⟨_, rfl, h1 _⟩
      | some s =>
        obtain ⟨r1, e1, o1⟩ := RESID_write_state_opened lib _ _ s (h1 st.resid).1
        exact ⟨r1, e1, by beta_reduce; rw [o1, o1]; exact h1 _⟩
    · intro r2 hr2
      refine bind_some_of
        (fun r => RESID_is_opened r.1 RESID_CHIP_SLIGHTSID_LEFT_INDEX = true
          ∧ RESID_is_opened r.1 RESID_CHIP_SLIGHTSID_RIGHT_INDEX = false) ?_ ?_
      · obtain ⟨r3, e3, o3⟩ := RESID_init_opened lib r2 RESID_CHIP_SLIGHTSID_LEFT_INDEX
          _ st.sid_model pf hr2.1
        exact ⟨r3, e3, by beta_reduce; rw [o3, o3]; exact hr2⟩
      · intro r3 hr3
        by_cases hs : st.SLIGHTSID_version = SLIGHTSID_STEREO
        · rw [if_pos hs]
          have h4 : RESID_is_opened (RESID_open lib r3.1 RESID_CHIP_SLIGHTSID_RIGHT_INDEX)
                RESID_CHIP_SLIGHTSID_LEFT_INDEX = true
              ∧ RESID_is_opened (RESID_open lib r3.1 RESID_CHIP_SLIGHTSID_RIGHT_INDEX)
                RESID_CHIP_SLIGHTSID_RIGHT_INDEX = true := by
            rw [RESID_is_opened_open, RESID_is_opened_open, hr3.1]; simp
          refine bind_some_of
            (fun r => RESID_is_opened r RESID_CHIP_SLIGHTSID_LEFT_INDEX = true
              ∧ RESID_is_opened r RESID_CHIP_SLIGHTSID_RIGHT_INDEX = true) ?_ ?_
          · cases s2 with
            | none => exact ⟨_, rfl, h4⟩
            | some s =>
              obtain ⟨r5, e5, o5⟩ := RESID_write_state_opened lib _ _ s h4.2
              exact ⟨r5, e5, by beta_reduce; rw [o5, o5]; exact h4⟩
          · intro r5 hr5
            refine bind_some_of
              (fun r => RESID_is_opened r.1 RESID_CHIP_SLIGHTSID_LEFT_INDEX = true
                ∧ RESID_is_opened r.1 RESID_CHIP_SLIGHTSID_RIGHT_INDEX = true) ?_ ?_
            · obtain ⟨r6, e6, o6⟩ := RESID_init_opened lib r5 RESID_CHIP_SLIGHTSID_RIGHT_INDEX
                _ st.sid_model pf hr5.2
              exact ⟨r6, e6, by beta_reduce; rw [o6, o6]; exact hr5⟩
            · intro r6 hr6
              exact ⟨_, rfl, rfl, rfl, rfl, rfl, rfl, rfl, fun _ => rfl,
                by simp [hr6.1, hv], by simp [hr6.2, hs]⟩
        · rw [if_neg hs]
          exact ⟨_, rfl, rfl, rfl, rfl, rfl, rfl, rfl, fun _ => rfl,
            by simp [hr3.1, hv], by simp [hr3.2, hs]⟩
  · rw [if_neg hv]
    have hv0 : st.SLIGHTSID_version = SLIGHTSID_NO := not_not.mp hv
    refine ⟨_, rfl, rfl, rfl, rfl, rfl, rfl, rfl, fun h => absurd h hv, ?_, ?_⟩
    · simp only [RESID_is_opened_close, hv0]; simp [hLR]
    · simp only [RESID_is_opened_close, hv0]; simp [hSN.symm]

/-- C25: for every byte `b`, `is_parity_even(b)` is true iff `b` has an even
number of set bits.  On a stereo SlightSID a write of `b` to the configuration
register 0xD541 with odd parity returns the card exactly as it was (`config`,
`ntsc`, `parallel`, `reset`, phase, both chips, trace).  With even parity,
made with both chips open after a flush that keeps the version, the write
returns, starts with the flush, stores `config = b`, decodes `ntsc` = bit 0,
`parallel` = bit 1, `reset` = not bit 2, and reinitializes: the phase is 0 and
both chips are open afterwards. -/
theorem C25_config_write_needs_even_parity {S : Type} (lib : SIDClass S) (env : Atari800)
    (fl : SlightSID S → SlightSID S) (hf : AppendsOnly (fun s : SlightSID S => s.trace) fl)
    (st : SlightSID S) (b : Nat) (hb : b < 256)
    (hs : st.SLIGHTSID_version = SLIGHTSID_STEREO) :
    (is_parity_even b = true ↔ ((List.range 8).countP fun i => b.testBit i) % 2 = 0)
    ∧ (is_parity_even b = false → SLIGHTSID_D5PutByte lib env fl st 0xd541 b = some st)
    ∧ (is_parity_even b = true →
        (SlightSID.update fl st).SLIGHTSID_version = st.SLIGHTSID_version →
        RESID_is_opened (SlightSID.update fl st).resid RESID_CHIP_SLIGHTSID_LEFT_INDEX = true →
        RESID_is_opened (SlightSID.update fl st).resid RESID_CHIP_SLIGHTSID_RIGHT_INDEX = true →
        ∃ st1, SLIGHTSID_D5PutByte lib env fl st 0xd541 b = some st1
          ∧ FlushFirst Card.SlightSID st.trace st1.trace
          ∧ st1.config = b
          ∧ st1.ntsc = decide (b &&& 0x01 ≠ 0)
          ∧ st1.parallel = decide (b &&& 0x02 ≠ 0)
          ∧ st1.reset = decide (b &&& 0x04 = 0)
          ∧ st1.sid_ticks = 0
          ∧ RESID_is_opened st1.resid RESID_CHIP_SLIGHTSID_LEFT_INDEX = true
          ∧ RESID_is_opened st1.resid RESID_CHIP_SLIGHTSID_RIGHT_INDEX = true) := by
  have hnm : ¬ st.SLIGHTSID_version = SLIGHTSID_MONO := by rw [hs]; decide
  have hput : SLIGHTSID_D5PutByte lib env fl st 0xd541 b =
      if is_parity_even b = true then
        (RESID_read_state lib (SlightSID.update fl st).resid
          RESID_CHIP_SLIGHTSID_LEFT_INDEX).bind fun state =>
        (RESID_read_state lib (SlightSID.update fl st).resid
          RESID_CHIP_SLIGHTSID_RIGHT_INDEX).bind fun state2 =>
        slightsid_initialize lib env ((SlightSID.update fl st).update_config b)
          ((SlightSID.update fl st).update_config b).main_freq
          ((SlightSID.update fl st).update_config b).dsprate
          ((SlightSID.update fl st).update_config b).num_pokeys
          ((SlightSID.update fl st).update_config b).bit16 (some state) (some state2)
      else some st := by
    unfold SLIGHTSID_D5PutByte
    rw [if_neg hnm, if_pos hs, if_neg (by omega), if_neg (by omega), if_neg (by omega),
      if_pos rfl]
  refine ⟨is_parity_even_iff b hb, ?_, ?_⟩
  · intro hodd
    rw [hput, if_neg (by simp [hodd])]
  · intro heven hfv hl hr
    obtain ⟨x1, hx1⟩ := RESID_read_state_opened lib _ _ hl
    obtain ⟨x2, hx2⟩ := RESID_read_state_opened lib _ _ hr
    obtain ⟨st1, hst1, k1, k2, k3, k4, k5, k6, k7, k8, k9⟩ := slightsid_initialize_opened lib env
      ((SlightSID.update fl st).update_config b)
      ((SlightSID.update fl st).update_config b).main_freq
      ((SlightSID.update fl st).update_config b).dsprate
      ((SlightSID.update fl st).update_config b).num_pokeys
      ((SlightSID.update fl st).update_config b).bit16 (some x1) (some x2)
    have hv1 : ((SlightSID.update fl st).update_config b).SLIGHTSID_version
        = SLIGHTSID_STEREO := by
      show (SlightSID.update fl st).SLIGHTSID_version = SLIGHTSID_STEREO
      rw [hfv, hs]
    refine ⟨st1, ?_, ?_, k2, k3, k4, k5, ?_, ?_, ?_⟩
    · rw [hput, if_pos heven, hx1, Option.some_bind, hx2, Option.some_bind]
      exact hst1
    · exact (slightsid_update_flush fl hf st).append [] (by rw [k6]; simp [SlightSID.update_config])
    · exact k7 (by rw [hv1]; decide)
    · rw [k8, k1, hv1]; decide
    · rw [k9, k1, hv1]

/-- C25 on a stereo SlightSID after initialization on a PAL machine: the write
of 0x07 (three set bits) to 0xD541 changes nothing, the write of 0x87 (four
set bits) stores the byte and sets the `parallel` flag. -/
theorem C25_config_write_needs_even_parity_witness :
    ∃ (st st1 : SlightSID Nat), slightsidPal 2 = some st
      ∧ SLIGHTSID_D5PutByte eagerSID Atari800.pal id st 0xd541 0x07 = some st
      ∧ SLIGHTSID_D5PutByte eagerSID Atari800.pal id st 0xd541 0x87 = some st1
      ∧ st1.config = 0x87 ∧ st1.parallel = true := by
  have h1 : ((slightsidPal 2).map fun st =>
      (decide (st.SLIGHTSID_version = SLIGHTSID_STEREO)
        && RESID_is_opened st.resid RESID_CHIP_SLIGHTSID_LEFT_INDEX
        && RESID_is_opened st.resid RESID_CHIP_SLIGHTSID_RIGHT_INDEX)) = some true := by
    decide!
  obtain ⟨st, hst, h2⟩ := Option.map_eq_some'.mp h1
  simp only [Bool.and_eq_true, decide_eq_true_eq] at h2
  obtain ⟨⟨hs, hl⟩, hr⟩ := h2
  have hid : AppendsOnly (fun s : SlightSID Nat => s.trace) id :=
    fun s => ⟨[], (List.append_nil _).symm⟩
  have kodd := (C25_config_write_needs_even_parity eagerSID Atari800.pal id hid st 0x07
    (by decide) hs).2.1 (by decide)
  obtain ⟨st1, hput, -, hc, -, hp, -⟩ := (C25_config_write_needs_even_parity eagerSID
    Atari800.pal id hid st 0x87 (by decide) hs).2.2 (by decide) rfl hl hr
  exact ⟨st, st1, hst, kodd, hput, hc, by rw [hp]; decide⟩

/-- A data write to chip 1 of SONari on a card whose left chip is allocated:
the write returns, keeps version, model, slot and latch, and the register
selected by the latch reads back masked. -/
theorem SONARI_data_write (alib : AyemuLib) (fo : SONari → SONari)
    (hfo : SONari.FlushKeepsRegisters fo) (st : SONari) (addr v : Nat)
    (hv : st.SONARI_version ≠ SONARI_NO) (hm : st.SONARI_model ≠ SONARI_CHIP_NO)
    (ha : (addr : Int) = 0xd500 + 0x20 * st.SONARI_slot + 1)
    (hopen : (st.ayemu.psg AYEMU_CHIP_SONARI_LEFT_INDEX).isSome = true
      ∧ (st.ayemu.reg AYEMU_CHIP_SONARI_LEFT_INDEX).isSome = true) :
    ∃ st2, SONARI_D5PutByte alib fo st addr v = some st2
      ∧ st2.SONARI_version = st.SONARI_version ∧ st2.SONARI_model = st.SONARI_model
      ∧ st2.SONARI_slot = st.SONARI_slot ∧ st2.psg_register = st.psg_register
      ∧ ∀ h : st.psg_register &&& 0x0f < 14,
          AYEMU_read st2.ayemu AYEMU_CHIP_SONARI_LEFT_INDEX (st.psg_register &&& 0x0f)
            = some (v &&& ay_reg_mask ⟨st.psg_register &&& 0x0f, h⟩) := by
  obtain ⟨k1, k2, k3, k4, k5, k6⟩ :=
    hfo { st with trace := st.trace ++ [Event.POKEYSND_Update Card.SONari] }
  have hu : SONari.update fo st
      = fo { st with trace := st.trace ++ [Event.POKEYSND_Update Card.SONari] } := rfl
  have hput : SONARI_D5PutByte alib fo st addr v
      = SONari.psg_write alib (SONari.update fo st) AYEMU_CHIP_SONARI_LEFT_INDEX
          ((SONari.update fo st).psg_register &&& 0x0f) v := by
    unfold SONARI_D5PutByte
    rw [if_pos hv]
    simp only []
    rw [if_pos ⟨by omega, by omega⟩, if_pos hm, if_neg (by omega), if_pos ha]
  have hreg : (SONari.update fo st).psg_register = st.psg_register := by rw [hu, k4]
  rw [hput, hreg]
  have hp : ((SONari.update fo st).ayemu.psg AYEMU_CHIP_SONARI_LEFT_INDEX).isSome = true := by
    rw [hu, k6]; exact hopen.1
  have hr : ((SONari.update fo st).ayemu.reg AYEMU_CHIP_SONARI_LEFT_INDEX).isSome = true := by
    rw [hu, k5]; exact hopen.2
  obtain ⟨chip, hchip⟩ := Option.isSome_iff_exists.mp hp
  obtain ⟨regs, hregs⟩ := Option.isSome_iff_exists.mp hr
  have hw := AYEMU_write_register alib (SONari.update fo st).ayemu AYEMU_CHIP_SONARI_LEFT_INDEX
    (st.psg_register &&& 0x0f) v chip regs hchip hregs
  unfold SONari.psg_write
  by_cases h14 : st.psg_register &&& 0x0f < 14
  · obtain ⟨a1, ha1, -, hread, -⟩ := hw.1 h14
    rw [ha1]
    refine ⟨_, rfl, ?_, ?_, ?_, ?_, ?_⟩
    · simp only; rw [hu, k1]
    · simp only; rw [hu, k2]
    · simp only; rw [hu, k3]
    · simp only; rw [hu, k4]
    · intro _
      exact hread
  · have ha1 := (hw.2 (by omega)).1
    rw [ha1]
    refine ⟨_, rfl, ?_, ?_, ?_, ?_, ?_⟩
    · simp only [Option.map_some']; rw [hu, k1]
    · simp only [Option.map_some']; rw [hu, k2]
    · simp only [Option.map_some']; rw [hu, k3]
    · simp only [Option.map_some']; rw [hu, k4]
    · intro h
      exact absurd h h14

/-- C21: SONari enabled with chip 1 present and allocated, `base = 0xD500 +
0x20 * SONARI_slot`, and a flush that keeps the card's registers.  The write
of `s` to `base` followed by the write of `v` to `base + 1` both return; after
them a read of `base` returns `v AND ay_reg_mask[s AND 0x0F]` whenever
`(s AND 0x0F) < 14`, and a read of `base + 1` returns `s`. -/
theorem C21_select_write_read_back (alib : AyemuLib) (fo : SONari → SONari)
    (hfo : SONari.FlushKeepsRegisters fo) (st : SONari) (base s v : Nat) (nse : Int)
    (hv : st.SONARI_version ≠ SONARI_NO) (hm : st.SONARI_model ≠ SONARI_CHIP_NO)
    (hb : (base : Int) = 0xd500 + 0x20 * st.SONARI_slot)
    (hopen : (st.ayemu.psg AYEMU_CHIP_SONARI_LEFT_INDEX).isSome = true
      ∧ (st.ayemu.reg AYEMU_CHIP_SONARI_LEFT_INDEX).isSome = true) :
    ∃ st1 st2, SONARI_D5PutByte alib fo st base s = some st1
      ∧ SONARI_D5PutByte alib fo st1 (base + 1) v = some st2
      ∧ (∀ h : s &&& 0x0f < 14,
          SONARI_D5GetByte st2 base nse
            = some ((v &&& ay_reg_mask ⟨s &&& 0x0f, h⟩ : Nat) : Int))
      ∧ SONARI_D5GetByte st2 (base + 1) nse = some (s : Int) := by
  have h1 := (SONARI_D5PutByte_latch alib fo st base s).1 hv hm hb
  obtain ⟨st2, h2, e1, e2, e3, e4, e5⟩ := SONARI_data_write alib fo hfo
    { st with psg_register := s } (base + 1) v hv hm (by push_cast; omega) hopen
  simp only at e1 e2 e3 e4 e5
  have hv2 : st2.SONARI_version ≠ SONARI_NO := by rw [e1]; exact hv
  have hm2 : st2.SONARI_model ≠ SONARI_CHIP_NO := by rw [e2]; exact hm
  refine ⟨_, st2, h1, h2, ?_, ?_⟩
  · intro h
    unfold SONARI_D5GetByte
    rw [if_pos hv2]
    simp only []
    rw [e3, if_pos ⟨by omega, by omega⟩, if_pos hm2, if_pos hb, e4, if_pos (by omega),
      e5 h]
    rfl
  · unfold SONARI_D5GetByte
    rw [if_pos hv2]
    simp only []
    rw [e3, if_pos ⟨by push_cast; omega, by push_cast; omega⟩, if_pos hm2,
      if_neg (by push_cast; omega), if_pos (by push_cast; omega), e4]

/-- C21 on a mono SONari in slot 3 after initialization on a PAL machine:
select 0x08, data 0x0F, then 0xD560 reads 0x0F and 0xD561 reads 0x08. -/
theorem C21_select_write_read_back_witness :
    ∃ (st st1 st2 : SONari), sonariPal 1 = some st
      ∧ SONARI_D5PutByte plainAyemu id st 0xd560 0x08 = some st1
      ∧ SONARI_D5PutByte plainAyemu id st1 (0xd560 + 1) 0x0f = some st2
      ∧ SONARI_D5GetByte st2 0xd560 0 = some 0x0f
      ∧ SONARI_D5GetByte st2 (0xd560 + 1) 0 = some 0x08 := by
  have h1 : ((sonariPal 1).map fun st =>
      (decide (st.SONARI_version ≠ SONARI_NO) && decide (st.SONARI_model ≠ SONARI_CHIP_NO)
        && decide (st.SONARI_slot = 3)
        && (st.ayemu.psg AYEMU_CHIP_SONARI_LEFT_INDEX).isSome
        && (st.ayemu.reg AYEMU_CHIP_SONARI_LEFT_INDEX).isSome)) = some true := by decide!
  obtain ⟨st, hst, h2⟩ := Option.map_eq_some'.mp h1
  simp only [Bool.and_eq_true, decide_eq_true_eq] at h2
  obtain ⟨⟨⟨⟨hv, hm⟩, hslot⟩, hp⟩, hr⟩ := h2
  have hid : SONari.FlushKeepsRegisters id := fun s => ⟨rfl, rfl, rfl, rfl, rfl, fun _ => rfl⟩
  obtain ⟨st1, st2, k1, k2, k3, k4⟩ := C21_select_write_read_back plainAyemu id hid st 0xd560
    0x08 0x0f 0 hv hm (by rw [hslot]; decide) ⟨hp, hr⟩
  exact ⟨st, st1, st2, hst, k1, k2, by rw [k3 (by decide)]; rfl, k4⟩

/-- An engine clocking call keeps the stored register files and the set of
allocated chips. -/
theorem psgCalc_keeps (alib : AyemuLib) (a : AYEMU) (tr : List Event) (i : Nat) (t : Int)
    (buf : ScratchBuf) (off nr : Nat) (r : AYEMU × List Event × Nat)
    (h : psgCalc alib a tr i t buf off nr = some r) :
    r.1.reg = a.reg ∧ ∀ j, (r.1.psg j).isSome = (a.psg j).isSome := by
  unfold psgCalc at h
  obtain ⟨x, hx, h⟩ := Option.map_eq_some'.mp h
  unfold AYEMU_calculate_sample at hx
  cases hp : a.psg i with
  | none => simp [hp] at hx
  | some chip =>
    simp only [hp, Option.some.injEq] at hx
    rw [← h, ← hx]
    refine ⟨rfl, fun j => ?_⟩
    by_cases hj : j = i
    · subst hj; simp [hp]
    · simp [Function.update_noteq hj]

/-- The card fields that the register handlers of SONari rely on. -/
theorem sonari_calc_keeps (alib : AyemuLib) (w w1 : SONari) (t : Int) (c n a : Nat)
    (h : SONari.calc alib w t c n = some (w1, a)) :
    w1.SONARI_version = w.SONARI_version ∧ w1.SONARI_model = w.SONARI_model
      ∧ w1.SONARI_slot = w.SONARI_slot ∧ w1.psg_register = w.psg_register
      ∧ w1.ayemu.reg = w.ayemu.reg
      ∧ ∀ j, (w1.ayemu.psg j).isSome = (w.ayemu.psg j).isSome := by
  unfold SONari.calc at h
  obtain ⟨c1, hc1, h⟩ := Option.bind_eq_some.mp h
  have k1 : c1.1.SONARI_version = w.SONARI_version ∧ c1.1.SONARI_model = w.SONARI_model
      ∧ c1.1.SONARI_slot = w.SONARI_slot ∧ c1.1.psg_register = w.psg_register
      ∧ c1.1.ayemu.reg = w.ayemu.reg
      ∧ ∀ j, (c1.1.ayemu.psg j).isSome = (w.ayemu.psg j).isSome := by
    split_ifs at hc1
    · obtain ⟨r, hr, hc1⟩ := Option.map_eq_some'.mp hc1
      obtain ⟨e1, e2⟩ := psgCalc_keeps alib _ _ _ _ _ _ _ r hr
      rw [← hc1]
      exact ⟨rfl, rfl, rfl, rfl, e1, e2⟩
    · simp only [Option.some.injEq] at hc1
      rw [← hc1]
      exact ⟨rfl, rfl, rfl, rfl, rfl, fun _ => rfl⟩
  obtain ⟨v1, v2, v3, v4, v5, v6⟩ := k1
  split_ifs at h
  · obtain ⟨r, hr, h⟩ := Option.map_eq_some'.mp h
    obtain ⟨e1, e2⟩ := psgCalc_keeps alib _ _ _ _ _ _ _ r hr
    simp only [Prod.mk.injEq] at h
    rw [← h.1]
    exact ⟨v1, v2, v3, v4, e1.trans v5, fun j => (e2 j).trans (v6 j)⟩
  · simp only [Option.some.injEq] at h
    subst h
    exact ⟨v1, v2, v3, v4, v5, v6⟩

theorem sonari_mixAll_frame (st : SONari) (count pk : Nat) :
    st.mixAll count pk = { st with trace := (st.mixAll count pk).trace } := by
  unfold SONari.mixAll SONari.mix
  simp only
  split_ifs <;> rfl

/-- The synchronized generator of SONari, which the flush runs, keeps what
`SONari.FlushKeepsRegisters` asks for. -/
theorem SONARI_GenerateSync_keeps_registers (alib : AyemuLib) (fuel bs nt sn : Nat) :
    SONari.FlushKeepsRegisters
      (fun s => ((SONARI_GenerateSync alib fuel s bs nt sn).map Prod.fst).getD s) := by
  intro s
  beta_reduce
  cases hg : SONARI_GenerateSync alib fuel s bs nt sn with
  | none =>
    simp
  | some res =>
    simp only [Option.map_some', Option.getD_some]
    unfold SONARI_GenerateSync at hg
    obtain ⟨r, hr, hg⟩ := Option.map_eq_some'.mp hg
    rw [← hg]
    simp only
    unfold SONari.psg_generate_sync at hr
    split_ifs at hr with hen
    · simp only at hr
      obtain ⟨c1, hc1, hb1⟩ := Option.bind_eq_some.mp hr
      obtain ⟨l, hl, hfin⟩ := Option.bind_eq_some.mp hb1
      have h0 : s.SONARI_version = s.SONARI_version ∧ s.SONARI_model = s.SONARI_model
          ∧ s.SONARI_slot = s.SONARI_slot ∧ s.psg_register = s.psg_register
          ∧ s.ayemu.reg = s.ayemu.reg
          ∧ ∀ j, (s.ayemu.psg j).isSome = (s.ayemu.psg j).isSome :=
        ⟨rfl, rfl, rfl, rfl, rfl, fun _ => rfl⟩
      have hc : c1.1.SONARI_version = s.SONARI_version ∧ c1.1.SONARI_model = s.SONARI_model
          ∧ c1.1.SONARI_slot = s.SONARI_slot ∧ c1.1.psg_register = s.psg_register
          ∧ c1.1.ayemu.reg = s.ayemu.reg
          ∧ ∀ j, (c1.1.ayemu.psg j).isSome = (s.ayemu.psg j).isSome := by
        split_ifs at hc1
        · exact sonari_calc_keeps alib s c1.1 _ _ _ c1.2 hc1
        · simp only [Option.some.injEq] at hc1
          rw [← hc1]
          exact h0
      have hP := overclockLoop_steps _ _ _
        (fun w : SONari => w.SONARI_version = s.SONARI_version
          ∧ w.SONARI_model = s.SONARI_model
          ∧ w.SONARI_slot = s.SONARI_slot ∧ w.psg_register = s.psg_register
          ∧ w.ayemu.reg = s.ayemu.reg
          ∧ ∀ j, (w.ayemu.psg j).isSome = (s.ayemu.psg j).isSome)
        (fun w t c w1 a _ _ hb hw => by
          obtain ⟨e1, e2, e3, e4, e5, e6⟩ := sonari_calc_keeps alib w w1 t c 1 a hb
          obtain ⟨v1, v2, v3, v4, v5, v6⟩ := hw
          exact ⟨e1.trans v1, e2.trans v2, e3.trans v3, e4.trans v4, e5.trans v5,
            fun j => (e6 j).trans (v6 j)⟩)
        fuel c1.1 _ c1.2 0 l hl hc
      split_ifs at hfin
      · simp only [Option.some.injEq] at hfin
        rw [← hfin]
        simp only
        rw [sonari_mixAll_frame]
        exact hP
      · simp only [Option.some.injEq] at hfin
        rw [← hfin]
        exact hP
    · simp only [Option.some.injEq] at hr
      rw [← hr]
      exact ⟨rfl, rfl, rfl, rfl, rfl, fun _ => rfl⟩

/-- `melody_initialize` does not assign `chip_base_addr`. -/
theorem melody_initialize_chip_base_addr (alib : AyemuLib) (env : Atari800)
    (st st1 : Melody) (freq17 : Nat) (pf np b16 : Int) (s1 s2 : Option AYEMU_State)
    (h : melody_initialize alib env st freq17 pf np b16 s1 s2 = some st1) :
    st1.chip_base_addr = st.chip_base_addr := by
  unfold melody_initialize at h
  simp only [] at h
  by_cases hv : st.MELODY_PSG_enable ≠ 0
  · rw [if_pos hv] at h
    obtain ⟨r2, -, h⟩ := Option.bind_eq_some.mp h
    obtain ⟨r3, -, h⟩ := Option.bind_eq_some.mp h
    obtain ⟨r5, -, h⟩ := Option.bind_eq_some.mp h
    obtain ⟨r6, -, h⟩ := Option.bind_eq_some.mp h
    simp only [Option.some.injEq] at h
    rw [← h]
  · rw [if_neg hv] at h
    simp only [Option.some.injEq] at h
    rw [← h]

/-- `MELODY_PSG_Reset` leaves `chip_base_addr` as it was or clears it. -/
theorem MELODY_PSG_Reset_chip_base_addr (alib : AyemuLib) (env : Atari800) (st st1 : Melody)
    (h : MELODY_PSG_Reset alib env st = some st1) :
    st1.chip_base_addr = st.chip_base_addr ∨ st1.chip_base_addr = 0 := by
  unfold MELODY_PSG_Reset at h
  simp only [] at h
  have k := melody_initialize_chip_base_addr alib env _ st1 _ _ _ _ _ _ h
  rw [k]
  by_cases hv : st.MELODY_PSG_enable ≠ 0
  · rw [if_pos hv]
    exact Or.inr rfl
  · rw [if_neg hv]
    exact Or.inl rfl

/-- A chip data write keeps `chip_base_addr` when the flush does. -/
theorem melody_data_write_chip_base_addr (alib : AyemuLib) (fm : Melody → Melody)
    (hfm : ∀ s, (fm s).chip_base_addr = s.chip_base_addr) (st st1 : Melody) (i a b : Nat)
    (h : Melody.psg_write alib (Melody.update fm st) i a b = some st1) :
    st1.chip_base_addr = st.chip_base_addr := by
  unfold Melody.psg_write at h
  obtain ⟨r, -, h⟩ := Option.map_eq_some'.mp h
  rw [← h]
  unfold Melody.update
  exact hfm _

/-- `MELODY_PSG_D5PutByte` leaves `chip_base_addr` as it was or sets it to
`byte & 0xe0`. -/
theorem MELODY_PSG_D5PutByte_chip_base_addr (alib : AyemuLib) (env : Atari800)
    (fm : Melody → Melody) (hfm : ∀ s, (fm s).chip_base_addr = s.chip_base_addr)
    (st st1 : Melody) (addr byte : Nat)
    (h : MELODY_PSG_D5PutByte alib env fm st addr byte = some st1) :
    st1.chip_base_addr = st.chip_base_addr ∨ st1.chip_base_addr = byte &&& 0xe0 := by
  unfold MELODY_PSG_D5PutByte at h
  simp only [] at h
  by_cases hv : st.MELODY_PSG_enable ≠ 0
  · rw [if_pos hv] at h
    obtain ⟨st4, h4, h⟩ := Option.bind_eq_some.mp h
    have e4 : st1.chip_base_addr = st4.chip_base_addr := by
      split_ifs at h <;> simp only [Option.some.injEq] at h <;> rw [← h]
    rw [e4]
    by_cases hd : st.device_index = MELODY_PSG_DEVICE
    · rw [if_pos hd] at h4
      by_cases hw : addr ≥ 0xd500 + st.chip_base_addr
          ∧ addr ≤ 0xd500 + st.chip_base_addr + 3 ∧ st.reset = false
      · rw [if_pos hw] at h4
        obtain ⟨st2, h2, h4⟩ := Option.bind_eq_some.mp h4
        have e2 : st2.chip_base_addr = st.chip_base_addr := by
          split_ifs at h2
          · simp only [Option.some.injEq] at h2
            rw [← h2]
          · exact melody_data_write_chip_base_addr alib fm hfm st st2 _ _ _ h2
          · simp only [Option.some.injEq] at h2
            rw [← h2]
          · simp only [Option.some.injEq] at h2
            rw [← h2]
        have e3 : st4.chip_base_addr = st2.chip_base_addr := by
          split_ifs at h4
          · simp only [Option.some.injEq] at h4
            rw [← h4]
          · exact melody_data_write_chip_base_addr alib fm hfm st2 st4 _ _ _ h4
          · simp only [Option.some.injEq] at h4
            rw [← h4]
          · simp only [Option.some.injEq] at h4
            rw [← h4]
        exact Or.inl (e3.trans e2)
      · rw [if_neg hw] at h4
        split_ifs at h4
        · simp only [Option.some.injEq] at h4
          rw [← h4]
          exact Or.inr rfl
        · obtain ⟨p1, -, h4⟩ := Option.bind_eq_some.mp h4
          obtain ⟨p2, -, h4⟩ := Option.bind_eq_some.mp h4
          have k := melody_initialize_chip_base_addr alib env _ st4 _ _ _ _ _ _ h4
          refine Or.inl (k.trans ?_)
          unfold Melody.update_config Melody.update
          exact hfm _
        · simp only [Option.some.injEq] at h4
          rw [← h4]
          exact Or.inl rfl
    · rw [if_neg hd] at h4
      simp only [Option.some.injEq] at h4
      rw [← h4]
      exact Or.inl rfl
  · rw [if_neg hv] at h
    simp only [Option.some.injEq] at h
    rw [← h]
    exact Or.inl rfl

set_option maxRecDepth 100000 in
/-- The mask `0xe0` leaves a multiple of `0x20`. -/
theorem and_e0_mod (b : Nat) : (b &&& 0xe0) % 0x20 = 0 := by
  have h1 : b &&& 0xe0 = (b % 256) &&& 0xe0 := by
    have e : (0xe0 : Nat) = 0xff &&& 0xe0 := by decide
    have m : b &&& 0xff = b % 256 := Nat.and_pow_two_sub_one_eq_mod b 8
    calc b &&& 0xe0 = b &&& (0xff &&& 0xe0) := by rw [← e]
      _ = (b &&& 0xff) &&& 0xe0 := (Nat.and_assoc _ _ _).symm
      _ = (b % 256) &&& 0xe0 := by rw [m]
  have h2 : ∀ c < 256, (c &&& 0xe0) % 0x20 = 0 := by decide
  rw [h1]
  exact h2 _ (Nat.mod_lt _ (by decide))

/-- Every step of a run keeps `chip_base_addr` a multiple of `0x20`. -/
theorem melody_run_chip_base_addr (alib : AyemuLib) (env : Atari800)
    (fm : Melody → Melody) (hfm : ∀ s, (fm s).chip_base_addr = s.chip_base_addr)
    (ops : List MelodyOp) :
    ∀ st0 st : Melody, st0.chip_base_addr % 0x20 = 0 →
      Melody.run alib env fm st0 ops = some st → st.chip_base_addr % 0x20 = 0 := by
  induction ops with
  | nil =>
    intro st0 st h0 h
    unfold Melody.run at h
    simp only [Option.some.injEq] at h
    rw [← h]
    exact h0
  | cons op ops ih =>
    intro st0 st h0 h
    unfold Melody.run at h
    obtain ⟨s1, hs1, h⟩ := Option.bind_eq_some.mp h
    refine ih s1 st ?_ h
    cases op with
    | put addr byte =>
      rcases MELODY_PSG_D5PutByte_chip_base_addr alib env fm hfm st0 s1 addr byte hs1 with e | e
      · rw [e]; exact h0
      · rw [e]; exact and_e0_mod byte
    | reset =>
      rcases MELODY_PSG_Reset_chip_base_addr alib env st0 s1 hs1 with e | e
      · rw [e]; exact h0
      · rw [e]

/-- C29: in every state that a sequence of `MELODY_PSG_D5PutByte` and
`MELODY_PSG_Reset` calls reaches from a state with the initial
`chip_base_addr = 0x00`, with a flush that does not assign `chip_base_addr`,
`chip_base_addr` is a multiple of `0x20`, and no address lies both in the chip
register window `0xD500 + chip_base_addr .. + 3` and in the signature/control
block `0xD5D8 .. 0xD5DF`; `MELODY_PSG_InSlot` is the enable test on the union
of the two ranges. -/
theorem C29_chip_window_disjoint_from_control_block (alib : AyemuLib) (env : Atari800)
    (fm : Melody → Melody) (hfm : ∀ s, (fm s).chip_base_addr = s.chip_base_addr)
    (st0 st : Melody) (ops : List MelodyOp) (h0 : st0.chip_base_addr = 0x00)
    (hrun : Melody.run alib env fm st0 ops = some st) :
    st.chip_base_addr % 0x20 = 0
      ∧ (∀ addr : Nat,
          ¬ ((addr ≥ 0xd500 + st.chip_base_addr ∧ addr ≤ 0xd500 + st.chip_base_addr + 3)
              ∧ (addr ≥ 0xd500 + 0xd8 ∧ addr ≤ 0xd500 + 0xdf)))
      ∧ (∀ addr : Nat, MELODY_PSG_InSlot st addr
          = (decide (st.MELODY_PSG_enable ≠ 0)
            && ((decide (addr ≥ 0xd500 + st.chip_base_addr)
                  && decide (addr ≤ 0xd500 + st.chip_base_addr + 3))
                || (decide (addr ≥ 0xd500 + 0xd8) && decide (addr ≤ 0xd500 + 0xdf))))) := by
  have hm := melody_run_chip_base_addr alib env fm hfm ops st0 st (by rw [h0]) hrun
  refine ⟨hm, fun addr => ?_, fun addr => rfl⟩
  omega

/-- The engine calls of one request keep `chip_base_addr`. -/
theorem melody_calc_chip_base_addr (alib : AyemuLib) (w w1 : Melody) (t : Int) (c n a : Nat)
    (h : Melody.calc alib w t c n = some (w1, a)) :
    w1.chip_base_addr = w.chip_base_addr := by
  unfold Melody.calc at h
  obtain ⟨c1, hc1, h⟩ := Option.bind_eq_some.mp h
  have k1 : c1.1.chip_base_addr = w.chip_base_addr := by
    split_ifs at hc1
    · obtain ⟨r, -, hc1⟩ := Option.map_eq_some'.mp hc1
      rw [← hc1]
    · simp only [Option.some.injEq] at hc1
      rw [← hc1]
  split_ifs at h
  · obtain ⟨r, -, h⟩ := Option.map_eq_some'.mp h
    simp only [Prod.mk.injEq] at h
    rw [← h.1]
    exact k1
  · simp only [Option.some.injEq] at h
    subst h
    exact k1

theorem melody_mixAll_frame (st : Melody) (count pk : Nat) :
    st.mixAll count pk = { st with trace := (st.mixAll count pk).trace } := by
  unfold Melody.mixAll Melody.mix
  simp only
  split_ifs <;> rfl

/-- The synchronized generator of `melody_psg.c`, which the flush runs, does
not assign `chip_base_addr`. -/
theorem MELODY_PSG_GenerateSync_chip_base_addr (alib : AyemuLib) (fuel bs nt sn : Nat)
    (s : Melody) :
    (((MELODY_PSG_GenerateSync alib fuel s bs nt sn).map Prod.fst).getD s).chip_base_addr
      = s.chip_base_addr := by
  cases hg : MELODY_PSG_GenerateSync alib fuel s bs nt sn with
  | none => simp
  | some res =>
    simp only [Option.map_some', Option.getD_some]
    unfold MELODY_PSG_GenerateSync at hg
    obtain ⟨r, hr, hg⟩ := Option.map_eq_some'.mp hg
    rw [← hg]
    simp only
    unfold Melody.psg_generate_sync at hr
    split_ifs at hr with hen
    · simp only at hr
      obtain ⟨c1, hc1, hb1⟩ := Option.bind_eq_some.mp hr
      obtain ⟨l, hl, hfin⟩ := Option.bind_eq_some.mp hb1
      have hc : c1.1.chip_base_addr = s.chip_base_addr := by
        split_ifs at hc1
        · exact melody_calc_chip_base_addr alib s c1.1 _ _ _ c1.2 hc1
        · simp only [Option.some.injEq] at hc1
          rw [← hc1]
      have hP := overclockLoop_steps _ _ _
        (fun w : Melody => w.chip_base_addr = s.chip_base_addr)
        (fun w t c w1 a _ _ hb hw =>
          (melody_calc_chip_base_addr alib w w1 t c 1 a hb).trans hw)
        fuel c1.1 _ c1.2 0 l hl hc
      split_ifs at hfin
      · simp only [Option.some.injEq] at hfin
        rw [← hfin]
        simp only
        rw [melody_mixAll_frame]
        exact hP
      · simp only [Option.some.injEq] at hfin
        rw [← hfin]
        exact hP
    · simp only [Option.some.injEq] at hr
      rw [← hr]

theorem C29_chip_window_disjoint_from_control_block_witness :
    ∃ st : Melody,
      Melody.run plainAyemu Atari800.pal id { Melody.start with MELODY_PSG_enable := 1 }
          [MelodyOp.put 0xd5df 0x50, MelodyOp.put 0xd5dc 0xff, MelodyOp.reset,
            MelodyOp.put 0xd5dc 0xe5] = some st
      ∧ st.chip_base_addr = 0xe0
      ∧ st.chip_base_addr % 0x20 = 0
      ∧ (∀ addr : Nat,
          ¬ ((addr ≥ 0xd500 + st.chip_base_addr ∧ addr ≤ 0xd500 + st.chip_base_addr + 3)
              ∧ (addr ≥ 0xd500 + 0xd8 ∧ addr ≤ 0xd500 + 0xdf)))
      ∧ (∀ addr : Nat, MELODY_PSG_InSlot st addr
          = (decide (st.MELODY_PSG_enable ≠ 0)
            && ((decide (addr ≥ 0xd500 + st.chip_base_addr)
                  && decide (addr ≤ 0xd500 + st.chip_base_addr + 3))
                || (decide (addr ≥ 0xd500 + 0xd8) && decide (addr ≤ 0xd500 + 0xdf))))) := by
  have h1 : ((Melody.run plainAyemu Atari800.pal id
        { Melody.start with MELODY_PSG_enable := 1 }
        [MelodyOp.put 0xd5df 0x50, MelodyOp.put 0xd5dc 0xff, MelodyOp.reset,
          MelodyOp.put 0xd5dc 0xe5]).map fun st => decide (st.chip_base_addr = 0xe0))
      = some true := by decide!
  obtain ⟨st, hst, hc⟩ := Option.map_eq_some'.mp h1
  exact ⟨st, hst, of_decide_eq_true hc,
    C29_chip_window_disjoint_from_control_block plainAyemu Atari800.pal id (fun _ => rfl)
      { Melody.start with MELODY_PSG_enable := 1 } st _ rfl hst⟩

/-- C23 (the code at the failing input): with `SIDARI_version == SIDARI_STEREO`
the guard `if (SIDARI_version != SIDARI_STEREO)` of `generate_samples` skips
the clocking loop, so `SIDARI_Process` returns the card as it was, with no
engine call and no mixer call, for every engine, request and state.  On the
PAL card with one output channel a request of 4 samples clocks the left chip
and mixes 4 samples in MONO and does nothing in STEREO, while
`SIDARI_GenerateSync` on the same STEREO card clocks both chips and mixes 4
samples from each. -/
theorem C23_stereo_process_generates_nothing {S : Type} (lib : SIDClass S) (fuel : Nat)
    (st : SIDari S) (sndn : Int) :
    SIDARI_Process lib fuel { st with SIDARI_version := SIDARI_STEREO } sndn
        = some { st with SIDARI_version := SIDARI_STEREO }
      ∧ ((sidariPal SIDARI_MONO).bind fun s => SIDARI_Process eagerSID 10 s 4).map
          (fun s => (decide (4 ≤ s.sidari_buffer_length), s.trace))
        = some (true,
          [Event.RESID_calculate_sample RESID_CHIP_SIDARI_LEFT_INDEX 89 .sidari_buffer 0 4,
            Event.Util_mix .sidari_buffer 4 128 0 1 0 1 0])
      ∧ ((sidariPal SIDARI_STEREO).bind fun s => SIDARI_Process eagerSID 10 s 4).map
          (fun s => (decide (4 ≤ s.sidari_buffer_length), s.trace))
        = some (true, [])
      ∧ ((sidariPal SIDARI_STEREO).bind fun s => SIDARI_GenerateSync eagerSID 100 s 100 114 4).map
          (fun r => r.1.trace)
        = some
          [Event.RESID_calculate_sample RESID_CHIP_SIDARI_LEFT_INDEX 63 .sidari_buffer 0 4,
            Event.RESID_calculate_sample RESID_CHIP_SIDARI_RIGHT_INDEX 63 .sidari_buffer2 0 4,
            Event.Util_mix .sidari_buffer 4 128 0 1 0 1 0,
            Event.Util_mix .sidari_buffer2 4 128 0 1 0 1 0] := by
  refine ⟨?_, by decide!, by decide!, by decide!⟩
  unfold SIDARI_Process SIDari.generate_samples
  simp [SIDARI_STEREO, SIDARI_NO]

/-- `EVIE_StateRead` leaves the register-select latch of the loading card as
it was, whatever the stream holds. -/
theorem EVIE_StateRead_psg_register {S : Type} (lib : SIDClass S) (alib : AyemuLib)
    (env : Atari800) (t t1 : Evie S) (stream : EvieSaved)
    (h : EVIE_StateRead lib alib env t stream = some t1) :
    t1.psg_register = t.psg_register := by
  unfold EVIE_StateRead at h
  simp only [] at h
  split_ifs at h
  · cases hb : stream.body with
    | none => simp [hb] at h
    | some b =>
      simp only [hb] at h
      exact (evie_initialize_config lib alib env _ t1 _ _ _ _ _ _ h).2.2.1
  · exact (evie_initialize_config lib alib env _ t1 _ _ _ _ _ _ h).2.2.1

/-- C24 (the code at the failing input): `EVIE_StateSave` writes no field for
`psg_register`, while `SONARI_StateSave` writes one for its latch.  On the PAL
card whose latch was set to 5 by a store to offset 0x30, offset 0x31 reads 5;
after saving that card and loading the stream into a freshly initialized card
(latch 0), offset 0x31 reads 0. -/
theorem C24_select_latch_is_not_saved :
    (∀ v : Int, ∀ f ∈ EVIE_StateSave_fields v, f.name ≠ "psg_register")
      ∧ (⟨.UBYTE, "psg_register", 1⟩ : Field) ∈ SONARI_StateSave_fields SONARI_MONO
      ∧ ((eviePalSelected 5).bind fun s => EVIE_D2GetByte eagerSID s 0xd2b1 0) = some 5
      ∧ ((eviePalSelected 5).bind fun s =>
          (EVIE_StateSave eagerSID s).bind fun stream =>
          eviePal.bind fun t =>
          (EVIE_StateRead eagerSID plainAyemu Atari800.pal t stream).bind fun t1 =>
          EVIE_D2GetByte eagerSID t1 0xd2b1 0) = some 0 := by
  refine ⟨?_, ?_, by decide!, by decide!⟩
  · intro v
    unfold EVIE_StateSave_fields
    split_ifs <;> simp
  · unfold SONARI_StateSave_fields
    simp [SONARI_MONO, SONARI_NO]

end Soundbox
